import Mathlib

/-!
# OHCI 1394 host controller (`hw/1394/hcd-ohci.c`): shallow embedding

The device state of `OHCI1394State` is embedded as a record.  Machine integers
are natural numbers; every C assignment that can overflow its type is followed
by an explicit reduction modulo `2^8`, `2^16` or `2^32`.  Unions are read the
way a little-endian host lays them out (QEMU's x86 hosts).

The outside world the device talks to is part of the record:

* `mem`   guest physical memory, one byte per address (`dma_memory_read/write`);
* `chr`   every byte handed to `qemu_chr_fe_write`, oldest first;
* `irq`   every level handed to `qemu_set_irq`, oldest first;
* `tv`    the values `gettimeofday` returns, `tv_calls` counting the calls;
* `inmigrate` the answer of `runstate_check(RUN_STATE_INMIGRATE)`;
* `dma_err` the addresses for which `dma_memory_read` reports a failure;
* `junk`  the bytes found in a response packet declared on the stack and not
  yet assigned (the C code sends some of them unassigned).

Loops that the C code does not bound (`hcd_async_rx_rsp_packet`,
`hcd_chr_receive`) take a fuel argument and return `none` when it runs out.
-/

namespace OHCI

/-! ## Words, bytes and guest memory -/

/-- Bitwise complement of the low 32 bits of `x` (the C `~x` stored in a `uint32_t`). -/
def not32 (x : Nat) : Nat := 0xFFFFFFFF ^^^ (x % 0x100000000)

/-- Little-endian bytes of `v`, `n` of them. -/
def le_bytes : Nat → Nat → List Nat
  | 0, _ => []
  | n + 1, v => (v % 256) :: le_bytes n (v / 256)

/-- Value of a little-endian byte string. -/
def le_val : List Nat → Nat
  | [] => 0
  | b :: bs => b % 256 + 256 * le_val bs

/-- Byte `k` (0 is the least significant) of a 32-bit word. -/
def get_byte (w k : Nat) : Nat := (w / 256 ^ k) % 256

/-- Word `w` with byte `k` replaced by `b` (stored as a `uint8_t`). -/
def set_byte (w k b : Nat) : Nat :=
  w - get_byte w k * 256 ^ k + (b % 256) * 256 ^ k

/-- Function update, used for the register file, the PHY bytes and the buffer. -/
def upd (f : Nat → Nat) (i v : Nat) : Nat → Nat :=
  fun j => if j = i then v else f j

/-- Read `len` bytes of guest memory starting at `addr` (`dma_memory_read`). -/
def dma_memory_read (m : Nat → Nat) (addr len : Nat) : List Nat :=
  (List.range len).map (fun i => m (addr + i))

/-- Write `bytes` to guest memory starting at `addr` (`dma_memory_write`). -/
def dma_memory_write (m : Nat → Nat) (addr : Nat) (bytes : List Nat) : Nat → Nat :=
  fun a => if addr ≤ a ∧ a < addr + bytes.length then bytes.getD (a - addr) 0 else m a

/-! ## Constants of the source -/

abbrev HCCONTROL_RESET_MASK : Nat := 0x10000
abbrev HCCONTROL_LINK_ENABLE_MASK : Nat := 0x20000

abbrev HCD_STATE_UNPLUGGED : Nat := 0
abbrev HCD_STATE_MAGIC : Nat := 1
abbrev HCD_STATE_DISCONNECTED : Nat := 2
abbrev HCD_STATE_ARBITRATION1 : Nat := 3
abbrev HCD_STATE_ARBITRATION2 : Nat := 4
abbrev HCD_STATE_CONNECTED : Nat := 5

abbrev INT_PHY_REG_RCVD : Nat := 0x04000000
abbrev INT_MASTER_INT_ENABLE : Nat := 0x80000000

abbrev NODEID_BUS_NUMBER : Nat := 0x0000FFC0
abbrev NODEID_CPS : Nat := 0x08000000
abbrev NODEID_ROOT : Nat := 0x40000000
abbrev NODEID_ID_VALID : Nat := 0x80000000

abbrev EVT_BUS_RESET : Nat := 0x09
abbrev EVT_TCODE_ERR : Nat := 0x0B
abbrev ACK_COMPLETE : Nat := 0x11
abbrev ACK_PENDING : Nat := 0x12
abbrev RESP_COMPLETE : Nat := 0x00
abbrev RESP_ADDRESS_ERROR : Nat := 0x70

/-! Byte offsets of the fields of `OHCIDeviceRegs` (`REG_OFFSET`).  The word
index of a field in `regs[]` is its offset shifted right by two. -/

abbrev OFF_version : Nat := 0x000
abbrev OFF_csr_read_data : Nat := 0x00C
abbrev OFF_csr_compare_data : Nat := 0x010
abbrev OFF_csr_control : Nat := 0x014
abbrev OFF_bus_id : Nat := 0x01C
abbrev OFF_bus_options : Nat := 0x020
abbrev OFF_guid_hi : Nat := 0x024
abbrev OFF_guid_lo : Nat := 0x028
abbrev OFF_config_rom_map : Nat := 0x034
abbrev OFF_hc_control : Nat := 0x050
abbrev OFF_hc_control_clear : Nat := 0x054
abbrev OFF_self_id_buffer : Nat := 0x064
abbrev OFF_self_id_count : Nat := 0x068
abbrev OFF_ir_multi_chan_mask_hi : Nat := 0x070
abbrev OFF_ir_multi_chan_mask_hi_clear : Nat := 0x074
abbrev OFF_ir_multi_chan_mask_lo : Nat := 0x078
abbrev OFF_ir_multi_chan_mask_lo_clear : Nat := 0x07C
abbrev OFF_int_event : Nat := 0x080
abbrev OFF_int_event_masked : Nat := 0x084
abbrev OFF_int_mask : Nat := 0x088
abbrev OFF_int_mask_clear : Nat := 0x08C
abbrev OFF_iso_xmit_int_event : Nat := 0x090
abbrev OFF_iso_xmit_int_event_clear : Nat := 0x094
abbrev OFF_iso_xmit_int_mask : Nat := 0x098
abbrev OFF_iso_xmit_int_mask_clear : Nat := 0x09C
abbrev OFF_iso_recv_int_event : Nat := 0x0A0
abbrev OFF_iso_recv_int_event_clear : Nat := 0x0A4
abbrev OFF_iso_recv_int_mask : Nat := 0x0A8
abbrev OFF_iso_recv_int_mask_clear : Nat := 0x0AC
abbrev OFF_link_control : Nat := 0x0E0
abbrev OFF_link_control_clear : Nat := 0x0E4
abbrev OFF_node_id : Nat := 0x0E8
abbrev OFF_phy_control : Nat := 0x0EC
abbrev OFF_asynchronous_request_filter_hi : Nat := 0x100
abbrev OFF_asynchronous_request_filter_hi_clear : Nat := 0x104
abbrev OFF_asynchronous_request_filter_lo : Nat := 0x108
abbrev OFF_asynchronous_request_filter_lo_clear : Nat := 0x10C
abbrev OFF_physical_request_filter_hi : Nat := 0x110
abbrev OFF_physical_request_filter_hi_clear : Nat := 0x114
abbrev OFF_physical_request_filter_lo : Nat := 0x118
abbrev OFF_physical_request_filter_lo_clear : Nat := 0x11C
abbrev OFF_async_request_transmit : Nat := 0x180
abbrev OFF_async_response_transmit : Nat := 0x1A0
abbrev OFF_async_request_receive : Nat := 0x1C0
abbrev OFF_async_response_receive : Nat := 0x1E0

attribute [simp] HCCONTROL_RESET_MASK HCCONTROL_LINK_ENABLE_MASK HCD_STATE_UNPLUGGED
  HCD_STATE_MAGIC HCD_STATE_DISCONNECTED HCD_STATE_ARBITRATION1 HCD_STATE_ARBITRATION2
  HCD_STATE_CONNECTED INT_PHY_REG_RCVD INT_MASTER_INT_ENABLE NODEID_BUS_NUMBER NODEID_CPS
  NODEID_ROOT NODEID_ID_VALID EVT_BUS_RESET EVT_TCODE_ERR ACK_COMPLETE ACK_PENDING
  RESP_COMPLETE RESP_ADDRESS_ERROR OFF_version OFF_csr_read_data OFF_csr_compare_data
  OFF_csr_control OFF_bus_id OFF_bus_options OFF_guid_hi OFF_guid_lo OFF_config_rom_map
  OFF_hc_control OFF_hc_control_clear OFF_self_id_buffer OFF_self_id_count
  OFF_ir_multi_chan_mask_hi OFF_ir_multi_chan_mask_hi_clear OFF_ir_multi_chan_mask_lo
  OFF_ir_multi_chan_mask_lo_clear OFF_int_event OFF_int_event_masked OFF_int_mask
  OFF_int_mask_clear OFF_iso_xmit_int_event OFF_iso_xmit_int_event_clear OFF_iso_xmit_int_mask
  OFF_iso_xmit_int_mask_clear OFF_iso_recv_int_event OFF_iso_recv_int_event_clear
  OFF_iso_recv_int_mask OFF_iso_recv_int_mask_clear OFF_link_control OFF_link_control_clear
  OFF_node_id OFF_phy_control OFF_asynchronous_request_filter_hi
  OFF_asynchronous_request_filter_hi_clear OFF_asynchronous_request_filter_lo
  OFF_asynchronous_request_filter_lo_clear OFF_physical_request_filter_hi
  OFF_physical_request_filter_hi_clear OFF_physical_request_filter_lo
  OFF_physical_request_filter_lo_clear OFF_async_request_transmit OFF_async_response_transmit
  OFF_async_request_receive OFF_async_response_receive

/-! ## Device state -/

/-- The record `HCDTimerState`; `armed` is the one-shot timer behind `timer`
(`timer_mod (t->timer, 0)` arms it, the callback firing disarms it). -/
structure HCDTimerState where
  num : Nat
  address : Nat
  response : Nat
  armed : Bool

/-- The record `OHCI1394State` together with the environment it acts on. -/
structure OHCI1394State where
  regs : Nat → Nat
  at_req_timer : HCDTimerState
  at_rsp_timer : HCDTimerState
  phy : Nat → Nat
  phy_pages : Nat → Nat → Nat
  irq_asserted : Nat
  state : Nat
  other_link : Nat
  bid : Nat
  root : Nat
  bufpos : Nat
  buf : Nat → Nat
  irq : List Nat
  chr : List Nat
  mem : Nat → Nat
  tv : Nat → Nat × Nat
  tv_calls : Nat
  inmigrate : Bool
  dma_err : Nat → Bool
  junk : Nat → Nat

/-- Selects one of the two AT timers of the device (`&s->at_req_timer`, `&s->at_rsp_timer`). -/
inductive ATSel where
  | req
  | rsp
deriving DecidableEq

/-- The timer record a selector points to. -/
def OHCI1394State.timer (s : OHCI1394State) : ATSel → HCDTimerState
  | .req => s.at_req_timer
  | .rsp => s.at_rsp_timer

/-- Store a timer record back into the device. -/
def OHCI1394State.set_timer (s : OHCI1394State) (t : ATSel) (v : HCDTimerState) :
    OHCI1394State :=
  match t with
  | .req => { s with at_req_timer := v }
  | .rsp => { s with at_rsp_timer := v }

/-- Read the register word at byte offset `off` (a named field of `s->mmio`). -/
def OHCI1394State.reg (s : OHCI1394State) (off : Nat) : Nat := s.regs (off >>> 2)

/-- Assign a `uint32_t` register word by word index (`s->mmio.regs[i] = v`). -/
def OHCI1394State.set_regs (s : OHCI1394State) (i v : Nat) : OHCI1394State :=
  { s with regs := upd s.regs i (v % 0x100000000) }

/-- Compound assignment `s->mmio.regs[i] |= v`. -/
def OHCI1394State.or_regs (s : OHCI1394State) (i v : Nat) : OHCI1394State :=
  s.set_regs i (s.regs i ||| v)

/-- Compound assignment `s->mmio.regs[i] &= v`. -/
def OHCI1394State.and_regs (s : OHCI1394State) (i v : Nat) : OHCI1394State :=
  s.set_regs i (s.regs i &&& v)

/-- Assign the register word at byte offset `off` (`s->mmio.field = v`). -/
def OHCI1394State.set_reg (s : OHCI1394State) (off v : Nat) : OHCI1394State :=
  s.set_regs (off >>> 2) v

/-- Compound assignment `s->mmio.field |= v`. -/
def OHCI1394State.or_reg (s : OHCI1394State) (off v : Nat) : OHCI1394State :=
  s.or_regs (off >>> 2) v

/-- Compound assignment `s->mmio.field &= v`. -/
def OHCI1394State.and_reg (s : OHCI1394State) (off v : Nat) : OHCI1394State :=
  s.and_regs (off >>> 2) v

/-- The statement `s->mmio.regs[i + 1] = s->mmio.regs[i]`. -/
def OHCI1394State.mirror (s : OHCI1394State) (i : Nat) : OHCI1394State :=
  s.set_regs (i + 1) (s.regs i)

/-- Assign `s->root`. -/
def set_root (s : OHCI1394State) (v : Nat) : OHCI1394State := { s with root := v }

/-- Assign `s->state`. -/
def set_state (s : OHCI1394State) (v : Nat) : OHCI1394State := { s with state := v }

/-- Assign `s->bufpos`. -/
def set_bufpos (s : OHCI1394State) (v : Nat) : OHCI1394State := { s with bufpos := v }

/-- Append bytes to the transport (`qemu_chr_fe_write`). -/
def qemu_chr_fe_write (s : OHCI1394State) (bytes : List Nat) : OHCI1394State :=
  { s with chr := s.chr ++ bytes }

/-- Word index of `context_control` of asynchronous context `n`
(`((0x180 + n * 0x20) + 0x000) >> 2`). -/
def Ax_CC (n : Nat) : Nat := ((0x180 + n * 0x20) + 0x000) >>> 2

/-- Word index of `command_ptr` of asynchronous context `n`. -/
def Ax_CP (n : Nat) : Nat := ((0x180 + n * 0x20) + 0x00C) >>> 2

def IS_Ax_ACTIVE (s : OHCI1394State) (n : Nat) : Bool := s.regs (Ax_CC n) &&& 0x400 != 0
def IS_Ax_DEAD (s : OHCI1394State) (n : Nat) : Bool := s.regs (Ax_CC n) &&& 0x800 != 0
def IS_Ax_WAKE (s : OHCI1394State) (n : Nat) : Bool := s.regs (Ax_CC n) &&& 0x1000 != 0
def IS_Ax_RUN (s : OHCI1394State) (n : Nat) : Bool := s.regs (Ax_CC n) &&& 0x8000 != 0

def SET_Ax_ACTIVE (s : OHCI1394State) (n : Nat) : OHCI1394State := s.or_regs (Ax_CC n) 0x400
def CLR_Ax_ACTIVE (s : OHCI1394State) (n : Nat) : OHCI1394State := s.and_regs (Ax_CC n) 0xFFFFFBFF
def CLR_Ax_WAKE (s : OHCI1394State) (n : Nat) : OHCI1394State := s.and_regs (Ax_CC n) 0xFFFFEFFF

def SET_Ax_EVENT_CODE (s : OHCI1394State) (n e : Nat) : OHCI1394State :=
  s.set_regs (Ax_CC n) ((s.regs (Ax_CC n) &&& 0xFFFFFFE0) ||| e)

def Ax_COMMAND_PTR (s : OHCI1394State) (n : Nat) : Nat := s.regs (Ax_CP n)

def SET_Ax_COMMAND_PTR (s : OHCI1394State) (n c : Nat) : OHCI1394State :=
  s.set_regs (Ax_CP n) c

def Ax_CONTEXT_CONTROL (s : OHCI1394State) (n : Nat) : Nat := s.regs (Ax_CC n)

/-! ## Interrupt aggregation and resets -/

/-- The function `hcd_check_irq`. -/
def hcd_check_irq (s : OHCI1394State) : OHCI1394State :=
  if s.reg OFF_int_mask &&& 0x80000000 ≠ 0 ∧ s.reg OFF_int_event &&& s.reg OFF_int_mask ≠ 0 then
    if s.irq_asserted = 0 then { s with irq := s.irq ++ [1], irq_asserted := 1 } else s
  else
    if s.irq_asserted ≠ 0 then { s with irq := s.irq ++ [0], irq_asserted := 0 } else s

/-- The function `hcd_soft_reset`. -/
def hcd_soft_reset (s : OHCI1394State) : OHCI1394State :=
  let s := s.set_reg OFF_bus_options 0x00008002
  s.and_reg OFF_hc_control 0x00C00000

/-- Assign the PHY byte `s->phy.bytes[i]` (a `uint8_t`). -/
def set_phy (s : OHCI1394State) (i v : Nat) : OHCI1394State :=
  { s with phy := upd s.phy i (v % 256) }

/-- Assign `s->phy_pages[page][i]` (a `uint8_t`). -/
def set_phy_page (s : OHCI1394State) (page i v : Nat) : OHCI1394State :=
  { s with phy_pages := fun p => if p = page then upd (s.phy_pages page) i (v % 256)
                                  else s.phy_pages p }

/-- The function `hcd_hard_reset`. -/
def hcd_hard_reset (s : OHCI1394State) : OHCI1394State :=
  let s := { s with regs := fun _ => 0 }
  let s := s.set_reg OFF_version 0x00010010
  let s := s.set_reg OFF_bus_id 0x31333934
  let s := s.set_reg OFF_bus_options 0x00008002
  let s := s.set_reg OFF_guid_hi 0x89abcdef
  let s := s.set_reg OFF_guid_lo 0x01234567
  let s := { s with phy := fun _ => 0 }
  let s := set_phy s 2 (1 ||| (s.phy 2 &&& 0xF0))
  let s := set_phy s 4 (s.phy 4 ||| 0x80)
  let s := set_phy s 4 (s.phy 4 ||| 0x40)
  let s := set_phy_page s 0 0 0x08
  hcd_soft_reset s

/-! ## Self-ID generation -/

/-- Fields of the union `SelfIDCount`: `lo_word` is bits 15:0, `generation`
bits 23:16 and `flags` bits 31:24 of the word. -/
def SelfIDCount.lo_word (v : Nat) : Nat := v % 0x10000
def SelfIDCount.generation (v : Nat) : Nat := (v / 0x10000) % 0x100
def SelfIDCount.flags (v : Nat) : Nat := (v / 0x1000000) % 0x100

/-- The word of a `SelfIDCount` with the given fields, each stored in its own width. -/
def SelfIDCount.value (lo_word generation flags : Nat) : Nat :=
  lo_word % 0x10000 + 0x10000 * (generation % 0x100) + 0x1000000 * (flags % 0x100)

/-- Apply `f` to `s->mmio.self_id_count.lo_word`. -/
def map_lo_word (s : OHCI1394State) (f : Nat → Nat) : OHCI1394State :=
  s.set_reg OFF_self_id_count
    (SelfIDCount.value (f (SelfIDCount.lo_word (s.reg OFF_self_id_count)))
      (SelfIDCount.generation (s.reg OFF_self_id_count))
      (SelfIDCount.flags (s.reg OFF_self_id_count)))

/-- Apply `f` to `s->mmio.self_id_count.generation`. -/
def map_generation (s : OHCI1394State) (f : Nat → Nat) : OHCI1394State :=
  s.set_reg OFF_self_id_count
    (SelfIDCount.value (SelfIDCount.lo_word (s.reg OFF_self_id_count))
      (f (SelfIDCount.generation (s.reg OFF_self_id_count)))
      (SelfIDCount.flags (s.reg OFF_self_id_count)))

/-- Apply `f` to `s->mmio.self_id_count.flags`. -/
def map_flags (s : OHCI1394State) (f : Nat → Nat) : OHCI1394State :=
  s.set_reg OFF_self_id_count
    (SelfIDCount.value (SelfIDCount.lo_word (s.reg OFF_self_id_count))
      (SelfIDCount.generation (s.reg OFF_self_id_count))
      (f (SelfIDCount.flags (s.reg OFF_self_id_count))))

/-- DMA write of the 32-bit word `v` at `s->mmio.self_id_buffer + off`. -/
def self_id_write (s : OHCI1394State) (off v : Nat) : OHCI1394State :=
  { s with mem := dma_memory_write s.mem ((s.reg OFF_self_id_buffer + off) % 0x100000000)
                    (le_bytes 4 v) }

/-- The first self-ID quadlet: `sid.val = 0; reg0 |= INITIATED; reg0 |= 0x80 & P0;
reg1 |= C; reg2 |= L; reg3 |= 0x80 & TYPE`. -/
def sid_root : Nat :=
  le_val [0 ||| 0x02 ||| (0x80 &&& 0xC0), 0 ||| 0x08, 0 ||| 0x40, 0 ||| (0x80 &&& 0xC0)]

/-- The second self-ID quadlet: `sid.val = 0; reg0 |= P0; reg2 |= L; reg3 = 1;
reg3 |= 0x80 & TYPE`. -/
def sid_child : Nat :=
  le_val [0 ||| 0xC0, 0, 0 ||| 0x40, 1 ||| (0x80 &&& 0xC0)]

/-- The `if (s->state == HCD_STATE_CONNECTED)` block inside the self-ID stream. -/
def self_id_stream_connected (s : OHCI1394State) : OHCI1394State :=
  let s := self_id_write s 12 sid_child
  let s := self_id_write s 16 (not32 sid_child)
  map_lo_word s (· + 8)

/-- The `tmp = (generation << 16) | 1` header write that ends the self-ID stream. -/
def self_id_header (s : OHCI1394State) : OHCI1394State :=
  self_id_write s 0 ((SelfIDCount.generation (s.reg OFF_self_id_count) <<< 16) ||| 1)

/-- The block of `hcd_complete_self_id` that runs when RcvSelfID is set. -/
def self_id_stream (s : OHCI1394State) : OHCI1394State :=
  let s := self_id_write s 4 sid_root
  let s := self_id_write s 8 (not32 sid_root)
  let s := map_lo_word s (· + 8)
  let s := if s.state = HCD_STATE_CONNECTED then self_id_stream_connected s else s
  let s := self_id_header s
  map_lo_word s (· + 4)

/-- The `node_id` assignments that open `hcd_complete_self_id`. -/
def complete_node_id (s : OHCI1394State) : OHCI1394State :=
  let s := s.set_reg OFF_node_id (if s.root ≠ 0 then 0 else 1)
  let s := s.or_reg OFF_node_id (0x3ff <<< 6)
  let s := if s.state = HCD_STATE_CONNECTED then s.or_reg OFF_node_id NODEID_CPS else s
  let s := if s.root ≠ 0 then s.or_reg OFF_node_id NODEID_ROOT else s
  s.or_reg OFF_node_id NODEID_ID_VALID

/-- The function `hcd_complete_self_id`. -/
def hcd_complete_self_id (s : OHCI1394State) : OHCI1394State :=
  let s := complete_node_id s
  -- lo_word &= ~SELF_ID_COUNT_LO_WORD_SIZE; flags &= ~SELF_ID_COUNT_FLAGS_ERROR
  let s := map_lo_word s (· &&& 0xF803)
  let s := map_flags s (· &&& 0x7F)
  let s := if s.reg OFF_link_control &&& 0x00000200 ≠ 0 then self_id_stream s else s
  let s := s.or_reg OFF_int_event 0x00018000
  hcd_check_irq s

/-! ## Asynchronous receive -/

/-- The record `HCDArDB`, an AR descriptor in guest memory. -/
structure HCDArDB where
  req_count : Nat
  flags : Nat
  data_address : Nat
  branch_address : Nat
  res_count : Nat
  transfer_status : Nat

/-- Decode the 16 bytes of a descriptor. -/
def HCDArDB.ofBytes (b : List Nat) : HCDArDB where
  req_count := le_val (b.take 2)
  flags := le_val ((b.drop 2).take 2)
  data_address := le_val ((b.drop 4).take 4)
  branch_address := le_val ((b.drop 8).take 4)
  res_count := le_val ((b.drop 12).take 2)
  transfer_status := le_val ((b.drop 14).take 2)

/-- Encode a descriptor as its 16 bytes. -/
def HCDArDB.toBytes (d : HCDArDB) : List Nat :=
  le_bytes 2 d.req_count ++ le_bytes 2 d.flags ++ le_bytes 4 d.data_address ++
    le_bytes 4 d.branch_address ++ le_bytes 2 d.res_count ++ le_bytes 2 d.transfer_status

/-- Read the descriptor at guest address `addr`. -/
def read_db (s : OHCI1394State) (addr : Nat) : HCDArDB :=
  HCDArDB.ofBytes (dma_memory_read s.mem addr 16)

/-- Write the descriptor `db` at guest address `addr`. -/
def write_db (s : OHCI1394State) (addr : Nat) (db : HCDArDB) : OHCI1394State :=
  { s with mem := dma_memory_write s.mem addr db.toBytes }

/-- DMA write of raw bytes at guest address `addr`. -/
def dma_write (s : OHCI1394State) (addr : Nat) (bytes : List Nat) : OHCI1394State :=
  { s with mem := dma_memory_write s.mem addr bytes }

/-- The locals of `hcd_async_rx_rsp_packet` that live across loop iterations. -/
structure RxLocals where
  db : HCDArDB
  data_address : Nat
  size : Nat
  buf : List Nat
  state : Nat

/-- The expression `db.data_address + db.req_count - db.res_count` as a `uint32_t`. -/
def rx_data_address (db : HCDArDB) : Nat :=
  (db.data_address + db.req_count + 0x100000000 - db.res_count) % 0x100000000

/-- The statement `db.transfer_status = context_control & 0xFFFF` of the AR-response context. -/
def rx_set_status (s : OHCI1394State) (l : RxLocals) : RxLocals :=
  { l with db := { l.db with
      transfer_status := (s.reg OFF_async_response_receive &&& 0xFFFF) % 0x10000 } }

/-- The body of `if (db.res_count == 0)`: write the descriptor back, follow
`branch_address`, read the next descriptor. -/
def rx_next_db (s : OHCI1394State) (l : RxLocals) : OHCI1394State × RxLocals :=
  let s := write_db s (Ax_COMMAND_PTR s 3 &&& 0xFFFFFFF0) l.db
  let s := if l.db.branch_address = 0 then CLR_Ax_ACTIVE s 3 else s
  let s := SET_Ax_COMMAND_PTR s 3 l.db.branch_address
  let db := read_db s (Ax_COMMAND_PTR s 3 &&& 0xFFFFFFF0)
  (s, { l with db := db, data_address := rx_data_address db })

/-- The arm `case 0` of the loop: copy as much of the packet as fits. -/
def rx_case0 (s : OHCI1394State) (l : RxLocals) : OHCI1394State × RxLocals :=
  let write_size := if l.db.res_count > l.size then l.size else l.db.res_count
  (dma_write s l.data_address (l.buf.take write_size),
   { db := { l.db with res_count := l.db.res_count - write_size }
     data_address := (l.data_address + write_size) % 0x100000000
     size := l.size - write_size
     buf := l.buf.drop write_size
     state := if l.size - write_size = 0 then 1 else 0 })

/-- The arm `case 1` of the loop: write the trailer and the descriptor. -/
def rx_case1 (s : OHCI1394State) (l : RxLocals) : OHCI1394State × RxLocals :=
  let status := (s.reg OFF_async_response_receive <<< 16) % 0x100000000
  let l := rx_set_status s l
  let s := dma_write s l.data_address (le_bytes 4 status)
  let l := { l with db := { l.db with res_count := (l.db.res_count + 0x10000 - 4) % 0x10000 } }
  let l := { l with data_address := (l.data_address + 4) % 0x100000000 }
  (write_db s (Ax_COMMAND_PTR s 3 &&& 0xFFFFFFF0) l.db, { l with state := 2 })

/-- One pass through the body of `while (state != 3)`. -/
def rx_rsp_step (s : OHCI1394State) (l : RxLocals) : OHCI1394State × RxLocals :=
  let l := rx_set_status s l
  let r := if l.db.res_count = 0 then rx_next_db s l else (s, l)
  if r.2.state = 0 then rx_case0 r.1 r.2
  else if r.2.state = 1 then rx_case1 r.1 r.2
  else if r.2.state = 2 then (r.1, { r.2 with state := 3 })
  else r

/-- The `while (state != 3)` loop of `hcd_async_rx_rsp_packet` (`num` is 3);
every pass through the body costs one unit of fuel. -/
def rx_rsp_loop : Nat → OHCI1394State → RxLocals → Option OHCI1394State
  | 0, s, l => if l.state = 3 then some s else none
  | fuel + 1, s, l =>
    if l.state = 3 then some s
    else rx_rsp_loop fuel (rx_rsp_step s l).1 (rx_rsp_step s l).2

/-- What `hcd_async_rx_rsp_packet` does after its loop. -/
def rx_rsp_finish (s : OHCI1394State) : OHCI1394State :=
  hcd_check_irq (s.or_reg OFF_int_event (1 <<< 5))

/-- The locals of `hcd_async_rx_rsp_packet` when its loop is entered. -/
def rx_rsp_start (s : OHCI1394State) (buf : List Nat) (size : Nat) : RxLocals :=
  let db := read_db s (Ax_COMMAND_PTR s 3 &&& 0xFFFFFFF0)
  { db := db, data_address := rx_data_address db, size := size, buf := buf, state := 0 }

/-- The function `hcd_async_rx_rsp_packet`; `buf` holds the `size` bytes of the packet. -/
def hcd_async_rx_rsp_packet (fuel : Nat) (s : OHCI1394State) (buf : List Nat) (size : Nat)
    (response : Nat) : Option OHCI1394State :=
  if size = 0 then some s
  else
    (rx_rsp_loop fuel (SET_Ax_EVENT_CODE s 3 response)
      (rx_rsp_start (SET_Ax_EVENT_CODE s 3 response) buf size)).map rx_rsp_finish

/-- The functions `hcd_async_rx_run` and `hcd_async_rx_stop`. -/
def hcd_async_rx_run (s : OHCI1394State) (addr : Nat) : OHCI1394State :=
  SET_Ax_ACTIVE s ((addr &&& 0x0180) >>> 7)

def hcd_async_rx_stop (s : OHCI1394State) (addr : Nat) : OHCI1394State :=
  CLR_Ax_ACTIVE s ((addr &&& 0x0180) >>> 7)

/-- The function `hcd_async_rx_wake`. -/
def hcd_async_rx_wake (s : OHCI1394State) (addr : Nat) : OHCI1394State :=
  if IS_Ax_ACTIVE s ((addr &&& 0x0180) >>> 7) then s
  else if (read_db s (s.regs ((addr >>> 2) + 0x00c) &&& 0xFFFFFFF0)).branch_address
      &&& 0x0000000f ≠ 0 then
    SET_Ax_COMMAND_PTR (SET_Ax_ACTIVE s ((addr &&& 0x0180) >>> 7)) ((addr &&& 0x0180) >>> 7)
      (read_db s (s.regs ((addr >>> 2) + 0x00c) &&& 0xFFFFFFF0)).branch_address
  else s

/-- The function `hcd_at_run`. -/
def hcd_at_run (s : OHCI1394State) (t : ATSel) : OHCI1394State :=
  let s := s.set_timer t
    { s.timer t with address := Ax_COMMAND_PTR s (s.timer t).num &&& 0xfffffff0 }
  let s := s.set_timer t { s.timer t with response := EVT_TCODE_ERR }
  SET_Ax_ACTIVE s (s.timer t).num

/-- Arm the timer of `t` (`timer_mod (t->timer, 0)`). -/
def timer_mod (s : OHCI1394State) (t : ATSel) : OHCI1394State :=
  s.set_timer t { s.timer t with armed := true }

/-! ## Bus reset and the PHY shadow -/

/-- The part of `hcd_bus_reset` before the AR-response delivery. -/
def bus_reset_begin (s : OHCI1394State) : OHCI1394State :=
  let s := s.set_reg OFF_node_id ((s.reg OFF_node_id &&& not32 NODEID_BUS_NUMBER) ||| (0x3ff <<< 6))
  let s := s.and_reg OFF_node_id (not32 NODEID_CPS)
  let s := s.and_reg OFF_node_id (not32 NODEID_ROOT)
  let s := s.and_reg OFF_node_id (not32 NODEID_ID_VALID)
  let s := map_generation s (· + 1)
  let s := s.or_reg OFF_int_event 0x00020000
  let s := if s.state ≠ HCD_STATE_CONNECTED then set_root s 1 else s
  let s := s.and_reg OFF_async_request_transmit 0xFFFFFBFF
  s.and_reg OFF_async_response_transmit 0xFFFFFBFF

/-- The 12 bytes of `bus_reset_packet` after `bus_reset_packet[2] |= generation << 16`. -/
def bus_reset_packet (s : OHCI1394State) : List Nat :=
  le_bytes 4 0x000000e0 ++ le_bytes 4 0x00000000 ++
    le_bytes 4 (0x00000000 ||| (SelfIDCount.generation (s.reg OFF_self_id_count) <<< 16))

/-- The AR-response delivery of `hcd_bus_reset`. -/
def bus_reset_deliver (fuel : Nat) (s : OHCI1394State) : Option OHCI1394State :=
  if s.reg OFF_async_response_receive &&& 0x00008000 ≠ 0 then
    hcd_async_rx_rsp_packet fuel s (bus_reset_packet s) 12 EVT_BUS_RESET
  else some s

/-- The function `hcd_bus_reset`. -/
def hcd_bus_reset (fuel : Nat) (s : OHCI1394State) : Option OHCI1394State :=
  (bus_reset_deliver fuel (bus_reset_begin s)).map hcd_complete_self_id

/-- The function `hcd_phy_read`. -/
def hcd_phy_read (s : OHCI1394State) (reg : Nat) : Nat :=
  if reg < 8 then s.phy reg
  else s.phy_pages ((s.phy 7 &&& 0xE0) >>> 5) (reg &&& 7)

/-- The function `hcd_phy_write`. -/
def hcd_phy_write (fuel : Nat) (s : OHCI1394State) (reg data : Nat) : Option OHCI1394State :=
  if reg < 8 then
    if reg = 0 then some s
    else if reg = 1 ∨ reg = 5 then
      if data &&& 0x40 ≠ 0 then hcd_bus_reset fuel (set_phy s reg (data &&& 0xBF))
      else some (set_phy s reg (data &&& 0xBF))
    else some (set_phy s reg data)
  else some (set_phy_page s ((s.phy 7 &&& 0xE0) >>> 5) (reg &&& 7) data)

/-! ## Asynchronous transmit -/

/-- The record `HCDAtDB`, an AT descriptor in guest memory. -/
structure HCDAtDB where
  req_count : Nat
  flags : Nat
  data_address : Nat
  branch_address : Nat
  timestamp : Nat
  transfer_status : Nat

/-- Decode the 16 bytes of an AT descriptor. -/
def HCDAtDB.ofBytes (b : List Nat) : HCDAtDB where
  req_count := le_val (b.take 2)
  flags := le_val ((b.drop 2).take 2)
  data_address := le_val ((b.drop 4).take 4)
  branch_address := le_val ((b.drop 8).take 4)
  timestamp := le_val ((b.drop 12).take 2)
  transfer_status := le_val ((b.drop 14).take 2)

/-- Encode an AT descriptor as its 16 bytes. -/
def HCDAtDB.toBytes (d : HCDAtDB) : List Nat :=
  le_bytes 2 d.req_count ++ le_bytes 2 d.flags ++ le_bytes 4 d.data_address ++
    le_bytes 4 d.branch_address ++ le_bytes 2 d.timestamp ++ le_bytes 2 d.transfer_status

/-- Read the AT descriptor at guest address `addr`. -/
def read_at_db (s : OHCI1394State) (addr : Nat) : HCDAtDB :=
  HCDAtDB.ofBytes (dma_memory_read s.mem addr 16)

/-- Assign `t->address` (a `uint32_t`). -/
def set_timer_address (s : OHCI1394State) (t : ATSel) (v : Nat) : OHCI1394State :=
  s.set_timer t { s.timer t with address := v % 0x100000000 }

/-- Assign `t->response`. -/
def set_timer_response (s : OHCI1394State) (t : ATSel) (v : Nat) : OHCI1394State :=
  s.set_timer t { s.timer t with response := v }

/-- The local `uint32_t data[4]` of the Immediate arm after
`dma_memory_read (t->address + sizeof (db), data, db.req_count)`: the bytes
read, followed up to 16 by what the array held before (`junk`).  The address is
the sum of the `uint32_t` cursor and the `size_t` 16, taken in `size_t`: it does
not wrap at 2^32.  The array has 16 bytes: for a `req_count` above 16 the C code
writes beyond it and has no defined result, and the value given here means
nothing; what is proved of the Immediate arm is proved for `req_count ≤ 16`. -/
def at_inline_data (s : OHCI1394State) (t : ATSel) (db : HCDAtDB) : List Nat :=
  dma_memory_read s.mem ((s.timer t).address + 16) db.req_count ++
    (dma_memory_read s.junk db.req_count (16 - db.req_count)).map (· % 256)

/-- The arm `case 0x0200` (Immediate) of `switch (db.flags & HCD_AT_DB_FLAGS_KEY)`. -/
def at_immediate (fuel : Nat) (s : OHCI1394State) (t : ATSel) (db : HCDAtDB) :
    Option OHCI1394State :=
  let data := at_inline_data s t db
  let tcode := le_val (data.take 4) &&& 0x000000F0
  if tcode = 0x00 then
    some (set_timer_response (qemu_chr_fe_write s (data.take 16)) t ACK_PENDING)
  else if tcode = 0x10 ∨ tcode = 0x40 ∨ tcode = 0x50 then
    some (set_timer_response (qemu_chr_fe_write s (data.take db.req_count)) t ACK_PENDING)
  else if tcode = 0xe0 then
    hcd_bus_reset fuel (set_timer_response s t ACK_COMPLETE)
  else some s

/-- The statement `switch (db.flags & HCD_AT_DB_FLAGS_KEY)` of `hcd_at_timer`. -/
def at_transmit (fuel : Nat) (s : OHCI1394State) (t : ATSel) (db : HCDAtDB) :
    Option OHCI1394State :=
  if db.flags &&& 0x0700 = 0 then
    some (qemu_chr_fe_write s (dma_memory_read s.mem db.data_address db.req_count))
  else if db.flags &&& 0x0700 = 0x0200 then at_immediate fuel s t db
  else some s

/-- The `else` branch (last) that ends `hcd_at_timer`: completion interrupt,
event code, descriptor write-back, then stop or follow the branch and re-arm. -/
def at_last (s : OHCI1394State) (t : ATSel) (db : HCDAtDB) : OHCI1394State :=
  let s := if db.flags &&& 0x0030 = 0x0030 then
      s.or_reg OFF_int_event (1 <<< (s.timer t).num) else s
  let s := SET_Ax_EVENT_CODE s (s.timer t).num (s.timer t).response
  let db := { db with transfer_status := Ax_CONTEXT_CONTROL s (s.timer t).num % 0x10000 }
  let s := dma_write s (s.timer t).address db.toBytes
  if db.branch_address &&& 0x0000000f = 0 then CLR_Ax_ACTIVE s (s.timer t).num
  else timer_mod (hcd_at_run (SET_Ax_COMMAND_PTR s (s.timer t).num db.branch_address) t) t

/-- The `if ((db.flags & HCD_AT_DB_FLAGS_CMD) == 0)` branch (more): step over the
descriptor, and over the 16 inline bytes of an Immediate one, and re-arm. -/
def at_more (s : OHCI1394State) (t : ATSel) (db : HCDAtDB) : OHCI1394State :=
  let s := if db.flags &&& 0x0700 = 0x0200 then
      set_timer_address s t ((s.timer t).address + (16 + 4 * 4))
    else set_timer_address s t ((s.timer t).address + 16)
  timer_mod s t

/-- The part of `hcd_at_timer` that runs on an active context: read the
descriptor at `t->address`, check its command, transmit, advance. -/
def at_process (fuel : Nat) (s : OHCI1394State) (t : ATSel) : Option OHCI1394State :=
  let s := CLR_Ax_WAKE s (s.timer t).num
  let db := read_at_db s (s.timer t).address
  if (db.flags &&& 0xF000 = 0 ∨ db.flags &&& 0xF000 = 0x1000) ∧
      (db.flags &&& 0x0700 = 0 ∨ db.flags &&& 0x0700 = 0x0200) then
    (at_transmit fuel s t db).map
      (fun s => if db.flags &&& 0xF000 = 0 then at_more s t db else at_last s t db)
  else some s

/-- The function `hcd_at_timer`, the callback of the timer `t`. -/
def hcd_at_timer (fuel : Nat) (s : OHCI1394State) (t : ATSel) : Option OHCI1394State :=
  if IS_Ax_DEAD s (s.timer t).num ∨ ¬ IS_Ax_RUN s (s.timer t).num then
    some (CLR_Ax_ACTIVE (CLR_Ax_WAKE s (s.timer t).num) (s.timer t).num)
  else if ¬ IS_Ax_ACTIVE s (s.timer t).num then
    if ¬ IS_Ax_WAKE s (s.timer t).num then some s
    else if (read_at_db s (s.timer t).address).branch_address &&& 0x0000000f = 0 then
      some (CLR_Ax_WAKE s (s.timer t).num)
    else
      at_process fuel
        (hcd_at_run
          (SET_Ax_COMMAND_PTR (CLR_Ax_WAKE s (s.timer t).num) (s.timer t).num
            (read_at_db s (s.timer t).address).branch_address) t) t
  else at_process fuel s t

/-- The AT timer of `t` expires: it is disarmed and its callback runs.  Nothing
happens when the timer is not armed. -/
def at_timer_fire (fuel : Nat) (s : OHCI1394State) (t : ATSel) : Option OHCI1394State :=
  if (s.timer t).armed then
    hcd_at_timer fuel (s.set_timer t { s.timer t with armed := false }) t
  else some s

/-! ## Register dispatch -/

/-- The function `hcd_mmio_read`. -/
def hcd_mmio_read (s : OHCI1394State) (addr : Nat) : Nat :=
  if addr = OFF_int_event_masked then s.reg OFF_int_event &&& s.reg OFF_int_mask
  else s.regs (addr >>> 2)

/-- The arm `case REG_OFFSET(csr_control)`. -/
def mmio_write_csr_control (s : OHCI1394State) (data : Nat) : OHCI1394State :=
  if data &&& 0x00000003 = 0 then
    let s := s.set_reg OFF_csr_read_data (s.reg OFF_csr_compare_data)
    s.set_reg OFF_csr_control (0x80000000 ||| (data &&& 0x00000003))
  else
    s.set_reg OFF_csr_control (0x80000000 ||| (data &&& 0x00000003))

/-- The link-up indication of the `hc_control_set` arm: four bytes `0xFFFFFFFF`
when the link state is DISCONNECTED or ARBITRATION1. -/
def hc_control_link_up (s : OHCI1394State) : OHCI1394State :=
  if s.state = HCD_STATE_DISCONNECTED ∨ s.state = HCD_STATE_ARBITRATION1 then
    qemu_chr_fe_write s (le_bytes 4 0xFFFFFFFF)
  else s

/-- The arm `case REG_OFFSET(hc_control_set)`. -/
def mmio_write_hc_control_set (s : OHCI1394State) (data : Nat) : OHCI1394State :=
  let data := data &&& 0xE0CF0000
  let s := s.or_reg OFF_hc_control data
  let s := if data &&& HCCONTROL_RESET_MASK ≠ 0 then hcd_soft_reset s else s
  if data &&& HCCONTROL_LINK_ENABLE_MASK ≠ 0 then hc_control_link_up s else s

/-- The arm `case REG_OFFSET(hc_control_clear)`. -/
def mmio_write_hc_control_clear (s : OHCI1394State) (data : Nat) : OHCI1394State :=
  s.and_reg OFF_hc_control (not32 (data &&& 0xE0CE0000))

/-- The arms that set the primary word `(addr >> 2) & 0xFFFE` and copy it to the next word. -/
def mmio_write_set_mirror (s : OHCI1394State) (addr data : Nat) : OHCI1394State :=
  (s.or_regs ((addr >>> 2) &&& 0xFFFE) data).mirror ((addr >>> 2) &&& 0xFFFE)

/-- The arms that clear in the primary word and copy it to the next word. -/
def mmio_write_clear_mirror (s : OHCI1394State) (addr data : Nat) : OHCI1394State :=
  (s.and_regs ((addr >>> 2) &&& 0xFFFE) (not32 data)).mirror ((addr >>> 2) &&& 0xFFFE)

/-- The arm of `int_event_set`, `int_mask_set`, `iso_xmit_int_mask_set`,
`iso_recv_int_mask_set` and `link_control_set`. -/
def mmio_write_set (s : OHCI1394State) (addr data : Nat) : OHCI1394State :=
  s.or_regs ((addr >>> 2) &&& 0xFFFE) data

/-- The arm of `int_event_clear`, `int_mask_clear`, `iso_xmit_int_mask_clear`,
`iso_recv_int_mask_clear` and `link_control_clear`. -/
def mmio_write_clear (s : OHCI1394State) (addr data : Nat) : OHCI1394State :=
  s.and_regs ((addr >>> 2) &&& 0xFFFE) (not32 data)

/-- The arm `case REG_OFFSET(node_id)`. -/
def mmio_write_node_id (s : OHCI1394State) (data : Nat) : OHCI1394State :=
  s.set_reg OFF_node_id
    ((s.reg OFF_node_id &&& not32 NODEID_BUS_NUMBER) ||| (data &&& NODEID_BUS_NUMBER))

/-- Field `k` of `s->mmio.phy_control`, a union `PhyControl`: `wr_data` is
byte 0, `wr_flags` byte 1, `rd_data` byte 2 and `rd_flags` byte 3. -/
def phy_control_field (s : OHCI1394State) (k : Nat) : Nat := get_byte (s.reg OFF_phy_control) k

/-- Assign field `k` of `s->mmio.phy_control`. -/
def set_phy_control_field (s : OHCI1394State) (k b : Nat) : OHCI1394State :=
  s.set_reg OFF_phy_control (set_byte (s.reg OFF_phy_control) k b)

/-- The body of `if (phy_control.wr_flags & PHY_CONTROL_WR_FLAGS_RD_REG)`. -/
def phy_control_rd_reg (s : OHCI1394State) (reg_addr : Nat) : OHCI1394State :=
  let s := set_phy_control_field s 3 (reg_addr ||| (phy_control_field s 3 &&& 0xF0))
  let s := set_phy_control_field s 2 (hcd_phy_read s reg_addr)
  let s := set_phy_control_field s 3 (phy_control_field s 3 ||| 0x80)
  s.or_reg OFF_int_event INT_PHY_REG_RCVD

/-- What follows `hcd_phy_write` in `if (phy_control.wr_flags & PHY_CONTROL_WR_FLAGS_WR_REG)`. -/
def phy_control_wr_done (wr_data : Nat) (s : OHCI1394State) : OHCI1394State :=
  let s := set_phy_control_field s 0 wr_data
  set_phy_control_field s 3 (phy_control_field s 3 &&& 0x7F)

/-- The arm `case REG_OFFSET(phy_control)`; `data` is first stored in a local `PhyControl`. -/
def mmio_write_phy_control (fuel : Nat) (s : OHCI1394State) (data : Nat) :
    Option OHCI1394State :=
  let phy_control := data % 0x100000000
  let wr_data := get_byte phy_control 0
  let wr_flags := get_byte phy_control 1
  let reg_addr := wr_flags &&& 0x0F
  let s := set_phy_control_field s 1 (reg_addr ||| (phy_control_field s 1 &&& 0xF0))
  let s := if wr_flags &&& 0x80 ≠ 0 then phy_control_rd_reg s reg_addr else s
  if wr_flags &&& 0x40 ≠ 0 then
    (hcd_phy_write fuel s reg_addr wr_data).map (phy_control_wr_done wr_data)
  else some s

/-- The `if (data & 0x00009000)` block of the AT `context_control_set` arm. -/
def at_context_kick (s : OHCI1394State) (addr data : Nat) : OHCI1394State :=
  let t := if addr = OFF_async_request_transmit then ATSel.req else ATSel.rsp
  let s := if data &&& 0x00008000 ≠ 0 then hcd_at_run s t else s
  timer_mod s t

/-- The arm of `async_request_transmit.context_control_set` and
`async_response_transmit.context_control_set`. -/
def mmio_write_at_context_set (s : OHCI1394State) (addr data : Nat) : OHCI1394State :=
  let data := data &&& 0x00009000
  let s := mmio_write_set_mirror s addr data
  if data &&& 0x00009000 ≠ 0 then at_context_kick s addr data else s

/-- The arm of `async_request_receive.context_control_set` and
`async_response_receive.context_control_set`. -/
def mmio_write_ar_context_set (s : OHCI1394State) (addr data : Nat) : OHCI1394State :=
  let data := data &&& 0x00009000
  let s := mmio_write_set_mirror s addr data
  let s := if data &&& 0x00008000 ≠ 0 then hcd_async_rx_run s (addr &&& 0xFFE0) else s
  if data &&& 0x00001000 ≠ 0 then hcd_async_rx_wake s (addr &&& 0xFFE0) else s

/-- The arm of `async_request_receive.context_control_clear` and
`async_response_receive.context_control_clear`. -/
def mmio_write_ar_context_clear (s : OHCI1394State) (addr data : Nat) : OHCI1394State :=
  let data := data &&& 0x00008000
  let s := mmio_write_clear_mirror s addr data
  if data &&& 0x00008000 ≠ 0 then hcd_async_rx_stop s (addr &&& 0xFFE0) else s

/-- The `switch (addr)` of `hcd_mmio_write`, before the closing `hcd_check_irq`. -/
def mmio_write_switch (fuel : Nat) (s : OHCI1394State) (addr data : Nat) :
    Option OHCI1394State :=
  if addr = OFF_csr_control then some (mmio_write_csr_control s data)
  else if addr = OFF_hc_control then some (mmio_write_hc_control_set s data)
  else if addr = OFF_hc_control_clear then some (mmio_write_hc_control_clear s data)
  else if addr = OFF_ir_multi_chan_mask_hi ∨ addr = OFF_ir_multi_chan_mask_lo then
    some (mmio_write_set_mirror s addr data)
  else if addr = OFF_ir_multi_chan_mask_hi_clear ∨ addr = OFF_ir_multi_chan_mask_lo_clear then
    some (mmio_write_clear_mirror s addr data)
  else if addr = OFF_int_event ∨ addr = OFF_int_mask ∨ addr = OFF_iso_xmit_int_mask ∨
      addr = OFF_iso_recv_int_mask ∨ addr = OFF_link_control then
    some (mmio_write_set s addr data)
  else if addr = OFF_int_event_masked ∨ addr = OFF_int_mask_clear ∨
      addr = OFF_iso_xmit_int_mask_clear ∨ addr = OFF_iso_recv_int_mask_clear ∨
      addr = OFF_link_control_clear then
    some (mmio_write_clear s addr data)
  else if addr = OFF_node_id then some (mmio_write_node_id s data)
  else if addr = OFF_phy_control then mmio_write_phy_control fuel s data
  else if addr = OFF_asynchronous_request_filter_hi ∨ addr = OFF_asynchronous_request_filter_lo ∨
      addr = OFF_physical_request_filter_hi ∨ addr = OFF_physical_request_filter_lo then
    some (mmio_write_set_mirror s addr data)
  else if addr = OFF_asynchronous_request_filter_hi_clear ∨
      addr = OFF_asynchronous_request_filter_lo_clear ∨
      addr = OFF_physical_request_filter_hi_clear ∨
      addr = OFF_physical_request_filter_lo_clear then
    some (mmio_write_clear_mirror s addr data)
  else if addr = OFF_async_request_transmit ∨ addr = OFF_async_response_transmit then
    some (mmio_write_at_context_set s addr data)
  else if addr = OFF_async_request_receive ∨ addr = OFF_async_response_receive then
    some (mmio_write_ar_context_set s addr data)
  else if addr = OFF_async_request_transmit + 4 ∨ addr = OFF_async_response_transmit + 4 then
    some (mmio_write_clear_mirror s addr data)
  else if addr = OFF_async_request_receive + 4 ∨ addr = OFF_async_response_receive + 4 then
    some (mmio_write_ar_context_clear s addr data)
  else some (s.set_regs (addr >>> 2) data)

/-- The function `hcd_mmio_write`. -/
def hcd_mmio_write (fuel : Nat) (s : OHCI1394State) (addr data : Nat) : Option OHCI1394State :=
  (mmio_write_switch fuel s addr data).map hcd_check_irq

/-! ## Device construction -/

/-- The device as allocated (all fields zero), with the environment given. -/
def zero_state (mem : Nat → Nat) (tv : Nat → Nat × Nat) (inmigrate : Bool)
    (dma_err : Nat → Bool) (junk : Nat → Nat) : OHCI1394State where
  regs := fun _ => 0
  at_req_timer := { num := 0, address := 0, response := 0, armed := false }
  at_rsp_timer := { num := 0, address := 0, response := 0, armed := false }
  phy := fun _ => 0
  phy_pages := fun _ _ => 0
  irq_asserted := 0
  state := 0
  other_link := 0
  bid := 0
  root := 0
  bufpos := 0
  buf := fun _ => 0
  irq := []
  chr := []
  mem := mem
  tv := tv
  tv_calls := 0
  inmigrate := inmigrate
  dma_err := dma_err
  junk := junk

/-- The device part of `hcd_pci_init`: number the two AT timers, then hard reset. -/
def hcd_pci_init (s : OHCI1394State) : OHCI1394State :=
  let s := { s with at_req_timer := { s.at_req_timer with num := 0 } }
  let s := { s with at_rsp_timer := { s.at_rsp_timer with num := 1 } }
  hcd_hard_reset s

/-- A freshly constructed device over zeroed guest memory and a clock stuck at zero. -/
def init_state : OHCI1394State :=
  hcd_pci_init (zero_state (fun _ => 0) (fun _ => (0, 0)) false (fun _ => false) (fun _ => 0))

/-! ## Transport: link state machine and packet handlers -/

/-- The function `hcd_fill_buffer`: returns the device and the input not yet consumed. -/
def hcd_fill_buffer (s : OHCI1394State) (inp : List Nat) (required : Nat) :
    OHCI1394State × List Nat :=
  if s.bufpos ≥ required then (s, inp) else
  let to_copy := if required - s.bufpos > inp.length then inp.length else required - s.bufpos
  ({ s with buf := dma_memory_write s.buf s.bufpos ((inp.take to_copy).map (· % 256))
            bufpos := s.bufpos + to_copy }, inp.drop to_copy)

/-- Little-endian value of `n` bytes of the reassembly buffer at offset `off`. -/
def buf_val (s : OHCI1394State) (off n : Nat) : Nat :=
  le_val (dma_memory_read s.buf off n)

/-- Does `dma_memory_read` of `len` bytes at `addr` report a failure? -/
def dma_read_fails (s : OHCI1394State) (addr len : Nat) : Bool :=
  (List.range len).any (fun i => s.dma_err (addr + i))

/-- The 12 bytes of a local `OHCIRspNoDataPacket` after the assignments the
handlers make: `flags` (0), `destination_id` (2), `r_code` (5), `source_id` (6);
`padding` (4) and bytes 8 to 11 are never assigned. -/
def rsp_nodata_bytes (s : OHCI1394State) (flags destination_id r_code source_id : Nat) :
    List Nat :=
  le_bytes 2 flags ++ le_bytes 2 destination_id ++ [s.junk 4 % 256, r_code % 256] ++
    le_bytes 2 source_id ++ (dma_memory_read s.junk 8 4).map (fun b => b % 256)

/-- Response `flags` (a `uint16_t`): the t_code, then RT and T_LABEL of the request. -/
def rsp_flags (tcode req_flags : Nat) : Nat :=
  ((tcode ||| (req_flags &&& 0x00000300)) ||| (req_flags &&& 0x0000FC00)) % 0x10000

/-- The function `hcd_chr_request_quadlet_write`. -/
def hcd_chr_request_quadlet_write (s : OHCI1394State) (inp : List Nat) :
    Bool × OHCI1394State :=
  let s := (hcd_fill_buffer s inp 16).1
  if s.bufpos < 16 then (false, s)
  else if s.bufpos > 16 then (false, s)
  else
    let s := dma_write s (buf_val s 8 4) (dma_memory_read s.buf 12 4)
    let destination_id := buf_val s 6 2
    let s := qemu_chr_fe_write s
      (rsp_nodata_bytes s (rsp_flags 0x20 (buf_val s 0 4)) (destination_id ^^^ 1) RESP_COMPLETE
        destination_id)
    (true, set_bufpos s 0)

/-- The function `hcd_chr_request_block_write`. -/
def hcd_chr_request_block_write (s : OHCI1394State) (inp : List Nat) :
    Bool × OHCI1394State :=
  let r := hcd_fill_buffer s inp 16
  let s := r.1
  if s.bufpos < 16 then (false, s)
  else
    let s := (hcd_fill_buffer s r.2 (16 + buf_val s 14 2)).1
    let data_length := buf_val s 14 2
    if s.bufpos < 16 + data_length then (false, s)
    else if s.bufpos > 16 + data_length then (false, s)
    else
      let s := dma_write s (buf_val s 8 4) (dma_memory_read s.buf 16 data_length)
      let destination_id := buf_val s 6 2
      let s := qemu_chr_fe_write s
        (rsp_nodata_bytes s (rsp_flags 0x20 (buf_val s 0 4)) (destination_id ^^^ 1) RESP_COMPLETE
          destination_id)
      (true, set_bufpos s 0)

/-- The function `hcd_chr_response_quadlet_write`. -/
def hcd_chr_response_quadlet_write (fuel : Nat) (s : OHCI1394State) (inp : List Nat) :
    Option (Bool × OHCI1394State) :=
  let s := (hcd_fill_buffer s inp 12).1
  if s.bufpos < 12 then some (false, s)
  else if s.bufpos > 12 then some (false, s)
  else
    match hcd_async_rx_rsp_packet fuel s (dma_memory_read s.buf 0 12) 12 ACK_COMPLETE with
    | none => none
    | some s => some (true, set_bufpos s 0)

/-- The function `hcd_chr_request_quadlet_read`.  The local response is
`flags` (0), `destination_id` (2), `padding1` (4), `r_code` (5), `source_id` (6),
`padding2` (8), `data` (12); what is not assigned keeps its `junk`. -/
def hcd_chr_request_quadlet_read (s : OHCI1394State) (inp : List Nat) :
    Bool × OHCI1394State :=
  let s := (hcd_fill_buffer s inp 12).1
  if s.bufpos < 12 then (false, s)
  else if s.bufpos > 12 then (false, s)
  else
    let destination_id := buf_val s 6 2
    let destination_offset_high := buf_val s 4 2
    let destination_offset_low := buf_val s 8 4
    let junk_data := (dma_memory_read s.junk 12 4).map (fun b => b % 256)
    let r : List Nat × Nat :=
      if destination_offset_high = 0xFFFF then
        if 0xF0000400 = destination_offset_low &&& 0xFFFFFC00 then
          let tmp_addr := (s.reg OFF_config_rom_map + (destination_offset_low &&& 0x3ff)) % 0x100000000
          (dma_memory_read s.mem tmp_addr 4, RESP_COMPLETE)
        else (junk_data, RESP_ADDRESS_ERROR)
      else if destination_offset_high = 0x0000 then
        if dma_read_fails s destination_offset_low 4 then (junk_data, RESP_ADDRESS_ERROR)
        else (dma_memory_read s.mem destination_offset_low 4, RESP_COMPLETE)
      else (junk_data, RESP_ADDRESS_ERROR)
    let s := qemu_chr_fe_write s
      (le_bytes 2 (rsp_flags 0x60 (buf_val s 0 4)) ++ le_bytes 2 (destination_id ^^^ 1) ++
        [s.junk 4 % 256, r.2 % 256] ++ le_bytes 2 destination_id ++
        (dma_memory_read s.junk 8 4).map (fun b => b % 256) ++ r.1.map (fun b => b % 256))
    (true, set_bufpos s 0)

/-- The function `hcd_chr_request_block_read`.  The local response header is
`flags` (0), `destination_id` (2), `padding1` (4), `r_code` (5), `source_id` (6),
`padding2` (8), `padding3` (12), `data_length` (14). -/
def hcd_chr_request_block_read (s : OHCI1394State) (inp : List Nat) :
    Bool × OHCI1394State :=
  let s := (hcd_fill_buffer s inp 16).1
  if s.bufpos < 16 then (false, s)
  else if s.bufpos > 16 then (false, s)
  else
    let destination_id := buf_val s 6 2
    let destination_offset_high := buf_val s 4 2
    let destination_offset_low := buf_val s 8 4
    let data_length := buf_val s 14 2
    let r : List Nat × Nat :=
      if destination_offset_high = 0xFFFF then
        if destination_offset_low &&& 0xFFFFFC00 = 0xF0000400 then
          let tmp_addr := (s.reg OFF_config_rom_map + (destination_offset_low &&& 0x3ff)) % 0x100000000
          (dma_memory_read s.mem tmp_addr data_length, RESP_COMPLETE)
        else ([], RESP_ADDRESS_ERROR)
      else if destination_offset_high = 0x0000 then
        if dma_read_fails s destination_offset_low data_length then ([], RESP_ADDRESS_ERROR)
        else (dma_memory_read s.mem destination_offset_low data_length, RESP_COMPLETE)
      else ([], RESP_ADDRESS_ERROR)
    let s := qemu_chr_fe_write s
      (le_bytes 2 (rsp_flags 0x70 (buf_val s 0 4)) ++ le_bytes 2 (destination_id ^^^ 1) ++
        [s.junk 4 % 256, r.2 % 256] ++ le_bytes 2 destination_id ++
        (dma_memory_read s.junk 8 6).map (fun b => b % 256) ++ le_bytes 2 data_length)
    let s := if r.2 = RESP_COMPLETE then qemu_chr_fe_write s (r.1.map (fun b => b % 256)) else s
    (true, set_bufpos s 0)

/-- The function `hcd_chr_response_quadlet_read`. -/
def hcd_chr_response_quadlet_read (fuel : Nat) (s : OHCI1394State) (inp : List Nat) :
    Option (Bool × OHCI1394State) :=
  let s := (hcd_fill_buffer s inp 16).1
  if s.bufpos < 16 then some (false, s)
  else if s.bufpos > 16 then some (false, s)
  else
    match hcd_async_rx_rsp_packet fuel s (dma_memory_read s.buf 0 16) 16 ACK_COMPLETE with
    | none => none
    | some s => some (true, set_bufpos s 0)

/-- The function `hcd_chr_response_block_read`. -/
def hcd_chr_response_block_read (fuel : Nat) (s : OHCI1394State) (inp : List Nat) :
    Option (Bool × OHCI1394State) :=
  let r := hcd_fill_buffer s inp 16
  let s := r.1
  if s.bufpos < 16 then some (false, s)
  else
    let s := (hcd_fill_buffer s r.2 (16 + buf_val s 14 2)).1
    let data_length := buf_val s 14 2
    if s.bufpos < 16 + data_length then some (false, s)
    else if s.bufpos > 16 + data_length then some (false, s)
    else
      match hcd_async_rx_rsp_packet fuel s (dma_memory_read s.buf 0 (16 + data_length))
          (16 + data_length) ACK_COMPLETE with
      | none => none
      | some s => some (true, set_bufpos s 0)

/-- The character-device events the handler distinguishes. -/
inductive ChrEvent where
  | opened
  | closed
  | other
deriving DecidableEq

/-- The function `hcd_chr_event`. -/
def hcd_chr_event (fuel : Nat) (s : OHCI1394State) (event : ChrEvent) : Option OHCI1394State :=
  if s.inmigrate then some s else
  match event with
  | .opened =>
    let s := set_state s HCD_STATE_MAGIC
    let s := qemu_chr_fe_write s [0x31, 0x33, 0x39, 0x34]
    if s.reg OFF_hc_control &&& HCCONTROL_LINK_ENABLE_MASK ≠ 0 then
      let s := qemu_chr_fe_write s (le_bytes 4 0xFFFFFFFF)
      if s.other_link ≠ 0 then hcd_bus_reset fuel s else some s
    else some s
  | .closed =>
    let s := set_state s HCD_STATE_UNPLUGGED
    let s := set_phy_page s 0 0 0x08
    let s := set_phy s 5 (s.phy 5 ||| 0x04)
    let s := s.or_reg OFF_int_event (1 <<< 19)
    hcd_bus_reset fuel s
  | .other => some s

/-- Assign `s->other_link`. -/
def set_other_link (s : OHCI1394State) (v : Nat) : OHCI1394State := { s with other_link := v }

/-- The value `s->bid` gets from `gettimeofday`: the eight 16-bit pieces of
`tv_sec` and `tv_usec` folded with XOR, masked to 15 bits. -/
def draw_bid (tv_sec tv_usec : Nat) : Nat :=
  let bid := 0
  let bid := (bid ^^^ ((tv_sec >>> 0) &&& 0xFFFF)) % 0x10000
  let bid := (bid ^^^ ((tv_sec >>> 16) &&& 0xFFFF)) % 0x10000
  let bid := (bid ^^^ ((tv_sec >>> 32) &&& 0xFFFF)) % 0x10000
  let bid := (bid ^^^ ((tv_sec >>> 48) &&& 0xFFFF)) % 0x10000
  let bid := (bid ^^^ ((tv_usec >>> 0) &&& 0xFFFF)) % 0x10000
  let bid := (bid ^^^ ((tv_usec >>> 16) &&& 0xFFFF)) % 0x10000
  let bid := (bid ^^^ ((tv_usec >>> 32) &&& 0xFFFF)) % 0x10000
  let bid := (bid ^^^ ((tv_usec >>> 48) &&& 0xFFFF)) % 0x10000
  bid &&& 0x7FFF

/-- The `case HCD_STATE_ARBITRATION1` block of `hcd_chr_receive`: draw a bid
from the clock, send it as two bytes, go to ARBITRATION2. -/
def arbitration1 (s : OHCI1394State) : OHCI1394State :=
  let bid := draw_bid (s.tv s.tv_calls).1 (s.tv s.tv_calls).2
  let s := { s with tv_calls := s.tv_calls + 1, bid := bid }
  let s := qemu_chr_fe_write s (le_bytes 2 s.bid)
  set_state s HCD_STATE_ARBITRATION2

/-- The `case HCD_STATE_MAGIC` block.  A block returns the device and what comes
next: `some rest` when it ends in `break` (the loop goes on with the input
`rest`), `none` when it ends in `return`. -/
def chr_receive_magic (s : OHCI1394State) (inp : List Nat) :
    OHCI1394State × Option (List Nat) :=
  let r := hcd_fill_buffer s inp 4
  if r.1.bufpos < 4 then (r.1, some r.2)
  else if r.1.bufpos > 4 then (r.1, some r.2)
  else if (dma_memory_read r.1.buf 0 4).map (· % 256) ≠ [0x31, 0x33, 0x39, 0x34] then
    (r.1, some r.2)
  else (set_bufpos (set_state r.1 HCD_STATE_DISCONNECTED) 0, some r.2)

/-- The `case HCD_STATE_DISCONNECTED` block, with its fall through into the
ARBITRATION1 block. -/
def chr_receive_disconnected (s : OHCI1394State) (inp : List Nat) :
    OHCI1394State × Option (List Nat) :=
  let r := hcd_fill_buffer s inp 4
  if r.1.bufpos < 4 then (r.1, none)
  else if buf_val (set_bufpos r.1 0) 0 4 ≠ 0xFFFFFFFF then (set_bufpos r.1 0, some r.2)
  else if (set_state (set_other_link (set_bufpos r.1 0) 1) HCD_STATE_ARBITRATION1).reg
      OFF_hc_control &&& HCCONTROL_LINK_ENABLE_MASK = 0 then
    (set_state (set_other_link (set_bufpos r.1 0) 1) HCD_STATE_ARBITRATION1, some r.2)
  else
    (arbitration1 (set_state (set_other_link (set_bufpos r.1 0) 1) HCD_STATE_ARBITRATION1),
      some r.2)

/-- The `case HCD_STATE_ARBITRATION2` block. -/
def chr_receive_arbitration2 (fuel : Nat) (s : OHCI1394State) (inp : List Nat) :
    Option (OHCI1394State × Option (List Nat)) :=
  let r := hcd_fill_buffer s inp 2
  if r.1.bufpos < 2 then some (r.1, some r.2)
  else
    let received_bid := buf_val r.1 0 2
    let s := set_bufpos r.1 0
    if received_bid = s.bid then some (set_state s HCD_STATE_ARBITRATION1, some r.2)
    else if received_bid < s.bid then
      (hcd_bus_reset fuel (set_state (set_root s 1) HCD_STATE_CONNECTED)).map
        (fun s => (s, some r.2))
    else
      (hcd_bus_reset fuel (set_state (set_root s 0) HCD_STATE_CONNECTED)).map
        (fun s => (s, some r.2))

/-- The packet dispatch of the CONNECTED block, `switch (flags & T_CODE)`; every
arm ends in `return`, whatever the handler answers. -/
def chr_receive_packet (fuel : Nat) (s : OHCI1394State) (inp : List Nat) :
    Option OHCI1394State :=
  let tcode := buf_val s 0 4 &&& 0x000000F0
  if tcode = 0x00 then some (hcd_chr_request_quadlet_write s inp).2
  else if tcode = 0x10 then some (hcd_chr_request_block_write s inp).2
  else if tcode = 0x20 then (hcd_chr_response_quadlet_write fuel s inp).map (·.2)
  else if tcode = 0x40 then some (hcd_chr_request_quadlet_read s inp).2
  else if tcode = 0x50 then some (hcd_chr_request_block_read s inp).2
  else if tcode = 0x60 then (hcd_chr_response_quadlet_read fuel s inp).map (·.2)
  else if tcode = 0x70 then (hcd_chr_response_block_read fuel s inp).map (·.2)
  else some s

/-- The `case HCD_STATE_CONNECTED` block. -/
def chr_receive_connected (fuel : Nat) (s : OHCI1394State) (inp : List Nat) :
    Option (OHCI1394State × Option (List Nat)) :=
  if s.reg OFF_hc_control &&& HCCONTROL_LINK_ENABLE_MASK = 0 then some (s, none)
  else
    let r := hcd_fill_buffer s inp 4
    if r.1.bufpos < 4 then some (r.1, none)
    else if buf_val r.1 0 4 = 0xFFFFFFFE then
      (hcd_bus_reset fuel (set_state (set_bufpos r.1 0) HCD_STATE_DISCONNECTED)).map
        (fun s => (s, some r.2))
    else (chr_receive_packet fuel r.1 r.2).map (fun s => (s, none))

/-- One pass through the body of `while (len)`: the `switch (s->state)`. -/
def chr_receive_step (fuel : Nat) (s : OHCI1394State) (inp : List Nat) :
    Option (OHCI1394State × Option (List Nat)) :=
  if s.state = HCD_STATE_UNPLUGGED then
    (hcd_chr_event fuel s ChrEvent.opened).map (fun s => (s, some inp))
  else if s.state = HCD_STATE_MAGIC then some (chr_receive_magic s inp)
  else if s.state = HCD_STATE_DISCONNECTED then some (chr_receive_disconnected s inp)
  else if s.state = HCD_STATE_ARBITRATION1 then some (arbitration1 s, some inp)
  else if s.state = HCD_STATE_ARBITRATION2 then chr_receive_arbitration2 fuel s inp
  else if s.state = HCD_STATE_CONNECTED then chr_receive_connected fuel s inp
  else some (s, some inp)

/-- The function `hcd_chr_receive`; `inp` is the `len` bytes at `buf`.  Every
pass through the body of `while (len)` costs one unit of fuel. -/
def hcd_chr_receive : Nat → OHCI1394State → List Nat → Option OHCI1394State
  | 0, s, inp => if inp.length = 0 then some s else none
  | fuel + 1, s, inp =>
    if inp.length = 0 then some s
    else
      match chr_receive_step fuel s inp with
      | none => none
      | some (s, none) => some s
      | some (s, some rest) => hcd_chr_receive fuel s rest

/-! ## Definitions used in the statements below -/

/-- The condition under which `hcd_check_irq` asserts the line. -/
def irq_cond (s : OHCI1394State) : Prop :=
  s.reg OFF_int_mask &&& 0x80000000 ≠ 0 ∧ s.reg OFF_int_event &&& s.reg OFF_int_mask ≠ 0

/-- A device with the interrupt line asserted for one masked event (bit 0). -/
def irq_demo : OHCI1394State :=
  { (init_state.set_reg OFF_int_mask 0x80000001).set_reg OFF_int_event 0x00000001 with
    irq_asserted := 1 }

/-- The device after the two bytes of a bid have been copied into an empty
reassembly buffer. -/
def bid_filled (s : OHCI1394State) (b0 b1 : Nat) : OHCI1394State :=
  (hcd_fill_buffer s [b0, b1] 2).1

/-- A fresh device put in state ARBITRATION2 with the local bid `bid`. -/
def arb_demo (bid : Nat) : OHCI1394State :=
  { init_state with state := HCD_STATE_ARBITRATION2, bid := bid }

/-- The fresh device after the guest has written generation 255 and `lo_word` 3
to the self-ID count register (offset 0x68) and set RcvSelfID in `link_control`. -/
def count_run : Option OHCI1394State :=
  (hcd_mmio_write 0 init_state OFF_self_id_count 0x00FF0003).bind fun s =>
    hcd_mmio_write 0 s OFF_link_control 0x00000200

/-- A freshly constructed device whose clock reads one second. -/
def clock1 : OHCI1394State :=
  hcd_pci_init (zero_state (fun _ => 0) (fun _ => (1, 0)) false (fun _ => false) (fun _ => 0))

/-- Scenario: the guest sets linkEnable, the transport opens, and the peer sends
its greeting and its link-up word; the device draws the bid 1 from its clock. -/
def arb_run : Option OHCI1394State :=
  (hcd_mmio_write 0 clock1 OFF_hc_control 0x00020000).bind fun s =>
    (hcd_chr_event 0 s ChrEvent.opened).bind fun s =>
      hcd_chr_receive 3 s [0x31, 0x33, 0x39, 0x34, 0xFF, 0xFF, 0xFF, 0xFF]

/-- Scenario: the guest sets linkEnable, the transport opens, and the peer sends
its greeting only. -/
def link_run : Option OHCI1394State :=
  (hcd_mmio_write 0 init_state OFF_hc_control 0x00020000).bind fun s =>
    (hcd_chr_event 0 s ChrEvent.opened).bind fun s =>
      hcd_chr_receive 1 s [0x31, 0x33, 0x39, 0x34]

/-- The context number `hcd_pci_init` gives each AT timer
(`s->at_req_timer.num = 0`, `s->at_rsp_timer.num = 1`). -/
def at_num : ATSel → Nat
  | .req => 0
  | .rsp => 1

/-- The device on which `hcd_at_timer` starts to process a descriptor (its second
`CLR_Ax_WAKE`), `none` when one of the guards before that returns: the context
is running and not dead, and it is either active, or woken on a descriptor whose
branch has a non-zero Z, in which case the branch has been followed. -/
def at_enter (s : OHCI1394State) (t : ATSel) : Option OHCI1394State :=
  if IS_Ax_DEAD s (s.timer t).num ∨ ¬ IS_Ax_RUN s (s.timer t).num then none
  else if ¬ IS_Ax_ACTIVE s (s.timer t).num then
    if ¬ IS_Ax_WAKE s (s.timer t).num then none
    else if (read_at_db s (s.timer t).address).branch_address &&& 0x0000000f = 0 then none
    else
      some (hcd_at_run
        (SET_Ax_COMMAND_PTR (CLR_Ax_WAKE s (s.timer t).num) (s.timer t).num
          (read_at_db s (s.timer t).address).branch_address) t)
  else some s

/-- The tcode of the inline packet of an Immediate descriptor, as `hcd_at_timer`
computes it (`packet_header.flags & OHCI_PACKET_FLAGS_T_CODE`). -/
def at_tcode (s : OHCI1394State) (t : ATSel) (db : HCDAtDB) : Nat :=
  le_val ((at_inline_data s t db).take 4) &&& 0x000000F0

/-- A freshly constructed device over the guest memory `mem`; every byte of
uninitialised stack reads 0x55. -/
def fresh (mem : Nat → Nat) : OHCI1394State :=
  hcd_pci_init (zero_state mem (fun _ => (0, 0)) false (fun _ => false) (fun _ => 0x55))

/-- Guest memory, zero but for an AT descriptor at 0x1000 (`data_address` 0x3000),
the bytes `inline` after it at 0x1010 and the payload AA BB CC DD at 0x3000. -/
def at_mem (req_count flags branch_address : Nat) (inline : List Nat) : Nat → Nat :=
  dma_memory_write
    (dma_memory_write (dma_memory_write (fun _ => 0) 0x3000 [0xAA, 0xBB, 0xCC, 0xDD]) 0x1010 inline)
    0x1000 (HCDAtDB.toBytes ⟨req_count, flags, 0x3000, branch_address, 0, 0⟩)

/-- Scenario: over the guest memory `mem` the guest unmasks the two AT completion
interrupts (`int_mask_set` 0x80000003), points `command_ptr` of the context of
`t` to the descriptor at 0x1000 (Z = 1) and sets run in its
`context_control_set`, which arms the timer. -/
def at_armed (mem : Nat → Nat) (t : ATSel) : Option OHCI1394State :=
  (hcd_mmio_write 0 (fresh mem) OFF_int_mask 0x80000003).bind fun s =>
    (hcd_mmio_write 0 s (OFF_async_request_transmit + 0x20 * at_num t + 0xC) 0x1001).bind fun s =>
      hcd_mmio_write 0 s (OFF_async_request_transmit + 0x20 * at_num t) 0x8000

/-- The device of the scenario `at_armed`. -/
def at_ready (mem : Nat → Nat) (t : ATSel) : OHCI1394State :=
  (at_armed mem t).getD (fresh mem)

/-- Scenario: `at_armed`, then the timer of `t` fires. -/
def at_fired (mem : Nat → Nat) (t : ATSel) : Option OHCI1394State :=
  (at_armed mem t).bind fun s => at_timer_fire 0 s t

/-- Guest memory, zero but for one AR descriptor at 0x1000 whose buffer is at 0x2000. -/
def ar_mem (req_count res_count branch_address : Nat) : Nat → Nat :=
  dma_memory_write (fun _ => 0) 0x1000
    (HCDArDB.toBytes ⟨req_count, 0, 0x2000, branch_address, res_count, 0⟩)

/-- Scenario: over the guest memory `mem` the guest points `command_ptr` of the
AR-response context to the descriptor at 0x1000 (Z = 1) and sets run in its
`context_control_set`. -/
def ar_running (mem : Nat → Nat) : Option OHCI1394State :=
  (hcd_mmio_write 0 (fresh mem) (OFF_async_response_receive + 0xC) 0x1001).bind fun s =>
    hcd_mmio_write 0 s OFF_async_response_receive 0x8000

/-- The device of the scenario `ar_running`. -/
def ar_ready (mem : Nat → Nat) : OHCI1394State :=
  (ar_running mem).getD (fresh mem)

/-- Scenario: over a guest memory whose descriptor at 0x1000 has the branch
0x3001 (Z = 1), the guest writes the pointer 0x1001 to the register at offset
`ptr`, then writes wake (0x1000) to the `context_control_set` at offset `off`. -/
def ar_woken (ptr off : Nat) : Option OHCI1394State :=
  (hcd_mmio_write 0 (fresh (ar_mem 32 32 0x3001)) ptr 0x1001).bind fun s =>
    hcd_mmio_write 0 s off 0x1000

/-- The device of the scenario `at_armed` for the AT-request context over an
OUTPUT_LAST_Immediate descriptor with `req_count` 8 whose 16 inline bytes are
00 01 .. 0F (tcode `0x00`). -/
def imm_demo : OHCI1394State :=
  at_ready (at_mem 8 0x1200 0 [0, 1, 2, 3, 4, 5, 6, 7, 8, 9, 10, 11, 12, 13, 14, 15]) ATSel.req

/-- Scenario: the guest sets run (0x8000) in `context_control_set` of both AT
contexts, then a bus reset occurs. -/
def at_run_reset : Option OHCI1394State :=
  (hcd_mmio_write 0 init_state OFF_async_request_transmit 0x8000).bind fun s =>
    (hcd_mmio_write 0 s OFF_async_response_transmit 0x8000).bind fun s => hcd_bus_reset 0 s

/-- The guest address `s->mmio.self_id_buffer + off`, computed in `uint32_t`. -/
def self_id_addr (s : OHCI1394State) (off : Nat) : Nat :=
  (s.reg OFF_self_id_buffer + off) % 0x100000000

/-- The 32-bit word of guest memory at `s->mmio.self_id_buffer + off`. -/
def self_id_word (s : OHCI1394State) (off : Nat) : Nat :=
  le_val (dma_memory_read s.mem (self_id_addr s off) 4)

/-- Scenario: the guest points `self_id_buffer` to 0x4000 and sets RcvSelfID in
`link_control`; nothing is connected. -/
def selfid_armed : Option OHCI1394State :=
  (hcd_mmio_write 0 clock1 OFF_self_id_buffer 0x4000).bind fun s =>
    hcd_mmio_write 0 s OFF_link_control 0x00000200

/-- The device of the scenario `selfid_armed`. -/
def selfid_dev : OHCI1394State := selfid_armed.getD clock1

/-- Scenario: `selfid_armed`, then the guest sets linkEnable, the transport opens
and the peer sends its greeting, its link-up word and the bytes `peer` (its bid);
the device draws the bid 1 from its clock. -/
def selfid_run (peer : List Nat) : Option OHCI1394State :=
  selfid_armed.bind fun s =>
    (hcd_mmio_write 0 s OFF_hc_control 0x00020000).bind fun s =>
      (hcd_chr_event 0 s ChrEvent.opened).bind fun s =>
        hcd_chr_receive 5 s ([0x31, 0x33, 0x39, 0x34, 0xFF, 0xFF, 0xFF, 0xFF] ++ peer)

/-- The Connected device of the scenario `selfid_run` with the peer bid 2, which
wins the arbitration (`root = 0`). -/
def connected_dev : OHCI1394State := (selfid_run [2, 0]).getD clock1

/-- The device whose transport has just opened (state `HCD_STATE_MAGIC`), linkEnable clear. -/
def opened_dev : OHCI1394State := (hcd_chr_event 0 clock1 ChrEvent.opened).getD clock1

/-- The device `opened_dev` after the greeting of the peer (state
`HCD_STATE_DISCONNECTED`), linkEnable clear. -/
def greeted_dev : OHCI1394State :=
  (hcd_chr_receive 1 opened_dev [0x31, 0x33, 0x39, 0x34]).getD clock1

/-- Fields of a received request given by its bytes (`OHCIReqNoDataPacket`,
`OHCIReqQuadletPacket`, `OHCIReqBlockPacket`): `flags` at byte 0,
`destination_offset_high` at 4, `destination_id` at 6, `destination_offset_low`
at 8 and, in a block request, `data_length` at 14. -/
def req_flags (p : List Nat) : Nat := le_val (p.take 4)
def req_destination_offset_high (p : List Nat) : Nat := le_val ((p.drop 4).take 2)
def req_destination_id (p : List Nat) : Nat := le_val ((p.drop 6).take 2)
def req_destination_offset_low (p : List Nat) : Nat := le_val ((p.drop 8).take 4)
def req_data_length (p : List Nat) : Nat := le_val ((p.drop 14).take 2)

/-- Fields of a response given by its bytes (`OHCIRspNoDataPacket`,
`OHCIRspQuadletPacket`, `OHCIRspBlockPacket`): the 16-bit `flags` at byte 0,
`destination_id` at 2, `r_code` at 5, `source_id` at 6 and, in a block
response, `data_length` at 14. -/
def rsp_flags_field (r : List Nat) : Nat := le_val (r.take 2)
def rsp_destination_id (r : List Nat) : Nat := le_val ((r.drop 2).take 2)
def rsp_r_code (r : List Nat) : Nat := r.getD 5 0
def rsp_source_id (r : List Nat) : Nat := le_val ((r.drop 6).take 2)
def rsp_data_length (r : List Nat) : Nat := le_val ((r.drop 14).take 2)

/-- The little-endian 32-bit word `k` of a packet (`qdata[k]`). -/
def packet_word (r : List Nat) (k : Nat) : Nat := le_val ((r.drop (4 * k)).take 4)

/-- The t_code of a packet (`flags & OHCI_PACKET_FLAGS_T_CODE`). -/
def packet_tcode (p : List Nat) : Nat := le_val (p.take 4) &&& 0x000000F0

/-- The number of bytes the handler of the t_code of `p` collects before it acts:
the `sizeof` of its packet structure, plus `data_length` for the two block
packets that carry data. -/
def packet_size (p : List Nat) : Nat :=
  if packet_tcode p = 0x00 then 16
  else if packet_tcode p = 0x10 then 16 + req_data_length p
  else if packet_tcode p = 0x20 then 12
  else if packet_tcode p = 0x40 then 12
  else if packet_tcode p = 0x50 then 16
  else if packet_tcode p = 0x60 then 16
  else if packet_tcode p = 0x70 then 16 + rsp_data_length p
  else 4

/-- A complete packet with a t_code `hcd_chr_receive` has a handler for. -/
def well_formed (p : List Nat) : Prop :=
  (∀ b ∈ p, b < 256) ∧ packet_tcode p ∈ [0x00, 0x10, 0x20, 0x40, 0x50, 0x60, 0x70] ∧
    p.length = packet_size p

/-- The devices reachable from construction by guest register writes, transport
events and received bytes. -/
inductive chr_reachable : OHCI1394State → Prop
  | init (mem : Nat → Nat) (tv : Nat → Nat × Nat) (inmigrate : Bool) (dma_err : Nat → Bool)
      (junk : Nat → Nat) :
      chr_reachable (hcd_pci_init (zero_state mem tv inmigrate dma_err junk))
  | write (fuel : Nat) (s s' : OHCI1394State) (addr data : Nat) :
      chr_reachable s → hcd_mmio_write fuel s addr data = some s' → chr_reachable s'
  | event (fuel : Nat) (s s' : OHCI1394State) (ev : ChrEvent) :
      chr_reachable s → hcd_chr_event fuel s ev = some s' → chr_reachable s'
  | receive (fuel : Nat) (s s' : OHCI1394State) (inp : List Nat) :
      chr_reachable s → hcd_chr_receive fuel s inp = some s' → chr_reachable s'

/-- A quadlet write request (t_code 0x00, tLabel and retry bits 0xA700) from
node 0x1234 for the word 0xDEADBEEF at the guest address 0x1000. -/
def quadlet_write_req : List Nat :=
  [0x00, 0xA7, 0, 0, 0, 0, 0x34, 0x12, 0x00, 0x10, 0, 0, 0xEF, 0xBE, 0xAD, 0xDE]

/-- A quadlet read request (t_code 0x40) for the address `hi : lo`. -/
def quadlet_read_req (hi lo : Nat) : List Nat :=
  [0x40, 0xA7, 0, 0] ++ le_bytes 2 hi ++ [0x34, 0x12] ++ le_bytes 4 lo

/-- A block read request (t_code 0x50) for `len` bytes at the address `hi : lo`. -/
def block_read_req (hi lo len : Nat) : List Nat :=
  [0x50, 0xA7, 0, 0] ++ le_bytes 2 hi ++ [0x34, 0x12] ++ le_bytes 4 lo ++ [0, 0] ++ le_bytes 2 len

/-- Scenario: the Connected device has received the first 8 bytes of a request
when its transport closes and opens again. -/
def reopened_run : Option OHCI1394State :=
  (hcd_chr_receive 1 connected_dev [0x00, 0xA7, 0, 0, 0, 0, 0x34, 0x12]).bind fun s =>
    (hcd_chr_event 0 s ChrEvent.closed).bind fun s => hcd_chr_event 0 s ChrEvent.opened

/-- The device of the scenario `reopened_run`. -/
def reopened_dev : OHCI1394State := reopened_run.getD clock1

/-! # Verification -/

/-! ## Words -/

theorem not32_lt (x : Nat) : not32 x < 0x100000000 := by
  unfold not32
  have h : x % 0x100000000 < 2 ^ 32 := Nat.mod_lt _ (by norm_num)
  have := Nat.xor_lt_two_pow (x := 0xFFFFFFFF) (y := x % 0x100000000) (n := 32) (by norm_num) h
  simpa using this

theorem and_not32_mod (x d : Nat) : (x &&& not32 d) % 0x100000000 = x &&& not32 d :=
  Nat.mod_eq_of_lt (lt_of_le_of_lt Nat.and_le_right (not32_lt d))

theorem or_mod32 {x d : Nat} (hx : x < 0x100000000) (hd : d < 0x100000000) :
    (x ||| d) % 0x100000000 = x ||| d :=
  Nat.mod_eq_of_lt (Nat.or_lt_two_pow (n := 32) hx hd)

/-! ## The interrupt flag through the write path -/

@[simp] theorem set_regs_irq_asserted (s : OHCI1394State) (i v : Nat) :
    (s.set_regs i v).irq_asserted = s.irq_asserted := rfl
@[simp] theorem or_regs_irq_asserted (s : OHCI1394State) (i v : Nat) :
    (s.or_regs i v).irq_asserted = s.irq_asserted := rfl
@[simp] theorem and_regs_irq_asserted (s : OHCI1394State) (i v : Nat) :
    (s.and_regs i v).irq_asserted = s.irq_asserted := rfl
@[simp] theorem set_reg_irq_asserted (s : OHCI1394State) (i v : Nat) :
    (s.set_reg i v).irq_asserted = s.irq_asserted := rfl
@[simp] theorem or_reg_irq_asserted (s : OHCI1394State) (i v : Nat) :
    (s.or_reg i v).irq_asserted = s.irq_asserted := rfl
@[simp] theorem and_reg_irq_asserted (s : OHCI1394State) (i v : Nat) :
    (s.and_reg i v).irq_asserted = s.irq_asserted := rfl
@[simp] theorem mirror_irq_asserted (s : OHCI1394State) (i : Nat) :
    (s.mirror i).irq_asserted = s.irq_asserted := rfl
@[simp] theorem set_timer_irq_asserted (s : OHCI1394State) (t : ATSel) (v : HCDTimerState) :
    (s.set_timer t v).irq_asserted = s.irq_asserted := by cases t <;> rfl
@[simp] theorem set_root_irq_asserted (s : OHCI1394State) (v : Nat) :
    (set_root s v).irq_asserted = s.irq_asserted := rfl
@[simp] theorem chr_write_irq_asserted (s : OHCI1394State) (b : List Nat) :
    (qemu_chr_fe_write s b).irq_asserted = s.irq_asserted := rfl
@[simp] theorem set_phy_irq_asserted (s : OHCI1394State) (i v : Nat) :
    (set_phy s i v).irq_asserted = s.irq_asserted := rfl
@[simp] theorem set_phy_page_irq_asserted (s : OHCI1394State) (p i v : Nat) :
    (set_phy_page s p i v).irq_asserted = s.irq_asserted := rfl
@[simp] theorem map_lo_word_irq_asserted (s : OHCI1394State) (f : Nat → Nat) :
    (map_lo_word s f).irq_asserted = s.irq_asserted := rfl
@[simp] theorem map_generation_irq_asserted (s : OHCI1394State) (f : Nat → Nat) :
    (map_generation s f).irq_asserted = s.irq_asserted := rfl
@[simp] theorem map_flags_irq_asserted (s : OHCI1394State) (f : Nat → Nat) :
    (map_flags s f).irq_asserted = s.irq_asserted := rfl
@[simp] theorem self_id_write_irq_asserted (s : OHCI1394State) (a v : Nat) :
    (self_id_write s a v).irq_asserted = s.irq_asserted := rfl
@[simp] theorem hcd_soft_reset_irq_asserted (s : OHCI1394State) :
    (hcd_soft_reset s).irq_asserted = s.irq_asserted := rfl
@[simp] theorem set_phy_control_field_irq_asserted (s : OHCI1394State) (k b : Nat) :
    (set_phy_control_field s k b).irq_asserted = s.irq_asserted := rfl
@[simp] theorem phy_control_rd_reg_irq_asserted (s : OHCI1394State) (r : Nat) :
    (phy_control_rd_reg s r).irq_asserted = s.irq_asserted := rfl
@[simp] theorem phy_control_wr_done_irq_asserted (s : OHCI1394State) (r : Nat) :
    (phy_control_wr_done r s).irq_asserted = s.irq_asserted := rfl
@[simp] theorem write_db_irq_asserted (s : OHCI1394State) (a : Nat) (d : HCDArDB) :
    (write_db s a d).irq_asserted = s.irq_asserted := rfl
@[simp] theorem dma_write_irq_asserted (s : OHCI1394State) (a : Nat) (d : List Nat) :
    (dma_write s a d).irq_asserted = s.irq_asserted := rfl
@[simp] theorem clr_active_irq_asserted (s : OHCI1394State) (n : Nat) :
    (CLR_Ax_ACTIVE s n).irq_asserted = s.irq_asserted := rfl
@[simp] theorem set_active_irq_asserted (s : OHCI1394State) (n : Nat) :
    (SET_Ax_ACTIVE s n).irq_asserted = s.irq_asserted := rfl
@[simp] theorem set_cp_irq_asserted (s : OHCI1394State) (n c : Nat) :
    (SET_Ax_COMMAND_PTR s n c).irq_asserted = s.irq_asserted := rfl
@[simp] theorem set_ec_irq_asserted (s : OHCI1394State) (n c : Nat) :
    (SET_Ax_EVENT_CODE s n c).irq_asserted = s.irq_asserted := rfl
@[simp] theorem hcd_at_run_irq_asserted (s : OHCI1394State) (t : ATSel) :
    (hcd_at_run s t).irq_asserted = s.irq_asserted := by
  unfold hcd_at_run; simp
@[simp] theorem timer_mod_irq_asserted (s : OHCI1394State) (t : ATSel) :
    (timer_mod s t).irq_asserted = s.irq_asserted := by
  unfold timer_mod; simp
@[simp] theorem rx_run_irq_asserted (s : OHCI1394State) (a : Nat) :
    (hcd_async_rx_run s a).irq_asserted = s.irq_asserted := rfl
@[simp] theorem rx_stop_irq_asserted (s : OHCI1394State) (a : Nat) :
    (hcd_async_rx_stop s a).irq_asserted = s.irq_asserted := rfl
@[simp] theorem rx_wake_irq_asserted (s : OHCI1394State) (a : Nat) :
    (hcd_async_rx_wake s a).irq_asserted = s.irq_asserted := by
  unfold hcd_async_rx_wake; split_ifs <;> simp
@[simp] theorem self_id_stream_connected_irq_asserted (s : OHCI1394State) :
    (self_id_stream_connected s).irq_asserted = s.irq_asserted := rfl
@[simp] theorem self_id_header_irq_asserted (s : OHCI1394State) :
    (self_id_header s).irq_asserted = s.irq_asserted := rfl
@[simp] theorem self_id_stream_irq_asserted (s : OHCI1394State) :
    (self_id_stream s).irq_asserted = s.irq_asserted := by
  unfold self_id_stream; simp only []; split_ifs <;> simp
@[simp] theorem complete_node_id_irq_asserted (s : OHCI1394State) :
    (complete_node_id s).irq_asserted = s.irq_asserted := by
  unfold complete_node_id; simp only []; split_ifs <;> simp
@[simp] theorem bus_reset_begin_irq_asserted (s : OHCI1394State) :
    (bus_reset_begin s).irq_asserted = s.irq_asserted := by
  unfold bus_reset_begin; simp only []; split_ifs <;> simp
@[simp] theorem rx_next_db_irq_asserted (s : OHCI1394State) (l : RxLocals) :
    (rx_next_db s l).1.irq_asserted = s.irq_asserted := by
  unfold rx_next_db; simp only []; split_ifs <;> simp
@[simp] theorem rx_rsp_step_irq_asserted (s : OHCI1394State) (l : RxLocals) :
    (rx_rsp_step s l).1.irq_asserted = s.irq_asserted := by
  unfold rx_rsp_step rx_case0 rx_case1; simp only []; split_ifs <;> simp

theorem hcd_check_irq_regs (s : OHCI1394State) : (hcd_check_irq s).regs = s.regs := by
  unfold hcd_check_irq; split_ifs <;> rfl

theorem hcd_check_irq_nonzero (s : OHCI1394State) :
    (hcd_check_irq s).irq_asserted ≠ 0 ↔ irq_cond s := by
  unfold hcd_check_irq irq_cond
  split_ifs with h1 h2 h3 <;> simp_all

theorem hcd_check_irq_le (s : OHCI1394State) (h : s.irq_asserted ≤ 1) :
    (hcd_check_irq s).irq_asserted ≤ 1 := by
  unfold hcd_check_irq
  split_ifs <;> simp_all

theorem hcd_check_irq_one (s : OHCI1394State) (h : s.irq_asserted ≤ 1) :
    (hcd_check_irq s).irq_asserted = 1 ↔ irq_cond s := by
  have h1 := hcd_check_irq_nonzero s
  have h2 := hcd_check_irq_le s h
  rw [← h1]; omega

theorem rx_rsp_loop_irq_asserted (fuel : Nat) :
    ∀ (s s' : OHCI1394State) (l : RxLocals),
      rx_rsp_loop fuel s l = some s' → s'.irq_asserted = s.irq_asserted := by
  induction fuel with
  | zero =>
    intro s s' l h
    unfold rx_rsp_loop at h
    split_ifs at h
    simp at h; rw [← h]
  | succ n ih =>
    intro s s' l h
    unfold rx_rsp_loop at h
    split_ifs at h with h3
    · simp at h; rw [← h]
    · rw [ih _ _ _ h, rx_rsp_step_irq_asserted]

theorem rx_rsp_packet_irq_le (fuel : Nat) (s s' : OHCI1394State) (buf : List Nat)
    (size response : Nat) (h : hcd_async_rx_rsp_packet fuel s buf size response = some s')
    (hs : s.irq_asserted ≤ 1) : s'.irq_asserted ≤ 1 := by
  unfold hcd_async_rx_rsp_packet at h
  split_ifs at h with h0
  · simp at h; rw [← h]; exact hs
  · simp only [Option.map_eq_some'] at h
    obtain ⟨s1, hl, rfl⟩ := h
    apply hcd_check_irq_le
    rw [or_reg_irq_asserted, rx_rsp_loop_irq_asserted _ _ _ _ hl]
    simpa using hs

theorem complete_self_id_irq_le (s : OHCI1394State) (hs : s.irq_asserted ≤ 1) :
    (hcd_complete_self_id s).irq_asserted ≤ 1 := by
  unfold hcd_complete_self_id
  apply hcd_check_irq_le
  rw [or_reg_irq_asserted]
  split_ifs <;> simp [hs]

theorem bus_reset_irq_le (fuel : Nat) (s s' : OHCI1394State)
    (h : hcd_bus_reset fuel s = some s') (hs : s.irq_asserted ≤ 1) : s'.irq_asserted ≤ 1 := by
  unfold hcd_bus_reset at h
  simp only [Option.map_eq_some'] at h
  obtain ⟨s1, hr, rfl⟩ := h
  apply complete_self_id_irq_le
  unfold bus_reset_deliver at hr
  split_ifs at hr with h1
  · exact rx_rsp_packet_irq_le _ _ _ _ _ _ hr (by simpa using hs)
  · simp at hr; rw [← hr]; simpa using hs

theorem phy_write_irq_le (fuel : Nat) (s s' : OHCI1394State) (reg data : Nat)
    (h : hcd_phy_write fuel s reg data = some s') (hs : s.irq_asserted ≤ 1) :
    s'.irq_asserted ≤ 1 := by
  unfold hcd_phy_write at h
  split_ifs at h
  · simp at h; rw [← h]; exact hs
  · exact bus_reset_irq_le _ _ _ h (by simpa using hs)
  · simp at h; rw [← h]; exact hs
  · simp at h; rw [← h]; exact hs
  · simp at h; rw [← h]; exact hs

theorem mmio_write_phy_control_irq_le (fuel : Nat) (s s' : OHCI1394State) (data : Nat)
    (h : mmio_write_phy_control fuel s data = some s') (hs : s.irq_asserted ≤ 1) :
    s'.irq_asserted ≤ 1 := by
  unfold mmio_write_phy_control at h
  simp only [] at h
  split_ifs at h with h1 h2 h2
  all_goals first
    | (simp only [Option.map_eq_some'] at h
       obtain ⟨s1, hw, rfl⟩ := h
       simp only [phy_control_wr_done_irq_asserted]
       exact phy_write_irq_le _ _ _ _ _ hw (by simp [hs]))
    | (simp only [Option.some.injEq] at h; rw [← h]; simp [hs])

@[simp] theorem csr_control_irq_asserted (s : OHCI1394State) (d : Nat) :
    (mmio_write_csr_control s d).irq_asserted = s.irq_asserted := by
  unfold mmio_write_csr_control; split_ifs <;> rfl
@[simp] theorem hc_control_link_up_irq_asserted (s : OHCI1394State) :
    (hc_control_link_up s).irq_asserted = s.irq_asserted := by
  unfold hc_control_link_up; split_ifs <;> rfl
@[simp] theorem hc_control_set_irq_asserted (s : OHCI1394State) (d : Nat) :
    (mmio_write_hc_control_set s d).irq_asserted = s.irq_asserted := by
  unfold mmio_write_hc_control_set; simp only []; split_ifs <;> simp
@[simp] theorem hc_control_clear_irq_asserted (s : OHCI1394State) (d : Nat) :
    (mmio_write_hc_control_clear s d).irq_asserted = s.irq_asserted := rfl
@[simp] theorem set_mirror_irq_asserted (s : OHCI1394State) (a d : Nat) :
    (mmio_write_set_mirror s a d).irq_asserted = s.irq_asserted := rfl
@[simp] theorem clear_mirror_irq_asserted (s : OHCI1394State) (a d : Nat) :
    (mmio_write_clear_mirror s a d).irq_asserted = s.irq_asserted := rfl
@[simp] theorem write_set_irq_asserted (s : OHCI1394State) (a d : Nat) :
    (mmio_write_set s a d).irq_asserted = s.irq_asserted := rfl
@[simp] theorem write_clear_irq_asserted (s : OHCI1394State) (a d : Nat) :
    (mmio_write_clear s a d).irq_asserted = s.irq_asserted := rfl
@[simp] theorem write_node_id_irq_asserted (s : OHCI1394State) (d : Nat) :
    (mmio_write_node_id s d).irq_asserted = s.irq_asserted := rfl
@[simp] theorem at_context_kick_irq_asserted (s : OHCI1394State) (a d : Nat) :
    (at_context_kick s a d).irq_asserted = s.irq_asserted := by
  unfold at_context_kick; simp only []; split_ifs <;> simp
@[simp] theorem at_context_set_irq_asserted (s : OHCI1394State) (a d : Nat) :
    (mmio_write_at_context_set s a d).irq_asserted = s.irq_asserted := by
  unfold mmio_write_at_context_set; simp only []; split_ifs <;> simp
@[simp] theorem ar_context_set_irq_asserted (s : OHCI1394State) (a d : Nat) :
    (mmio_write_ar_context_set s a d).irq_asserted = s.irq_asserted := by
  unfold mmio_write_ar_context_set; simp only []; split_ifs <;> simp
@[simp] theorem ar_context_clear_irq_asserted (s : OHCI1394State) (a d : Nat) :
    (mmio_write_ar_context_clear s a d).irq_asserted = s.irq_asserted := by
  unfold mmio_write_ar_context_clear; simp only []; split_ifs <;> simp

theorem ite_some_elim {α : Type} {c : Prop} [Decidable c] {a b : Option α} {x : α} {Q : Prop}
    (h : (if c then a else b) = some x) (ha : a = some x → Q) (hb : b = some x → Q) : Q := by
  split_ifs at h
  · exact ha h
  · exact hb h

theorem mmio_write_switch_irq_le (fuel : Nat) (s s' : OHCI1394State) (addr data : Nat)
    (h : mmio_write_switch fuel s addr data = some s') (hs : s.irq_asserted ≤ 1) :
    s'.irq_asserted ≤ 1 := by
  unfold mmio_write_switch at h
  repeat' (with_reducible refine ite_some_elim h (fun h => ?_) (fun h => ?_))
  all_goals first
    | exact mmio_write_phy_control_irq_le _ _ _ _ h hs
    | (simp only [Option.some.injEq] at h; rw [← h]; simpa using hs)

theorem hcd_check_irq_state (s : OHCI1394State) : (hcd_check_irq s).state = s.state := by
  unfold hcd_check_irq; split_ifs <;> rfl

theorem hcd_check_irq_root (s : OHCI1394State) : (hcd_check_irq s).root = s.root := by
  unfold hcd_check_irq; split_ifs <;> rfl

theorem hcd_check_irq_chr (s : OHCI1394State) : (hcd_check_irq s).chr = s.chr := by
  unfold hcd_check_irq; split_ifs <;> rfl

/-- Whatever one pass of the AR loop leaves alone, the whole loop leaves alone. -/
theorem rx_rsp_loop_preserves {α : Type} (obs : OHCI1394State → α)
    (hstep : ∀ s l, obs (rx_rsp_step s l).1 = obs s) (fuel : Nat) :
    ∀ (s s' : OHCI1394State) (l : RxLocals), rx_rsp_loop fuel s l = some s' → obs s' = obs s := by
  induction fuel with
  | zero =>
    intro s s' l h
    unfold rx_rsp_loop at h
    split_ifs at h
    simp at h; rw [← h]
  | succ n ih =>
    intro s s' l h
    unfold rx_rsp_loop at h
    split_ifs at h with h3
    · simp at h; rw [← h]
    · rw [ih _ _ _ h, hstep]

@[simp] theorem set_regs_regs (s : OHCI1394State) (i v j : Nat) :
    (s.set_regs i v).regs j = if j = i then v % 0x100000000 else s.regs j := rfl
@[simp] theorem set_regs_state (s : OHCI1394State) (i v : Nat) :
    (s.set_regs i v).state = s.state := rfl
@[simp] theorem set_regs_root (s : OHCI1394State) (i v : Nat) :
    (s.set_regs i v).root = s.root := rfl

theorem rx_rsp_step_state (s : OHCI1394State) (l : RxLocals) :
    (rx_rsp_step s l).1.state = s.state := by
  unfold rx_rsp_step rx_case0 rx_case1 rx_next_db; simp only []; split_ifs <;> rfl

theorem rx_rsp_step_root (s : OHCI1394State) (l : RxLocals) :
    (rx_rsp_step s l).1.root = s.root := by
  unfold rx_rsp_step rx_case0 rx_case1 rx_next_db; simp only []; split_ifs <;> rfl

/-- One pass of the AR loop writes no register word other than `context_control`
(word 120) and `command_ptr` (word 123) of the AR-response context. -/
theorem rx_rsp_step_regs (s : OHCI1394State) (l : RxLocals) (i : Nat) (h1 : i ≠ 120)
    (h2 : i ≠ 123) : (rx_rsp_step s l).1.regs i = s.regs i := by
  unfold rx_rsp_step rx_case0 rx_case1 rx_next_db
  simp only []
  split_ifs <;>
    simp [write_db, dma_write, CLR_Ax_ACTIVE, SET_Ax_COMMAND_PTR, OHCI1394State.and_regs, Ax_CC,
      Ax_CP, h1, h2]

theorem rx_rsp_packet_state (fuel : Nat) (s s' : OHCI1394State) (buf : List Nat)
    (size response : Nat) (h : hcd_async_rx_rsp_packet fuel s buf size response = some s') :
    s'.state = s.state ∧ s'.root = s.root := by
  unfold hcd_async_rx_rsp_packet at h
  split_ifs at h with h0
  · simp at h; rw [← h]; exact ⟨rfl, rfl⟩
  · simp only [Option.map_eq_some'] at h
    obtain ⟨s1, hl, rfl⟩ := h
    have e1 := rx_rsp_loop_preserves (·.state) rx_rsp_step_state _ _ _ _ hl
    have e2 := rx_rsp_loop_preserves (·.root) rx_rsp_step_root _ _ _ _ hl
    unfold rx_rsp_finish
    rw [hcd_check_irq_state, hcd_check_irq_root]
    exact ⟨e1, e2⟩

/-- AR-response delivery writes no register word other than `int_event` (word 32)
and `context_control` and `command_ptr` of the AR-response context. -/
theorem rx_rsp_packet_regs (fuel : Nat) (s s' : OHCI1394State) (buf : List Nat)
    (size response : Nat) (h : hcd_async_rx_rsp_packet fuel s buf size response = some s')
    (i : Nat) (h0 : i ≠ 32) (h1 : i ≠ 120) (h2 : i ≠ 123) : s'.regs i = s.regs i := by
  unfold hcd_async_rx_rsp_packet at h
  split_ifs at h with hz
  · simp at h; rw [← h]
  · simp only [Option.map_eq_some'] at h
    obtain ⟨s1, hl, rfl⟩ := h
    unfold rx_rsp_finish
    rw [hcd_check_irq_regs]
    have := rx_rsp_loop_preserves (·.regs i) (fun s l => rx_rsp_step_regs s l i h1 h2) _ _ _ _ hl
    simp only at this
    simp [OHCI1394State.or_reg, OHCI1394State.or_regs, h0, this, SET_Ax_EVENT_CODE, Ax_CC, h1]

theorem isSome_ite {α : Type} {c : Prop} [Decidable c] {a b : Option α}
    (ha : c → a.isSome = true) (hb : ¬c → b.isSome = true) :
    (if c then a else b).isSome = true := by
  split_ifs with h
  · exact ha h
  · exact hb h

/-- Every MMIO write other than one to `phy_control` returns, whatever the fuel. -/
theorem hcd_mmio_write_returns (fuel : Nat) (s : OHCI1394State) (addr data : Nat)
    (h : addr ≠ OFF_phy_control) : (hcd_mmio_write fuel s addr data).isSome = true := by
  unfold hcd_mmio_write mmio_write_switch
  rw [Option.isSome_map']
  repeat' (with_reducible refine isSome_ite (fun _ => ?_) (fun _ => ?_))
  all_goals first
    | rfl
    | contradiction

/-- C1: an MMIO write returns (always, when the offset is not `phy_control`),
and when `hcd_mmio_write` returns the interrupt flag is set exactly when
`int_mask` bit 31 is set and `int_event AND int_mask` is non-zero, both read
after the write: `irq_asserted` is non-zero exactly then, and it is 1 exactly
then provided it was 0 or 1 before the write (the only values the device ever
stores).  In particular a write to `int_event_clear` (offset 0x84) that leaves
no masked event bit ends with `irq_asserted = 0`. -/
theorem hcd_mmio_write_irq (fuel : Nat) (s : OHCI1394State) (addr data : Nat) :
    (addr ≠ OFF_phy_control → (hcd_mmio_write fuel s addr data).isSome = true) ∧
    ∀ s', hcd_mmio_write fuel s addr data = some s' →
      (s'.irq_asserted ≠ 0 ↔
        (s'.reg OFF_int_mask &&& 0x80000000 ≠ 0 ∧
          s'.reg OFF_int_event &&& s'.reg OFF_int_mask ≠ 0)) ∧
      (s.irq_asserted ≤ 1 →
        (s'.irq_asserted = 1 ↔
          (s'.reg OFF_int_mask &&& 0x80000000 ≠ 0 ∧
            s'.reg OFF_int_event &&& s'.reg OFF_int_mask ≠ 0))) ∧
      (addr = OFF_int_event_masked →
        s'.reg OFF_int_event = s.reg OFF_int_event &&& not32 data ∧
        s'.reg OFF_int_mask = s.reg OFF_int_mask ∧
        ((s.reg OFF_int_event &&& not32 data) &&& s.reg OFF_int_mask = 0 →
          s'.irq_asserted = 0)) := by
  refine ⟨hcd_mmio_write_returns fuel s addr data, ?_⟩
  intro s' h
  unfold hcd_mmio_write at h
  simp only [Option.map_eq_some'] at h
  obtain ⟨s1, hsw, rfl⟩ := h
  have hnz := hcd_check_irq_nonzero s1
  unfold irq_cond at hnz
  refine ⟨?_, ?_, ?_⟩
  · simpa [OHCI1394State.reg, hcd_check_irq_regs] using hnz
  · intro hs
    have h1 := hcd_check_irq_one s1 (mmio_write_switch_irq_le _ _ _ _ _ hsw hs)
    unfold irq_cond at h1
    simpa [OHCI1394State.reg, hcd_check_irq_regs] using h1
  · intro ha
    subst ha
    have e : s1 = mmio_write_clear s OFF_int_event_masked data := by
      simpa [mmio_write_switch] using hsw.symm
    subst e
    have e1 : (mmio_write_clear s OFF_int_event_masked data).reg OFF_int_event =
        s.reg OFF_int_event &&& not32 data := by
      simp [mmio_write_clear, OHCI1394State.reg, OHCI1394State.and_regs, and_not32_mod,
        show (33 &&& 65534 : Nat) = 32 from rfl]
    have e2 : (mmio_write_clear s OFF_int_event_masked data).reg OFF_int_mask =
        s.reg OFF_int_mask := by
      simp [mmio_write_clear, OHCI1394State.reg, OHCI1394State.and_regs,
        show (33 &&& 65534 : Nat) = 32 from rfl]
    refine ⟨?_, ?_, ?_⟩
    · simpa [OHCI1394State.reg, hcd_check_irq_regs] using e1
    · simpa [OHCI1394State.reg, hcd_check_irq_regs] using e2
    · intro hz
      by_contra hne
      have := hnz.mp hne
      rw [e1, e2] at this
      exact this.2 hz

/-- Witness for C1: with one masked event pending and the line asserted,
clearing that event through `int_event_clear` returns and drops the flag. -/
theorem hcd_mmio_write_irq_witness :
    (hcd_mmio_write 0 irq_demo OFF_int_event_masked 1).isSome = true ∧
      irq_demo.irq_asserted = 1 ∧
      (hcd_check_irq (mmio_write_clear irq_demo OFF_int_event_masked 1)).irq_asserted = 0 :=
  ⟨(hcd_mmio_write_irq 0 irq_demo OFF_int_event_masked 1).1 (by decide), rfl,
    (((hcd_mmio_write_irq 0 irq_demo OFF_int_event_masked 1).2 _ rfl).2.2 rfl).2.2
      (by decide)⟩

/-! ## Named registers after the helpers -/

@[simp] theorem reg_set_reg (s : OHCI1394State) (off v off' : Nat) :
    (s.set_reg off v).reg off' = if off' >>> 2 = off >>> 2 then v % 0x100000000 else s.reg off' :=
  rfl
@[simp] theorem reg_or_reg (s : OHCI1394State) (off v off' : Nat) :
    (s.or_reg off v).reg off' =
      if off' >>> 2 = off >>> 2 then (s.reg off ||| v) % 0x100000000 else s.reg off' := rfl
@[simp] theorem reg_and_reg (s : OHCI1394State) (off v off' : Nat) :
    (s.and_reg off v).reg off' =
      if off' >>> 2 = off >>> 2 then (s.reg off &&& v) % 0x100000000 else s.reg off' := rfl
@[simp] theorem reg_self_id_write (s : OHCI1394State) (a v off : Nat) :
    (self_id_write s a v).reg off = s.reg off := by unfold self_id_write; rfl
@[simp] theorem state_self_id_write (s : OHCI1394State) (a v : Nat) :
    (self_id_write s a v).state = s.state := rfl
@[simp] theorem state_set_reg (s : OHCI1394State) (off v : Nat) :
    (s.set_reg off v).state = s.state := rfl
@[simp] theorem state_or_reg (s : OHCI1394State) (off v : Nat) :
    (s.or_reg off v).state = s.state := rfl
@[simp] theorem state_and_reg (s : OHCI1394State) (off v : Nat) :
    (s.and_reg off v).state = s.state := rfl
@[simp] theorem root_set_reg (s : OHCI1394State) (off v : Nat) :
    (s.set_reg off v).root = s.root := rfl
@[simp] theorem root_or_reg (s : OHCI1394State) (off v : Nat) :
    (s.or_reg off v).root = s.root := rfl
@[simp] theorem root_and_reg (s : OHCI1394State) (off v : Nat) :
    (s.and_reg off v).root = s.root := rfl
@[simp] theorem reg_hcd_check_irq (s : OHCI1394State) (off : Nat) :
    (hcd_check_irq s).reg off = s.reg off := by
  unfold OHCI1394State.reg; rw [hcd_check_irq_regs]

theorem SelfIDCount.value_lt (a b c : Nat) : SelfIDCount.value a b c < 0x100000000 := by
  unfold SelfIDCount.value; omega
@[simp] theorem SelfIDCount.lo_word_value (a b c : Nat) :
    SelfIDCount.lo_word (SelfIDCount.value a b c) = a % 0x10000 := by
  unfold SelfIDCount.value SelfIDCount.lo_word; omega
@[simp] theorem SelfIDCount.generation_value (a b c : Nat) :
    SelfIDCount.generation (SelfIDCount.value a b c) = b % 0x100 := by
  unfold SelfIDCount.value SelfIDCount.generation; omega
@[simp] theorem SelfIDCount.flags_value (a b c : Nat) :
    SelfIDCount.flags (SelfIDCount.value a b c) = c % 0x100 := by
  unfold SelfIDCount.value SelfIDCount.flags; omega
@[simp] theorem SelfIDCount.value_mod (a b c : Nat) :
    SelfIDCount.value a b c % 0x100000000 = SelfIDCount.value a b c :=
  Nat.mod_eq_of_lt (SelfIDCount.value_lt a b c)

@[simp] theorem reg_map_lo_word (s : OHCI1394State) (f : Nat → Nat) (off : Nat) :
    (map_lo_word s f).reg off =
      if off >>> 2 = OFF_self_id_count >>> 2 then
        SelfIDCount.value (f (SelfIDCount.lo_word (s.reg OFF_self_id_count)))
          (SelfIDCount.generation (s.reg OFF_self_id_count))
          (SelfIDCount.flags (s.reg OFF_self_id_count))
      else s.reg off := by
  unfold map_lo_word; rw [reg_set_reg, SelfIDCount.value_mod]
@[simp] theorem reg_map_generation (s : OHCI1394State) (f : Nat → Nat) (off : Nat) :
    (map_generation s f).reg off =
      if off >>> 2 = OFF_self_id_count >>> 2 then
        SelfIDCount.value (SelfIDCount.lo_word (s.reg OFF_self_id_count))
          (f (SelfIDCount.generation (s.reg OFF_self_id_count)))
          (SelfIDCount.flags (s.reg OFF_self_id_count))
      else s.reg off := by
  unfold map_generation; rw [reg_set_reg, SelfIDCount.value_mod]
@[simp] theorem reg_map_flags (s : OHCI1394State) (f : Nat → Nat) (off : Nat) :
    (map_flags s f).reg off =
      if off >>> 2 = OFF_self_id_count >>> 2 then
        SelfIDCount.value (SelfIDCount.lo_word (s.reg OFF_self_id_count))
          (SelfIDCount.generation (s.reg OFF_self_id_count))
          (f (SelfIDCount.flags (s.reg OFF_self_id_count)))
      else s.reg off := by
  unfold map_flags; rw [reg_set_reg, SelfIDCount.value_mod]
@[simp] theorem state_map_lo_word (s : OHCI1394State) (f : Nat → Nat) :
    (map_lo_word s f).state = s.state := rfl
@[simp] theorem state_map_generation (s : OHCI1394State) (f : Nat → Nat) :
    (map_generation s f).state = s.state := rfl
@[simp] theorem state_map_flags (s : OHCI1394State) (f : Nat → Nat) :
    (map_flags s f).state = s.state := rfl
@[simp] theorem root_map_lo_word (s : OHCI1394State) (f : Nat → Nat) :
    (map_lo_word s f).root = s.root := by unfold map_lo_word; rfl
@[simp] theorem root_map_generation (s : OHCI1394State) (f : Nat → Nat) :
    (map_generation s f).root = s.root := rfl
@[simp] theorem root_map_flags (s : OHCI1394State) (f : Nat → Nat) :
    (map_flags s f).root = s.root := rfl
@[simp] theorem root_self_id_write (s : OHCI1394State) (a v : Nat) :
    (self_id_write s a v).root = s.root := by unfold self_id_write; rfl

/-! ## Bus reset -/

theorem complete_node_id_state (s : OHCI1394State) : (complete_node_id s).state = s.state := by
  unfold complete_node_id; simp only []; split_ifs <;> rfl

theorem complete_node_id_root (s : OHCI1394State) : (complete_node_id s).root = s.root := by
  unfold complete_node_id; simp only []; split_ifs <;> rfl

theorem complete_node_id_reg (s : OHCI1394State) (off : Nat) (h : off >>> 2 ≠ 58) :
    (complete_node_id s).reg off = s.reg off := by
  unfold complete_node_id; simp only []; split_ifs <;> simp [h]

theorem complete_node_id_node_id (s : OHCI1394State) :
    (complete_node_id s).reg OFF_node_id =
      ((((if s.root ≠ 0 then 0 else 1) ||| 0xFFC0) |||
        (if s.state = HCD_STATE_CONNECTED then NODEID_CPS else 0)) |||
        (if s.root ≠ 0 then NODEID_ROOT else 0)) ||| NODEID_ID_VALID := by
  unfold complete_node_id
  simp only []
  split_ifs <;> simp_all

theorem self_id_stream_state (s : OHCI1394State) : (self_id_stream s).state = s.state := by
  unfold self_id_stream self_id_stream_connected self_id_header; simp only []
  split_ifs <;> rfl

theorem self_id_stream_root (s : OHCI1394State) : (self_id_stream s).root = s.root := by
  unfold self_id_stream self_id_stream_connected self_id_header; simp only []
  split_ifs <;> simp

theorem self_id_stream_reg (s : OHCI1394State) (off : Nat) (h : off >>> 2 ≠ 26) :
    (self_id_stream s).reg off = s.reg off := by
  unfold self_id_stream self_id_stream_connected self_id_header; simp only []
  split_ifs <;> simp [h]

theorem self_id_stream_count (s : OHCI1394State) :
    (self_id_stream s).reg OFF_self_id_count =
      SelfIDCount.value
        (SelfIDCount.lo_word (s.reg OFF_self_id_count) +
          (if s.state = HCD_STATE_CONNECTED then 20 else 12))
        (SelfIDCount.generation (s.reg OFF_self_id_count))
        (SelfIDCount.flags (s.reg OFF_self_id_count)) := by
  unfold self_id_stream self_id_stream_connected self_id_header
  simp only [state_map_lo_word, state_self_id_write]
  split_ifs with h <;> simp <;> unfold SelfIDCount.value SelfIDCount.lo_word <;> omega

@[simp] theorem SelfIDCount.lo_word_mod (v : Nat) :
    SelfIDCount.lo_word v % 0x10000 = SelfIDCount.lo_word v := by
  unfold SelfIDCount.lo_word; omega
@[simp] theorem SelfIDCount.generation_mod (v : Nat) :
    SelfIDCount.generation v % 0x100 = SelfIDCount.generation v := by
  unfold SelfIDCount.generation; omega
@[simp] theorem SelfIDCount.flags_mod (v : Nat) :
    SelfIDCount.flags v % 0x100 = SelfIDCount.flags v := by
  unfold SelfIDCount.flags; omega

theorem hcd_complete_self_id_state (s : OHCI1394State) :
    (hcd_complete_self_id s).state = s.state := by
  unfold hcd_complete_self_id
  rw [hcd_check_irq_state]
  split_ifs <;> simp [self_id_stream_state, complete_node_id_state]

theorem hcd_complete_self_id_root (s : OHCI1394State) :
    (hcd_complete_self_id s).root = s.root := by
  unfold hcd_complete_self_id
  rw [hcd_check_irq_root]
  split_ifs <;> simp [self_id_stream_root, complete_node_id_root]

theorem hcd_complete_self_id_node_id (s : OHCI1394State) :
    (hcd_complete_self_id s).reg OFF_node_id =
      ((((if s.root ≠ 0 then 0 else 1) ||| 0xFFC0) |||
        (if s.state = HCD_STATE_CONNECTED then NODEID_CPS else 0)) |||
        (if s.root ≠ 0 then NODEID_ROOT else 0)) ||| NODEID_ID_VALID := by
  rw [← complete_node_id_node_id]
  unfold hcd_complete_self_id
  rw [reg_hcd_check_irq]
  split_ifs <;> simp [self_id_stream_reg]

/-- After `hcd_complete_self_id` the self-ID count holds the old generation,
the old flags without the error bit, and a `lo_word` that is the old one
masked with `~0x07FC` plus the bytes of the stream when RcvSelfID is set. -/
theorem hcd_complete_self_id_count (s : OHCI1394State) :
    (hcd_complete_self_id s).reg OFF_self_id_count =
      SelfIDCount.value
        ((SelfIDCount.lo_word (s.reg OFF_self_id_count) &&& 0xF803) +
          (if s.reg OFF_link_control &&& 0x200 ≠ 0 then
            (if s.state = HCD_STATE_CONNECTED then 20 else 12) else 0))
        (SelfIDCount.generation (s.reg OFF_self_id_count))
        (SelfIDCount.flags (s.reg OFF_self_id_count) &&& 0x7F) := by
  have hb : SelfIDCount.lo_word (s.reg OFF_self_id_count) &&& 0xF803 ≤ 0xF803 := Nat.and_le_right
  have hf : SelfIDCount.flags (s.reg OFF_self_id_count) &&& 0x7F ≤ 0x7F := Nat.and_le_right
  unfold hcd_complete_self_id
  rw [reg_hcd_check_irq]
  split_ifs with h1 h2 h3 h4 <;>
    simp [self_id_stream_count, self_id_stream_reg, complete_node_id_reg,
      complete_node_id_state] at * <;>
    simp_all <;> unfold SelfIDCount.value <;> omega

@[simp] theorem set_root_state (s : OHCI1394State) (v : Nat) : (set_root s v).state = s.state := rfl
@[simp] theorem set_root_root (s : OHCI1394State) (v : Nat) : (set_root s v).root = v := rfl
@[simp] theorem set_root_reg (s : OHCI1394State) (v off : Nat) :
    (set_root s v).reg off = s.reg off := rfl
@[simp] theorem set_root_regs (s : OHCI1394State) (v : Nat) : (set_root s v).regs = s.regs := rfl

theorem bus_reset_begin_state (s : OHCI1394State) : (bus_reset_begin s).state = s.state := by
  unfold bus_reset_begin; simp only []; split_ifs <;> simp

theorem bus_reset_begin_root (s : OHCI1394State) :
    (bus_reset_begin s).root = if s.state ≠ HCD_STATE_CONNECTED then 1 else s.root := by
  unfold bus_reset_begin; simp only []; split_ifs <;> simp_all

theorem bus_reset_begin_count (s : OHCI1394State) :
    (bus_reset_begin s).reg OFF_self_id_count =
      SelfIDCount.value (SelfIDCount.lo_word (s.reg OFF_self_id_count))
        (SelfIDCount.generation (s.reg OFF_self_id_count) + 1)
        (SelfIDCount.flags (s.reg OFF_self_id_count)) := by
  unfold bus_reset_begin; simp only []; split_ifs <;> simp

theorem bus_reset_begin_link_control (s : OHCI1394State) :
    (bus_reset_begin s).reg OFF_link_control = s.reg OFF_link_control := by
  unfold bus_reset_begin; simp only []; split_ifs <;> simp

theorem bus_reset_deliver_frame (fuel : Nat) (s s' : OHCI1394State)
    (h : bus_reset_deliver fuel s = some s') :
    s'.state = s.state ∧ s'.root = s.root ∧
      ∀ i, i ≠ 32 → i ≠ 120 → i ≠ 123 → s'.regs i = s.regs i := by
  unfold bus_reset_deliver at h
  split_ifs at h
  · exact ⟨(rx_rsp_packet_state _ _ _ _ _ _ h).1, (rx_rsp_packet_state _ _ _ _ _ _ h).2,
      fun i => rx_rsp_packet_regs _ _ _ _ _ _ h i⟩
  · simp at h; subst h; exact ⟨rfl, rfl, fun _ _ _ _ => rfl⟩

/-- A bus reset returns, whatever the fuel, when the AR-response context is not running. -/
theorem hcd_bus_reset_returns (fuel : Nat) (s : OHCI1394State)
    (h : s.reg OFF_async_response_receive &&& 0x00008000 = 0) :
    (hcd_bus_reset fuel s).isSome = true := by
  have e : (bus_reset_begin s).reg OFF_async_response_receive = s.reg OFF_async_response_receive := by
    unfold bus_reset_begin; simp only []; split_ifs <;> simp
  unfold hcd_bus_reset bus_reset_deliver
  rw [e]
  simp [h]

/-- What `hcd_bus_reset` is made of: the state after the first part, the
AR-response delivery, then `hcd_complete_self_id`. -/
theorem hcd_bus_reset_some (fuel : Nat) (s s' : OHCI1394State)
    (h : hcd_bus_reset fuel s = some s') :
    ∃ s1, bus_reset_deliver fuel (bus_reset_begin s) = some s1 ∧ s' = hcd_complete_self_id s1 := by
  unfold hcd_bus_reset at h
  simp only [Option.map_eq_some'] at h
  obtain ⟨s1, h1, rfl⟩ := h
  exact ⟨s1, h1, rfl⟩

/-- A bus reset keeps the link state, forces `root` to 1 unless Connected, and
adds 1 modulo 256 to the self-ID generation. -/
theorem hcd_bus_reset_link (fuel : Nat) (s s' : OHCI1394State)
    (h : hcd_bus_reset fuel s = some s') :
    s'.state = s.state ∧
    s'.root = (if s.state ≠ HCD_STATE_CONNECTED then 1 else s.root) ∧
    SelfIDCount.generation (s'.reg OFF_self_id_count) =
      (SelfIDCount.generation (s.reg OFF_self_id_count) + 1) % 256 := by
  obtain ⟨s1, h1, rfl⟩ := hcd_bus_reset_some _ _ _ h
  obtain ⟨hst, hroot, hregs⟩ := bus_reset_deliver_frame _ _ _ h1
  rw [bus_reset_begin_state] at hst
  rw [bus_reset_begin_root] at hroot
  have hc : s1.reg OFF_self_id_count = (bus_reset_begin s).reg OFF_self_id_count :=
    hregs 26 (by decide) (by decide) (by decide)
  rw [bus_reset_begin_count] at hc
  refine ⟨?_, ?_, ?_⟩
  · rw [hcd_complete_self_id_state, hst]
  · rw [hcd_complete_self_id_root, hroot]
  · rw [hcd_complete_self_id_count, hc]
    simp

/-- C5: a bus reset returns when the AR-response context is not running, and
after `hcd_bus_reset` returns, with `root` forced to 1 when the link state is
not Connected, `node_id` is
`(root ? 0 : 1) | 0xFFC0 | (Connected ? 0x08000000 : 0) | (root ? 0x40000000 : 0) | 0x80000000`
whatever it was before; a bus reset while not Connected leaves `0xC000FFC0`. -/
theorem hcd_bus_reset_node_id (fuel : Nat) (s : OHCI1394State) :
    (s.reg OFF_async_response_receive &&& 0x00008000 = 0 →
      (hcd_bus_reset fuel s).isSome = true) ∧
    ∀ s', hcd_bus_reset fuel s = some s' →
      s'.root = (if s.state ≠ HCD_STATE_CONNECTED then 1 else s.root) ∧
      s'.reg OFF_node_id =
        ((((if s'.root ≠ 0 then 0 else 1) ||| 0xFFC0) |||
          (if s.state = HCD_STATE_CONNECTED then 0x08000000 else 0)) |||
          (if s'.root ≠ 0 then 0x40000000 else 0)) ||| 0x80000000 ∧
      (s.state ≠ HCD_STATE_CONNECTED → s'.reg OFF_node_id = 0xC000FFC0) := by
  refine ⟨hcd_bus_reset_returns fuel s, ?_⟩
  intro s' h
  have hr := (hcd_bus_reset_link _ _ _ h).2.1
  obtain ⟨s1, h1, rfl⟩ := hcd_bus_reset_some _ _ _ h
  obtain ⟨hst, hroot, -⟩ := bus_reset_deliver_frame _ _ _ h1
  rw [bus_reset_begin_state] at hst
  rw [bus_reset_begin_root] at hroot
  have hn := hcd_complete_self_id_node_id s1
  rw [hst] at hn
  refine ⟨hr, ?_, ?_⟩
  · rw [hn, hcd_complete_self_id_root]
  · intro hc
    rw [hn, hroot]
    simp [hc]

/-- Witness for C5: a bus reset of the freshly constructed device (not
Connected) returns and leaves `node_id = 0xC000FFC0`. -/
theorem hcd_bus_reset_node_id_witness :
    (hcd_bus_reset 0 init_state).isSome = true ∧
      (hcd_complete_self_id (bus_reset_begin init_state)).reg OFF_node_id = 0xC000FFC0 :=
  ⟨(hcd_bus_reset_node_id 0 init_state).1 (by decide),
    ((hcd_bus_reset_node_id 0 init_state).2 _ rfl).2.2 (by decide)⟩

/-- C4 as stated fails: on the fresh device (RcvSelfID clear, not Connected) a
bus reset leaves `lo_word = 0`, not 12; and after the guest has written
generation 255 and `lo_word` 3 to the count register and set RcvSelfID, a bus
reset leaves generation 0 and `lo_word` 15. -/
theorem hcd_bus_reset_count_counterexample :
    init_state.state ≠ HCD_STATE_CONNECTED ∧
    (hcd_bus_reset 0 init_state).map
      (fun s => SelfIDCount.lo_word (s.reg OFF_self_id_count)) = some 0 ∧
    count_run.map (fun s => (s.state, SelfIDCount.generation (s.reg OFF_self_id_count),
      SelfIDCount.lo_word (s.reg OFF_self_id_count))) = some (0, 255, 3) ∧
    (count_run.bind (hcd_bus_reset 0)).map
      (fun s => (SelfIDCount.generation (s.reg OFF_self_id_count),
        SelfIDCount.lo_word (s.reg OFF_self_id_count))) = some (0, 15) := by
  refine ⟨by decide, by rfl, by rfl, by rfl⟩

/-- C4 (amended): a bus reset returns when the AR-response context is not
running, and after `hcd_bus_reset` returns the generation is the old one plus 1
modulo 256; `lo_word` is the old `lo_word AND 0xF803` (the bits outside the
size field) plus, when RcvSelfID (`link_control` bit 0x200) is set, 12 when the
link state is not Connected and 20 when it is; so with RcvSelfID set and no old
bit outside the size field `lo_word` is 12 or 20, and with RcvSelfID clear
nothing is added. -/
theorem hcd_bus_reset_count (fuel : Nat) (s : OHCI1394State) :
    (s.reg OFF_async_response_receive &&& 0x00008000 = 0 →
      (hcd_bus_reset fuel s).isSome = true) ∧
    ∀ s', hcd_bus_reset fuel s = some s' →
      SelfIDCount.generation (s'.reg OFF_self_id_count) =
        (SelfIDCount.generation (s.reg OFF_self_id_count) + 1) % 256 ∧
      SelfIDCount.lo_word (s'.reg OFF_self_id_count) =
        (SelfIDCount.lo_word (s.reg OFF_self_id_count) &&& 0xF803) +
          (if s.reg OFF_link_control &&& 0x200 ≠ 0 then
            (if s.state = HCD_STATE_CONNECTED then 20 else 12) else 0) ∧
      (s.reg OFF_link_control &&& 0x200 ≠ 0 →
        SelfIDCount.lo_word (s.reg OFF_self_id_count) &&& 0xF803 = 0 →
        SelfIDCount.lo_word (s'.reg OFF_self_id_count) =
          if s.state = HCD_STATE_CONNECTED then 20 else 12) := by
  refine ⟨hcd_bus_reset_returns fuel s, ?_⟩
  intro s' h
  have hgen := (hcd_bus_reset_link _ _ _ h).2.2
  obtain ⟨s1, h1, rfl⟩ := hcd_bus_reset_some _ _ _ h
  obtain ⟨hst, -, hregs⟩ := bus_reset_deliver_frame _ _ _ h1
  rw [bus_reset_begin_state] at hst
  have hc : s1.reg OFF_self_id_count = (bus_reset_begin s).reg OFF_self_id_count :=
    hregs 26 (by decide) (by decide) (by decide)
  have hl : s1.reg OFF_link_control = s.reg OFF_link_control :=
    (hregs 56 (by decide) (by decide) (by decide)).trans (bus_reset_begin_link_control s)
  rw [bus_reset_begin_count] at hc
  have hb : SelfIDCount.lo_word (s.reg OFF_self_id_count) &&& 0xF803 ≤ 0xF803 := Nat.and_le_right
  have key : SelfIDCount.lo_word ((hcd_complete_self_id s1).reg OFF_self_id_count) =
      (SelfIDCount.lo_word (s.reg OFF_self_id_count) &&& 0xF803) +
        (if s.reg OFF_link_control &&& 0x200 ≠ 0 then
          (if s.state = HCD_STATE_CONNECTED then 20 else 12) else 0) := by
    rw [hcd_complete_self_id_count, hc, hl, hst]
    simp only [SelfIDCount.lo_word_value, SelfIDCount.lo_word_mod]
    split_ifs <;> omega
  refine ⟨hgen, key, ?_⟩
  intro hrcv hz
  rw [key, hz, if_pos hrcv]
  simp

/-- Witness for C4 (amended): a bus reset of the fresh device with RcvSelfID set
returns, with `lo_word` 12. -/
theorem hcd_bus_reset_count_witness :
    (hcd_bus_reset 0 (init_state.set_reg OFF_link_control 0x200)).isSome = true ∧
      SelfIDCount.lo_word ((hcd_complete_self_id
        (bus_reset_begin (init_state.set_reg OFF_link_control 0x200))).reg OFF_self_id_count) =
        12 :=
  ⟨(hcd_bus_reset_count 0 (init_state.set_reg OFF_link_control 0x200)).1 (by decide),
    ((hcd_bus_reset_count 0 (init_state.set_reg OFF_link_control 0x200)).2 _ rfl).2.2
      (by decide) (by decide)⟩

/-! ## Arbitration -/

theorem hcd_chr_receive_nil (fuel : Nat) (s : OHCI1394State) :
    hcd_chr_receive fuel s [] = some s := by
  cases fuel <;> simp [hcd_chr_receive]

theorem hcd_fill_buffer_bid (s : OHCI1394State) (b0 b1 : Nat) (hp : s.bufpos = 0) :
    hcd_fill_buffer s [b0, b1] 2 = (bid_filled s b0 b1, []) := by
  unfold bid_filled hcd_fill_buffer
  simp [hp]

theorem bid_filled_eq (s : OHCI1394State) (b0 b1 : Nat) (hp : s.bufpos = 0) :
    bid_filled s b0 b1 =
      { s with buf := dma_memory_write s.buf 0 [b0 % 256, b1 % 256], bufpos := 2 } := by
  unfold bid_filled hcd_fill_buffer
  simp [hp]

theorem bid_filled_facts (s : OHCI1394State) (b0 b1 : Nat) (hp : s.bufpos = 0) :
    (bid_filled s b0 b1).state = s.state ∧ (bid_filled s b0 b1).bufpos = 2 ∧
      (bid_filled s b0 b1).bid = s.bid ∧ (bid_filled s b0 b1).regs = s.regs ∧
      (bid_filled s b0 b1).root = s.root ∧ (bid_filled s b0 b1).chr = s.chr ∧
      (bid_filled s b0 b1).mem = s.mem ∧
      buf_val (bid_filled s b0 b1) 0 2 = le_val [b0, b1] := by
  rw [bid_filled_eq s b0 b1 hp]
  refine ⟨rfl, rfl, rfl, rfl, rfl, rfl, rfl, ?_⟩
  simp [buf_val, dma_memory_read, dma_memory_write, List.range_succ, le_val]

@[simp] theorem set_bufpos_bid (s : OHCI1394State) (v : Nat) : (set_bufpos s v).bid = s.bid := rfl

/-- The ARBITRATION2 block on an empty buffer and the two bytes of the peer's bid. -/
theorem chr_receive_arbitration2_bid (fuel : Nat) (s : OHCI1394State) (b0 b1 : Nat)
    (hp : s.bufpos = 0) :
    chr_receive_arbitration2 fuel s [b0, b1] =
      if le_val [b0, b1] = s.bid then
        some (set_state (set_bufpos (bid_filled s b0 b1) 0) HCD_STATE_ARBITRATION1, some [])
      else
        (hcd_bus_reset fuel
          (set_state (set_root (set_bufpos (bid_filled s b0 b1) 0)
            (if le_val [b0, b1] < s.bid then 1 else 0)) HCD_STATE_CONNECTED)).map
          (fun s => (s, some [])) := by
  obtain ⟨-, h2, h3, -, -, -, -, h8⟩ := bid_filled_facts s b0 b1 hp
  unfold chr_receive_arbitration2
  simp only [hcd_fill_buffer_bid s b0 b1 hp, h2, h8, set_bufpos_bid, h3]
  split_ifs <;> first | rfl | omega

/-- One call of `hcd_chr_receive` in state ARBITRATION2 with an empty buffer and
the two bytes of the peer's bid. -/
theorem hcd_chr_receive_arbitration2 (fuel : Nat) (s : OHCI1394State) (b0 b1 : Nat)
    (hs : s.state = HCD_STATE_ARBITRATION2) (hp : s.bufpos = 0) :
    hcd_chr_receive (fuel + 1) s [b0, b1] =
      if le_val [b0, b1] = s.bid then
        some (set_state (set_bufpos (bid_filled s b0 b1) 0) HCD_STATE_ARBITRATION1)
      else
        hcd_bus_reset fuel
          (set_state (set_root (set_bufpos (bid_filled s b0 b1) 0)
            (if le_val [b0, b1] < s.bid then 1 else 0)) HCD_STATE_CONNECTED) := by
  have hstep : chr_receive_step fuel s [b0, b1] = chr_receive_arbitration2 fuel s [b0, b1] := by
    unfold chr_receive_step
    simp [hs]
  rw [hcd_chr_receive, hstep, chr_receive_arbitration2_bid fuel s b0 b1 hp]
  rw [if_neg (by simp)]
  by_cases h1 : le_val [b0, b1] = s.bid
  · simp only [if_pos h1, hcd_chr_receive_nil]
  · simp only [if_neg h1]
    cases hcd_bus_reset fuel _ <;> simp [hcd_chr_receive_nil]

theorem le_val_le_bytes_2 (b : Nat) (h : b < 0x10000) : le_val (le_bytes 2 b) = b := by
  simp [le_val, le_bytes]; omega

theorem le_bytes_2_eq (b : Nat) : le_bytes 2 b = [b % 256, b / 256 % 256] := rfl

/-- C2 as stated fails: after the handshake the node is in ARBITRATION2 with an
empty buffer and the bid 1; receiving the peer's bid 2, higher than its own, it
ends Connected with `root = 0`. -/
theorem hcd_chr_receive_bid_counterexample :
    arb_run.map (fun s => (s.state, s.bid, s.bufpos)) = some (HCD_STATE_ARBITRATION2, 1, 0) ∧
    1 < le_val [2, 0] ∧
    (arb_run.bind (fun s => hcd_chr_receive 1 s [2, 0])).map (fun s => (s.state, s.root)) =
      some (HCD_STATE_CONNECTED, 0) := by
  refine ⟨by rfl, by decide, by rfl⟩

/-- C2 (amended): in state ARBITRATION2 with an empty reassembly buffer, when the
two bytes received are a bid different from the local one, the call is one bus
reset of the device with `bufpos = 0`, the link state Connected and `root` set
by the comparison; it returns when the AR-response context is not running, and
whenever it returns the node is Connected, the generation has advanced by one,
and `root = 1` exactly when the peer's bid is lower than its own (its own bid is
the higher one), `root = 0` exactly when its own bid is the lower one. -/
theorem hcd_chr_receive_bid (fuel : Nat) (s : OHCI1394State) (b0 b1 : Nat)
    (hs : s.state = HCD_STATE_ARBITRATION2) (hp : s.bufpos = 0)
    (hne : le_val [b0, b1] ≠ s.bid) :
    hcd_chr_receive (fuel + 1) s [b0, b1] =
      hcd_bus_reset fuel
        (set_state (set_root (set_bufpos (bid_filled s b0 b1) 0)
          (if le_val [b0, b1] < s.bid then 1 else 0)) HCD_STATE_CONNECTED) ∧
    (s.reg OFF_async_response_receive &&& 0x00008000 = 0 →
      (hcd_chr_receive (fuel + 1) s [b0, b1]).isSome = true) ∧
    ∀ s', hcd_chr_receive (fuel + 1) s [b0, b1] = some s' →
      s'.state = HCD_STATE_CONNECTED ∧
      (s'.root = 1 ↔ le_val [b0, b1] < s.bid) ∧
      (s'.root = 0 ↔ s.bid < le_val [b0, b1]) ∧
      SelfIDCount.generation (s'.reg OFF_self_id_count) =
        (SelfIDCount.generation (s.reg OFF_self_id_count) + 1) % 256 := by
  have e := hcd_chr_receive_arbitration2 fuel s b0 b1 hs hp
  rw [if_neg hne] at e
  obtain ⟨-, -, -, hregs, -, -, -, -⟩ := bid_filled_facts s b0 b1 hp
  refine ⟨e, ?_, ?_⟩
  · intro har
    rw [e]
    apply hcd_bus_reset_returns
    simpa [set_state, set_root, set_bufpos, OHCI1394State.reg, hregs] using har
  · intro s' h
    rw [e] at h
    obtain ⟨h1, h2, h3⟩ := hcd_bus_reset_link _ _ _ h
    refine ⟨h1, ?_, ?_, ?_⟩
    · rw [h2]
      simp [set_state, set_root]
    · rw [h2]
      simp [set_state, set_root]
      omega
    · rw [h3]
      simp [set_state, set_root, set_bufpos, OHCI1394State.reg, hregs]

/-- Witness for C2 (amended): own bid 1, peer bid 2: the call returns and the
node is Connected and not root. -/
theorem hcd_chr_receive_bid_witness :
    (hcd_chr_receive 1 (arb_demo 1) [2, 0]).isSome = true ∧
    (hcd_complete_self_id (bus_reset_begin
        (set_state (set_root (set_bufpos (bid_filled (arb_demo 1) 2 0) 0) 0)
          HCD_STATE_CONNECTED))).state = HCD_STATE_CONNECTED ∧
      ((hcd_complete_self_id (bus_reset_begin
        (set_state (set_root (set_bufpos (bid_filled (arb_demo 1) 2 0) 0) 0)
          HCD_STATE_CONNECTED))).root = 0 ↔ (arb_demo 1).bid < le_val [2, 0]) :=
  have h := hcd_chr_receive_bid 0 (arb_demo 1) 2 0 rfl rfl (by decide)
  ⟨h.2.1 (by decide), (h.2.2 _ rfl).1, (h.2.2 _ rfl).2.2.1⟩

/-- C3: two devices in ARBITRATION2 with empty reassembly buffers and 16-bit
local bids, each receiving the two bytes of the other's bid.  If the bids
differ and both calls return, both devices are Connected and exactly one has
`root = 1` (the other has `root = 0`); the calls do return when the AR-response
context is not running.  If the bids are equal both calls return with both
devices in ARBITRATION1, nothing sent, and registers, `root` and guest memory
untouched: neither is Connected and neither has performed a bus reset. -/
theorem arbitration_pair (fuel : Nat) (sA sB : OHCI1394State)
    (hA : sA.state = HCD_STATE_ARBITRATION2) (hB : sB.state = HCD_STATE_ARBITRATION2)
    (hpA : sA.bufpos = 0) (hpB : sB.bufpos = 0)
    (ha : sA.bid < 0x10000) (hb : sB.bid < 0x10000) :
    (sA.bid ≠ sB.bid → ∀ sA' sB',
      hcd_chr_receive (fuel + 1) sA (le_bytes 2 sB.bid) = some sA' →
      hcd_chr_receive (fuel + 1) sB (le_bytes 2 sA.bid) = some sB' →
      sA'.state = HCD_STATE_CONNECTED ∧ sB'.state = HCD_STATE_CONNECTED ∧
        ((sA'.root = 1 ∧ sB'.root = 0) ∨ (sA'.root = 0 ∧ sB'.root = 1))) ∧
    (sA.bid ≠ sB.bid →
      sA.reg OFF_async_response_receive &&& 0x00008000 = 0 →
      sB.reg OFF_async_response_receive &&& 0x00008000 = 0 →
      (hcd_chr_receive (fuel + 1) sA (le_bytes 2 sB.bid)).isSome = true ∧
        (hcd_chr_receive (fuel + 1) sB (le_bytes 2 sA.bid)).isSome = true) ∧
    (sA.bid = sB.bid → ∃ sA' sB',
      hcd_chr_receive (fuel + 1) sA (le_bytes 2 sB.bid) = some sA' ∧
      hcd_chr_receive (fuel + 1) sB (le_bytes 2 sA.bid) = some sB' ∧
      sA'.state = HCD_STATE_ARBITRATION1 ∧ sB'.state = HCD_STATE_ARBITRATION1 ∧
      sA'.regs = sA.regs ∧ sB'.regs = sB.regs ∧ sA'.root = sA.root ∧ sB'.root = sB.root ∧
      sA'.mem = sA.mem ∧ sB'.mem = sB.mem ∧ sA'.chr = sA.chr ∧ sB'.chr = sB.chr) := by
  have eA : le_val [sB.bid % 256, sB.bid / 256 % 256] = sB.bid := by
    rw [← le_bytes_2_eq]; exact le_val_le_bytes_2 _ hb
  have eB : le_val [sA.bid % 256, sA.bid / 256 % 256] = sA.bid := by
    rw [← le_bytes_2_eq]; exact le_val_le_bytes_2 _ ha
  have rA := hcd_chr_receive_arbitration2 fuel sA (sB.bid % 256) (sB.bid / 256 % 256) hA hpA
  have rB := hcd_chr_receive_arbitration2 fuel sB (sA.bid % 256) (sA.bid / 256 % 256) hB hpB
  rw [eA] at rA
  rw [eB] at rB
  simp only [le_bytes_2_eq]
  refine ⟨?_, ?_, ?_⟩
  · intro hne sA' sB' h1 h2
    rw [rA, if_neg (Ne.symm hne)] at h1
    rw [rB, if_neg hne] at h2
    obtain ⟨a1, a2, -⟩ := hcd_bus_reset_link _ _ _ h1
    obtain ⟨b1, b2, -⟩ := hcd_bus_reset_link _ _ _ h2
    refine ⟨a1, b1, ?_⟩
    rw [a2, b2]
    simp [set_state, set_root]
    omega
  · intro hne h1 h2
    rw [rA, if_neg (Ne.symm hne), rB, if_neg hne]
    obtain ⟨-, -, -, hrA, -, -, -, -⟩ := bid_filled_facts sA (sB.bid % 256) (sB.bid / 256 % 256) hpA
    obtain ⟨-, -, -, hrB, -, -, -, -⟩ := bid_filled_facts sB (sA.bid % 256) (sA.bid / 256 % 256) hpB
    constructor
    · apply hcd_bus_reset_returns
      simpa [set_state, set_root, set_bufpos, OHCI1394State.reg, hrA] using h1
    · apply hcd_bus_reset_returns
      simpa [set_state, set_root, set_bufpos, OHCI1394State.reg, hrB] using h2
  · intro he
    rw [rA, if_pos he.symm, rB, if_pos he]
    obtain ⟨-, -, -, a4, a5, a6, a7, -⟩ :=
      bid_filled_facts sA (sB.bid % 256) (sB.bid / 256 % 256) hpA
    obtain ⟨-, -, -, b4, b5, b6, b7, -⟩ :=
      bid_filled_facts sB (sA.bid % 256) (sA.bid / 256 % 256) hpB
    exact ⟨_, _, rfl, rfl, rfl, rfl, a4, b4, a5, b5, a7, b7, a6, b6⟩

/-- Witness for C3: bids 1 and 2 on two fresh devices: both calls return. -/
theorem arbitration_pair_witness :
    (hcd_chr_receive 1 (arb_demo 1) (le_bytes 2 (arb_demo 2).bid)).isSome = true ∧
      (hcd_chr_receive 1 (arb_demo 2) (le_bytes 2 (arb_demo 1).bid)).isSome = true :=
  (arbitration_pair 0 (arb_demo 1) (arb_demo 2) rfl rfl rfl rfl (by decide) (by decide)).2.1
    (by decide) (by decide) (by decide)

/-! ## Set/clear register pairs -/

theorem not32_of_lt {w : Nat} (hw : w < 0x100000000) : not32 w = 0xFFFFFFFF ^^^ w := by
  unfold not32; rw [Nat.mod_eq_of_lt hw]

theorem hcd_mmio_write_eq (fuel : Nat) (s s1 : OHCI1394State) (addr data : Nat)
    (h : mmio_write_switch fuel s addr data = some s1) :
    hcd_mmio_write fuel s addr data = some (hcd_check_irq s1) := by
  unfold hcd_mmio_write; rw [h]; rfl

/-- The word index `(addr >> 2) & 0xFFFE` for the offsets of the mirrored pairs. -/
theorem mirror_idx (N : Nat) (hN : N ∈ [0x070, 0x078, 0x100, 0x108, 0x110, 0x118]) :
    (N >>> 2) &&& 0xFFFE = N >>> 2 ∧ ((N + 4) >>> 2) &&& 0xFFFE = N >>> 2 ∧
      (N + 4) >>> 2 = (N >>> 2) + 1 := by
  simp only [List.mem_cons, List.mem_singleton, List.not_mem_nil, or_false] at hN
  rcases hN with h | h | h | h | h | h <;> subst h <;> decide

theorem mmio_write_switch_set_mirror (fuel : Nat) (s : OHCI1394State) (N w : Nat)
    (hN : N ∈ [0x070, 0x078, 0x100, 0x108, 0x110, 0x118]) :
    mmio_write_switch fuel s N w = some (mmio_write_set_mirror s N w) := by
  simp only [List.mem_cons, List.mem_singleton, List.not_mem_nil, or_false] at hN
  rcases hN with h | h | h | h | h | h <;> subst h <;> simp [mmio_write_switch]

theorem mmio_write_switch_clear_mirror (fuel : Nat) (s : OHCI1394State) (N w : Nat)
    (hN : N ∈ [0x070, 0x078, 0x100, 0x108, 0x110, 0x118]) :
    mmio_write_switch fuel s (N + 4) w = some (mmio_write_clear_mirror s (N + 4) w) := by
  simp only [List.mem_cons, List.mem_singleton, List.not_mem_nil, or_false] at hN
  rcases hN with h | h | h | h | h | h <;> subst h <;> simp [mmio_write_switch]

/-- C7: for `ir_multi_chan_mask_hi/lo`, `asynchronous_request_filter_hi/lo` and
`physical_request_filter_hi/lo` (set word at offset `N`, clear word at `N + 4`)
and every 32-bit `w`: a write of `w` to the set word returns and leaves the
primary word equal to `old OR w`, a write of `w` to the clear word returns and
leaves it equal to `old AND NOT w`, and in both cases the alias word `N + 1`
holds the same value as the primary word `N`, also as read through MMIO. -/
theorem mmio_write_mirror_pair (fuel : Nat) (s : OHCI1394State) (N w : Nat)
    (hN : N ∈ [0x070, 0x078, 0x100, 0x108, 0x110, 0x118])
    (hw : w < 0x100000000) (hold : s.regs (N >>> 2) < 0x100000000) :
    (∃ s', hcd_mmio_write fuel s N w = some s' ∧
      s'.regs (N >>> 2) = s.regs (N >>> 2) ||| w ∧
      s'.regs ((N >>> 2) + 1) = s'.regs (N >>> 2) ∧
      hcd_mmio_read s' (N + 4) = hcd_mmio_read s' N) ∧
    (∃ s', hcd_mmio_write fuel s (N + 4) w = some s' ∧
      s'.regs (N >>> 2) = s.regs (N >>> 2) &&& (0xFFFFFFFF ^^^ w) ∧
      s'.regs ((N >>> 2) + 1) = s'.regs (N >>> 2) ∧
      hcd_mmio_read s' (N + 4) = hcd_mmio_read s' N) := by
  obtain ⟨i1, i2, i3⟩ := mirror_idx N hN
  have hr : ∀ s' : OHCI1394State, s'.regs ((N >>> 2) + 1) = s'.regs (N >>> 2) →
      hcd_mmio_read s' (N + 4) = hcd_mmio_read s' N := by
    intro s' he
    have n1 : N + 4 ≠ OFF_int_event_masked := by
      simp only [List.mem_cons, List.mem_singleton, List.not_mem_nil, or_false] at hN
      rcases hN with h | h | h | h | h | h <;> subst h <;> decide
    have n2 : N ≠ OFF_int_event_masked := by
      simp only [List.mem_cons, List.mem_singleton, List.not_mem_nil, or_false] at hN
      rcases hN with h | h | h | h | h | h <;> subst h <;> decide
    unfold hcd_mmio_read
    rw [if_neg n1, if_neg n2, i3, he]
  constructor
  · refine ⟨_, hcd_mmio_write_eq _ _ _ _ _ (mmio_write_switch_set_mirror fuel s N w hN), ?_⟩
    have e1 : (hcd_check_irq (mmio_write_set_mirror s N w)).regs (N >>> 2) =
        s.regs (N >>> 2) ||| w := by
      rw [hcd_check_irq_regs]
      simp [mmio_write_set_mirror, OHCI1394State.mirror, OHCI1394State.or_regs, i1,
        or_mod32 hold hw]
    have e2 : (hcd_check_irq (mmio_write_set_mirror s N w)).regs ((N >>> 2) + 1) =
        (hcd_check_irq (mmio_write_set_mirror s N w)).regs (N >>> 2) := by
      rw [hcd_check_irq_regs]
      simp [mmio_write_set_mirror, OHCI1394State.mirror, OHCI1394State.or_regs, i1]
    exact ⟨e1, e2, hr _ e2⟩
  · refine ⟨_, hcd_mmio_write_eq _ _ _ _ _ (mmio_write_switch_clear_mirror fuel s N w hN), ?_⟩
    have e1 : (hcd_check_irq (mmio_write_clear_mirror s (N + 4) w)).regs (N >>> 2) =
        s.regs (N >>> 2) &&& (0xFFFFFFFF ^^^ w) := by
      rw [hcd_check_irq_regs, ← not32_of_lt hw]
      simp [mmio_write_clear_mirror, OHCI1394State.mirror, OHCI1394State.and_regs, i2,
        and_not32_mod]
    have e2 : (hcd_check_irq (mmio_write_clear_mirror s (N + 4) w)).regs ((N >>> 2) + 1) =
        (hcd_check_irq (mmio_write_clear_mirror s (N + 4) w)).regs (N >>> 2) := by
      rw [hcd_check_irq_regs]
      simp [mmio_write_clear_mirror, OHCI1394State.mirror, OHCI1394State.and_regs, i2]
    exact ⟨e1, e2, hr _ e2⟩

/-- Witness for C7: `asynchronous_request_filter_hi` (offset 0x100) on the fresh
device, written with `0x80000001`. -/
theorem mmio_write_mirror_pair_witness :
    (∃ s', hcd_mmio_write 0 init_state 0x100 0x80000001 = some s' ∧
      s'.regs (0x100 >>> 2) = init_state.regs (0x100 >>> 2) ||| 0x80000001 ∧
      s'.regs ((0x100 >>> 2) + 1) = s'.regs (0x100 >>> 2) ∧
      hcd_mmio_read s' (0x100 + 4) = hcd_mmio_read s' 0x100) ∧
    (∃ s', hcd_mmio_write 0 init_state (0x100 + 4) 0x80000001 = some s' ∧
      s'.regs (0x100 >>> 2) = init_state.regs (0x100 >>> 2) &&& (0xFFFFFFFF ^^^ 0x80000001) ∧
      s'.regs ((0x100 >>> 2) + 1) = s'.regs (0x100 >>> 2) ∧
      hcd_mmio_read s' (0x100 + 4) = hcd_mmio_read s' 0x100) :=
  mmio_write_mirror_pair 0 init_state 0x100 0x80000001 (by decide) (by decide) (by decide)

/-- The word index `(addr >> 2) & 0xFFFE` for the offsets of the pairs handled by
the plain set and clear arms. -/
theorem plain_idx (N : Nat) (hN : N ∈ [0x080, 0x088, 0x098, 0x0A8, 0x0E0]) :
    (N >>> 2) &&& 0xFFFE = N >>> 2 ∧ ((N + 4) >>> 2) &&& 0xFFFE = N >>> 2 := by
  simp only [List.mem_cons, List.mem_singleton, List.not_mem_nil, or_false] at hN
  rcases hN with h | h | h | h | h <;> subst h <;> decide

theorem mmio_write_switch_set (fuel : Nat) (s : OHCI1394State) (N w : Nat)
    (hN : N ∈ [0x080, 0x088, 0x098, 0x0A8, 0x0E0]) :
    mmio_write_switch fuel s N w = some (mmio_write_set s N w) := by
  simp only [List.mem_cons, List.mem_singleton, List.not_mem_nil, or_false] at hN
  rcases hN with h | h | h | h | h <;> subst h <;> simp [mmio_write_switch]

theorem mmio_write_switch_clear (fuel : Nat) (s : OHCI1394State) (N w : Nat)
    (hN : N ∈ [0x080, 0x088, 0x098, 0x0A8, 0x0E0]) :
    mmio_write_switch fuel s (N + 4) w = some (mmio_write_clear s (N + 4) w) := by
  simp only [List.mem_cons, List.mem_singleton, List.not_mem_nil, or_false] at hN
  rcases hN with h | h | h | h | h <;> subst h <;> simp [mmio_write_switch]

/-- What the code does for the five pairs its plain set and clear arms name
(`int_event`, `int_mask`, `iso_xmit_int_mask`, `iso_recv_int_mask`,
`link_control`): the set word ORs into the primary word, the clear word clears
in it, and no other register word changes. -/
theorem mmio_write_plain_pair (fuel : Nat) (s : OHCI1394State) (N w : Nat)
    (hN : N ∈ [0x080, 0x088, 0x098, 0x0A8, 0x0E0])
    (hw : w < 0x100000000) (hold : s.regs (N >>> 2) < 0x100000000) :
    (∃ s', hcd_mmio_write fuel s N w = some s' ∧
      s'.regs (N >>> 2) = s.regs (N >>> 2) ||| w ∧
      ∀ i, i ≠ N >>> 2 → s'.regs i = s.regs i) ∧
    (∃ s', hcd_mmio_write fuel s (N + 4) w = some s' ∧
      s'.regs (N >>> 2) = s.regs (N >>> 2) &&& (0xFFFFFFFF ^^^ w) ∧
      ∀ i, i ≠ N >>> 2 → s'.regs i = s.regs i) := by
  obtain ⟨i1, i2⟩ := plain_idx N hN
  constructor
  · refine ⟨_, hcd_mmio_write_eq _ _ _ _ _ (mmio_write_switch_set fuel s N w hN), ?_, ?_⟩
    · rw [hcd_check_irq_regs]
      simp [mmio_write_set, OHCI1394State.or_regs, i1, or_mod32 hold hw]
    · intro i hi
      rw [hcd_check_irq_regs]
      simp [mmio_write_set, OHCI1394State.or_regs, i1, hi]
  · refine ⟨_, hcd_mmio_write_eq _ _ _ _ _ (mmio_write_switch_clear fuel s N w hN), ?_, ?_⟩
    · rw [hcd_check_irq_regs, ← not32_of_lt hw]
      simp [mmio_write_clear, OHCI1394State.and_regs, i2, and_not32_mod]
    · intro i hi
      rw [hcd_check_irq_regs]
      simp [mmio_write_clear, OHCI1394State.and_regs, i2, hi]

/-- C6, the code at the failing input: `iso_xmit_int_event` (set word 0x90, clear
word 0x94) has no arm of its own in `hcd_mmio_write` and falls to `default`.
After 2 has been written to 0x90, writing 1 to the set word leaves the primary
word 1 (not `2 OR 1 = 3`); writing 2 to the clear word leaves the primary word
2 (not `2 AND NOT 2 = 0`) and stores 2 in the word at 0x94.  The same happens
for `iso_recv_int_event` at 0xA0 and 0xA4. -/
theorem mmio_write_iso_event_default :
    ((hcd_mmio_write 0 init_state 0x090 2).bind (fun s => hcd_mmio_write 0 s 0x090 1)).map
        (fun s => s.regs (0x090 >>> 2)) = some 1 ∧
    ((hcd_mmio_write 0 init_state 0x090 2).bind (fun s => hcd_mmio_write 0 s 0x094 2)).map
        (fun s => (s.regs (0x090 >>> 2), s.regs (0x094 >>> 2))) = some (2, 2) ∧
    ((hcd_mmio_write 0 init_state 0x0A0 2).bind (fun s => hcd_mmio_write 0 s 0x0A0 1)).map
        (fun s => s.regs (0x0A0 >>> 2)) = some 1 ∧
    ((hcd_mmio_write 0 init_state 0x0A0 2).bind (fun s => hcd_mmio_write 0 s 0x0A4 2)).map
        (fun s => (s.regs (0x0A0 >>> 2), s.regs (0x0A4 >>> 2))) = some (2, 2) := by
  refine ⟨by rfl, by rfl, by rfl, by rfl⟩

/-- C8, the code at the failing input: after hard reset, one MMIO write of
`0x00080000` to `hc_control_set` (0x50) makes a read of word N (0x50) return
`0x00080000` and a read of word N+1 (0x54) return 0; one write of 1 to
`int_mask_set` (0x88) makes the reads at 0x88 and 0x8C return 1 and 0; one write
of `0x8000` (run) to the AT-request `context_control_set` (0x180) makes the
reads at 0x180 and 0x184 return `0x8400` and `0x8000`, and the same write to
the AR-response `context_control_set` (0x1E0) gives `0x8400` and `0x8000`. -/
theorem mmio_read_alias_differs :
    (hcd_mmio_write 0 init_state 0x050 0x00080000).map
        (fun s => (hcd_mmio_read s 0x050, hcd_mmio_read s 0x054)) = some (0x00080000, 0) ∧
    (hcd_mmio_write 0 init_state 0x088 1).map
        (fun s => (hcd_mmio_read s 0x088, hcd_mmio_read s 0x08C)) = some (1, 0) ∧
    (hcd_mmio_write 0 init_state 0x0E0 0x200).map
        (fun s => (hcd_mmio_read s 0x0E0, hcd_mmio_read s 0x0E4)) = some (0x200, 0) ∧
    (hcd_mmio_write 0 init_state 0x180 0x8000).map
        (fun s => (hcd_mmio_read s 0x180, hcd_mmio_read s 0x184)) = some (0x8400, 0x8000) ∧
    (hcd_mmio_write 0 init_state 0x1E0 0x8000).map
        (fun s => (hcd_mmio_read s 0x1E0, hcd_mmio_read s 0x1E4)) = some (0x8400, 0x8000) := by
  refine ⟨by rfl, by rfl, by rfl, by rfl, by rfl⟩

/-! ## `hc_control_set` -/

theorem mmio_write_switch_hc_control_set (fuel : Nat) (s : OHCI1394State) (w : Nat) :
    mmio_write_switch fuel s OFF_hc_control w = some (mmio_write_hc_control_set s w) := by
  simp [mmio_write_switch]

theorem mask_bit16 (w : Nat) : (w &&& 0xE0CF0000) &&& 0x10000 = w &&& 0x10000 := by
  rw [Nat.and_assoc]; rfl

theorem mask_bit17 (w : Nat) : (w &&& 0xE0CF0000) &&& 0x20000 = w &&& 0x20000 := by
  rw [Nat.and_assoc]; rfl

@[simp] theorem hc_control_link_up_reg (s : OHCI1394State) (off : Nat) :
    (hc_control_link_up s).reg off = s.reg off := by
  unfold hc_control_link_up; split_ifs <;> rfl

@[simp] theorem reg_qemu_chr_fe_write (s : OHCI1394State) (b : List Nat) (off : Nat) :
    (qemu_chr_fe_write s b).reg off = s.reg off := rfl

theorem hcd_soft_reset_hc_control (s : OHCI1394State) :
    (hcd_soft_reset s).reg OFF_hc_control = s.reg OFF_hc_control &&& 0x00C00000 ∧
      (hcd_soft_reset s).reg OFF_bus_options = 0x00008002 := by
  unfold hcd_soft_reset
  have : s.reg OFF_hc_control &&& 0x00C00000 < 0x100000000 :=
    lt_of_le_of_lt Nat.and_le_right (by norm_num)
  simp [Nat.mod_eq_of_lt this]

/-- C9: for every `w` written to `hc_control_set` the write returns; if
bit 16 of `w` is clear `hc_control` becomes `old OR (w AND 0xE0CF0000)` and
`bus_options` is unchanged; if bit 16 is set `hc_control` becomes
`(old OR (w AND 0xE0CF0000)) AND 0x00C00000`, so that softReset (bit 16) and
linkEnable (bit 17) read back clear, and `bus_options` becomes `0x00008002`. -/
theorem mmio_write_hc_control_set_spec (fuel : Nat) (s : OHCI1394State) (w : Nat)
    (hold : s.reg OFF_hc_control < 0x100000000) :
    ∃ s', hcd_mmio_write fuel s OFF_hc_control w = some s' ∧
      (w &&& 0x10000 = 0 →
        s'.reg OFF_hc_control = s.reg OFF_hc_control ||| (w &&& 0xE0CF0000) ∧
        s'.reg OFF_bus_options = s.reg OFF_bus_options) ∧
      (w &&& 0x10000 ≠ 0 →
        s'.reg OFF_hc_control = (s.reg OFF_hc_control ||| (w &&& 0xE0CF0000)) &&& 0x00C00000 ∧
        s'.reg OFF_hc_control &&& 0x10000 = 0 ∧ s'.reg OFF_hc_control &&& 0x20000 = 0 ∧
        s'.reg OFF_bus_options = 0x00008002) := by
  refine ⟨_, hcd_mmio_write_eq _ _ _ _ _ (mmio_write_switch_hc_control_set fuel s w), ?_, ?_⟩
  · intro h16
    have hm : (s.reg OFF_hc_control ||| (w &&& 0xE0CF0000)) % 0x100000000 =
        s.reg OFF_hc_control ||| (w &&& 0xE0CF0000) :=
      or_mod32 hold (lt_of_le_of_lt Nat.and_le_right (by norm_num))
    simp only [reg_hcd_check_irq]
    unfold mmio_write_hc_control_set
    simp only [HCCONTROL_RESET_MASK, HCCONTROL_LINK_ENABLE_MASK, mask_bit16, mask_bit17, h16]
    split_ifs <;> first | contradiction | simp [hm]
  · intro h16
    have hm : (s.reg OFF_hc_control ||| (w &&& 0xE0CF0000)) % 0x100000000 =
        s.reg OFF_hc_control ||| (w &&& 0xE0CF0000) :=
      or_mod32 hold (lt_of_le_of_lt Nat.and_le_right (by norm_num))
    have key : (hcd_check_irq (mmio_write_hc_control_set s w)).reg OFF_hc_control =
        (s.reg OFF_hc_control ||| (w &&& 0xE0CF0000)) &&& 0x00C00000 ∧
        (hcd_check_irq (mmio_write_hc_control_set s w)).reg OFF_bus_options = 0x00008002 := by
      simp only [reg_hcd_check_irq]
      unfold mmio_write_hc_control_set
      simp only [HCCONTROL_RESET_MASK, HCCONTROL_LINK_ENABLE_MASK, mask_bit16, mask_bit17]
      rw [if_pos h16]
      have hsr := hcd_soft_reset_hc_control (s.or_reg OFF_hc_control (w &&& 0xE0CF0000))
      split_ifs <;> simp [hsr.1, hsr.2, hm]
    refine ⟨key.1, ?_, ?_, key.2⟩
    · rw [key.1, Nat.and_assoc]; exact Nat.and_zero _
    · rw [key.1, Nat.and_assoc]; exact Nat.and_zero _

/-- Witness for C9: on the fresh device, writing `0x00030000` (softReset and
linkEnable) to `hc_control_set`. -/
theorem mmio_write_hc_control_set_witness :
    ∃ s', hcd_mmio_write 0 init_state OFF_hc_control 0x00030000 = some s' ∧
      (0x00030000 &&& 0x10000 = 0 →
        s'.reg OFF_hc_control = init_state.reg OFF_hc_control ||| (0x00030000 &&& 0xE0CF0000) ∧
        s'.reg OFF_bus_options = init_state.reg OFF_bus_options) ∧
      (0x00030000 &&& 0x10000 ≠ 0 →
        s'.reg OFF_hc_control =
          (init_state.reg OFF_hc_control ||| (0x00030000 &&& 0xE0CF0000)) &&& 0x00C00000 ∧
        s'.reg OFF_hc_control &&& 0x10000 = 0 ∧ s'.reg OFF_hc_control &&& 0x20000 = 0 ∧
        s'.reg OFF_bus_options = 0x00008002) :=
  mmio_write_hc_control_set_spec 0 init_state 0x00030000 (by decide)

@[simp] theorem chr_set_reg (s : OHCI1394State) (off v : Nat) : (s.set_reg off v).chr = s.chr :=
  rfl
@[simp] theorem chr_or_reg (s : OHCI1394State) (off v : Nat) : (s.or_reg off v).chr = s.chr :=
  rfl
@[simp] theorem chr_and_reg (s : OHCI1394State) (off v : Nat) : (s.and_reg off v).chr = s.chr :=
  rfl
@[simp] theorem chr_hcd_soft_reset (s : OHCI1394State) : (hcd_soft_reset s).chr = s.chr := rfl
@[simp] theorem state_hcd_soft_reset (s : OHCI1394State) : (hcd_soft_reset s).state = s.state :=
  rfl

/-- C10 as stated fails: once the guest has set linkEnable and the greeting has
been exchanged the device is in state DISCONNECTED with linkEnable set, having
sent the greeting and one link-up word; a further write to `hc_control_set`
with bit 17 set sends `FF FF FF FF` a second time. -/
theorem mmio_write_link_up_counterexample :
    link_run.map (fun s => (s.state, s.reg OFF_hc_control &&& 0x20000, s.chr)) =
      some (HCD_STATE_DISCONNECTED, 0x20000, [0x31, 0x33, 0x39, 0x34, 0xFF, 0xFF, 0xFF, 0xFF]) ∧
    (link_run.bind (fun s => hcd_mmio_write 0 s OFF_hc_control 0x00020000)).map
      (fun s => (s.reg OFF_hc_control &&& 0x20000, s.chr)) =
      some (0x20000,
        [0x31, 0x33, 0x39, 0x34, 0xFF, 0xFF, 0xFF, 0xFF, 0xFF, 0xFF, 0xFF, 0xFF]) := by
  refine ⟨by rfl, by rfl⟩

/-- C10 (amended): an MMIO write of `w` to `hc_control_set` returns, and it sends
the 4 bytes `FF FF FF FF` on the transport if and only if bit 17 of `w` is set
while the link state is Disconnected or Arbitration1, whatever linkEnable was
before the write; in every other case it sends nothing. -/
theorem mmio_write_hc_control_set_link_up (fuel : Nat) (s : OHCI1394State) (w : Nat) :
    ∃ s', hcd_mmio_write fuel s OFF_hc_control w = some s' ∧
      s'.chr = s.chr ++
        (if w &&& 0x20000 ≠ 0 ∧
            (s.state = HCD_STATE_DISCONNECTED ∨ s.state = HCD_STATE_ARBITRATION1) then
          [0xFF, 0xFF, 0xFF, 0xFF] else []) := by
  refine ⟨_, hcd_mmio_write_eq _ _ _ _ _ (mmio_write_switch_hc_control_set fuel s w), ?_⟩
  rw [hcd_check_irq_chr]
  unfold mmio_write_hc_control_set hc_control_link_up
  simp only [HCCONTROL_RESET_MASK, HCCONTROL_LINK_ENABLE_MASK, mask_bit16, mask_bit17]
  split_ifs <;> simp_all [qemu_chr_fe_write, le_bytes]

/-! ## The AT engine -/

theorem Ax_CC_eq (n : Nat) : Ax_CC n = 96 + 8 * n := by
  unfold Ax_CC; rw [Nat.shiftRight_eq_div_pow]; omega

theorem Ax_CP_eq (n : Nat) : Ax_CP n = 99 + 8 * n := by
  unfold Ax_CP; rw [Nat.shiftRight_eq_div_pow]; omega

@[simp] theorem timer_set_regs (s : OHCI1394State) (i v : Nat) (t : ATSel) :
    (s.set_regs i v).timer t = s.timer t := by cases t <;> rfl
@[simp] theorem timer_or_regs (s : OHCI1394State) (i v : Nat) (t : ATSel) :
    (s.or_regs i v).timer t = s.timer t := by cases t <;> rfl
@[simp] theorem timer_and_regs (s : OHCI1394State) (i v : Nat) (t : ATSel) :
    (s.and_regs i v).timer t = s.timer t := by cases t <;> rfl
@[simp] theorem timer_set_reg (s : OHCI1394State) (i v : Nat) (t : ATSel) :
    (s.set_reg i v).timer t = s.timer t := by cases t <;> rfl
@[simp] theorem timer_or_reg (s : OHCI1394State) (i v : Nat) (t : ATSel) :
    (s.or_reg i v).timer t = s.timer t := by cases t <;> rfl
@[simp] theorem timer_and_reg (s : OHCI1394State) (i v : Nat) (t : ATSel) :
    (s.and_reg i v).timer t = s.timer t := by cases t <;> rfl
@[simp] theorem timer_set_timer (s : OHCI1394State) (t : ATSel) (v : HCDTimerState) :
    (s.set_timer t v).timer t = v := by cases t <;> rfl
@[simp] theorem timer_chr_write (s : OHCI1394State) (b : List Nat) (t : ATSel) :
    (qemu_chr_fe_write s b).timer t = s.timer t := by cases t <;> rfl
@[simp] theorem timer_dma_write (s : OHCI1394State) (a : Nat) (b : List Nat) (t : ATSel) :
    (dma_write s a b).timer t = s.timer t := by cases t <;> rfl
@[simp] theorem regs_set_timer (s : OHCI1394State) (t : ATSel) (v : HCDTimerState) :
    (s.set_timer t v).regs = s.regs := by cases t <;> rfl
@[simp] theorem mem_set_timer (s : OHCI1394State) (t : ATSel) (v : HCDTimerState) :
    (s.set_timer t v).mem = s.mem := by cases t <;> rfl
@[simp] theorem chr_set_timer (s : OHCI1394State) (t : ATSel) (v : HCDTimerState) :
    (s.set_timer t v).chr = s.chr := by cases t <;> rfl
@[simp] theorem junk_set_timer (s : OHCI1394State) (t : ATSel) (v : HCDTimerState) :
    (s.set_timer t v).junk = s.junk := by cases t <;> rfl
@[simp] theorem mem_set_regs (s : OHCI1394State) (i v : Nat) : (s.set_regs i v).mem = s.mem := rfl
@[simp] theorem chr_set_regs (s : OHCI1394State) (i v : Nat) : (s.set_regs i v).chr = s.chr := rfl
@[simp] theorem junk_set_regs (s : OHCI1394State) (i v : Nat) :
    (s.set_regs i v).junk = s.junk := rfl
@[simp] theorem regs_chr_write (s : OHCI1394State) (b : List Nat) :
    (qemu_chr_fe_write s b).regs = s.regs := rfl
@[simp] theorem mem_chr_write (s : OHCI1394State) (b : List Nat) :
    (qemu_chr_fe_write s b).mem = s.mem := rfl
@[simp] theorem junk_chr_write (s : OHCI1394State) (b : List Nat) :
    (qemu_chr_fe_write s b).junk = s.junk := rfl
@[simp] theorem chr_chr_write (s : OHCI1394State) (b : List Nat) :
    (qemu_chr_fe_write s b).chr = s.chr ++ b := rfl
@[simp] theorem regs_dma_write (s : OHCI1394State) (a : Nat) (b : List Nat) :
    (dma_write s a b).regs = s.regs := rfl
@[simp] theorem mem_dma_write (s : OHCI1394State) (a : Nat) (b : List Nat) :
    (dma_write s a b).mem = dma_memory_write s.mem a b := rfl
@[simp] theorem chr_dma_write (s : OHCI1394State) (a : Nat) (b : List Nat) :
    (dma_write s a b).chr = s.chr := rfl

/-- What `at_last` leaves in the register file, word by word. -/
theorem at_last_regs (s : OHCI1394State) (t : ATSel) (db : HCDAtDB) (j : Nat) :
    (at_last s t db).regs j =
      if j = Ax_CC (s.timer t).num then
        (if db.branch_address &&& 0x0000000f = 0 then
          (((s.regs j &&& 0xFFFFFFE0) ||| (s.timer t).response) % 0x100000000 &&& 0xFFFFFBFF)
            % 0x100000000
        else
          (((s.regs j &&& 0xFFFFFFE0) ||| (s.timer t).response) % 0x100000000 ||| 0x400)
            % 0x100000000)
      else if j = Ax_CP (s.timer t).num then
        (if db.branch_address &&& 0x0000000f = 0 then s.regs j
         else db.branch_address % 0x100000000)
      else if j = 32 then
        (if db.flags &&& 0x0030 = 0x0030 then
          (s.regs 32 ||| 1 <<< (s.timer t).num) % 0x100000000 else s.regs 32)
      else s.regs j := by
  have h1 := Ax_CC_eq (s.timer t).num
  have h2 := Ax_CP_eq (s.timer t).num
  have h3 : ¬ (96 + 8 * (s.timer t).num = 32) := by omega
  have h4 : ¬ (99 + 8 * (s.timer t).num = 32) := by omega
  have h5 : ¬ (99 + 8 * (s.timer t).num = 96 + 8 * (s.timer t).num) := by omega
  have h6 : ¬ (96 + 8 * (s.timer t).num = 99 + 8 * (s.timer t).num) := by omega
  unfold at_last
  simp only []
  split_ifs <;>
    simp_all [hcd_at_run, timer_mod, SET_Ax_EVENT_CODE, SET_Ax_ACTIVE, CLR_Ax_ACTIVE,
      SET_Ax_COMMAND_PTR, Ax_COMMAND_PTR, OHCI1394State.or_reg, OHCI1394State.or_regs,
      OHCI1394State.and_regs]


/-- The timer record after `at_last`. -/
theorem at_last_timer (s : OHCI1394State) (t : ATSel) (db : HCDAtDB) :
    (at_last s t db).timer t =
      if db.branch_address &&& 0x0000000f = 0 then s.timer t
      else { num := (s.timer t).num, address := db.branch_address % 0x100000000 &&& 0xfffffff0,
             response := EVT_TCODE_ERR, armed := true } := by
  unfold at_last
  simp only []
  split_ifs <;>
    simp_all [hcd_at_run, timer_mod, SET_Ax_EVENT_CODE, SET_Ax_ACTIVE, CLR_Ax_ACTIVE,
      SET_Ax_COMMAND_PTR, Ax_COMMAND_PTR, Ax_CONTEXT_CONTROL, OHCI1394State.or_reg,
      OHCI1394State.or_regs, OHCI1394State.and_regs]

theorem at_last_chr (s : OHCI1394State) (t : ATSel) (db : HCDAtDB) :
    (at_last s t db).chr = s.chr := by
  unfold at_last
  simp only []
  split_ifs <;>
    simp_all [hcd_at_run, timer_mod, SET_Ax_EVENT_CODE, SET_Ax_ACTIVE, CLR_Ax_ACTIVE,
      SET_Ax_COMMAND_PTR, Ax_COMMAND_PTR, Ax_CONTEXT_CONTROL, OHCI1394State.or_reg,
      OHCI1394State.or_regs, OHCI1394State.and_regs]

theorem at_last_irq_asserted (s : OHCI1394State) (t : ATSel) (db : HCDAtDB) :
    (at_last s t db).irq_asserted = s.irq_asserted := by
  unfold at_last
  simp only []
  split_ifs <;> simp

theorem at_more_regs (s : OHCI1394State) (t : ATSel) (db : HCDAtDB) :
    (at_more s t db).regs = s.regs := by
  unfold at_more timer_mod set_timer_address
  simp only []
  split_ifs <;> simp

theorem at_more_chr (s : OHCI1394State) (t : ATSel) (db : HCDAtDB) :
    (at_more s t db).chr = s.chr := by
  unfold at_more timer_mod set_timer_address
  simp only []
  split_ifs <;> simp

theorem at_more_timer (s : OHCI1394State) (t : ATSel) (db : HCDAtDB) :
    (at_more s t db).timer t =
      { s.timer t with
        address := ((s.timer t).address + if db.flags &&& 0x0700 = 0x0200 then 32 else 16)
          % 0x100000000
        armed := true } := by
  unfold at_more timer_mod set_timer_address
  simp only []
  split_ifs <;> simp

/-- When the guards of `hcd_at_timer` let it through, it processes a descriptor
on the device `at_enter` gives. -/
theorem hcd_at_timer_enter (fuel : Nat) (s s0 : OHCI1394State) (t : ATSel)
    (he : at_enter s t = some s0) : hcd_at_timer fuel s t = at_process fuel s0 t := by
  unfold at_enter at he
  unfold hcd_at_timer
  split_ifs at he with h1 h2 h3 h4
  · simp only [Option.some.injEq] at he
    subst he
    rw [if_neg h1, if_neg (not_not.mpr h2)]
  · simp only [Option.some.injEq] at he
    rw [if_neg h1, if_pos h2, if_neg (not_not.mpr h3), if_neg h4, he]

/-- The device `at_enter` gives differs from the one the timer fired on at most
in `context_control` and `command_ptr` of the context and in the cursor and the
staged response of the timer. -/
theorem at_enter_frame (s s0 : OHCI1394State) (t : ATSel) (he : at_enter s t = some s0) :
    s0.mem = s.mem ∧ s0.chr = s.chr ∧ s0.junk = s.junk ∧ s0.irq_asserted = s.irq_asserted ∧
    (s0.timer t).num = (s.timer t).num ∧ (s0.timer t).armed = (s.timer t).armed ∧
    (∀ j, j ≠ Ax_CC (s.timer t).num → j ≠ Ax_CP (s.timer t).num → s0.regs j = s.regs j) := by
  unfold at_enter at he
  split_ifs at he with h1 h2 h3 h4
  · simp only [Option.some.injEq] at he
    subst he
    exact ⟨rfl, rfl, rfl, rfl, rfl, rfl, fun _ _ _ => rfl⟩
  · simp only [Option.some.injEq] at he
    subst he
    refine ⟨?_, ?_, ?_, ?_, ?_, ?_, ?_⟩
    · simp [hcd_at_run, SET_Ax_ACTIVE, SET_Ax_COMMAND_PTR, CLR_Ax_WAKE, OHCI1394State.or_regs,
        OHCI1394State.and_regs]
    · simp [hcd_at_run, SET_Ax_ACTIVE, SET_Ax_COMMAND_PTR, CLR_Ax_WAKE, OHCI1394State.or_regs,
        OHCI1394State.and_regs]
    · simp [hcd_at_run, SET_Ax_ACTIVE, SET_Ax_COMMAND_PTR, CLR_Ax_WAKE, OHCI1394State.or_regs,
        OHCI1394State.and_regs]
    · simp [hcd_at_run, SET_Ax_ACTIVE, SET_Ax_COMMAND_PTR, CLR_Ax_WAKE, OHCI1394State.or_regs,
        OHCI1394State.and_regs]
    · simp [hcd_at_run, SET_Ax_ACTIVE, SET_Ax_COMMAND_PTR, CLR_Ax_WAKE, OHCI1394State.or_regs,
        OHCI1394State.and_regs]
    · simp [hcd_at_run, SET_Ax_ACTIVE, SET_Ax_COMMAND_PTR, CLR_Ax_WAKE, OHCI1394State.or_regs,
        OHCI1394State.and_regs]
    · intro j hj1 hj2
      simp [hcd_at_run, SET_Ax_ACTIVE, SET_Ax_COMMAND_PTR, CLR_Ax_WAKE, OHCI1394State.or_regs,
        OHCI1394State.and_regs, hj1, hj2]

theorem set_timer_response_self (s : OHCI1394State) (t : ATSel) :
    set_timer_response s t (s.timer t).response = s := by
  cases t <;> rfl

theorem chr_write_nil (s : OHCI1394State) : qemu_chr_fe_write s [] = s := by
  unfold qemu_chr_fe_write; simp

/-- The transmit switch of `hcd_at_timer` on a descriptor that is not an
Immediate PHY packet: it returns, having sent bytes and staged a response. -/
theorem at_transmit_nophy (fuel : Nat) (s : OHCI1394State) (t : ATSel) (db : HCDAtDB)
    (hkey : db.flags &&& 0x0700 = 0 ∨ db.flags &&& 0x0700 = 0x0200)
    (hphy : db.flags &&& 0x0700 = 0x0200 → at_tcode s t db ≠ 0xe0) :
    at_transmit fuel s t db =
      some (set_timer_response
        (qemu_chr_fe_write s
          (if db.flags &&& 0x0700 = 0 then dma_memory_read s.mem db.data_address db.req_count
           else if at_tcode s t db = 0x00 then (at_inline_data s t db).take 16
           else if at_tcode s t db = 0x10 ∨ at_tcode s t db = 0x40 ∨ at_tcode s t db = 0x50 then
             (at_inline_data s t db).take db.req_count
           else [])) t
        (if db.flags &&& 0x0700 = 0x0200 ∧
            (at_tcode s t db = 0x00 ∨ at_tcode s t db = 0x10 ∨ at_tcode s t db = 0x40 ∨
              at_tcode s t db = 0x50) then ACK_PENDING else (s.timer t).response)) := by
  unfold at_transmit
  rcases hkey with hk | hk
  · rw [if_pos hk, if_pos hk, if_neg (by rw [hk]; simp)]
    rw [← timer_chr_write s _ t, set_timer_response_self]
  · have hp := hphy hk
    have hk0 : ¬ (db.flags &&& 0x0700 = 0) := by rw [hk]; decide
    rw [if_neg hk0, if_pos hk, if_neg hk0]
    unfold at_immediate
    simp only []
    change at_tcode s t db ≠ 0xe0 at hp
    show (if at_tcode s t db = 0x00 then _ else if at_tcode s t db = 0x10 ∨ at_tcode s t db = 0x40 ∨
      at_tcode s t db = 0x50 then _ else if at_tcode s t db = 0xe0 then _ else _) = _
    by_cases h0 : at_tcode s t db = 0x00
    · rw [if_pos h0, if_pos h0, if_pos ⟨hk, Or.inl h0⟩]
    · by_cases h1 : at_tcode s t db = 0x10 ∨ at_tcode s t db = 0x40 ∨ at_tcode s t db = 0x50
      · rw [if_neg h0, if_pos h1, if_neg h0, if_pos h1, if_pos ⟨hk, Or.inr h1⟩]
      · rw [if_neg h0, if_neg h1, if_neg hp, if_neg h0, if_neg h1, if_neg (by tauto), chr_write_nil,
          set_timer_response_self]

theorem at_tcode_clr_wake (s : OHCI1394State) (n : Nat) (t : ATSel) (db : HCDAtDB) :
    at_tcode (CLR_Ax_WAKE s n) t db = at_tcode s t db := by
  unfold at_tcode at_inline_data CLR_Ax_WAKE OHCI1394State.and_regs
  simp

theorem read_at_db_clr_wake (s : OHCI1394State) (n a : Nat) :
    read_at_db (CLR_Ax_WAKE s n) a = read_at_db s a := rfl

/-- Processing a descriptor with command OUTPUT_LAST that is not an Immediate
PHY packet: the transmit switch sends some bytes and stages a response, then
the completion branch runs. -/
theorem at_process_last (fuel : Nat) (s0 : OHCI1394State) (t : ATSel)
    (hcmd : (read_at_db s0 (s0.timer t).address).flags &&& 0xF000 = 0x1000)
    (hkey : (read_at_db s0 (s0.timer t).address).flags &&& 0x0700 = 0 ∨
      (read_at_db s0 (s0.timer t).address).flags &&& 0x0700 = 0x0200)
    (hphy : (read_at_db s0 (s0.timer t).address).flags &&& 0x0700 = 0x0200 →
      at_tcode s0 t (read_at_db s0 (s0.timer t).address) ≠ 0xe0) :
    ∃ bytes, at_process fuel s0 t =
      some (at_last
        (set_timer_response (qemu_chr_fe_write (CLR_Ax_WAKE s0 (s0.timer t).num) bytes) t
          (if (read_at_db s0 (s0.timer t).address).flags &&& 0x0700 = 0x0200 ∧
              (at_tcode s0 t (read_at_db s0 (s0.timer t).address) = 0x00 ∨
               at_tcode s0 t (read_at_db s0 (s0.timer t).address) = 0x10 ∨
               at_tcode s0 t (read_at_db s0 (s0.timer t).address) = 0x40 ∨
               at_tcode s0 t (read_at_db s0 (s0.timer t).address) = 0x50) then ACK_PENDING
           else (s0.timer t).response))
        t (read_at_db s0 (s0.timer t).address)) := by
  have hw : (CLR_Ax_WAKE s0 (s0.timer t).num).timer t = s0.timer t := by
    unfold CLR_Ax_WAKE; simp
  have ht := at_transmit_nophy fuel (CLR_Ax_WAKE s0 (s0.timer t).num) t
    (read_at_db s0 (s0.timer t).address) hkey (by rw [at_tcode_clr_wake]; exact hphy)
  rw [at_tcode_clr_wake, hw] at ht
  unfold at_process
  simp only []
  rw [hw, read_at_db_clr_wake, if_pos ⟨Or.inr hcmd, hkey⟩, ht]
  simp only [Option.map_some']
  rw [if_neg (by rw [hcmd]; decide)]
  exact ⟨_, rfl⟩

theorem set_timer_response_regs (s : OHCI1394State) (t : ATSel) (r : Nat) :
    (set_timer_response s t r).regs = s.regs := by
  unfold set_timer_response; simp

theorem set_timer_response_timer (s : OHCI1394State) (t : ATSel) (r : Nat) :
    (set_timer_response s t r).timer t = { s.timer t with response := r } := by
  unfold set_timer_response; simp

theorem set_timer_response_chr (s : OHCI1394State) (t : ATSel) (r : Nat) :
    (set_timer_response s t r).chr = s.chr := by
  unfold set_timer_response; simp

theorem clr_wake_regs (s : OHCI1394State) (n j : Nat) :
    (CLR_Ax_WAKE s n).regs j =
      if j = Ax_CC n then (s.regs j &&& 0xFFFFEFFF) % 0x100000000 else s.regs j := by
  unfold CLR_Ax_WAKE OHCI1394State.and_regs
  simp only [set_regs_regs]
  split_ifs with h
  · rw [h]
  · rfl

theorem clr_wake_timer (s : OHCI1394State) (n : Nat) (t : ATSel) :
    (CLR_Ax_WAKE s n).timer t = s.timer t := by
  unfold CLR_Ax_WAKE; simp

/-- C11: when `hcd_at_timer`, fired on a device whose AT timers carry the
context numbers 0 (request) and 1 (response), gets past its guards and the
descriptor at the cursor has the command OUTPUT_LAST (key 0, or Immediate with
at most the 16 inline bytes the local array `data` holds) and is
not an Immediate PHY packet, the callback returns and `int_event` is the old
value OR `1 << num`, that is with bit 0 (AT-request) or bit 1 (AT-response)
set and no other bit changed, when the interrupt
field `flags AND 0x0030` equals `0x30`, and is unchanged for every other value
of the field. -/
theorem hcd_at_timer_completion_bit (fuel : Nat) (s s0 : OHCI1394State) (t : ATSel)
    (hnum : (s.timer t).num = at_num t) (h32 : s.reg OFF_int_event < 0x100000000)
    (he : at_enter s t = some s0)
    (hcmd : (read_at_db s0 (s0.timer t).address).flags &&& 0xF000 = 0x1000)
    (hkey : (read_at_db s0 (s0.timer t).address).flags &&& 0x0700 = 0 ∨
      (read_at_db s0 (s0.timer t).address).flags &&& 0x0700 = 0x0200)
    (_hreq : (read_at_db s0 (s0.timer t).address).flags &&& 0x0700 = 0x0200 →
      (read_at_db s0 (s0.timer t).address).req_count ≤ 16)
    (hphy : (read_at_db s0 (s0.timer t).address).flags &&& 0x0700 = 0x0200 →
      at_tcode s0 t (read_at_db s0 (s0.timer t).address) ≠ 0xe0) :
    ∃ s', hcd_at_timer fuel s t = some s' ∧
      s'.reg OFF_int_event =
        if (read_at_db s0 (s0.timer t).address).flags &&& 0x0030 = 0x0030 then
          s.reg OFF_int_event ||| (1 <<< at_num t)
        else s.reg OFF_int_event := by
  obtain ⟨bytes, hp⟩ := at_process_last fuel s0 t hcmd hkey hphy
  obtain ⟨-, -, -, -, hn0, -, hfr⟩ := at_enter_frame s s0 t he
  have h1 := Ax_CC_eq (s.timer t).num
  have h2 := Ax_CP_eq (s.timer t).num
  have e32 : s0.regs 32 = s.regs 32 := hfr 32 (by omega) (by omega)
  refine ⟨_, (hcd_at_timer_enter fuel s s0 t he).trans hp, ?_⟩
  show (at_last _ t _).regs 32 = _
  rw [at_last_regs, set_timer_response_timer, timer_chr_write, clr_wake_timer,
    set_timer_response_regs, regs_chr_write, clr_wake_regs, hn0]
  have h3 : ¬ ((32 : Nat) = Ax_CC (s.timer t).num) := by omega
  have h4 : ¬ ((32 : Nat) = Ax_CP (s.timer t).num) := by omega
  simp only [if_neg h3, if_neg h4, if_true, e32]
  have hx : s.regs 32 < 0x100000000 := h32
  show (if _ then (s.regs 32 ||| 1 <<< (s.timer t).num) % 0x100000000 else s.regs 32) =
    if _ then s.regs 32 ||| _ else s.regs 32
  split_ifs with hi
  · rw [hnum]
    cases t
    · exact or_mod32 hx (by decide)
    · exact or_mod32 hx (by decide)
  · rfl

/-- Witness for C11: an OUTPUT_LAST descriptor with interrupt field `0x30` on
the AT-response context sets bit 1 of `int_event`; one with interrupt field
`0x10` on the AT-request context leaves `int_event` 0; so does the
OUTPUT_LAST_Immediate descriptor of `imm_demo` (8 inline bytes, interrupt
field 0). -/
theorem hcd_at_timer_completion_bit_witness :
    (∃ s', hcd_at_timer 0 (at_ready (at_mem 4 0x1030 0 []) ATSel.rsp) ATSel.rsp = some s' ∧
      s'.reg OFF_int_event = 2) ∧
    (∃ s', hcd_at_timer 0 (at_ready (at_mem 4 0x1010 0 []) ATSel.req) ATSel.req = some s' ∧
      s'.reg OFF_int_event = 0) ∧
    ((read_at_db imm_demo 0x1000).flags = 0x1200 ∧ (read_at_db imm_demo 0x1000).req_count = 8 ∧
      ∃ s', hcd_at_timer 0 imm_demo ATSel.req = some s' ∧ s'.reg OFF_int_event = 0) :=
  ⟨(hcd_at_timer_completion_bit 0 (at_ready (at_mem 4 0x1030 0 []) ATSel.rsp)
      (at_ready (at_mem 4 0x1030 0 []) ATSel.rsp) ATSel.rsp (by rfl) (by decide) (by rfl) (by rfl)
      (Or.inl (by rfl)) (fun h => absurd h (by decide)) (fun h => absurd h (by decide))).imp
      fun _ h => ⟨h.1, h.2.trans (by rfl)⟩,
   (hcd_at_timer_completion_bit 0 (at_ready (at_mem 4 0x1010 0 []) ATSel.req)
      (at_ready (at_mem 4 0x1010 0 []) ATSel.req) ATSel.req (by rfl) (by decide) (by rfl) (by rfl)
      (Or.inl (by rfl)) (fun h => absurd h (by decide)) (fun h => absurd h (by decide))).imp
      fun _ h => ⟨h.1, h.2.trans (by rfl)⟩,
   by decide, by decide,
   (hcd_at_timer_completion_bit 0 imm_demo imm_demo ATSel.req (by rfl) (by decide) (by rfl)
      (by rfl) (Or.inr (by rfl)) (fun _ => by decide) (fun _ => by decide)).imp
      fun _ h => ⟨h.1, h.2.trans (by rfl)⟩⟩

/-! ## Bytes and guest memory -/

theorem le_val_lt (l : List Nat) : le_val l < 256 ^ l.length := by
  induction l with
  | nil => simp [le_val]
  | cons b bs ih =>
    simp only [le_val, List.length_cons, pow_succ]
    have := Nat.mod_lt b (show 0 < 256 by decide)
    omega

theorem le_val_le_bytes_4 (b : Nat) (h : b < 0x100000000) : le_val (le_bytes 4 b) = b := by
  simp only [le_bytes, le_val]; omega

theorem dma_memory_read_length (m : Nat → Nat) (a k : Nat) :
    (dma_memory_read m a k).length = k := by
  simp [dma_memory_read]

/-- Reading back what was just written. -/
theorem dma_read_write_same (m : Nat → Nat) (a : Nat) (bytes : List Nat) :
    dma_memory_read (dma_memory_write m a bytes) a bytes.length = bytes := by
  apply List.ext_getElem
  · simp [dma_memory_read]
  · intro i h1 h2
    simp only [dma_memory_read, List.getElem_map, List.getElem_range, dma_memory_write]
    rw [if_pos ⟨by omega, by omega⟩]
    simp [h2]

/-- Reading a range the write did not touch. -/
theorem dma_read_write_disjoint (m : Nat → Nat) (a : Nat) (bytes : List Nat) (b k : Nat)
    (h : b + k ≤ a ∨ a + bytes.length ≤ b) :
    dma_memory_read (dma_memory_write m a bytes) b k = dma_memory_read m b k := by
  apply List.ext_getElem
  · simp [dma_memory_read]
  · intro i h1 h2
    simp only [dma_memory_read, List.length_map, List.length_range] at h1
    simp only [dma_memory_read, List.getElem_map, List.getElem_range, dma_memory_write]
    rw [if_neg (by omega)]

theorem read_at_db_bounds (s : OHCI1394State) (a : Nat) :
    (read_at_db s a).req_count < 0x10000 ∧ (read_at_db s a).flags < 0x10000 ∧
    (read_at_db s a).data_address < 0x100000000 ∧ (read_at_db s a).branch_address < 0x100000000 ∧
    (read_at_db s a).timestamp < 0x10000 ∧ (read_at_db s a).transfer_status < 0x10000 := by
  unfold read_at_db HCDAtDB.ofBytes
  refine ⟨?_, ?_, ?_, ?_, ?_, ?_⟩ <;>
    refine lt_of_lt_of_le (le_val_lt _) ?_ <;>
    simp [dma_memory_read]

/-! ## Bits of `context_control` -/

theorem event_code_low (x r : Nat) (hr : r < 32) : ((x &&& 0xFFFFFFE0) ||| r) &&& 0x1F = r := by
  rw [Nat.and_distrib_right, Nat.and_assoc, show (0xFFFFFFE0 &&& 0x1F : Nat) = 0 from rfl,
    Nat.and_zero, Nat.zero_or]
  have := Nat.and_pow_two_sub_one_eq_mod r 5
  simp only [Nat.reducePow, Nat.add_one_sub_one] at this
  rw [this]
  exact Nat.mod_eq_of_lt hr

theorem event_code_lt (x r : Nat) (hr : r < 32) :
    (x &&& 0xFFFFFFE0) ||| r < 0x100000000 :=
  Nat.or_lt_two_pow (n := 32) (lt_of_le_of_lt Nat.and_le_right (by decide))
    (lt_trans hr (by decide))

theorem clear_bit10 (x : Nat) : (x &&& 0xFFFFFBFF) &&& 0x400 = 0 := by
  rw [Nat.and_assoc, show (0xFFFFFBFF &&& 0x400 : Nat) = 0 from rfl, Nat.and_zero]

theorem hcd_check_irq_frame (s : OHCI1394State) :
    (hcd_check_irq s).at_req_timer = s.at_req_timer ∧
    (hcd_check_irq s).at_rsp_timer = s.at_rsp_timer ∧ (hcd_check_irq s).chr = s.chr := by
  unfold hcd_check_irq; split_ifs <;> exact ⟨rfl, rfl, rfl⟩

theorem rx_rsp_step_frame (s : OHCI1394State) (l : RxLocals) :
    (rx_rsp_step s l).1.at_req_timer = s.at_req_timer ∧
    (rx_rsp_step s l).1.at_rsp_timer = s.at_rsp_timer ∧ (rx_rsp_step s l).1.chr = s.chr := by
  unfold rx_rsp_step rx_case0 rx_case1 rx_next_db; simp only []
  split_ifs <;> exact ⟨rfl, rfl, rfl⟩

theorem rx_rsp_packet_frame (fuel : Nat) (s s' : OHCI1394State) (buf : List Nat)
    (size response : Nat) (h : hcd_async_rx_rsp_packet fuel s buf size response = some s') :
    s'.at_req_timer = s.at_req_timer ∧ s'.at_rsp_timer = s.at_rsp_timer ∧ s'.chr = s.chr := by
  unfold hcd_async_rx_rsp_packet at h
  split_ifs at h with h0
  · simp at h; rw [← h]; exact ⟨rfl, rfl, rfl⟩
  · simp only [Option.map_eq_some'] at h
    obtain ⟨s1, hl, rfl⟩ := h
    have e1 := rx_rsp_loop_preserves (·.at_req_timer) (fun s l => (rx_rsp_step_frame s l).1)
      _ _ _ _ hl
    have e2 := rx_rsp_loop_preserves (·.at_rsp_timer) (fun s l => (rx_rsp_step_frame s l).2.1)
      _ _ _ _ hl
    have e3 := rx_rsp_loop_preserves (·.chr) (fun s l => (rx_rsp_step_frame s l).2.2) _ _ _ _ hl
    unfold rx_rsp_finish
    obtain ⟨f1, f2, f3⟩ := hcd_check_irq_frame
      (OHCI1394State.or_reg s1 OFF_int_event (1 <<< 5))
    rw [f1, f2, f3]
    exact ⟨e1, e2, e3⟩

theorem bus_reset_begin_frame (s : OHCI1394State) :
    (bus_reset_begin s).at_req_timer = s.at_req_timer ∧
    (bus_reset_begin s).at_rsp_timer = s.at_rsp_timer ∧ (bus_reset_begin s).chr = s.chr := by
  unfold bus_reset_begin; simp only []; split_ifs <;> exact ⟨rfl, rfl, rfl⟩

theorem bus_reset_begin_regs (s : OHCI1394State) (i : Nat) (h1 : i ≠ 26) (h2 : i ≠ 32)
    (h3 : i ≠ 58) (h4 : i ≠ 96) (h5 : i ≠ 104) : (bus_reset_begin s).regs i = s.regs i := by
  unfold bus_reset_begin; simp only []
  split_ifs <;>
    simp [map_generation, OHCI1394State.set_reg, OHCI1394State.or_reg, OHCI1394State.and_reg,
      OHCI1394State.or_regs, OHCI1394State.and_regs, h1, h2, h3, h4, h5]

theorem hcd_complete_self_id_frame (s : OHCI1394State) :
    (hcd_complete_self_id s).at_req_timer = s.at_req_timer ∧
    (hcd_complete_self_id s).at_rsp_timer = s.at_rsp_timer ∧
    (hcd_complete_self_id s).chr = s.chr := by
  unfold hcd_complete_self_id
  simp only []
  obtain ⟨f1, f2, f3⟩ := hcd_check_irq_frame
    (OHCI1394State.or_reg
      (if (map_flags (map_lo_word (complete_node_id s) (· &&& 0xF803)) (· &&& 0x7F)).reg
          OFF_link_control &&& 0x00000200 ≠ 0 then
        self_id_stream (map_flags (map_lo_word (complete_node_id s) (· &&& 0xF803)) (· &&& 0x7F))
      else map_flags (map_lo_word (complete_node_id s) (· &&& 0xF803)) (· &&& 0x7F))
      OFF_int_event 0x00018000)
  rw [f1, f2, f3]
  unfold self_id_stream self_id_stream_connected self_id_header complete_node_id
  simp only []
  split_ifs <;> exact ⟨rfl, rfl, rfl⟩

theorem hcd_complete_self_id_regs (s : OHCI1394State) (i : Nat) (h1 : i ≠ 26) (h2 : i ≠ 32)
    (h3 : i ≠ 58) : (hcd_complete_self_id s).regs i = s.regs i := by
  unfold hcd_complete_self_id
  simp only []
  rw [hcd_check_irq_regs]
  unfold self_id_stream self_id_stream_connected self_id_header complete_node_id
  simp only []
  split_ifs <;>
    simp [map_lo_word, map_flags, self_id_write, OHCI1394State.set_reg, OHCI1394State.or_reg,
      OHCI1394State.or_regs, h1, h2, h3]

/-- A bus reset leaves the AT timers and the transport alone, and writes no
register word other than `self_id_count` (26), `int_event` (32), `node_id` (58),
the two AT `context_control` words (96, 104) and `context_control` and
`command_ptr` of the AR-response context (120, 123). -/
theorem hcd_bus_reset_frame (fuel : Nat) (s s' : OHCI1394State)
    (h : hcd_bus_reset fuel s = some s') :
    s'.at_req_timer = s.at_req_timer ∧ s'.at_rsp_timer = s.at_rsp_timer ∧ s'.chr = s.chr ∧
    ∀ i, i ≠ 26 → i ≠ 32 → i ≠ 58 → i ≠ 96 → i ≠ 104 → i ≠ 120 → i ≠ 123 →
      s'.regs i = s.regs i := by
  obtain ⟨s1, h1, rfl⟩ := hcd_bus_reset_some _ _ _ h
  obtain ⟨c1, c2, c3⟩ := hcd_complete_self_id_frame s1
  obtain ⟨b1, b2, b3⟩ := bus_reset_begin_frame s
  have hd : s1.at_req_timer = (bus_reset_begin s).at_req_timer ∧
      s1.at_rsp_timer = (bus_reset_begin s).at_rsp_timer ∧ s1.chr = (bus_reset_begin s).chr := by
    unfold bus_reset_deliver at h1
    split_ifs at h1
    · exact rx_rsp_packet_frame _ _ _ _ _ _ h1
    · simp at h1; subst h1; exact ⟨rfl, rfl, rfl⟩
  refine ⟨by rw [c1, hd.1, b1], by rw [c2, hd.2.1, b2], by rw [c3, hd.2.2, b3], ?_⟩
  intro i i1 i2 i3 i4 i5 i6 i7
  rw [hcd_complete_self_id_regs _ i i1 i2 i3,
    (bus_reset_deliver_frame _ _ _ h1).2.2 i i2 i6 i7, bus_reset_begin_regs s i i1 i2 i3 i4 i5]

theorem timer_of_fields (s s' : OHCI1394State) (t : ATSel)
    (h1 : s'.at_req_timer = s.at_req_timer) (h2 : s'.at_rsp_timer = s.at_rsp_timer) :
    s'.timer t = s.timer t := by
  cases t
  · exact h1
  · exact h2

theorem and_15_eq_mod (x : Nat) : x &&& 0xf = x % 16 := by
  have := Nat.and_pow_two_sub_one_eq_mod x 4
  simpa using this

theorem aligned_mask (x : Nat) : (x &&& 0xfffffff0) &&& 0xf = 0 := by
  rw [Nat.and_assoc, show (0xfffffff0 &&& 0xf : Nat) = 0 from rfl, Nat.and_zero]

/-- The transmit switch of `hcd_at_timer` leaves `command_ptr` of the context and
the number, cursor and arming of the timer alone, whatever the descriptor. -/
theorem at_transmit_frame (fuel : Nat) (s s1 : OHCI1394State) (t : ATSel) (db : HCDAtDB)
    (hnum : (s.timer t).num = at_num t) (h : at_transmit fuel s t db = some s1) :
    s1.regs (Ax_CP (s.timer t).num) = s.regs (Ax_CP (s.timer t).num) ∧
    (s1.timer t).num = (s.timer t).num ∧ (s1.timer t).address = (s.timer t).address ∧
    (s1.timer t).armed = (s.timer t).armed := by
  unfold at_transmit at h
  split_ifs at h with h1 h2
  · simp only [Option.some.injEq] at h; subst h
    exact ⟨rfl, by simp, by simp, by simp⟩
  · unfold at_immediate at h
    simp only [] at h
    split_ifs at h with h3 h4 h5
    · simp only [Option.some.injEq] at h; subst h
      exact ⟨by simp [set_timer_response], by simp [set_timer_response],
        by simp [set_timer_response], by simp [set_timer_response]⟩
    · simp only [Option.some.injEq] at h; subst h
      exact ⟨by simp [set_timer_response], by simp [set_timer_response],
        by simp [set_timer_response], by simp [set_timer_response]⟩
    · obtain ⟨f1, f2, -, fr⟩ := hcd_bus_reset_frame _ _ _ h
      have ht := timer_of_fields _ _ t f1 f2
      have hcp := Ax_CP_eq (s.timer t).num
      have hn : (s.timer t).num = 0 ∨ (s.timer t).num = 1 := by
        rw [hnum]; cases t
        · exact Or.inl rfl
        · exact Or.inr rfl
      rw [ht, fr _ (by omega) (by omega) (by omega) (by omega) (by omega) (by omega) (by omega)]
      exact ⟨by simp [set_timer_response], by simp [set_timer_response],
        by simp [set_timer_response], by simp [set_timer_response]⟩
    · simp only [Option.some.injEq] at h; subst h
      exact ⟨rfl, rfl, rfl, rfl⟩
  · simp only [Option.some.injEq] at h; subst h
    exact ⟨rfl, rfl, rfl, rfl⟩

/-- What processing one descriptor does to `command_ptr` and the cursor: either
`command_ptr` is kept and an aligned cursor stays aligned, or `command_ptr`
becomes the branch of the descriptor, whose low nibble is then non-zero, and the
cursor is aligned. -/
theorem at_process_command_ptr (fuel : Nat) (s0 s' : OHCI1394State) (t : ATSel)
    (hnum : (s0.timer t).num = at_num t) (h : at_process fuel s0 t = some s') :
    (Ax_COMMAND_PTR s' (s0.timer t).num = Ax_COMMAND_PTR s0 (s0.timer t).num ∧
      ((s0.timer t).address &&& 0xf = 0 → (s'.timer t).address &&& 0xf = 0)) ∨
    (Ax_COMMAND_PTR s' (s0.timer t).num = (read_at_db s0 (s0.timer t).address).branch_address ∧
      Ax_COMMAND_PTR s' (s0.timer t).num &&& 0xf ≠ 0 ∧ (s'.timer t).address &&& 0xf = 0) := by
  have hcc := Ax_CC_eq (s0.timer t).num
  have hcp := Ax_CP_eq (s0.timer t).num
  have hne : ¬ (Ax_CP (s0.timer t).num = Ax_CC (s0.timer t).num) := by omega
  have hw : (CLR_Ax_WAKE s0 (s0.timer t).num).timer t = s0.timer t := clr_wake_timer _ _ _
  have hwr : (CLR_Ax_WAKE s0 (s0.timer t).num).regs (Ax_CP (s0.timer t).num) =
      s0.regs (Ax_CP (s0.timer t).num) := by rw [clr_wake_regs, if_neg hne]
  unfold at_process at h
  simp only [] at h
  rw [hw, read_at_db_clr_wake] at h
  split_ifs at h with hv hm
  · simp only [Option.map_eq_some'] at h
    obtain ⟨s1, ht, rfl⟩ := h
    obtain ⟨f1, f2, f3, -⟩ := at_transmit_frame fuel _ s1 t _ (by rw [hw]; exact hnum) ht
    rw [hw] at f1 f2 f3
    rw [hwr] at f1
    left
    refine ⟨?_, ?_⟩
    · show (at_more s1 t _).regs _ = s0.regs _
      rw [at_more_regs, f1]
    · intro ha
      rw [at_more_timer]
      show ((s1.timer t).address + _) % 0x100000000 &&& 0xf = 0
      rw [f3, and_15_eq_mod]
      rw [and_15_eq_mod] at ha
      split_ifs <;> omega
  · simp only [Option.map_eq_some'] at h
    obtain ⟨s1, ht, rfl⟩ := h
    obtain ⟨f1, f2, f3, -⟩ := at_transmit_frame fuel _ s1 t _ (by rw [hw]; exact hnum) ht
    rw [hw] at f1 f2 f3
    rw [hwr] at f1
    obtain ⟨-, -, -, b4, -, -⟩ := read_at_db_bounds s0 (s0.timer t).address
    by_cases hz : (read_at_db s0 (s0.timer t).address).branch_address &&& 0x0000000f = 0
    · left
      refine ⟨?_, ?_⟩
      · show (at_last s1 t _).regs _ = s0.regs _
        rw [at_last_regs, f2, if_neg hne, if_pos rfl, if_pos hz, f1]
      · intro ha
        rw [at_last_timer, if_pos hz, f3]; exact ha
    · right
      have e : Ax_COMMAND_PTR (at_last s1 t (read_at_db s0 (s0.timer t).address))
          (s0.timer t).num = (read_at_db s0 (s0.timer t).address).branch_address := by
        show (at_last s1 t _).regs _ = _
        rw [at_last_regs, f2, if_neg hne, if_pos rfl, if_neg hz, Nat.mod_eq_of_lt b4]
      refine ⟨e, by rw [e]; exact hz, ?_⟩
      rw [at_last_timer, if_neg hz]
      exact aligned_mask _
  · simp only [Option.some.injEq] at h; subst h
    left
    exact ⟨hwr, fun ha => by rw [hw]; exact ha⟩

/-- The device after the wake branch of `hcd_at_timer` has followed the branch `b`. -/
theorem at_woken_fields (s : OHCI1394State) (t : ATSel) (b : Nat) (hb : b < 0x100000000) :
    ((hcd_at_run (SET_Ax_COMMAND_PTR (CLR_Ax_WAKE s (s.timer t).num) (s.timer t).num b)
        t).timer t).num = (s.timer t).num ∧
    ((hcd_at_run (SET_Ax_COMMAND_PTR (CLR_Ax_WAKE s (s.timer t).num) (s.timer t).num b)
        t).timer t).address = b &&& 0xfffffff0 ∧
    (hcd_at_run (SET_Ax_COMMAND_PTR (CLR_Ax_WAKE s (s.timer t).num) (s.timer t).num b)
        t).regs (Ax_CP (s.timer t).num) = b ∧
    (hcd_at_run (SET_Ax_COMMAND_PTR (CLR_Ax_WAKE s (s.timer t).num) (s.timer t).num b)
        t).mem = s.mem := by
  have hcc := Ax_CC_eq (s.timer t).num
  have hcp := Ax_CP_eq (s.timer t).num
  have hne : ¬ (Ax_CP (s.timer t).num = Ax_CC (s.timer t).num) := by omega
  refine ⟨?_, ?_, ?_, ?_⟩ <;>
    simp [hcd_at_run, SET_Ax_ACTIVE, SET_Ax_COMMAND_PTR, CLR_Ax_WAKE, Ax_COMMAND_PTR,
      OHCI1394State.or_regs, OHCI1394State.and_regs, hne, Nat.mod_eq_of_lt hb]

/-- C15, counterexample: on the AT-request context with `command_ptr` 0x1001, an
OUTPUT_LAST descriptor at 0x1000 whose `branch_address` is 0x2001 completes;
the timer callback installs the branch and `command_ptr` reads 0x2001, low
nibble 1, while the cursor is 0x2000. -/
theorem hcd_at_timer_command_ptr_counterexample :
    (at_armed (at_mem 4 0x1000 0x2001 []) ATSel.req).map (fun s => Ax_COMMAND_PTR s 0) =
      some 0x1001 ∧
    (at_fired (at_mem 4 0x1000 0x2001 []) ATSel.req).map
        (fun s => (Ax_COMMAND_PTR s 0, Ax_COMMAND_PTR s 0 &&& 0xf, s.at_req_timer.address)) =
      some (0x2001, 1, 0x2000) := by
  refine ⟨by rfl, by rfl⟩

/-- C15 (amended): on a device whose AT timers carry the context numbers 0 and 1,
whenever `hcd_at_timer` returns, where the descriptor it processes, if it is an
Immediate one, has at most the 16 inline bytes the local array `data` holds,
`command_ptr` of the context is either what it
was, or the `branch_address` of a descriptor in guest memory with a non-zero low
nibble (Z), and then the cursor `t->address` has low nibble zero. -/
theorem hcd_at_timer_command_ptr (fuel : Nat) (s s' : OHCI1394State) (t : ATSel)
    (hnum : (s.timer t).num = at_num t)
    (_hreq : ∀ s0, at_enter s t = some s0 →
      (read_at_db s0 (s0.timer t).address).flags &&& 0x0700 = 0x0200 →
      (read_at_db s0 (s0.timer t).address).req_count ≤ 16)
    (h : hcd_at_timer fuel s t = some s') :
    Ax_COMMAND_PTR s' (s.timer t).num = Ax_COMMAND_PTR s (s.timer t).num ∨
    ∃ a, Ax_COMMAND_PTR s' (s.timer t).num = (read_at_db s a).branch_address ∧
      Ax_COMMAND_PTR s' (s.timer t).num &&& 0xf ≠ 0 ∧ (s'.timer t).address &&& 0xf = 0 := by
  have hcc := Ax_CC_eq (s.timer t).num
  have hcp := Ax_CP_eq (s.timer t).num
  have hne : ¬ (Ax_CP (s.timer t).num = Ax_CC (s.timer t).num) := by omega
  unfold hcd_at_timer at h
  by_cases h1 : IS_Ax_DEAD s (s.timer t).num = true ∨ ¬ IS_Ax_RUN s (s.timer t).num = true
  · rw [if_pos h1] at h
    simp only [Option.some.injEq] at h; subst h
    left
    simp [Ax_COMMAND_PTR, CLR_Ax_ACTIVE, CLR_Ax_WAKE, OHCI1394State.and_regs, hne]
  rw [if_neg h1] at h
  by_cases h2 : ¬ IS_Ax_ACTIVE s (s.timer t).num = true
  · rw [if_pos h2] at h
    by_cases h3 : ¬ IS_Ax_WAKE s (s.timer t).num = true
    · rw [if_pos h3] at h
      simp only [Option.some.injEq] at h; subst h
      exact Or.inl rfl
    rw [if_neg h3] at h
    by_cases h4 : (read_at_db s (s.timer t).address).branch_address &&& 0x0000000f = 0
    · rw [if_pos h4] at h
      simp only [Option.some.injEq] at h; subst h
      left
      simp [Ax_COMMAND_PTR, CLR_Ax_WAKE, OHCI1394State.and_regs, hne]
    rw [if_neg h4] at h
    obtain ⟨-, -, -, b4, -, -⟩ := read_at_db_bounds s (s.timer t).address
    obtain ⟨w1, w2, w3, w4⟩ := at_woken_fields s t _ b4
    have hp := at_process_command_ptr fuel _ s' t (by rw [w1]; exact hnum) h
    rw [w1, w2] at hp
    right
    rcases hp with ⟨e, ha⟩ | ⟨e, hz, ha⟩
    · refine ⟨(s.timer t).address, ?_, ?_, ha (aligned_mask _)⟩
      · rw [e]; exact w3
      · rw [e]; unfold Ax_COMMAND_PTR; rw [w3]; exact h4
    · refine ⟨(read_at_db s (s.timer t).address).branch_address &&& 0xfffffff0, ?_, hz, ha⟩
      rw [e]
      show (HCDAtDB.ofBytes (dma_memory_read _ _ 16)).branch_address = _
      rw [w4]
      rfl
  · rw [if_neg h2] at h
    rcases at_process_command_ptr fuel s s' t hnum h with ⟨e, -⟩ | ⟨e, hz, ha⟩
    · exact Or.inl e
    · exact Or.inr ⟨_, e, hz, ha⟩

/-- Witness for C15 (amended): the timer callback on the device of the
counterexample returns, and `command_ptr`, 0x1001 before, is the branch 0x2001
of the descriptor at 0x1000. -/
theorem hcd_at_timer_command_ptr_witness :
    ∃ s', hcd_at_timer 0 (at_ready (at_mem 4 0x1000 0x2001 []) ATSel.req) ATSel.req = some s' ∧
      (Ax_COMMAND_PTR s' 0 = 0x1001 ∨
        ∃ a, Ax_COMMAND_PTR s' 0 =
            (read_at_db (at_ready (at_mem 4 0x1000 0x2001 []) ATSel.req) a).branch_address ∧
          Ax_COMMAND_PTR s' 0 &&& 0xf ≠ 0 ∧ s'.at_req_timer.address &&& 0xf = 0) :=
  ⟨_, rfl, hcd_at_timer_command_ptr 0 (at_ready (at_mem 4 0x1000 0x2001 []) ATSel.req) _
    ATSel.req (by rfl)
    (fun s0 h0 hk => by
      cases Option.some.inj ((show at_enter (at_ready (at_mem 4 0x1000 0x2001 []) ATSel.req)
        ATSel.req = some (at_ready (at_mem 4 0x1000 0x2001 []) ATSel.req) from by rfl).symm.trans h0)
      exact absurd hk (by decide))
    rfl⟩

theorem at_inline_data_length (s : OHCI1394State) (t : ATSel) (db : HCDAtDB)
    (h : db.req_count ≤ 16) : (at_inline_data s t db).length = 16 := by
  unfold at_inline_data
  simp [dma_memory_read]
  omega

theorem at_inline_data_take (s : OHCI1394State) (t : ATSel) (db : HCDAtDB) :
    (at_inline_data s t db).take db.req_count =
      dma_memory_read s.mem ((s.timer t).address + 16) db.req_count := by
  unfold at_inline_data
  rw [List.take_append_of_le_length (by simp [dma_memory_read])]
  exact List.take_of_length_le (by simp [dma_memory_read])

theorem at_inline_data_clr_wake (s : OHCI1394State) (n : Nat) (t : ATSel) (db : HCDAtDB) :
    at_inline_data (CLR_Ax_WAKE s n) t db = at_inline_data s t db := by
  unfold at_inline_data CLR_Ax_WAKE OHCI1394State.and_regs
  simp

theorem at_completion_chr (s : OHCI1394State) (t : ATSel) (db : HCDAtDB) :
    (if db.flags &&& 0xF000 = 0 then at_more s t db else at_last s t db).chr = s.chr := by
  split_ifs
  · exact at_more_chr s t db
  · exact at_last_chr s t db

/-- C14, what the code does with an Immediate descriptor `db` (key `0x200`,
`req_count` at most 16) once `hcd_at_timer` is past its guards.  The callback
is the transmit switch followed by the completion branch, which writes nothing
to the transport.  The switch works on the local array `data`: the `req_count`
inline bytes read from the guest at `cursor + 16`, followed by the
`16 - req_count` bytes the uninitialised array held.  With tcode `0x00` the
switch returns having sent all 16 bytes of `data`, stale ones included, and
staged `ACK_PENDING`; with tcode `0x10`, `0x40` or `0x50` it returns having
sent the `req_count` inline bytes and staged `ACK_PENDING`; with tcode `0xE0` it
is one `hcd_bus_reset` of the device with `ACK_COMPLETE` staged, and when that
returns nothing has been sent and the staged response is `ACK_COMPLETE`; with
any other tcode it returns the device unchanged. -/
theorem hcd_at_timer_immediate (fuel : Nat) (s s0 : OHCI1394State) (t : ATSel) (db : HCDAtDB)
    (he : at_enter s t = some s0) (hdb : db = read_at_db s0 (s0.timer t).address)
    (hcmd : db.flags &&& 0xF000 = 0 ∨ db.flags &&& 0xF000 = 0x1000)
    (hkey : db.flags &&& 0x0700 = 0x0200) (hreq : db.req_count ≤ 16) :
    hcd_at_timer fuel s t =
      (at_transmit fuel (CLR_Ax_WAKE s0 (s.timer t).num) t db).map
        (fun s1 => if db.flags &&& 0xF000 = 0 then at_more s1 t db else at_last s1 t db) ∧
    (∀ s1, (if db.flags &&& 0xF000 = 0 then at_more s1 t db else at_last s1 t db).chr = s1.chr) ∧
    (at_tcode s0 t db = 0x00 →
      ∃ s1, at_transmit fuel (CLR_Ax_WAKE s0 (s.timer t).num) t db = some s1 ∧
        s1.chr = s.chr ++
          (dma_memory_read s.mem ((s0.timer t).address + 16) db.req_count ++
            (dma_memory_read s.junk db.req_count (16 - db.req_count)).map (· % 256)) ∧
        (s1.timer t).response = ACK_PENDING) ∧
    (at_tcode s0 t db = 0x10 ∨ at_tcode s0 t db = 0x40 ∨ at_tcode s0 t db = 0x50 →
      ∃ s1, at_transmit fuel (CLR_Ax_WAKE s0 (s.timer t).num) t db = some s1 ∧
        s1.chr = s.chr ++
          dma_memory_read s.mem ((s0.timer t).address + 16) db.req_count ∧
        (s1.timer t).response = ACK_PENDING) ∧
    (at_tcode s0 t db = 0xe0 →
      at_transmit fuel (CLR_Ax_WAKE s0 (s.timer t).num) t db =
        hcd_bus_reset fuel (set_timer_response (CLR_Ax_WAKE s0 (s.timer t).num) t ACK_COMPLETE) ∧
      ∀ s1, at_transmit fuel (CLR_Ax_WAKE s0 (s.timer t).num) t db = some s1 →
        s1.chr = s.chr ∧ (s1.timer t).response = ACK_COMPLETE) ∧
    (at_tcode s0 t db ≠ 0x00 → at_tcode s0 t db ≠ 0x10 → at_tcode s0 t db ≠ 0x40 →
      at_tcode s0 t db ≠ 0x50 → at_tcode s0 t db ≠ 0xe0 →
      at_transmit fuel (CLR_Ax_WAKE s0 (s.timer t).num) t db =
        some (CLR_Ax_WAKE s0 (s.timer t).num) ∧
      (CLR_Ax_WAKE s0 (s.timer t).num).chr = s.chr ∧
      ((CLR_Ax_WAKE s0 (s.timer t).num).timer t).response = (s0.timer t).response) := by
  subst hdb
  obtain ⟨hmem, hchr, hjunk, -, hn0, -, -⟩ := at_enter_frame s s0 t he
  have hk0 : ¬ ((read_at_db s0 (s0.timer t).address).flags &&& 0x0700 = 0) := by
    rw [hkey]; decide
  have hw : (CLR_Ax_WAKE s0 (s.timer t).num).timer t = s0.timer t := clr_wake_timer _ _ _
  have hwc : (CLR_Ax_WAKE s0 (s.timer t).num).chr = s.chr := hchr
  have htr : at_transmit fuel (CLR_Ax_WAKE s0 (s.timer t).num) t
      (read_at_db s0 (s0.timer t).address) =
      at_immediate fuel (CLR_Ax_WAKE s0 (s.timer t).num) t
        (read_at_db s0 (s0.timer t).address) := by
    unfold at_transmit; rw [if_neg hk0, if_pos hkey]
  have him : at_immediate fuel (CLR_Ax_WAKE s0 (s.timer t).num) t
      (read_at_db s0 (s0.timer t).address) =
      (if at_tcode s0 t (read_at_db s0 (s0.timer t).address) = 0x00 then
        some (set_timer_response (qemu_chr_fe_write (CLR_Ax_WAKE s0 (s.timer t).num)
          ((at_inline_data s0 t (read_at_db s0 (s0.timer t).address)).take 16)) t ACK_PENDING)
      else if at_tcode s0 t (read_at_db s0 (s0.timer t).address) = 0x10 ∨
          at_tcode s0 t (read_at_db s0 (s0.timer t).address) = 0x40 ∨
          at_tcode s0 t (read_at_db s0 (s0.timer t).address) = 0x50 then
        some (set_timer_response (qemu_chr_fe_write (CLR_Ax_WAKE s0 (s.timer t).num)
          ((at_inline_data s0 t (read_at_db s0 (s0.timer t).address)).take
            (read_at_db s0 (s0.timer t).address).req_count)) t ACK_PENDING)
      else if at_tcode s0 t (read_at_db s0 (s0.timer t).address) = 0xe0 then
        hcd_bus_reset fuel (set_timer_response (CLR_Ax_WAKE s0 (s.timer t).num) t ACK_COMPLETE)
      else some (CLR_Ax_WAKE s0 (s.timer t).num)) := by
    unfold at_immediate
    simp only []
    rw [at_inline_data_clr_wake]
    rfl
  rw [htr, him]
  refine ⟨?_, fun s1 => at_completion_chr s1 t _, ?_, ?_, ?_, ?_⟩
  · rw [hcd_at_timer_enter fuel s s0 t he]
    unfold at_process
    simp only []
    rw [clr_wake_timer, read_at_db_clr_wake, if_pos ⟨hcmd, Or.inr hkey⟩, hn0, htr, him]
  · intro h0
    rw [if_pos h0]
    refine ⟨_, rfl, ?_, ?_⟩
    · rw [set_timer_response_chr, chr_chr_write, hwc,
        List.take_of_length_le (le_of_eq (at_inline_data_length _ _ _ hreq))]
      unfold at_inline_data
      rw [hmem, hjunk]
    · rw [set_timer_response_timer]
  · intro h1
    have h0 : ¬ (at_tcode s0 t (read_at_db s0 (s0.timer t).address) = 0x00) := by
      rcases h1 with h | h | h <;> rw [h] <;> decide
    rw [if_neg h0, if_pos h1]
    refine ⟨_, rfl, ?_, ?_⟩
    · rw [set_timer_response_chr, chr_chr_write, hwc, at_inline_data_take, hmem]
    · rw [set_timer_response_timer]
  · intro he0
    have h0 : ¬ (at_tcode s0 t (read_at_db s0 (s0.timer t).address) = 0x00) := by
      rw [he0]; decide
    have h1 : ¬ (at_tcode s0 t (read_at_db s0 (s0.timer t).address) = 0x10 ∨
        at_tcode s0 t (read_at_db s0 (s0.timer t).address) = 0x40 ∨
        at_tcode s0 t (read_at_db s0 (s0.timer t).address) = 0x50) := by
      rw [he0]; decide
    rw [if_neg h0, if_neg h1, if_pos he0]
    refine ⟨rfl, ?_⟩
    intro s1 hs1
    obtain ⟨f1, f2, f3, -⟩ := hcd_bus_reset_frame _ _ _ hs1
    refine ⟨?_, ?_⟩
    · rw [f3, set_timer_response_chr, hwc]
    · rw [timer_of_fields _ _ t f1 f2, set_timer_response_timer]
  · intro h0 h1 h2 h3 h4
    rw [if_neg h0, if_neg (fun h => h.elim h1 (fun h => h.elim h2 h3)), if_neg h4]
    exact ⟨rfl, hwc, by rw [hw]⟩

/-- Witness for C14, the failing input: an OUTPUT_LAST_Immediate descriptor with
`req_count` 8 whose inline bytes are 00 01 .. 07 (tcode `0x00`), on a device
whose uninitialised stack reads 0x55.  The transmit switch sends the 8 inline
bytes followed by 8 bytes 0x55 that never were in the guest descriptor, and
these 16 bytes are what the timer callback leaves on the transport. -/
theorem hcd_at_timer_immediate_witness :
    (∃ s1, at_transmit 0 (CLR_Ax_WAKE imm_demo 0) ATSel.req (read_at_db imm_demo 0x1000) =
        some s1 ∧
      s1.chr = [0, 1, 2, 3, 4, 5, 6, 7, 0x55, 0x55, 0x55, 0x55, 0x55, 0x55, 0x55, 0x55] ∧
      (s1.timer ATSel.req).response = ACK_PENDING) ∧
    (hcd_at_timer 0 imm_demo ATSel.req).map (fun s => s.chr) =
      some [0, 1, 2, 3, 4, 5, 6, 7, 0x55, 0x55, 0x55, 0x55, 0x55, 0x55, 0x55, 0x55] :=
  ⟨((hcd_at_timer_immediate 0 imm_demo imm_demo ATSel.req _ (by rfl) rfl (Or.inr (by rfl))
      (by rfl) (by decide)).2.2.1 (by rfl)).imp
      fun _ h => ⟨h.1, h.2.1.trans (by rfl), h.2.2⟩,
    by rfl⟩

/-! ## AR-response delivery into one descriptor -/

theorem rx_rsp_loop_done (fuel : Nat) (s : OHCI1394State) (l : RxLocals) (h : l.state = 3) :
    rx_rsp_loop fuel s l = some s := by
  cases fuel <;> simp [rx_rsp_loop, h]

theorem rx_rsp_loop_step (fuel : Nat) (s : OHCI1394State) (l : RxLocals) (h : l.state ≠ 3) :
    rx_rsp_loop (fuel + 1) s l = rx_rsp_loop fuel (rx_rsp_step s l).1 (rx_rsp_step s l).2 := by
  rw [rx_rsp_loop, if_neg h]

/-- A pass in state 0 over a descriptor with more room than the packet needs:
the whole packet is copied and the loop moves to state 1. -/
theorem rx_rsp_step_copy (s : OHCI1394State) (l : RxLocals) (h0 : l.state = 0)
    (hs : l.size < l.db.res_count) :
    rx_rsp_step s l =
      (dma_write s l.data_address (l.buf.take l.size),
       { db := { l.db with
           transfer_status := (s.reg OFF_async_response_receive &&& 0xFFFF) % 0x10000
           res_count := l.db.res_count - l.size }
         data_address := (l.data_address + l.size) % 0x100000000
         size := 0
         buf := l.buf.drop l.size
         state := 1 }) := by
  have hne : ¬ (l.db.res_count = 0) := by omega
  unfold rx_rsp_step rx_set_status
  simp only [if_neg hne, h0, if_true]
  unfold rx_case0
  simp only [if_pos hs, Nat.sub_self, if_true]

/-- A pass in state 1 over a descriptor with room left: the trailer and the
descriptor are written and the loop moves to state 2. -/
theorem rx_rsp_step_trailer (s : OHCI1394State) (l : RxLocals) (h1 : l.state = 1)
    (hne : l.db.res_count ≠ 0) :
    rx_rsp_step s l =
      (write_db
        (dma_write s l.data_address
          (le_bytes 4 ((s.reg OFF_async_response_receive <<< 16) % 0x100000000)))
        (Ax_COMMAND_PTR s 3 &&& 0xFFFFFFF0)
        { l.db with
          transfer_status := (s.reg OFF_async_response_receive &&& 0xFFFF) % 0x10000
          res_count := (l.db.res_count + 0x10000 - 4) % 0x10000 },
       { db := { l.db with
           transfer_status := (s.reg OFF_async_response_receive &&& 0xFFFF) % 0x10000
           res_count := (l.db.res_count + 0x10000 - 4) % 0x10000 }
         data_address := (l.data_address + 4) % 0x100000000
         size := l.size
         buf := l.buf
         state := 2 }) := by
  unfold rx_rsp_step rx_set_status
  simp only [if_neg hne, h1]
  simp only [show ¬ ((1 : Nat) = 0) by decide, if_false, if_true]
  unfold rx_case1 rx_set_status
  rfl

/-- A pass in state 2: a descriptor that is full is written back and the branch
followed; the loop moves to state 3. -/
theorem rx_rsp_step_last (s : OHCI1394State) (l : RxLocals) (h2 : l.state = 2) :
    (rx_rsp_step s l).1 =
      (if l.db.res_count = 0 then (rx_next_db s (rx_set_status s l)).1 else s) ∧
    (rx_rsp_step s l).2.state = 3 := by
  have e2 : (rx_set_status s l).state = 2 := h2
  have e3 : (rx_next_db s (rx_set_status s l)).2.state = 2 := h2
  unfold rx_rsp_step
  simp only []
  rw [show (rx_set_status s l).db.res_count = l.db.res_count from rfl]
  by_cases hz : l.db.res_count = 0
  · rw [if_pos hz, if_pos hz, if_neg (by rw [e3]; decide), if_neg (by rw [e3]; decide),
      if_pos e3]
    exact ⟨rfl, rfl⟩
  · rw [if_neg hz, if_neg hz, if_neg (by rw [e2]; decide), if_neg (by rw [e2]; decide),
      if_pos e2]
    exact ⟨rfl, rfl⟩

theorem read_db_bounds (s : OHCI1394State) (a : Nat) :
    (read_db s a).req_count < 0x10000 ∧ (read_db s a).flags < 0x10000 ∧
    (read_db s a).data_address < 0x100000000 ∧ (read_db s a).branch_address < 0x100000000 ∧
    (read_db s a).res_count < 0x10000 ∧ (read_db s a).transfer_status < 0x10000 := by
  unfold read_db HCDArDB.ofBytes
  refine ⟨?_, ?_, ?_, ?_, ?_, ?_⟩ <;>
    refine lt_of_lt_of_le (le_val_lt _) ?_ <;>
    simp [dma_memory_read]

theorem ar_db_toBytes_length (d : HCDArDB) : d.toBytes.length = 16 := rfl

theorem ar_db_roundtrip (d : HCDArDB) (h1 : d.req_count < 0x10000) (h2 : d.flags < 0x10000)
    (h3 : d.data_address < 0x100000000) (h4 : d.branch_address < 0x100000000)
    (h5 : d.res_count < 0x10000) (h6 : d.transfer_status < 0x10000) :
    HCDArDB.ofBytes d.toBytes = d := by
  cases d
  simp only at h1 h2 h3 h4 h5 h6
  simp only [HCDArDB.ofBytes, HCDArDB.toBytes, le_bytes, List.cons_append, List.nil_append,
    List.take, List.drop, le_val, HCDArDB.mk.injEq]
  omega

theorem write_db_mem (s : OHCI1394State) (a : Nat) (d : HCDArDB) :
    (write_db s a d).mem = dma_memory_write s.mem a d.toBytes := by unfold write_db; rfl
theorem write_db_regs (s : OHCI1394State) (a : Nat) (d : HCDArDB) :
    (write_db s a d).regs = s.regs := by unfold write_db; rfl
theorem write_db_reg (s : OHCI1394State) (a : Nat) (d : HCDArDB) (off : Nat) :
    (write_db s a d).reg off = s.reg off := by unfold write_db; rfl
theorem dma_write_reg (s : OHCI1394State) (a : Nat) (b : List Nat) (off : Nat) :
    (dma_write s a b).reg off = s.reg off := by unfold dma_write; rfl
theorem write_db_cp (s : OHCI1394State) (a : Nat) (d : HCDArDB) (n : Nat) :
    Ax_COMMAND_PTR (write_db s a d) n = Ax_COMMAND_PTR s n := by unfold write_db; rfl
theorem dma_write_cp (s : OHCI1394State) (a : Nat) (b : List Nat) (n : Nat) :
    Ax_COMMAND_PTR (dma_write s a b) n = Ax_COMMAND_PTR s n := by unfold dma_write; rfl

theorem rx_next_db_mem (s : OHCI1394State) (l : RxLocals) :
    (rx_next_db s l).1.mem =
      dma_memory_write s.mem (Ax_COMMAND_PTR s 3 &&& 0xFFFFFFF0) l.db.toBytes := by
  unfold rx_next_db
  simp only []
  split_ifs <;> rfl

theorem rx_next_db_regs (s : OHCI1394State) (l : RxLocals) (j : Nat) :
    (rx_next_db s l).1.regs j =
      if j = 123 then l.db.branch_address % 0x100000000
      else if j = 120 then
        (if l.db.branch_address = 0 then (s.regs 120 &&& 0xFFFFFBFF) % 0x100000000
         else s.regs 120)
      else s.regs j := by
  unfold rx_next_db
  simp only []
  split_ifs <;>
    simp_all [write_db, CLR_Ax_ACTIVE, SET_Ax_COMMAND_PTR, OHCI1394State.and_regs, Ax_CC, Ax_CP]

/-- The AR loop on a packet of `n` bytes when the current descriptor `db` at `a`
has room for the packet and its trailer: three passes, after which the loop has
ended with the packet at `tgt`, the trailer `tr` behind it and the descriptor
written back (twice when it has just become full). -/
theorem rx_rsp_loop_single (fuel : Nat) (s1 : OHCI1394State) (buf : List Nat) (n a tgt ts : Nat)
    (db : HCDArDB) (tr : List Nat)
    (ha : a = Ax_COMMAND_PTR s1 3 &&& 0xFFFFFFF0) (hdb : db = read_db s1 a)
    (htgt : tgt = rx_data_address db)
    (hts : ts = (s1.reg OFF_async_response_receive &&& 0xFFFF) % 0x10000)
    (htr : tr = le_bytes 4 ((s1.reg OFF_async_response_receive <<< 16) % 0x100000000))
    (hfuel : 3 ≤ fuel) (hn : 0 < n) (hres : n + 4 ≤ db.res_count) :
    ∃ sD, rx_rsp_loop fuel s1 (rx_rsp_start s1 buf n) = some sD ∧
      (sD.mem =
          dma_memory_write
            (dma_memory_write (dma_memory_write s1.mem tgt (buf.take n))
              ((tgt + n) % 0x100000000) tr)
            a (HCDArDB.toBytes { db with transfer_status := ts
                                         res_count := db.res_count - (n + 4) }) ∨
        sD.mem =
          dma_memory_write
            (dma_memory_write
              (dma_memory_write (dma_memory_write s1.mem tgt (buf.take n))
                ((tgt + n) % 0x100000000) tr)
              a (HCDArDB.toBytes { db with transfer_status := ts
                                           res_count := db.res_count - (n + 4) }))
            a (HCDArDB.toBytes { db with transfer_status := ts
                                         res_count := db.res_count - (n + 4) })) ∧
      (sD.regs 120 = s1.regs 120 ∨ sD.regs 120 = (s1.regs 120 &&& 0xFFFFFBFF) % 0x100000000) ∧
      (n + 4 < db.res_count → sD.regs 123 = s1.regs 123 ∧ sD.regs 120 = s1.regs 120) := by
  obtain ⟨k, rfl⟩ : ∃ k, fuel = k + 3 := ⟨fuel - 3, by omega⟩
  have b5 : db.res_count < 0x10000 := by rw [hdb]; exact (read_db_bounds s1 a).2.2.2.2.1
  have hstart : rx_rsp_start s1 buf n =
      { db := db, data_address := tgt, size := n, buf := buf, state := 0 } := by
    unfold rx_rsp_start
    simp only []
    rw [← ha, ← hdb, ← htgt]
  rw [hstart]
  -- pass 1
  rw [rx_rsp_loop_step _ _ _ (by show (0 : Nat) ≠ 3; decide)]
  rw [rx_rsp_step_copy s1 _ rfl (by show n < db.res_count; omega)]
  simp only []
  rw [← hts]
  -- pass 2
  rw [rx_rsp_loop_step _ _ _ (by show (1 : Nat) ≠ 3; decide)]
  rw [rx_rsp_step_trailer _ _ rfl (by show db.res_count - n ≠ 0; omega)]
  simp only [dma_write_reg, dma_write_cp]
  rw [← hts, ← htr, ← ha]
  have er : (db.res_count - n + 0x10000 - 4) % 0x10000 = db.res_count - (n + 4) := by omega
  rw [er]
  -- pass 3
  rw [rx_rsp_loop_step _ _ _ (by show (2 : Nat) ≠ 3; decide)]
  rw [rx_rsp_loop_done _ _ _ (rx_rsp_step_last _ _ rfl).2, (rx_rsp_step_last _ _ rfl).1]
  simp only []
  refine ⟨_, rfl, ?_, ?_, ?_⟩
  · split_ifs with hz
    · right
      rw [rx_next_db_mem, write_db_cp, dma_write_cp, dma_write_cp, ← ha, write_db_mem,
        mem_dma_write, mem_dma_write]
      unfold rx_set_status
      simp only [write_db_reg, dma_write_reg]
      rw [← hts]
    · left
      rw [write_db_mem, mem_dma_write, mem_dma_write]
  · split_ifs with hz
    · rw [rx_next_db_regs]
      simp only [show ¬ ((120 : Nat) = 123) by decide, if_false, if_true, write_db_regs,
        regs_dma_write]
      split_ifs
      · exact Or.inr rfl
      · exact Or.inl rfl
    · left
      rw [write_db_regs, regs_dma_write, regs_dma_write]
  · intro hlt
    rw [if_neg (by omega), write_db_regs, regs_dma_write, regs_dma_write]
    exact ⟨rfl, rfl⟩

theorem hcd_check_irq_mem (s : OHCI1394State) : (hcd_check_irq s).mem = s.mem := by
  unfold hcd_check_irq; split_ifs <;> rfl

theorem read_db_written (s : OHCI1394State) (m : Nat → Nat) (a : Nat) (d : HCDArDB)
    (h : s.mem = dma_memory_write m a d.toBytes) : read_db s a = HCDArDB.ofBytes d.toBytes := by
  unfold read_db
  rw [h]
  have := dma_read_write_same m a d.toBytes
  rw [ar_db_toBytes_length] at this
  rw [this]

theorem low16_eq_mod (x : Nat) : (x &&& 0xFFFF) % 0x10000 = x % 0x10000 := by
  have := Nat.and_pow_two_sub_one_eq_mod x 16
  simp only [Nat.reducePow, Nat.add_one_sub_one] at this
  rw [this, Nat.mod_mod]

theorem testBit_or_32 (x : Nat) : Nat.testBit ((x ||| 1 <<< 5) % 0x100000000) 5 = true := by
  have := Nat.testBit_mod_two_pow (x ||| 1 <<< 5) 32 5
  simp only [Nat.reducePow] at this
  rw [this, Nat.testBit_or, show Nat.testBit (1 <<< 5) 5 = true from rfl]
  simp

/-- Delivery of a packet of `n` bytes with code `c` into one AR-response
descriptor with room for the packet and its trailer. -/
theorem rx_rsp_packet_single (fuel : Nat) (s : OHCI1394State) (buf : List Nat)
    (n c a tgt cc : Nat) (db : HCDArDB)
    (ha : a = Ax_COMMAND_PTR s 3 &&& 0xFFFFFFF0) (hdb : db = read_db s a)
    (htgt : tgt = rx_data_address db)
    (hcc : cc = (Ax_CONTEXT_CONTROL s 3 &&& 0xFFFFFFE0) ||| c)
    (hfuel : 3 ≤ fuel) (hn : 0 < n) (hlen : buf.length = n) (hc : c < 32)
    (hres : n + 4 ≤ db.res_count) (hwrap : tgt + n + 4 ≤ 0x100000000)
    (hsep : tgt + n + 4 ≤ a ∨ a + 16 ≤ tgt) :
    ∃ s', hcd_async_rx_rsp_packet fuel s buf n c = some s' ∧
      dma_memory_read s'.mem tgt n = buf ∧
      dma_memory_read s'.mem (tgt + n) 4 = le_bytes 4 ((cc <<< 16) % 0x100000000) ∧
      read_db s' a =
        { db with res_count := db.res_count - (n + 4), transfer_status := cc % 0x10000 } ∧
      s'.reg OFF_async_response_receive &&& 0x1F = c ∧
      Nat.testBit (s'.reg OFF_int_event) 5 = true ∧
      (n + 4 < db.res_count →
        Ax_COMMAND_PTR s' 3 = Ax_COMMAND_PTR s 3 ∧ s'.reg OFF_async_response_receive = cc) := by
  have hcclt : cc < 0x100000000 := by rw [hcc]; exact event_code_lt _ _ hc
  have e120 : (SET_Ax_EVENT_CODE s 3 c).regs 120 = cc := by
    rw [hcc]
    simp only [SET_Ax_EVENT_CODE, Ax_CONTEXT_CONTROL, show Ax_CC 3 = 120 from rfl, set_regs_regs,
      if_true]
    exact Nat.mod_eq_of_lt (event_code_lt _ _ hc)
  have ereg : (SET_Ax_EVENT_CODE s 3 c).reg OFF_async_response_receive = cc := e120
  have ecp : Ax_COMMAND_PTR (SET_Ax_EVENT_CODE s 3 c) 3 = Ax_COMMAND_PTR s 3 := by
    simp [SET_Ax_EVENT_CODE, Ax_COMMAND_PTR, Ax_CC, Ax_CP]
  have emem : (SET_Ax_EVENT_CODE s 3 c).mem = s.mem := rfl
  have e123 : (SET_Ax_EVENT_CODE s 3 c).regs 123 = s.regs 123 := ecp
  obtain ⟨b1, b2, b3, b4, b5, b6⟩ := read_db_bounds s a
  rw [← hdb] at b1 b2 b3 b4 b5 b6
  obtain ⟨sD, hloop, hmem, h120, h123⟩ := rx_rsp_loop_single fuel (SET_Ax_EVENT_CODE s 3 c) buf
    n a tgt (cc % 0x10000) db (le_bytes 4 ((cc <<< 16) % 0x100000000))
    (by rw [ecp]; exact ha) (by rw [hdb]; rfl) htgt (by rw [ereg, low16_eq_mod])
    (by rw [ereg]) hfuel hn hres
  rw [emem] at hmem
  have hbuf : buf.take n = buf := List.take_of_length_le (le_of_eq hlen)
  rw [hbuf] at hmem
  have hmod : (tgt + n) % 0x100000000 = tgt + n := Nat.mod_eq_of_lt (by omega)
  rw [hmod] at hmem
  have hfin : hcd_async_rx_rsp_packet fuel s buf n c = some (rx_rsp_finish sD) := by
    unfold hcd_async_rx_rsp_packet
    rw [if_neg (by omega), hloop]
    rfl
  have hfmem : (rx_rsp_finish sD).mem = sD.mem := by
    unfold rx_rsp_finish; rw [hcd_check_irq_mem]; rfl
  have hfregs : ∀ j, j ≠ 32 → (rx_rsp_finish sD).regs j = sD.regs j := by
    intro j hj
    unfold rx_rsp_finish
    rw [hcd_check_irq_regs]
    simp [OHCI1394State.or_reg, OHCI1394State.or_regs, hj]
  have hd : dma_memory_read
      (dma_memory_write (dma_memory_write s.mem tgt buf) (tgt + n)
        (le_bytes 4 ((cc <<< 16) % 0x100000000))) tgt n = buf := by
    rw [dma_read_write_disjoint _ _ _ _ _ (Or.inl (le_refl _))]
    have := dma_read_write_same s.mem tgt buf
    rw [hlen] at this
    exact this
  have ht : dma_memory_read
      (dma_memory_write (dma_memory_write s.mem tgt buf) (tgt + n)
        (le_bytes 4 ((cc <<< 16) % 0x100000000))) (tgt + n) 4 =
      le_bytes 4 ((cc <<< 16) % 0x100000000) :=
    dma_read_write_same _ (tgt + n) (le_bytes 4 ((cc <<< 16) % 0x100000000))
  have hsep1 : ∀ d : HCDArDB, tgt + n ≤ a ∨ a + d.toBytes.length ≤ tgt := by
    intro d; rw [ar_db_toBytes_length]; omega
  have hsep2 : ∀ d : HCDArDB, tgt + n + 4 ≤ a ∨ a + d.toBytes.length ≤ tgt + n := by
    intro d; rw [ar_db_toBytes_length]; omega
  refine ⟨_, hfin, ?_, ?_, ?_, ?_, ?_, ?_⟩
  · rw [hfmem]
    rcases hmem with e | e
    · rw [e, dma_read_write_disjoint _ _ _ _ _ (hsep1 _), hd]
    · rw [e, dma_read_write_disjoint _ _ _ _ _ (hsep1 _), dma_read_write_disjoint _ _ _ _ _ (hsep1 _), hd]
  · rw [hfmem]
    rcases hmem with e | e
    · rw [e, dma_read_write_disjoint _ _ _ _ _ (hsep2 _), ht]
    · rw [e, dma_read_write_disjoint _ _ _ _ _ (hsep2 _), dma_read_write_disjoint _ _ _ _ _ (hsep2 _), ht]
  · rcases hmem with e | e
    · rw [read_db_written _ _ _ _ (hfmem.trans e)]
      exact ar_db_roundtrip _ b1 b2 b3 b4 (lt_of_le_of_lt (Nat.sub_le _ _) b5)
        (Nat.mod_lt _ (by decide))
    · rw [read_db_written _ _ _ _ (hfmem.trans e)]
      exact ar_db_roundtrip _ b1 b2 b3 b4 (lt_of_le_of_lt (Nat.sub_le _ _) b5)
        (Nat.mod_lt _ (by decide))
  · show (rx_rsp_finish sD).regs 120 &&& 0x1F = c
    rw [hfregs 120 (by decide)]
    have elow : cc &&& 0x1F = c := by rw [hcc]; exact event_code_low _ _ hc
    rcases h120 with e | e
    · rw [e, e120, elow]
    · rw [e, e120, Nat.mod_eq_of_lt (lt_of_le_of_lt Nat.and_le_left hcclt), Nat.and_assoc,
        show (0xFFFFFBFF &&& 0x1F : Nat) = 0x1F from rfl, elow]
  · show Nat.testBit ((rx_rsp_finish sD).regs 32) 5 = true
    unfold rx_rsp_finish
    rw [hcd_check_irq_regs]
    simp only [OHCI1394State.or_reg, OHCI1394State.or_regs, set_regs_regs,
      show OFF_int_event >>> 2 = 32 from rfl, if_true]
    exact testBit_or_32 _
  · intro hlt
    refine ⟨?_, ?_⟩
    · show (rx_rsp_finish sD).regs 123 = s.regs 123
      rw [hfregs 123 (by decide), (h123 hlt).1, e123]
    · show (rx_rsp_finish sD).regs 120 = cc
      rw [hfregs 120 (by decide), (h123 hlt).2, e120]

/-- C17, the code at the failing input: an AR-response descriptor at 0x1000 with
`req_count` = `res_count` = 10 and a packet of 8 bytes.  The packet leaves 2
bytes of room; the loop then writes the 4-byte trailer all the same, two bytes
past the end of the 10-byte buffer at 0x2000, and `res_count -= 4` on the
`uint16_t` wraps: the descriptor is written back with `res_count` 0xFFFE, above
its `req_count` of 10, and the call has returned.  The same happens on a bus
reset (a 12-byte packet) into a descriptor with 14 bytes of room. -/
theorem hcd_async_rx_rsp_packet_underflow :
    ((ar_running (ar_mem 10 10 0)).bind fun s =>
        hcd_async_rx_rsp_packet 3 s [1, 2, 3, 4, 5, 6, 7, 8] 8 ACK_COMPLETE).map
      (fun s => ((read_db s 0x1000).req_count, (read_db s 0x1000).res_count,
        dma_memory_read s.mem 0x2000 12)) =
      some (10, 0xFFFE, [1, 2, 3, 4, 5, 6, 7, 8, 0, 0, 0x11, 0x84]) ∧
    ((ar_running (ar_mem 14 14 0)).bind fun s => hcd_bus_reset 3 s).map
      (fun s => ((read_db s 0x1000).req_count, (read_db s 0x1000).res_count)) =
      some (14, 0xFFFE) := by
  refine ⟨by rfl, by rfl⟩

/-- C12, what the code does: when `hcd_at_timer` gets past its guards and
completes a descriptor with the command OUTPUT_LAST (key 0 or Immediate, not an
Immediate PHY packet), it returns with `irq_asserted` exactly as it was before
the callback, whatever `int_event` and `int_mask` now hold: the completion
branch sets the bit in `int_event` and never calls `hcd_check_irq`. -/
theorem hcd_at_timer_irq_stale (fuel : Nat) (s s0 : OHCI1394State) (t : ATSel)
    (he : at_enter s t = some s0)
    (hcmd : (read_at_db s0 (s0.timer t).address).flags &&& 0xF000 = 0x1000)
    (hkey : (read_at_db s0 (s0.timer t).address).flags &&& 0x0700 = 0 ∨
      (read_at_db s0 (s0.timer t).address).flags &&& 0x0700 = 0x0200)
    (hphy : (read_at_db s0 (s0.timer t).address).flags &&& 0x0700 = 0x0200 →
      at_tcode s0 t (read_at_db s0 (s0.timer t).address) ≠ 0xe0) :
    ∃ s', hcd_at_timer fuel s t = some s' ∧ s'.irq_asserted = s.irq_asserted := by
  obtain ⟨bytes, hp⟩ := at_process_last fuel s0 t hcmd hkey hphy
  obtain ⟨-, -, -, hirq, -, -, -⟩ := at_enter_frame s s0 t he
  refine ⟨_, (hcd_at_timer_enter fuel s s0 t he).trans hp, ?_⟩
  rw [at_last_irq_asserted]
  unfold set_timer_response CLR_Ax_WAKE
  simp only [set_timer_irq_asserted, chr_write_irq_asserted, and_regs_irq_asserted]
  exact hirq

/-- Witness for C12, the failing input: the guest has unmasked the AT completion
interrupts (`int_mask` 0x80000003) and an OUTPUT_LAST descriptor with interrupt
field `0x30` completes on the AT-request context.  The callback returns with
`irq_asserted` still 0, although `int_event` is 1 and `int_mask` has bit 31 and
bit 0 set; `hcd_check_irq` on that device would raise the line. -/
theorem hcd_at_timer_irq_stale_witness :
    (∃ s', hcd_at_timer 0 (at_ready (at_mem 4 0x1030 0 []) ATSel.req) ATSel.req = some s' ∧
      s'.irq_asserted = 0) ∧
    (at_fired (at_mem 4 0x1030 0 []) ATSel.req).map
        (fun s => (s.reg OFF_int_event, s.reg OFF_int_mask, s.irq_asserted,
          (hcd_check_irq s).irq_asserted)) = some (1, 0x80000003, 0, 1) :=
  ⟨(hcd_at_timer_irq_stale 0 (at_ready (at_mem 4 0x1030 0 []) ATSel.req)
      (at_ready (at_mem 4 0x1030 0 []) ATSel.req) ATSel.req (by rfl) (by rfl)
      (Or.inl (by rfl)) (fun h => absurd h (by decide))).imp
      fun _ h => ⟨h.1, h.2.trans (by rfl)⟩,
    by rfl⟩

theorem ar_set_run_request (s : OHCI1394State) :
    mmio_write_ar_context_set s 0x1C0 0x8000 =
      SET_Ax_ACTIVE ((s.or_regs 0x70 0x8000).mirror 0x70) 3 := by
  unfold mmio_write_ar_context_set mmio_write_set_mirror hcd_async_rx_run
  simp only []
  rw [show (0x8000 &&& 0x9000 : Nat) = 0x8000 from rfl,
    show (0x8000 &&& 0x8000 : Nat) = 0x8000 from rfl,
    show (0x8000 &&& 0x1000 : Nat) = 0 from rfl,
    show ((0x1C0 >>> 2) &&& 0xFFFE : Nat) = 0x70 from rfl,
    show (((0x1C0 &&& 0xFFE0) &&& 0x180) >>> 7 : Nat) = 3 from rfl]
  simp

theorem ar_clear_stop_request (s : OHCI1394State) :
    mmio_write_ar_context_clear s 0x1C4 0x8000 =
      CLR_Ax_ACTIVE ((s.and_regs 0x70 (not32 0x8000)).mirror 0x70) 3 := by
  unfold mmio_write_ar_context_clear mmio_write_clear_mirror hcd_async_rx_stop
  simp only []
  rw [show (0x8000 &&& 0x8000 : Nat) = 0x8000 from rfl,
    show ((0x1C4 >>> 2) &&& 0xFFFE : Nat) = 0x70 from rfl,
    show (((0x1C4 &&& 0xFFE0) &&& 0x180) >>> 7 : Nat) = 3 from rfl]
  simp

/-- C19, the code at the failing input.  For every device, an MMIO write of
`0x8000` (run) to the AR-request `context_control_set` (0x1C0) returns with the
AR-request `context_control` equal to `old OR 0x8000`, its active bit (bit 10)
as it was, and the AR-response `context_control` (0x1E0) equal to
`old OR 0x400`: the active bit is set in the other context.  A write of `0x8000`
to the AR-request `context_control_clear` (0x1C4) leaves the AR-request word
`old AND NOT 0x8000` and clears bit 10 of the AR-response word.  On a fresh
device the set write leaves 0x8000 at 0x1C0 and 0x400 at 0x1E0; after the
AR-response context has been started (0x8400 at 0x1E0) the clear write to 0x1C4
leaves 0x8000 at 0x1E0. -/
theorem mmio_write_ar_request_run_stop (fuel : Nat) (s : OHCI1394State) :
    (hcd_mmio_write fuel s 0x1C0 0x8000).map (fun s' => (s'.reg 0x1C0, s'.reg 0x1E0)) =
        some ((s.reg 0x1C0 ||| 0x8000) % 0x100000000, (s.reg 0x1E0 ||| 0x400) % 0x100000000) ∧
    (hcd_mmio_write fuel s 0x1C4 0x8000).map (fun s' => (s'.reg 0x1C0, s'.reg 0x1E0)) =
        some ((s.reg 0x1C0 &&& not32 0x8000) % 0x100000000,
          (s.reg 0x1E0 &&& 0xFFFFFBFF) % 0x100000000) ∧
    (hcd_mmio_write 0 init_state 0x1C0 0x8000).map (fun s' => (s'.reg 0x1C0, s'.reg 0x1E0)) =
        some (0x8000, 0x400) ∧
    ((hcd_mmio_write 0 init_state 0x1E0 0x8000).bind fun s =>
        hcd_mmio_write 0 s 0x1C4 0x8000).map (fun s' => (s'.reg 0x1C0, s'.reg 0x1E0)) =
        some (0, 0x8000) := by
  refine ⟨?_, ?_, by rfl, by rfl⟩
  · have h : mmio_write_switch fuel s 0x1C0 0x8000 =
        some (mmio_write_ar_context_set s 0x1C0 0x8000) := by
      simp [mmio_write_switch]
    rw [hcd_mmio_write_eq fuel s _ _ _ h, ar_set_run_request]
    simp [OHCI1394State.reg, SET_Ax_ACTIVE, Ax_CC, OHCI1394State.or_regs, OHCI1394State.mirror,
      hcd_check_irq_regs]
  · have h : mmio_write_switch fuel s 0x1C4 0x8000 =
        some (mmio_write_ar_context_clear s 0x1C4 0x8000) := by
      simp [mmio_write_switch]
    rw [hcd_mmio_write_eq fuel s _ _ _ h, ar_clear_stop_request]
    simp [OHCI1394State.reg, CLR_Ax_ACTIVE, Ax_CC, OHCI1394State.and_regs, OHCI1394State.mirror,
      hcd_check_irq_regs]

/-- C20, the code at the failing input, over a guest memory whose descriptor at
0x1000 has the branch 0x3001 (Z = 1).  With the AR-response `command_ptr`
(0x1EC) pointing to that descriptor, a wake write (0x1000) to the AR-response
`context_control_set` (0x1E0) changes neither the active bit nor `command_ptr`:
the words read 0x1000 and 0x1001.  With the pointer written instead to the
register at offset 0x210, the same wake write sets the active bit and installs
the branch: the words read 0x1400 and 0x3001, although the context's own
`command_ptr` was 0.  On the AR-request context (0x1C0, `command_ptr` 0x1CC) the
wake write does nothing with the pointer in the context's `command_ptr`, and
with the pointer at offset 0x1F0 it sets the active bit and `command_ptr` of
the AR-response context (0x400 at 0x1E0, 0x3001 at 0x1EC). -/
theorem mmio_write_ar_wake_pointer :
    (ar_woken 0x1EC 0x1E0).map (fun s => (s.reg 0x1E0, s.reg 0x1EC)) = some (0x1000, 0x1001) ∧
    (ar_woken 0x210 0x1E0).map (fun s => (s.reg 0x1E0, s.reg 0x1EC)) = some (0x1400, 0x3001) ∧
    (ar_woken 0x1CC 0x1C0).map (fun s => (s.reg 0x1C0, s.reg 0x1CC, s.reg 0x1E0, s.reg 0x1EC)) =
      some (0x1000, 0x1001, 0, 0) ∧
    (ar_woken 0x1F0 0x1C0).map (fun s => (s.reg 0x1C0, s.reg 0x1CC, s.reg 0x1E0, s.reg 0x1EC)) =
      some (0x1000, 0, 0x400, 0x3001) := by
  refine ⟨by rfl, by rfl, by rfl, by rfl⟩

theorem bus_reset_begin_at (s : OHCI1394State) :
    (bus_reset_begin s).regs 96 = (s.regs 96 &&& 0xFFFFFBFF) % 0x100000000 ∧
    (bus_reset_begin s).regs 104 = (s.regs 104 &&& 0xFFFFFBFF) % 0x100000000 := by
  unfold bus_reset_begin; simp only []
  split_ifs <;>
    simp [map_generation, OHCI1394State.set_reg, OHCI1394State.or_reg, OHCI1394State.and_reg,
      OHCI1394State.or_regs, OHCI1394State.and_regs]

theorem clear_bit10_mod (x : Nat) :
    (x &&& 0xFFFFFBFF) % 0x100000000 = x &&& 0xFFFFFBFF :=
  Nat.mod_eq_of_lt (lt_of_le_of_lt Nat.and_le_right (by norm_num))

theorem clear_bit10_keep (x m : Nat) (hm : 0xFFFFFBFF &&& m = m) :
    (x &&& 0xFFFFFBFF) &&& m = x &&& m := by
  rw [Nat.and_assoc, hm]

/-- The two AT `context_control` words after a bus reset. -/
theorem hcd_bus_reset_at (fuel : Nat) (s s' : OHCI1394State)
    (h : hcd_bus_reset fuel s = some s') :
    s'.reg OFF_async_request_transmit = s.reg OFF_async_request_transmit &&& 0xFFFFFBFF ∧
    s'.reg OFF_async_response_transmit = s.reg OFF_async_response_transmit &&& 0xFFFFFBFF := by
  obtain ⟨s1, h1, rfl⟩ := hcd_bus_reset_some _ _ _ h
  have hd := (bus_reset_deliver_frame _ _ _ h1).2.2
  obtain ⟨b1, b2⟩ := bus_reset_begin_at s
  constructor
  · show (hcd_complete_self_id s1).regs 96 = s.regs 96 &&& 0xFFFFFBFF
    rw [hcd_complete_self_id_regs _ 96 (by decide) (by decide) (by decide),
      hd 96 (by decide) (by decide) (by decide), b1, clear_bit10_mod]
  · show (hcd_complete_self_id s1).regs 104 = s.regs 104 &&& 0xFFFFFBFF
    rw [hcd_complete_self_id_regs _ 104 (by decide) (by decide) (by decide),
      hd 104 (by decide) (by decide) (by decide), b2, clear_bit10_mod]

/-- Counterexample for C21: the guest sets run in both AT contexts; after the
bus reset that follows, run (bit 15) is still set in both. -/
theorem hcd_bus_reset_at_run_counterexample :
    at_run_reset.map (fun s =>
      (s.reg OFF_async_request_transmit &&& 0x8000, s.reg OFF_async_response_transmit &&& 0x8000))
      = some (0x8000, 0x8000) := by
  decide

/-- C21 (amended): a bus reset returns when the AR-response context is not
running, and after `hcd_bus_reset` returns, `context_control` of the AT-request
and of the AT-response context is its old value AND `0xFFFFFBFF`: the active bit
(bit 10) is clear, and run (bit 15) and every other bit are as before. -/
theorem hcd_bus_reset_at_active (fuel : Nat) (s : OHCI1394State) :
    (s.reg OFF_async_response_receive &&& 0x00008000 = 0 →
      (hcd_bus_reset fuel s).isSome = true) ∧
    ∀ s', hcd_bus_reset fuel s = some s' →
      ∀ off, off = OFF_async_request_transmit ∨ off = OFF_async_response_transmit →
        s'.reg off = s.reg off &&& 0xFFFFFBFF ∧
        s'.reg off &&& 0x400 = 0 ∧
        s'.reg off &&& 0x8000 = s.reg off &&& 0x8000 := by
  refine ⟨hcd_bus_reset_returns fuel s, ?_⟩
  intro s' h off hoff
  have e : s'.reg off = s.reg off &&& 0xFFFFFBFF := by
    rcases hoff with rfl | rfl
    · exact (hcd_bus_reset_at _ _ _ h).1
    · exact (hcd_bus_reset_at _ _ _ h).2
  refine ⟨e, ?_, ?_⟩
  · rw [e]; exact clear_bit10 _
  · rw [e]; exact clear_bit10_keep _ _ (by decide)

/-- Witness for C21: the bus reset of the freshly constructed device returns and
leaves the active bit of both AT contexts clear. -/
theorem hcd_bus_reset_at_active_witness :
    (hcd_bus_reset 0 init_state).isSome = true ∧
      (hcd_complete_self_id (bus_reset_begin init_state)).reg OFF_async_request_transmit
        &&& 0x400 = 0 ∧
      (hcd_complete_self_id (bus_reset_begin init_state)).reg OFF_async_response_transmit
        &&& 0x400 = 0 :=
  ⟨(hcd_bus_reset_at_active 0 init_state).1 (by decide),
    ((hcd_bus_reset_at_active 0 init_state).2 _ rfl _ (Or.inl rfl)).2.1,
    ((hcd_bus_reset_at_active 0 init_state).2 _ rfl _ (Or.inr rfl)).2.1⟩

/-! ## The self-ID stream in guest memory -/

@[simp] theorem mem_set_reg (s : OHCI1394State) (off v : Nat) : (s.set_reg off v).mem = s.mem := rfl
@[simp] theorem mem_or_reg (s : OHCI1394State) (off v : Nat) : (s.or_reg off v).mem = s.mem := rfl
@[simp] theorem mem_and_reg (s : OHCI1394State) (off v : Nat) : (s.and_reg off v).mem = s.mem := rfl
@[simp] theorem mem_map_lo_word (s : OHCI1394State) (f : Nat → Nat) :
    (map_lo_word s f).mem = s.mem := rfl
@[simp] theorem mem_map_flags (s : OHCI1394State) (f : Nat → Nat) :
    (map_flags s f).mem = s.mem := rfl
@[simp] theorem mem_map_generation (s : OHCI1394State) (f : Nat → Nat) :
    (map_generation s f).mem = s.mem := rfl
@[simp] theorem mem_set_root (s : OHCI1394State) (v : Nat) : (set_root s v).mem = s.mem := rfl
theorem mem_self_id_write (s : OHCI1394State) (off v : Nat) :
    (self_id_write s off v).mem = dma_memory_write s.mem (self_id_addr s off) (le_bytes 4 v) := rfl

theorem complete_node_id_mem (s : OHCI1394State) : (complete_node_id s).mem = s.mem := by
  unfold complete_node_id; simp only []; split_ifs <;> rfl

theorem self_id_addr_congr (s t : OHCI1394State)
    (h : t.reg OFF_self_id_buffer = s.reg OFF_self_id_buffer) (off : Nat) :
    self_id_addr t off = self_id_addr s off := by
  unfold self_id_addr; rw [h]

/-- The guest memory after the self-ID block of `hcd_complete_self_id`: the two
words of the first self-ID, the two words of the second when Connected, then
the header. -/
theorem self_id_stream_mem (s : OHCI1394State) (m2 m4 : Nat → Nat)
    (h2 : m2 = dma_memory_write (dma_memory_write s.mem (self_id_addr s 4) (le_bytes 4 sid_root))
      (self_id_addr s 8) (le_bytes 4 (not32 sid_root)))
    (h4 : m4 = if s.state = HCD_STATE_CONNECTED then
      dma_memory_write (dma_memory_write m2 (self_id_addr s 12) (le_bytes 4 sid_child))
        (self_id_addr s 16) (le_bytes 4 (not32 sid_child)) else m2) :
    (self_id_stream s).mem =
      dma_memory_write m4 (self_id_addr s 0)
        (le_bytes 4 ((SelfIDCount.generation (s.reg OFF_self_id_count) <<< 16) ||| 1)) := by
  subst h2
  subst h4
  unfold self_id_stream self_id_stream_connected self_id_header
  simp only [state_map_lo_word, state_self_id_write]
  split_ifs with hc <;>
    simp [mem_self_id_write, self_id_addr]

/-- The state in which `hcd_complete_self_id` tests RcvSelfID has the guest
memory, the link state, the buffer address and the generation of the state at entry. -/
theorem complete_self_id_pre (s : OHCI1394State) :
    (map_flags (map_lo_word (complete_node_id s) (· &&& 0xF803)) (· &&& 0x7F)).mem = s.mem ∧
    (map_flags (map_lo_word (complete_node_id s) (· &&& 0xF803)) (· &&& 0x7F)).state = s.state ∧
    (map_flags (map_lo_word (complete_node_id s) (· &&& 0xF803)) (· &&& 0x7F)).reg
      OFF_self_id_buffer = s.reg OFF_self_id_buffer ∧
    (map_flags (map_lo_word (complete_node_id s) (· &&& 0xF803)) (· &&& 0x7F)).reg
      OFF_link_control = s.reg OFF_link_control ∧
    SelfIDCount.generation
      ((map_flags (map_lo_word (complete_node_id s) (· &&& 0xF803)) (· &&& 0x7F)).reg
        OFF_self_id_count) = SelfIDCount.generation (s.reg OFF_self_id_count) := by
  refine ⟨?_, ?_, ?_, ?_, ?_⟩
  · simp [complete_node_id_mem]
  · simp [complete_node_id_state]
  · simp [complete_node_id_reg]
  · simp [complete_node_id_reg]
  · simp [complete_node_id_reg]

/-- The guest memory after `hcd_complete_self_id`. -/
theorem hcd_complete_self_id_mem (s : OHCI1394State) (m2 m4 : Nat → Nat)
    (h2 : m2 = dma_memory_write (dma_memory_write s.mem (self_id_addr s 4) (le_bytes 4 sid_root))
      (self_id_addr s 8) (le_bytes 4 (not32 sid_root)))
    (h4 : m4 = if s.state = HCD_STATE_CONNECTED then
      dma_memory_write (dma_memory_write m2 (self_id_addr s 12) (le_bytes 4 sid_child))
        (self_id_addr s 16) (le_bytes 4 (not32 sid_child)) else m2) :
    (hcd_complete_self_id s).mem =
      if s.reg OFF_link_control &&& 0x00000200 ≠ 0 then
        dma_memory_write m4 (self_id_addr s 0)
          (le_bytes 4 ((SelfIDCount.generation (s.reg OFF_self_id_count) <<< 16) ||| 1))
      else s.mem := by
  obtain ⟨e1, e2, e3, e4, e5⟩ := complete_self_id_pre s
  unfold hcd_complete_self_id
  simp only []
  rw [hcd_check_irq_mem, mem_or_reg, e4]
  split_ifs with hr
  · rw [self_id_stream_mem _ m2 m4, self_id_addr_congr _ _ e3, e5]
    · rw [h2, e1, self_id_addr_congr _ _ e3, self_id_addr_congr _ _ e3]
    · rw [h4, e2, self_id_addr_congr _ _ e3, self_id_addr_congr _ _ e3]
  · exact e1

theorem le_bytes_4_length (v : Nat) : (le_bytes 4 v).length = 4 := rfl

/-- Reading back a word that was just written. -/
theorem dma_read_word_same (m : Nat → Nat) (a v : Nat) :
    dma_memory_read (dma_memory_write m a (le_bytes 4 v)) a 4 = le_bytes 4 v :=
  dma_read_write_same m a (le_bytes 4 v)

/-- Reading a word next to a word that was written. -/
theorem dma_read_word_other (m : Nat → Nat) (a v b : Nat) (h : b + 4 ≤ a ∨ a + 4 ≤ b) :
    dma_memory_read (dma_memory_write m a (le_bytes 4 v)) b 4 = dma_memory_read m b 4 :=
  dma_read_write_disjoint m a (le_bytes 4 v) b 4 h

/-- The five words of the self-ID buffer do not overlap, whatever the buffer address. -/
theorem self_id_addr_apart (s : OHCI1394State) (i j : Nat) (hi : i ∈ [0, 4, 8, 12, 16])
    (hj : j ∈ [0, 4, 8, 12, 16]) (hij : i ≠ j) :
    self_id_addr s i + 4 ≤ self_id_addr s j ∨ self_id_addr s j + 4 ≤ self_id_addr s i := by
  unfold self_id_addr
  simp only [List.mem_cons, List.mem_singleton, List.not_mem_nil, or_false] at hi hj
  rcases hi with rfl | rfl | rfl | rfl | rfl <;> rcases hj with rfl | rfl | rfl | rfl | rfl <;>
    first
    | exact absurd rfl hij
    | omega

theorem header_lt (g : Nat) (hg : g < 256) : (g <<< 16) ||| 1 < 0x100000000 := by
  apply Nat.or_lt_two_pow (n := 32)
  · rw [Nat.shiftLeft_eq]; omega
  · decide

theorem generation_lt (v : Nat) : SelfIDCount.generation v < 256 := by
  unfold SelfIDCount.generation; omega

/-- The words of the self-ID buffer after `hcd_complete_self_id` with RcvSelfID set. -/
theorem hcd_complete_self_id_words (s : OHCI1394State)
    (hr : s.reg OFF_link_control &&& 0x00000200 ≠ 0) :
    self_id_word (hcd_complete_self_id s) 0 =
      (SelfIDCount.generation (s.reg OFF_self_id_count) <<< 16) ||| 1 ∧
    self_id_word (hcd_complete_self_id s) 4 = sid_root ∧
    self_id_word (hcd_complete_self_id s) 8 = not32 sid_root ∧
    (s.state = HCD_STATE_CONNECTED →
      self_id_word (hcd_complete_self_id s) 12 = sid_child ∧
      self_id_word (hcd_complete_self_id s) 16 = not32 sid_child) := by
  have hb : (hcd_complete_self_id s).reg OFF_self_id_buffer = s.reg OFF_self_id_buffer :=
    hcd_complete_self_id_regs s 25 (by decide) (by decide) (by decide)
  have ap := self_id_addr_apart s
  have hm := hcd_complete_self_id_mem s _ _ rfl rfl
  rw [if_pos hr] at hm
  unfold self_id_word
  simp only [self_id_addr_congr _ _ hb, hm]
  refine ⟨?_, ?_, ?_, ?_⟩
  · rw [dma_read_word_same, le_val_le_bytes_4 _ (header_lt _ (generation_lt _))]
  · rw [dma_read_word_other _ _ _ _ (ap 4 0 (by simp) (by simp) (by decide))]
    split_ifs
    · rw [dma_read_word_other _ _ _ _ (ap 4 16 (by simp) (by simp) (by decide)),
        dma_read_word_other _ _ _ _ (ap 4 12 (by simp) (by simp) (by decide)),
        dma_read_word_other _ _ _ _ (ap 4 8 (by simp) (by simp) (by decide)),
        dma_read_word_same]
      rfl
    · rw [dma_read_word_other _ _ _ _ (ap 4 8 (by simp) (by simp) (by decide)),
        dma_read_word_same]
      rfl
  · rw [dma_read_word_other _ _ _ _ (ap 8 0 (by simp) (by simp) (by decide))]
    split_ifs
    · rw [dma_read_word_other _ _ _ _ (ap 8 16 (by simp) (by simp) (by decide)),
        dma_read_word_other _ _ _ _ (ap 8 12 (by simp) (by simp) (by decide)),
        dma_read_word_same]
      rfl
    · rw [dma_read_word_same]
      rfl
  · intro hc
    rw [if_pos hc]
    constructor
    · rw [dma_read_word_other _ _ _ _ (ap 12 0 (by simp) (by simp) (by decide)),
        dma_read_word_other _ _ _ _ (ap 12 16 (by simp) (by simp) (by decide)),
        dma_read_word_same]
      rfl
    · rw [dma_read_word_other _ _ _ _ (ap 16 0 (by simp) (by simp) (by decide)),
        dma_read_word_same]
      rfl

theorem dma_write_outside (m : Nat → Nat) (a : Nat) (bytes : List Nat) (x : Nat)
    (h : ¬ (a ≤ x ∧ x < a + bytes.length)) : dma_memory_write m a bytes x = m x := if_neg h

/-- What `hcd_complete_self_id` leaves alone in guest memory: every byte outside
the words at +0, +4 and +8 when not Connected, every byte outside the five
words when Connected, and every byte when RcvSelfID is clear. -/
theorem hcd_complete_self_id_mem_frame (s : OHCI1394State) (x : Nat)
    (h0 : ¬ (self_id_addr s 0 ≤ x ∧ x < self_id_addr s 0 + 4))
    (h4 : ¬ (self_id_addr s 4 ≤ x ∧ x < self_id_addr s 4 + 4))
    (h8 : ¬ (self_id_addr s 8 ≤ x ∧ x < self_id_addr s 8 + 4))
    (hc : s.state = HCD_STATE_CONNECTED →
      ¬ (self_id_addr s 12 ≤ x ∧ x < self_id_addr s 12 + 4) ∧
      ¬ (self_id_addr s 16 ≤ x ∧ x < self_id_addr s 16 + 4)) :
    (hcd_complete_self_id s).mem x = s.mem x := by
  rw [hcd_complete_self_id_mem s _ _ rfl rfl]
  split_ifs with hr hs
  · rw [dma_write_outside _ _ _ _ h0, dma_write_outside _ _ _ _ (hc hs).2,
      dma_write_outside _ _ _ _ (hc hs).1, dma_write_outside _ _ _ _ h8,
      dma_write_outside _ _ _ _ h4]
  · rw [dma_write_outside _ _ _ _ h0, dma_write_outside _ _ _ _ h8,
      dma_write_outside _ _ _ _ h4]
  · rfl

/-- C23: after `hcd_complete_self_id` with RcvSelfID (`link_control` bit 0x200)
set, the word of guest memory at `self_id_buffer` is `(generation << 16) | 1`
with the generation of the count register, the word at +8 is the bitwise
complement of the word at +4, and when Connected the word at +12 is 0x814000C0
and the word at +16 is its complement 0x7EBFFF3F; when not Connected the bytes
of the words at +12 and +16, like every byte outside the words at +0, +4 and +8,
are as before; and with RcvSelfID clear the guest memory is as before. -/
theorem hcd_complete_self_id_buffer (s : OHCI1394State) :
    (s.reg OFF_link_control &&& 0x00000200 ≠ 0 →
      SelfIDCount.generation ((hcd_complete_self_id s).reg OFF_self_id_count) =
        SelfIDCount.generation (s.reg OFF_self_id_count) ∧
      self_id_word (hcd_complete_self_id s) 0 =
        (SelfIDCount.generation (s.reg OFF_self_id_count) <<< 16) ||| 1 ∧
      self_id_word (hcd_complete_self_id s) 8 =
        0xFFFFFFFF ^^^ self_id_word (hcd_complete_self_id s) 4 ∧
      (s.state = HCD_STATE_CONNECTED →
        self_id_word (hcd_complete_self_id s) 12 = 0x814000C0 ∧
        self_id_word (hcd_complete_self_id s) 16 = 0xFFFFFFFF ^^^ 0x814000C0) ∧
      (s.state ≠ HCD_STATE_CONNECTED →
        dma_memory_read (hcd_complete_self_id s).mem (self_id_addr s 12) 4 =
          dma_memory_read s.mem (self_id_addr s 12) 4 ∧
        dma_memory_read (hcd_complete_self_id s).mem (self_id_addr s 16) 4 =
          dma_memory_read s.mem (self_id_addr s 16) 4 ∧
        ∀ x, ¬ (self_id_addr s 0 ≤ x ∧ x < self_id_addr s 0 + 4) →
          ¬ (self_id_addr s 4 ≤ x ∧ x < self_id_addr s 4 + 4) →
          ¬ (self_id_addr s 8 ≤ x ∧ x < self_id_addr s 8 + 4) →
          (hcd_complete_self_id s).mem x = s.mem x)) ∧
    (s.reg OFF_link_control &&& 0x00000200 = 0 → (hcd_complete_self_id s).mem = s.mem) := by
  constructor
  · intro hr
    obtain ⟨w0, w4, w8, wc⟩ := hcd_complete_self_id_words s hr
    refine ⟨?_, w0, ?_, ?_, ?_⟩
    · rw [hcd_complete_self_id_count]; simp
    · rw [w8, w4]; rfl
    · intro hc
      obtain ⟨w12, w16⟩ := wc hc
      exact ⟨w12.trans (by rfl), w16.trans (by rfl)⟩
    · intro hc
      have fr : ∀ x, ¬ (self_id_addr s 0 ≤ x ∧ x < self_id_addr s 0 + 4) →
          ¬ (self_id_addr s 4 ≤ x ∧ x < self_id_addr s 4 + 4) →
          ¬ (self_id_addr s 8 ≤ x ∧ x < self_id_addr s 8 + 4) →
          (hcd_complete_self_id s).mem x = s.mem x :=
        fun x h0 h4 h8 => hcd_complete_self_id_mem_frame s x h0 h4 h8 (fun h => absurd h hc)
      have ap := self_id_addr_apart s
      have ap0 := ap 12 0 (by simp) (by simp) (by decide)
      have ap4 := ap 12 4 (by simp) (by simp) (by decide)
      have ap8 := ap 12 8 (by simp) (by simp) (by decide)
      have bp0 := ap 16 0 (by simp) (by simp) (by decide)
      have bp4 := ap 16 4 (by simp) (by simp) (by decide)
      have bp8 := ap 16 8 (by simp) (by simp) (by decide)
      refine ⟨?_, ?_, fr⟩
      · apply List.ext_getElem
        · simp [dma_memory_read]
        · intro i h1 h2
          simp only [dma_memory_read, List.length_map, List.length_range] at h1
          simp only [dma_memory_read, List.getElem_map, List.getElem_range]
          exact fr _ (by omega) (by omega) (by omega)
      · apply List.ext_getElem
        · simp [dma_memory_read]
        · intro i h1 h2
          simp only [dma_memory_read, List.length_map, List.length_range] at h1
          simp only [dma_memory_read, List.getElem_map, List.getElem_range]
          exact fr _ (by omega) (by omega) (by omega)
  · intro hr
    rw [hcd_complete_self_id_mem s _ _ rfl rfl, if_neg (not_not.mpr hr)]

/-- Witness for C23: on the device whose guest has pointed `self_id_buffer` to
0x4000 and set RcvSelfID, nothing being connected, the header word is 1 (the
generation is 0) and the word at +8 is the complement of the word at +4; on the
Connected device the word at +12 is 0x814000C0; on the fresh device (RcvSelfID
clear) the memory is untouched. -/
theorem hcd_complete_self_id_buffer_witness :
    (self_id_word (hcd_complete_self_id selfid_dev) 0 = 1 ∧
      self_id_word (hcd_complete_self_id selfid_dev) 8 =
        0xFFFFFFFF ^^^ self_id_word (hcd_complete_self_id selfid_dev) 4) ∧
    self_id_word (hcd_complete_self_id connected_dev) 12 = 0x814000C0 ∧
    (hcd_complete_self_id init_state).mem = init_state.mem :=
  ⟨⟨((hcd_complete_self_id_buffer selfid_dev).1 (by decide)).2.1.trans (by rfl),
      ((hcd_complete_self_id_buffer selfid_dev).1 (by decide)).2.2.1⟩,
    (((hcd_complete_self_id_buffer connected_dev).1 (by decide)).2.2.2.1 (by decide)).1,
    (hcd_complete_self_id_buffer init_state).2 (by decide)⟩

/-- Counterexample for C24: a bus reset of the device that is not Connected
writes the word 0x80400882 at +4, with the L bit (0x40 of byte 2) set; and a bus
reset of the Connected device that lost the arbitration (`root = 0`) writes the
same word, with the C bit (0x08 of byte 1) set. -/
theorem hcd_complete_self_id_word1_counterexample :
    ((hcd_bus_reset 0 selfid_dev).map fun s =>
      (decide (s.state = HCD_STATE_CONNECTED), self_id_word s 4,
        get_byte (self_id_word s 4) 2 &&& 0x40)) = some (false, 0x80400882, 0x40) ∧
    ((hcd_bus_reset 0 connected_dev).map fun s =>
      (decide (s.state = HCD_STATE_CONNECTED), s.root, self_id_word s 4,
        get_byte (self_id_word s 4) 1 &&& 0x08)) = some (true, 0, 0x80400882, 0x08) := by
  decide

/-- C24 (amended): with RcvSelfID set, the word `hcd_complete_self_id` writes at
`self_id_buffer + 4` is 0x80400882 whatever `root` and the link state are: the
initiated bit (0x02 of byte 0) is set, P0 (byte 0 AND 0xC0) is 0x80, the type
(byte 3 AND 0xC0) is 0x80, and the C bit (0x08 of byte 1) and the L bit (0x40 of
byte 2) are both set. -/
theorem hcd_complete_self_id_word1 (s : OHCI1394State)
    (hr : s.reg OFF_link_control &&& 0x00000200 ≠ 0) :
    self_id_word (hcd_complete_self_id s) 4 = 0x80400882 ∧
    get_byte (self_id_word (hcd_complete_self_id s) 4) 0 &&& 0x02 = 0x02 ∧
    get_byte (self_id_word (hcd_complete_self_id s) 4) 0 &&& 0xC0 = 0x80 ∧
    get_byte (self_id_word (hcd_complete_self_id s) 4) 3 &&& 0xC0 = 0x80 ∧
    get_byte (self_id_word (hcd_complete_self_id s) 4) 1 &&& 0x08 = 0x08 ∧
    get_byte (self_id_word (hcd_complete_self_id s) 4) 2 &&& 0x40 = 0x40 := by
  have w4 : self_id_word (hcd_complete_self_id s) 4 = 0x80400882 :=
    (hcd_complete_self_id_words s hr).2.1.trans (by rfl)
  rw [w4]
  exact ⟨rfl, by decide, by decide, by decide, by decide, by decide⟩

/-- Witness for C24 (amended): the device with RcvSelfID set and nothing connected. -/
theorem hcd_complete_self_id_word1_witness :
    self_id_word (hcd_complete_self_id selfid_dev) 4 = 0x80400882 :=
  (hcd_complete_self_id_word1 selfid_dev (by decide)).1

/-! ## The bus-reset packet -/

theorem low5_mod (y : Nat) : (y % 0x100000000) &&& 0x1F = y &&& 0x1F := by
  have h1 := Nat.and_pow_two_sub_one_eq_mod (y % 0x100000000) 5
  have h2 := Nat.and_pow_two_sub_one_eq_mod y 5
  simp only [Nat.reducePow, Nat.add_one_sub_one, Nat.reduceSub] at h1 h2
  rw [h1, h2]; omega

theorem low5_clear_active (x : Nat) : ((x &&& 0xFFFFFBFF) % 0x100000000) &&& 0x1F = x &&& 0x1F := by
  rw [low5_mod, Nat.and_assoc, show (0xFFFFFBFF &&& 0x1F : Nat) = 0x1F from rfl]

/-- One pass of the AR loop keeps the event code of the AR-response `context_control`. -/
theorem rx_rsp_step_code (s : OHCI1394State) (l : RxLocals) :
    (rx_rsp_step s l).1.regs 120 &&& 0x1F = s.regs 120 &&& 0x1F := by
  unfold rx_rsp_step rx_case0 rx_case1 rx_next_db
  simp only []
  split_ifs <;>
    simp [write_db, dma_write, CLR_Ax_ACTIVE, SET_Ax_COMMAND_PTR, OHCI1394State.and_regs, Ax_CC,
      Ax_CP, low5_clear_active]

/-- After a delivery that returns, the event code of the AR-response context is
the code of the packet and bit 5 of `int_event` is set. -/
theorem rx_rsp_packet_code (fuel : Nat) (s s' : OHCI1394State) (buf : List Nat)
    (size c : Nat) (h : hcd_async_rx_rsp_packet fuel s buf size c = some s')
    (hz : size ≠ 0) (hc : c < 32) :
    s'.regs 120 &&& 0x1F = c ∧ Nat.testBit (s'.regs 32) 5 = true := by
  unfold hcd_async_rx_rsp_packet at h
  rw [if_neg hz] at h
  simp only [Option.map_eq_some'] at h
  obtain ⟨s1, hl, rfl⟩ := h
  have e1 := rx_rsp_loop_preserves (fun s => s.regs 120 &&& 0x1F) rx_rsp_step_code _ _ _ _ hl
  have e0 : (SET_Ax_EVENT_CODE s 3 c).regs 120 &&& 0x1F = c := by
    simp [SET_Ax_EVENT_CODE, Ax_CC, low5_mod, event_code_low _ _ hc]
  simp only at e1
  unfold rx_rsp_finish
  rw [hcd_check_irq_regs]
  constructor
  · rw [← e0, ← e1]
    simp [OHCI1394State.or_reg, OHCI1394State.or_regs]
  · have : (s1.or_reg OFF_int_event (1 <<< 5)).regs 32 = (s1.regs 32 ||| 1 <<< 5) % 0x100000000 := by
      simp [OHCI1394State.or_reg, OHCI1394State.or_regs]
    rw [this]
    exact testBit_or_32 _

theorem hcd_complete_self_id_int_event (s : OHCI1394State) :
    (hcd_complete_self_id s).regs 32 = (s.regs 32 ||| 0x00018000) % 0x100000000 := by
  unfold hcd_complete_self_id
  simp only []
  rw [hcd_check_irq_regs]
  unfold self_id_stream self_id_stream_connected self_id_header complete_node_id
  simp only []
  split_ifs <;>
    simp [map_lo_word, map_flags, self_id_write, OHCI1394State.set_reg, OHCI1394State.or_reg,
      OHCI1394State.or_regs]

theorem testBit_or_mod32 (x v k : Nat) (hk : k < 32) (hx : Nat.testBit x k = true) :
    Nat.testBit ((x ||| v) % 0x100000000) k = true := by
  have := Nat.testBit_mod_two_pow (x ||| v) 32 k
  simp only [Nat.reducePow] at this
  rw [this, Nat.testBit_or, hx]
  simp [hk]

theorem bus_reset_begin_mem (s : OHCI1394State) : (bus_reset_begin s).mem = s.mem := by
  unfold bus_reset_begin; simp only []; split_ifs <;> rfl

theorem bus_reset_begin_ar (s : OHCI1394State) :
    (bus_reset_begin s).regs 120 = s.regs 120 ∧ (bus_reset_begin s).regs 123 = s.regs 123 ∧
    (bus_reset_begin s).regs 25 = s.regs 25 ∧ (bus_reset_begin s).regs 56 = s.regs 56 :=
  ⟨bus_reset_begin_regs s 120 (by decide) (by decide) (by decide) (by decide) (by decide),
    bus_reset_begin_regs s 123 (by decide) (by decide) (by decide) (by decide) (by decide),
    bus_reset_begin_regs s 25 (by decide) (by decide) (by decide) (by decide) (by decide),
    bus_reset_begin_regs s 56 (by decide) (by decide) (by decide) (by decide) (by decide)⟩

/-- The packet of a bus reset carries the generation after the increment. -/
theorem bus_reset_packet_begin (s : OHCI1394State) :
    bus_reset_packet (bus_reset_begin s) =
      le_bytes 4 0x000000E0 ++ le_bytes 4 0x00000000 ++
        le_bytes 4 (((SelfIDCount.generation (s.reg OFF_self_id_count) + 1) % 256) <<< 16) := by
  unfold bus_reset_packet
  rw [bus_reset_begin_count]
  simp

/-- What `hcd_bus_reset` is when the AR-response context is running. -/
theorem hcd_bus_reset_running (fuel : Nat) (s : OHCI1394State)
    (h : s.reg OFF_async_response_receive &&& 0x00008000 ≠ 0) :
    hcd_bus_reset fuel s =
      (hcd_async_rx_rsp_packet fuel (bus_reset_begin s)
        (le_bytes 4 0x000000E0 ++ le_bytes 4 0x00000000 ++
          le_bytes 4 (((SelfIDCount.generation (s.reg OFF_self_id_count) + 1) % 256) <<< 16))
        12 EVT_BUS_RESET).map hcd_complete_self_id := by
  have e : (bus_reset_begin s).reg OFF_async_response_receive = s.reg OFF_async_response_receive :=
    (bus_reset_begin_ar s).1
  unfold hcd_bus_reset bus_reset_deliver
  rw [e, if_pos h, bus_reset_packet_begin]

/-- What `hcd_bus_reset` is when the AR-response context is not running. -/
theorem hcd_bus_reset_stopped (fuel : Nat) (s : OHCI1394State)
    (h : s.reg OFF_async_response_receive &&& 0x00008000 = 0) :
    hcd_bus_reset fuel s = some (hcd_complete_self_id (bus_reset_begin s)) := by
  have e : (bus_reset_begin s).reg OFF_async_response_receive = s.reg OFF_async_response_receive :=
    (bus_reset_begin_ar s).1
  unfold hcd_bus_reset bus_reset_deliver
  rw [e, if_neg (not_not.mpr h)]
  rfl

/-- C22: with run (bit 15) of the AR-response `context_control` set when
`hcd_bus_reset` is called, the bus reset is the delivery, through
`hcd_async_rx_rsp_packet` with the code `EVT_BUS_RESET`, of the 12 bytes of the
words `{0x000000E0, 0, g << 16}`, `g` being the generation after the increment,
followed by `hcd_complete_self_id`; whenever it returns, the event code of the
AR-response context is 0x09, bit 5 of `int_event` is set and the generation is
`g`; and it returns, with the 12 bytes in the buffer, when the current
descriptor has room for the packet and its trailer.  With run clear the bus
reset returns, the AR-response `context_control` and `command_ptr` are as
before, every byte of guest memory outside the five words of the self-ID buffer
is as before, and with RcvSelfID clear the whole guest memory is as before. -/
theorem hcd_bus_reset_ar_packet (fuel : Nat) (s : OHCI1394State) (g a tgt : Nat) (db : HCDArDB)
    (hg : g = (SelfIDCount.generation (s.reg OFF_self_id_count) + 1) % 256)
    (ha : a = Ax_COMMAND_PTR s 3 &&& 0xFFFFFFF0) (hdb : db = read_db s a)
    (htgt : tgt = rx_data_address db) :
    (s.reg OFF_async_response_receive &&& 0x00008000 ≠ 0 →
      hcd_bus_reset fuel s =
        (hcd_async_rx_rsp_packet fuel (bus_reset_begin s)
          (le_bytes 4 0x000000E0 ++ le_bytes 4 0x00000000 ++ le_bytes 4 (g <<< 16))
          12 EVT_BUS_RESET).map hcd_complete_self_id ∧
      (∀ s', hcd_bus_reset fuel s = some s' →
        s'.reg OFF_async_response_receive &&& 0x1F = 0x09 ∧
        Nat.testBit (s'.reg OFF_int_event) 5 = true ∧
        SelfIDCount.generation (s'.reg OFF_self_id_count) = g) ∧
      (3 ≤ fuel → 16 ≤ db.res_count → tgt + 16 ≤ 0x100000000 →
        (tgt + 16 ≤ a ∨ a + 16 ≤ tgt) →
        ∃ s1, hcd_async_rx_rsp_packet fuel (bus_reset_begin s)
            (le_bytes 4 0x000000E0 ++ le_bytes 4 0x00000000 ++ le_bytes 4 (g <<< 16))
            12 EVT_BUS_RESET = some s1 ∧
          dma_memory_read s1.mem tgt 12 =
            le_bytes 4 0x000000E0 ++ le_bytes 4 0x00000000 ++ le_bytes 4 (g <<< 16) ∧
          hcd_bus_reset fuel s = some (hcd_complete_self_id s1))) ∧
    (s.reg OFF_async_response_receive &&& 0x00008000 = 0 →
      ∃ s', hcd_bus_reset fuel s = some s' ∧
        s'.reg OFF_async_response_receive = s.reg OFF_async_response_receive ∧
        Ax_COMMAND_PTR s' 3 = Ax_COMMAND_PTR s 3 ∧
        (∀ x, (∀ off ∈ [0, 4, 8, 12, 16],
            ¬ (self_id_addr s off ≤ x ∧ x < self_id_addr s off + 4)) → s'.mem x = s.mem x) ∧
        (s.reg OFF_link_control &&& 0x00000200 = 0 → s'.mem = s.mem)) := by
  obtain ⟨b120, b123, b25, b56⟩ := bus_reset_begin_ar s
  constructor
  · intro hrun
    have heq := hcd_bus_reset_running fuel s hrun
    rw [← hg] at heq
    refine ⟨heq, ?_, ?_⟩
    · intro s' h
      have hgen := (hcd_bus_reset_link _ _ _ h).2.2
      rw [heq] at h
      simp only [Option.map_eq_some'] at h
      obtain ⟨s1, h1, rfl⟩ := h
      obtain ⟨c1, c2⟩ := rx_rsp_packet_code _ _ _ _ _ _ h1 (by decide) (by decide)
      refine ⟨?_, ?_, hgen.trans hg.symm⟩
      · show (hcd_complete_self_id s1).regs 120 &&& 0x1F = 0x09
        rw [hcd_complete_self_id_regs _ 120 (by decide) (by decide) (by decide)]
        exact c1
      · show Nat.testBit ((hcd_complete_self_id s1).regs 32) 5 = true
        rw [hcd_complete_self_id_int_event]
        exact testBit_or_mod32 _ _ _ (by decide) c2
    · intro hfuel hres hwrap hsep
      have hcp : Ax_COMMAND_PTR (bus_reset_begin s) 3 = Ax_COMMAND_PTR s 3 := b123
      have hrd : read_db (bus_reset_begin s) a = read_db s a := by
        unfold read_db; rw [bus_reset_begin_mem]
      obtain ⟨s1, h1, hm, -⟩ := rx_rsp_packet_single fuel (bus_reset_begin s)
        (le_bytes 4 0x000000E0 ++ le_bytes 4 0x00000000 ++ le_bytes 4 (g <<< 16)) 12
        EVT_BUS_RESET a tgt _ db (by rw [hcp]; exact ha) (by rw [hrd]; exact hdb) htgt rfl hfuel
        (by decide) rfl (by decide) hres hwrap hsep
      refine ⟨s1, h1, hm, ?_⟩
      rw [heq, h1]
      rfl
  · intro hstop
    refine ⟨_, hcd_bus_reset_stopped fuel s hstop, ?_, ?_, ?_, ?_⟩
    · show (hcd_complete_self_id (bus_reset_begin s)).regs 120 = s.regs 120
      rw [hcd_complete_self_id_regs _ 120 (by decide) (by decide) (by decide), b120]
    · show (hcd_complete_self_id (bus_reset_begin s)).regs 123 = s.regs 123
      rw [hcd_complete_self_id_regs _ 123 (by decide) (by decide) (by decide), b123]
    · intro x hx
      have ea : ∀ off, self_id_addr (bus_reset_begin s) off = self_id_addr s off :=
        self_id_addr_congr _ _ b25
      rw [hcd_complete_self_id_mem_frame (bus_reset_begin s) x
        (by rw [ea]; exact hx 0 (by simp)) (by rw [ea]; exact hx 4 (by simp))
        (by rw [ea]; exact hx 8 (by simp))
        (fun _ => ⟨by rw [ea]; exact hx 12 (by simp), by rw [ea]; exact hx 16 (by simp)⟩),
        bus_reset_begin_mem]
    · intro hr
      have hr' : (bus_reset_begin s).reg OFF_link_control &&& 0x00000200 = 0 := by
        rw [show (bus_reset_begin s).reg OFF_link_control = s.reg OFF_link_control from b56]
        exact hr
      rw [hcd_complete_self_id_mem _ _ _ rfl rfl, if_neg (not_not.mpr hr'), bus_reset_begin_mem]

/-- Witness for C22: on the device whose AR-response context runs over a
descriptor at 0x1000 with a 32-byte buffer at 0x2000 (generation 0), a bus reset
returns with the words 0xE0, 0, 0x10000 at 0x2000; on the fresh device over the
same memory (run clear) it returns with the guest memory untouched. -/
theorem hcd_bus_reset_ar_packet_witness :
    (∃ s1, hcd_async_rx_rsp_packet 3 (bus_reset_begin (ar_ready (ar_mem 32 32 0)))
        [0xE0, 0, 0, 0, 0, 0, 0, 0, 0, 0, 1, 0] 12 EVT_BUS_RESET = some s1 ∧
      dma_memory_read s1.mem 0x2000 12 = [0xE0, 0, 0, 0, 0, 0, 0, 0, 0, 0, 1, 0] ∧
      hcd_bus_reset 3 (ar_ready (ar_mem 32 32 0)) = some (hcd_complete_self_id s1)) ∧
    (∃ s', hcd_bus_reset 0 (fresh (ar_mem 32 32 0)) = some s' ∧
      s'.mem = (fresh (ar_mem 32 32 0)).mem) :=
  ⟨((hcd_bus_reset_ar_packet 3 (ar_ready (ar_mem 32 32 0)) 1 0x1000 0x2000
      (read_db (ar_ready (ar_mem 32 32 0)) 0x1000) (by rfl) (by rfl) rfl (by rfl)).1
      (by decide)).2.2 (by decide) (by decide) (by decide) (Or.inr (by decide)),
    ((hcd_bus_reset_ar_packet 0 (fresh (ar_mem 32 32 0)) 1 0 0
      (read_db (fresh (ar_mem 32 32 0)) 0) (by rfl) (by rfl) rfl (by rfl)).2 (by decide)).imp
      fun _ h => ⟨h.1, h.2.2.2.2 (by decide)⟩⟩

/-! ## The PHY register file and `phy_control` -/

theorem get_byte_lt (w k : Nat) : get_byte w k < 256 := by
  unfold get_byte; omega

theorem get_byte_set_byte (w k b j : Nat) (hk : k < 4) (hj : j < 4) :
    get_byte (set_byte w k b % 0x100000000) j = if j = k then b % 256 else get_byte w j := by
  unfold set_byte get_byte
  interval_cases k <;> interval_cases j <;> simp <;> omega

theorem phy_control_field_set (s : OHCI1394State) (k b j : Nat) (hk : k < 4) (hj : j < 4) :
    phy_control_field (set_phy_control_field s k b) j =
      if j = k then b % 256 else phy_control_field s j := by
  unfold phy_control_field set_phy_control_field
  rw [reg_set_reg, if_pos rfl, get_byte_set_byte _ _ _ _ hk hj]

theorem set_phy_control_field_regs (s : OHCI1394State) (k b i : Nat) (hi : i ≠ 59) :
    (set_phy_control_field s k b).regs i = s.regs i := by
  unfold set_phy_control_field
  simp [OHCI1394State.set_reg, hi]

@[simp] theorem set_phy_control_field_phy (s : OHCI1394State) (k b : Nat) :
    (set_phy_control_field s k b).phy = s.phy := rfl
@[simp] theorem set_phy_control_field_phy_pages (s : OHCI1394State) (k b : Nat) :
    (set_phy_control_field s k b).phy_pages = s.phy_pages := rfl
@[simp] theorem or_reg_phy (s : OHCI1394State) (off v : Nat) : (s.or_reg off v).phy = s.phy := rfl
@[simp] theorem or_reg_phy_pages (s : OHCI1394State) (off v : Nat) :
    (s.or_reg off v).phy_pages = s.phy_pages := rfl

theorem hcd_check_irq_phy (s : OHCI1394State) :
    (hcd_check_irq s).phy = s.phy ∧ (hcd_check_irq s).phy_pages = s.phy_pages := by
  unfold hcd_check_irq; split_ifs <;> exact ⟨rfl, rfl⟩

/-- `hcd_phy_read` depends on the PHY register file only. -/
theorem hcd_phy_read_congr (s t : OHCI1394State) (h1 : t.phy = s.phy)
    (h2 : t.phy_pages = s.phy_pages) (r : Nat) : hcd_phy_read t r = hcd_phy_read s r := by
  unfold hcd_phy_read; rw [h1, h2]

theorem or_and_self_right (a b : Nat) : (a ||| b) &&& b = b := by
  apply Nat.eq_of_testBit_eq
  intro i
  simp only [Nat.testBit_and, Nat.testBit_or]
  cases Nat.testBit a i <;> cases Nat.testBit b i <;> rfl

theorem or_mod_256_bit7 (x : Nat) : ((x ||| 0x80) % 256) &&& 0x80 = 0x80 := by
  apply Nat.eq_of_testBit_eq
  intro i
  rw [Nat.testBit_and, show (256 : Nat) = 2 ^ 8 from rfl, Nat.testBit_mod_two_pow, Nat.testBit_or,
    show (0x80 : Nat) = 2 ^ 7 from rfl, Nat.testBit_two_pow]
  by_cases hi : 7 = i
  · subst hi; simp
  · simp [hi]

/-- The body of the read request: `rd_data` holds the register, read-done is
set, bit 26 of `int_event` is set, and the PHY is as before. -/
theorem phy_control_rd_reg_spec (s : OHCI1394State) (r : Nat) :
    phy_control_field (phy_control_rd_reg s r) 2 = hcd_phy_read s r % 256 ∧
    phy_control_field (phy_control_rd_reg s r) 3 &&& 0x80 = 0x80 ∧
    (phy_control_rd_reg s r).regs 32 = (s.regs 32 ||| 0x04000000) % 0x100000000 ∧
    (phy_control_rd_reg s r).phy = s.phy ∧ (phy_control_rd_reg s r).phy_pages = s.phy_pages ∧
    ∀ i, i ≠ 59 → i ≠ 32 → (phy_control_rd_reg s r).regs i = s.regs i := by
  unfold phy_control_rd_reg
  simp only []
  refine ⟨?_, ?_, ?_, rfl, rfl, ?_⟩
  · have : ∀ t : OHCI1394State, phy_control_field (t.or_reg OFF_int_event INT_PHY_REG_RCVD) 2 =
        phy_control_field t 2 := fun t => rfl
    rw [this, phy_control_field_set _ _ _ _ (by decide) (by decide), if_neg (by decide),
      phy_control_field_set _ _ _ _ (by decide) (by decide), if_pos rfl]
    exact congrArg (· % 256) (hcd_phy_read_congr s (set_phy_control_field s 3 _) rfl rfl r)
  · have : ∀ t : OHCI1394State, phy_control_field (t.or_reg OFF_int_event INT_PHY_REG_RCVD) 3 =
        phy_control_field t 3 := fun t => rfl
    rw [this, phy_control_field_set _ _ _ _ (by decide) (by decide), if_pos rfl]
    exact or_mod_256_bit7 _
  · simp [OHCI1394State.or_reg, OHCI1394State.or_regs, set_phy_control_field_regs]
  · intro i h1 h2
    simp [OHCI1394State.or_reg, OHCI1394State.or_regs, set_phy_control_field_regs, h1, h2]

theorem mmio_write_switch_phy_control (fuel : Nat) (s : OHCI1394State) (data : Nat) :
    mmio_write_switch fuel s OFF_phy_control data = mmio_write_phy_control fuel s data := by
  simp [mmio_write_switch]

/-- C25: an MMIO write to `phy_control` whose `wr_flags` byte has the
read-request bit (0x80) set, the write-request bit (0x40) clear and `r` in its
low nibble returns; afterwards `rd_data` is the byte `hcd_phy_read` gives for
register `r` (base register `r` when `r < 8`, otherwise entry `r AND 7` of the
page selected by bits 7:5 of register 7), the read-done bit (0x80) of `rd_flags`
is set, bit 26 of `int_event` is set, and every PHY register is as before. -/
theorem mmio_write_phy_control_read (fuel : Nat) (s : OHCI1394State) (data r : Nat)
    (hrd : get_byte (data % 0x100000000) 1 &&& 0x80 ≠ 0)
    (hwr : get_byte (data % 0x100000000) 1 &&& 0x40 = 0)
    (hr : get_byte (data % 0x100000000) 1 &&& 0x0F = r) :
    r < 16 ∧
    hcd_phy_read s r =
      (if r < 8 then s.phy r else s.phy_pages ((s.phy 7 &&& 0xE0) >>> 5) (r &&& 7)) ∧
    ∃ s', hcd_mmio_write fuel s OFF_phy_control data = some s' ∧
      phy_control_field s' 2 = hcd_phy_read s r % 256 ∧
      (hcd_phy_read s r < 256 → phy_control_field s' 2 = hcd_phy_read s r) ∧
      phy_control_field s' 3 &&& 0x80 = 0x80 ∧
      Nat.testBit (s'.reg OFF_int_event) 26 = true ∧
      s'.phy = s.phy ∧ s'.phy_pages = s.phy_pages := by
  refine ⟨?_, rfl, ?_⟩
  · rw [← hr]
    exact lt_of_le_of_lt Nat.and_le_right (by decide)
  have hsw : mmio_write_switch fuel s OFF_phy_control data =
      some (phy_control_rd_reg
        (set_phy_control_field s 1 (r ||| (phy_control_field s 1 &&& 0xF0))) r) := by
    rw [mmio_write_switch_phy_control]
    unfold mmio_write_phy_control
    simp only []
    rw [if_pos hrd, if_neg (not_not.mpr hwr), hr]
  obtain ⟨p2, p3, p32, pphy, ppages, -⟩ := phy_control_rd_reg_spec
    (set_phy_control_field s 1 (r ||| (phy_control_field s 1 &&& 0xF0))) r
  rw [hcd_phy_read_congr s (set_phy_control_field s 1 _) rfl rfl r] at p2
  have f2 : ∀ k, phy_control_field (hcd_check_irq (phy_control_rd_reg
      (set_phy_control_field s 1 (r ||| (phy_control_field s 1 &&& 0xF0))) r)) k =
      phy_control_field (phy_control_rd_reg
        (set_phy_control_field s 1 (r ||| (phy_control_field s 1 &&& 0xF0))) r) k := by
    intro k; unfold phy_control_field; rw [reg_hcd_check_irq]
  refine ⟨_, hcd_mmio_write_eq _ _ _ _ _ hsw, ?_, ?_, ?_, ?_, ?_, ?_⟩
  · rw [f2, p2]
  · intro hlt
    rw [f2, p2, Nat.mod_eq_of_lt hlt]
  · rw [f2, p3]
  · rw [reg_hcd_check_irq]
    show Nat.testBit ((phy_control_rd_reg _ r).regs 32) 26 = true
    rw [p32, Nat.or_comm]
    exact testBit_or_mod32 _ _ _ (by decide) (by decide)
  · rw [(hcd_check_irq_phy _).1, pphy]; rfl
  · rw [(hcd_check_irq_phy _).2, ppages]; rfl

/-- Witness for C25: on the fresh device a read request for PHY register 2
(`phy_control` written with 0x8200) returns the byte 0x01 of register 2 in `rd_data`. -/
theorem mmio_write_phy_control_read_witness :
    ∃ s', hcd_mmio_write 0 init_state OFF_phy_control 0x8200 = some s' ∧
      phy_control_field s' 2 = 1 ∧ phy_control_field s' 3 &&& 0x80 = 0x80 ∧
      Nat.testBit (s'.reg OFF_int_event) 26 = true ∧ s'.phy = init_state.phy :=
  (mmio_write_phy_control_read 0 init_state 0x8200 2 (by decide) (by decide)
    (by decide)).2.2.imp
    fun _ h => ⟨h.1, (h.2.2.1 (by decide)).trans (by rfl), h.2.2.2.1, h.2.2.2.2.1, h.2.2.2.2.2.1⟩

/-! ## PHY writes and the bus reset they may start -/

theorem rx_rsp_step_phy (s : OHCI1394State) (l : RxLocals) :
    (rx_rsp_step s l).1.phy = s.phy ∧ (rx_rsp_step s l).1.phy_pages = s.phy_pages := by
  unfold rx_rsp_step rx_case0 rx_case1 rx_next_db; simp only []
  split_ifs <;> exact ⟨rfl, rfl⟩

theorem rx_rsp_packet_phy (fuel : Nat) (s s' : OHCI1394State) (buf : List Nat)
    (size response : Nat) (h : hcd_async_rx_rsp_packet fuel s buf size response = some s') :
    s'.phy = s.phy ∧ s'.phy_pages = s.phy_pages := by
  unfold hcd_async_rx_rsp_packet at h
  split_ifs at h with h0
  · simp at h; rw [← h]; exact ⟨rfl, rfl⟩
  · simp only [Option.map_eq_some'] at h
    obtain ⟨s1, hl, rfl⟩ := h
    have e1 := rx_rsp_loop_preserves (·.phy) (fun s l => (rx_rsp_step_phy s l).1) _ _ _ _ hl
    have e2 := rx_rsp_loop_preserves (·.phy_pages) (fun s l => (rx_rsp_step_phy s l).2) _ _ _ _ hl
    unfold rx_rsp_finish
    obtain ⟨f1, f2⟩ := hcd_check_irq_phy (OHCI1394State.or_reg s1 OFF_int_event (1 <<< 5))
    rw [f1, f2]
    exact ⟨e1, e2⟩

theorem bus_reset_begin_phy (s : OHCI1394State) :
    (bus_reset_begin s).phy = s.phy ∧ (bus_reset_begin s).phy_pages = s.phy_pages := by
  unfold bus_reset_begin; simp only []; split_ifs <;> exact ⟨rfl, rfl⟩

theorem hcd_complete_self_id_phy (s : OHCI1394State) :
    (hcd_complete_self_id s).phy = s.phy ∧ (hcd_complete_self_id s).phy_pages = s.phy_pages := by
  unfold hcd_complete_self_id
  simp only []
  obtain ⟨f1, f2⟩ := hcd_check_irq_phy
    (OHCI1394State.or_reg
      (if (map_flags (map_lo_word (complete_node_id s) (· &&& 0xF803)) (· &&& 0x7F)).reg
          OFF_link_control &&& 0x00000200 ≠ 0 then
        self_id_stream (map_flags (map_lo_word (complete_node_id s) (· &&& 0xF803)) (· &&& 0x7F))
      else map_flags (map_lo_word (complete_node_id s) (· &&& 0xF803)) (· &&& 0x7F))
      OFF_int_event 0x00018000)
  rw [f1, f2]
  unfold self_id_stream self_id_stream_connected self_id_header complete_node_id
  simp only []
  split_ifs <;> exact ⟨rfl, rfl⟩

/-- A bus reset writes no PHY register. -/
theorem hcd_bus_reset_phy (fuel : Nat) (s s' : OHCI1394State)
    (h : hcd_bus_reset fuel s = some s') : s'.phy = s.phy ∧ s'.phy_pages = s.phy_pages := by
  obtain ⟨s1, h1, rfl⟩ := hcd_bus_reset_some _ _ _ h
  obtain ⟨c1, c2⟩ := hcd_complete_self_id_phy s1
  obtain ⟨b1, b2⟩ := bus_reset_begin_phy s
  have hd : s1.phy = (bus_reset_begin s).phy ∧ s1.phy_pages = (bus_reset_begin s).phy_pages := by
    unfold bus_reset_deliver at h1
    split_ifs at h1
    · exact rx_rsp_packet_phy _ _ _ _ _ _ h1
    · simp at h1; subst h1; exact ⟨rfl, rfl⟩
  exact ⟨by rw [c1, hd.1, b1], by rw [c2, hd.2, b2]⟩

theorem bus_reset_begin_int_event (s : OHCI1394State) :
    (bus_reset_begin s).regs 32 = (s.regs 32 ||| 0x00020000) % 0x100000000 := by
  unfold bus_reset_begin; simp only []
  split_ifs <;>
    simp [map_generation, OHCI1394State.set_reg, OHCI1394State.or_reg, OHCI1394State.and_reg,
      OHCI1394State.or_regs, OHCI1394State.and_regs]

/-- AR-response delivery clears no bit of `int_event`. -/
theorem rx_rsp_packet_int_event (fuel : Nat) (s s' : OHCI1394State) (buf : List Nat)
    (size response : Nat) (h : hcd_async_rx_rsp_packet fuel s buf size response = some s')
    (k : Nat) (hk : k < 32) (hb : Nat.testBit (s.regs 32) k = true) :
    Nat.testBit (s'.regs 32) k = true := by
  unfold hcd_async_rx_rsp_packet at h
  split_ifs at h with h0
  · simp at h; rw [← h]; exact hb
  · simp only [Option.map_eq_some'] at h
    obtain ⟨s1, hl, rfl⟩ := h
    have e1 := rx_rsp_loop_preserves (·.regs 32)
      (fun s l => rx_rsp_step_regs s l 32 (by decide) (by decide)) _ _ _ _ hl
    simp only at e1
    have e0 : (SET_Ax_EVENT_CODE s 3 response).regs 32 = s.regs 32 := by
      simp [SET_Ax_EVENT_CODE, Ax_CC]
    unfold rx_rsp_finish
    rw [hcd_check_irq_regs]
    have : (s1.or_reg OFF_int_event (1 <<< 5)).regs 32 = (s1.regs 32 ||| 1 <<< 5) % 0x100000000 := by
      simp [OHCI1394State.or_reg, OHCI1394State.or_regs]
    rw [this, e1, e0]
    exact testBit_or_mod32 _ _ _ hk hb

/-- After a bus reset the bits busReset (17) and selfIDcomplete (16, 15) of
`int_event` are set. -/
theorem hcd_bus_reset_int_event (fuel : Nat) (s s' : OHCI1394State)
    (h : hcd_bus_reset fuel s = some s') :
    Nat.testBit (s'.reg OFF_int_event) 17 = true ∧ Nat.testBit (s'.reg OFF_int_event) 16 = true ∧
    Nat.testBit (s'.reg OFF_int_event) 15 = true := by
  obtain ⟨s1, h1, rfl⟩ := hcd_bus_reset_some _ _ _ h
  have hb : Nat.testBit ((bus_reset_begin s).regs 32) 17 = true := by
    rw [bus_reset_begin_int_event, Nat.or_comm]
    exact testBit_or_mod32 _ _ _ (by decide) (by decide)
  have hd : Nat.testBit (s1.regs 32) 17 = true := by
    unfold bus_reset_deliver at h1
    split_ifs at h1
    · exact rx_rsp_packet_int_event _ _ _ _ _ _ h1 17 (by decide) hb
    · simp at h1; subst h1; exact hb
  refine ⟨?_, ?_, ?_⟩
  · show Nat.testBit ((hcd_complete_self_id s1).regs 32) 17 = true
    rw [hcd_complete_self_id_int_event]
    exact testBit_or_mod32 _ _ _ (by decide) hd
  · show Nat.testBit ((hcd_complete_self_id s1).regs 32) 16 = true
    rw [hcd_complete_self_id_int_event, Nat.or_comm]
    exact testBit_or_mod32 _ _ _ (by decide) (by decide)
  · show Nat.testBit ((hcd_complete_self_id s1).regs 32) 15 = true
    rw [hcd_complete_self_id_int_event, Nat.or_comm]
    exact testBit_or_mod32 _ _ _ (by decide) (by decide)

@[simp] theorem set_phy_regs (s : OHCI1394State) (i v : Nat) : (set_phy s i v).regs = s.regs := rfl
@[simp] theorem set_phy_page_regs (s : OHCI1394State) (p i v : Nat) :
    (set_phy_page s p i v).regs = s.regs := rfl
@[simp] theorem set_phy_phy (s : OHCI1394State) (i v j : Nat) :
    (set_phy s i v).phy j = if j = i then v % 256 else s.phy j := rfl
@[simp] theorem set_phy_phy_pages (s : OHCI1394State) (i v : Nat) :
    (set_phy s i v).phy_pages = s.phy_pages := rfl
@[simp] theorem set_phy_page_phy (s : OHCI1394State) (p i v : Nat) :
    (set_phy_page s p i v).phy = s.phy := rfl
theorem set_phy_page_phy_pages (s : OHCI1394State) (p i v q j : Nat) :
    (set_phy_page s p i v).phy_pages q j =
      if q = p ∧ j = i then v % 256 else s.phy_pages q j := by
  unfold set_phy_page upd
  by_cases hq : q = p <;> by_cases hj : j = i <;> simp [hq, hj]

theorem and_bf_lt (d : Nat) (hd : d < 256) : (d &&& 0xBF) % 256 = d &&& 0xBF :=
  Nat.mod_eq_of_lt (lt_of_le_of_lt Nat.and_le_left hd)

/-- The function `hcd_phy_write` on register 1 or 5. -/
theorem hcd_phy_write_reset_reg (fuel : Nat) (s : OHCI1394State) (r d : Nat)
    (hr : r = 1 ∨ r = 5) :
    hcd_phy_write fuel s r d =
      if d &&& 0x40 ≠ 0 then hcd_bus_reset fuel (set_phy s r (d &&& 0xBF))
      else some (set_phy s r (d &&& 0xBF)) := by
  unfold hcd_phy_write
  rcases hr with rfl | rfl <;> simp

/-- The function `hcd_phy_write` on a register other than 1 and 5. -/
theorem hcd_phy_write_plain_reg (fuel : Nat) (s : OHCI1394State) (r d : Nat)
    (h1 : r ≠ 1) (h5 : r ≠ 5) :
    hcd_phy_write fuel s r d =
      some (if r < 8 then (if r = 0 then s else set_phy s r d)
        else set_phy_page s ((s.phy 7 &&& 0xE0) >>> 5) (r &&& 7) d) := by
  unfold hcd_phy_write
  have : ¬ (r = 1 ∨ r = 5) := fun h => h.elim h1 h5
  split_ifs <;> rfl

/-- What follows `hcd_phy_write` in the `phy_control` arm, and the `hcd_check_irq`
that ends `hcd_mmio_write`, write `phy_control` only. -/
theorem phy_control_wr_done_frame (d : Nat) (s : OHCI1394State) :
    (hcd_check_irq (phy_control_wr_done d s)).phy = s.phy ∧
    (hcd_check_irq (phy_control_wr_done d s)).phy_pages = s.phy_pages ∧
    ∀ i, i ≠ 59 → (hcd_check_irq (phy_control_wr_done d s)).regs i = s.regs i := by
  refine ⟨?_, ?_, ?_⟩
  · rw [(hcd_check_irq_phy _).1]; rfl
  · rw [(hcd_check_irq_phy _).2]; rfl
  · intro i hi
    rw [hcd_check_irq_regs]
    unfold phy_control_wr_done
    simp only []
    rw [set_phy_control_field_regs _ _ _ _ hi, set_phy_control_field_regs _ _ _ _ hi]

/-- The `phy_control` arm of `hcd_mmio_write` with the write-request bit set:
`hcd_phy_write` is called with the low nibble of `wr_flags` and with `wr_data`,
on a device that differs from the one at entry in `phy_control` and, when the
read-request bit is set too, in bit 26 of `int_event`. -/
theorem mmio_write_phy_control_wr (fuel : Nat) (s : OHCI1394State) (data : Nat)
    (hwr : get_byte (data % 0x100000000) 1 &&& 0x40 ≠ 0) :
    ∃ s2, s2.phy = s.phy ∧ s2.phy_pages = s.phy_pages ∧
      (∀ i, i ≠ 59 → i ≠ 32 → s2.regs i = s.regs i) ∧
      s2.regs 32 = (if get_byte (data % 0x100000000) 1 &&& 0x80 ≠ 0 then
        (s.regs 32 ||| 0x04000000) % 0x100000000 else s.regs 32) ∧
      hcd_mmio_write fuel s OFF_phy_control data =
        (hcd_phy_write fuel s2 (get_byte (data % 0x100000000) 1 &&& 0x0F)
          (get_byte (data % 0x100000000) 0)).map
          (fun s3 => hcd_check_irq (phy_control_wr_done (get_byte (data % 0x100000000) 0) s3)) := by
  have key : ∀ s2 : OHCI1394State,
      (hcd_phy_write fuel s2 (get_byte (data % 0x100000000) 1 &&& 0x0F)
        (get_byte (data % 0x100000000) 0)).map
        (fun s3 => hcd_check_irq (phy_control_wr_done (get_byte (data % 0x100000000) 0) s3)) =
      ((hcd_phy_write fuel s2 (get_byte (data % 0x100000000) 1 &&& 0x0F)
        (get_byte (data % 0x100000000) 0)).map
        (phy_control_wr_done (get_byte (data % 0x100000000) 0))).map hcd_check_irq := by
    intro s2; rw [Option.map_map]; rfl
  by_cases hrd : get_byte (data % 0x100000000) 1 &&& 0x80 ≠ 0
  · obtain ⟨-, -, p32, pphy, ppages, pregs⟩ := phy_control_rd_reg_spec
      (set_phy_control_field s 1 ((get_byte (data % 0x100000000) 1 &&& 0x0F) |||
        (phy_control_field s 1 &&& 0xF0))) (get_byte (data % 0x100000000) 1 &&& 0x0F)
    refine ⟨_, pphy, ppages, ?_, ?_, ?_⟩
    · intro i h1 h2
      rw [pregs i h1 h2, set_phy_control_field_regs _ _ _ _ h1]
    · rw [p32, if_pos hrd, set_phy_control_field_regs _ _ _ _ (by decide)]
    · rw [key]
      unfold hcd_mmio_write
      rw [mmio_write_switch_phy_control]
      unfold mmio_write_phy_control
      simp only []
      rw [if_pos hrd, if_pos hwr]
  · refine ⟨set_phy_control_field s 1 ((get_byte (data % 0x100000000) 1 &&& 0x0F) |||
        (phy_control_field s 1 &&& 0xF0)), rfl, rfl, ?_, ?_, ?_⟩
    · intro i h1 _
      rw [set_phy_control_field_regs _ _ _ _ h1]
    · rw [if_neg hrd, set_phy_control_field_regs _ _ _ _ (by decide)]
    · rw [key]
      unfold hcd_mmio_write
      rw [mmio_write_switch_phy_control]
      unfold mmio_write_phy_control
      simp only []
      rw [if_neg hrd, if_pos hwr]

/-- C26: an MMIO write to `phy_control` with the write-request bit (0x40 of
`wr_flags`) set, `r` the low nibble of `wr_flags` and `d` the byte `wr_data`.
For `r` 1 or 5 the write returns when bit 6 of `d` is clear or the AR-response
context is not running; after it the PHY register `r` holds `d AND 0xBF`; when
bit 6 of `d` is set a bus reset has been performed: the self-ID generation is
the old one plus 1 modulo 256 and the bits busReset (17) and selfIDcomplete
(16, 15) of `int_event` are set; when bit 6 is clear none has: no register other
than `phy_control`, and bit 26 of `int_event` when the read-request bit is set,
has changed.  For every other `r` the write returns and, likewise, no register
other than these has changed. -/
theorem mmio_write_phy_control_write (fuel : Nat) (s : OHCI1394State) (data r d : Nat)
    (hwr : get_byte (data % 0x100000000) 1 &&& 0x40 ≠ 0)
    (hr : r = get_byte (data % 0x100000000) 1 &&& 0x0F)
    (hd : d = get_byte (data % 0x100000000) 0) :
    ((r = 1 ∨ r = 5) →
      ((s.reg OFF_async_response_receive &&& 0x00008000 = 0 ∨ d &&& 0x40 = 0) →
        (hcd_mmio_write fuel s OFF_phy_control data).isSome = true) ∧
      ∀ s', hcd_mmio_write fuel s OFF_phy_control data = some s' →
        s'.phy r = d &&& 0xBF ∧
        (d &&& 0x40 ≠ 0 →
          SelfIDCount.generation (s'.reg OFF_self_id_count) =
            (SelfIDCount.generation (s.reg OFF_self_id_count) + 1) % 256 ∧
          Nat.testBit (s'.reg OFF_int_event) 17 = true ∧
          Nat.testBit (s'.reg OFF_int_event) 16 = true ∧
          Nat.testBit (s'.reg OFF_int_event) 15 = true) ∧
        (d &&& 0x40 = 0 →
          (∀ i, i ≠ 59 → i ≠ 32 → s'.regs i = s.regs i) ∧
          s'.reg OFF_int_event = (if get_byte (data % 0x100000000) 1 &&& 0x80 ≠ 0 then
            (s.reg OFF_int_event ||| 0x04000000) % 0x100000000 else s.reg OFF_int_event))) ∧
    (r ≠ 1 → r ≠ 5 →
      ∃ s', hcd_mmio_write fuel s OFF_phy_control data = some s' ∧
        (∀ i, i ≠ 59 → i ≠ 32 → s'.regs i = s.regs i) ∧
        s'.reg OFF_int_event = (if get_byte (data % 0x100000000) 1 &&& 0x80 ≠ 0 then
          (s.reg OFF_int_event ||| 0x04000000) % 0x100000000 else s.reg OFF_int_event)) := by
  obtain ⟨s2, q1, q2, q3, q4, heq⟩ := mmio_write_phy_control_wr fuel s data hwr
  rw [← hr, ← hd] at heq
  have hdlt : d < 256 := by rw [hd]; exact get_byte_lt _ _
  constructor
  · intro hr15
    rw [heq, hcd_phy_write_reset_reg _ _ _ _ hr15]
    constructor
    · intro hret
      by_cases hb : d &&& 0x40 ≠ 0
      · rw [if_pos hb]
        have har : (set_phy s2 r (d &&& 0xBF)).reg OFF_async_response_receive &&& 0x00008000 = 0 := by
          show s2.regs 120 &&& 0x00008000 = 0
          rw [q3 120 (by decide) (by decide)]
          exact hret.elim id (fun h => absurd h hb)
        have := hcd_bus_reset_returns fuel _ har
        obtain ⟨s3, h3⟩ := Option.isSome_iff_exists.mp this
        rw [h3]; rfl
      · rw [if_neg hb]; rfl
    · intro s' h
      by_cases hb : d &&& 0x40 ≠ 0
      · rw [if_pos hb] at h
        simp only [Option.map_eq_some'] at h
        obtain ⟨s3, h3, rfl⟩ := h
        obtain ⟨f1, -, f3⟩ := phy_control_wr_done_frame d s3
        obtain ⟨g1, g2, g3⟩ := hcd_bus_reset_int_event _ _ _ h3
        have hgen := (hcd_bus_reset_link _ _ _ h3).2.2
        refine ⟨?_, fun _ => ⟨?_, ?_, ?_, ?_⟩, fun h0 => absurd h0 hb⟩
        · rw [f1, (hcd_bus_reset_phy _ _ _ h3).1, set_phy_phy, if_pos rfl, and_bf_lt d hdlt]
        · show SelfIDCount.generation ((hcd_check_irq (phy_control_wr_done d s3)).regs 26) = _
          rw [f3 26 (by decide)]
          rw [show s3.regs 26 = s3.reg OFF_self_id_count from rfl, hgen]
          show (SelfIDCount.generation (s2.regs 26) + 1) % 256 = _
          rw [q3 26 (by decide) (by decide)]
          rfl
        · show Nat.testBit ((hcd_check_irq (phy_control_wr_done d s3)).regs 32) 17 = true
          rw [f3 32 (by decide)]; exact g1
        · show Nat.testBit ((hcd_check_irq (phy_control_wr_done d s3)).regs 32) 16 = true
          rw [f3 32 (by decide)]; exact g2
        · show Nat.testBit ((hcd_check_irq (phy_control_wr_done d s3)).regs 32) 15 = true
          rw [f3 32 (by decide)]; exact g3
      · rw [if_neg hb] at h
        simp only [Option.map_some', Option.some.injEq] at h
        subst h
        obtain ⟨f1, -, f3⟩ := phy_control_wr_done_frame d (set_phy s2 r (d &&& 0xBF))
        refine ⟨?_, fun h1 => absurd h1 hb, fun _ => ⟨?_, ?_⟩⟩
        · rw [f1, set_phy_phy, if_pos rfl, and_bf_lt d hdlt]
        · intro i h1 h2
          rw [f3 i h1, set_phy_regs, q3 i h1 h2]
        · show (hcd_check_irq (phy_control_wr_done d (set_phy s2 r (d &&& 0xBF)))).regs 32 = _
          rw [f3 32 (by decide), set_phy_regs, q4]
          rfl
  · intro h1 h5
    rw [heq, hcd_phy_write_plain_reg _ _ _ _ h1 h5]
    refine ⟨_, rfl, ?_, ?_⟩
    · intro i hi1 hi2
      rw [(phy_control_wr_done_frame d _).2.2 i hi1]
      split_ifs <;> simp [q3 i hi1 hi2]
    · show (hcd_check_irq (phy_control_wr_done d _)).regs 32 = _
      rw [(phy_control_wr_done_frame d _).2.2 32 (by decide)]
      split_ifs <;> simp_all <;> rfl

/-- Witness for C26: on the fresh device, writing 0x41FF to `phy_control` (write
request, register 1, data 0xFF) stores 0xBF and raises the generation from 0 to
1; writing 0x41BF stores 0xBF and leaves the count register alone; writing
0x42FF (register 2) leaves the count register alone. -/
theorem mmio_write_phy_control_write_witness :
    (∃ s', hcd_mmio_write 0 init_state OFF_phy_control 0x41FF = some s' ∧
      s'.phy 1 = 0xBF ∧ SelfIDCount.generation (s'.reg OFF_self_id_count) = 1) ∧
    (∃ s', hcd_mmio_write 0 init_state OFF_phy_control 0x41BF = some s' ∧
      s'.phy 1 = 0xBF ∧ s'.reg OFF_self_id_count = init_state.reg OFF_self_id_count) ∧
    (∃ s', hcd_mmio_write 0 init_state OFF_phy_control 0x42FF = some s' ∧
      s'.reg OFF_self_id_count = init_state.reg OFF_self_id_count) :=
  ⟨(Option.isSome_iff_exists.mp
      (((mmio_write_phy_control_write 0 init_state 0x41FF 1 0xFF (by decide) (by decide)
        (by decide)).1 (Or.inl rfl)).1 (Or.inl (by decide)))).imp
      fun s' h =>
        ⟨h, (((mmio_write_phy_control_write 0 init_state 0x41FF 1 0xFF (by decide) (by decide)
          (by decide)).1 (Or.inl rfl)).2 s' h).1,
        ((((mmio_write_phy_control_write 0 init_state 0x41FF 1 0xFF (by decide) (by decide)
          (by decide)).1 (Or.inl rfl)).2 s' h).2.1 (by decide)).1⟩,
    (Option.isSome_iff_exists.mp
      (((mmio_write_phy_control_write 0 init_state 0x41BF 1 0xBF (by decide) (by decide)
        (by decide)).1 (Or.inl rfl)).1 (Or.inl (by decide)))).imp
      fun s' h =>
        ⟨h, (((mmio_write_phy_control_write 0 init_state 0x41BF 1 0xBF (by decide) (by decide)
          (by decide)).1 (Or.inl rfl)).2 s' h).1,
        ((((mmio_write_phy_control_write 0 init_state 0x41BF 1 0xBF (by decide) (by decide)
          (by decide)).1 (Or.inl rfl)).2 s' h).2.2 (by decide)).1 26 (by decide) (by decide)⟩,
    ((mmio_write_phy_control_write 0 init_state 0x42FF 2 0xFF (by decide) (by decide)
      (by decide)).2 (by decide) (by decide)).imp
      fun _ h => ⟨h.1, h.2.1 26 (by decide) (by decide)⟩⟩

/-- C27: `hcd_phy_write(r, d)` with a data byte `d` returns when `r` is neither
1 nor 5, when bit 6 of `d` is clear, or when the AR-response context is not
running; and after it has returned `hcd_phy_read(r)` gives the previous value
for `r = 0`, `d AND 0xBF` for `r` 1 or 5, and `d` for every other `r`; a write
with `r < 8` changes no base register other than `r` and no page entry, and a
write with `r >= 8` changes no base register and no page entry other than entry
`r AND 7` of the page selected by bits 7:5 of register 7. -/
theorem hcd_phy_read_after_write (fuel : Nat) (s : OHCI1394State) (r d : Nat) (hd : d < 256) :
    ((s.reg OFF_async_response_receive &&& 0x00008000 = 0 ∨ (r ≠ 1 ∧ r ≠ 5) ∨ d &&& 0x40 = 0) →
      (hcd_phy_write fuel s r d).isSome = true) ∧
    ∀ s', hcd_phy_write fuel s r d = some s' →
      hcd_phy_read s' r =
        (if r = 0 then hcd_phy_read s 0 else if r = 1 ∨ r = 5 then d &&& 0xBF else d) ∧
      (r < 8 → (∀ i, i ≠ r → s'.phy i = s.phy i) ∧ s'.phy_pages = s.phy_pages) ∧
      (8 ≤ r → s'.phy = s.phy ∧
        ∀ p i, ¬ (p = (s.phy 7 &&& 0xE0) >>> 5 ∧ i = r &&& 7) →
          s'.phy_pages p i = s.phy_pages p i) := by
  by_cases h15 : r = 1 ∨ r = 5
  · have hlt : r < 8 := by rcases h15 with rfl | rfl <;> decide
    have hr0 : r ≠ 0 := by rcases h15 with rfl | rfl <;> decide
    rw [hcd_phy_write_reset_reg _ _ _ _ h15]
    by_cases hb : d &&& 0x40 ≠ 0
    · rw [if_pos hb]
      constructor
      · intro hret
        apply hcd_bus_reset_returns
        rcases hret with h | h | h
        · exact h
        · exact absurd h15 (fun h' => h'.elim h.1 h.2)
        · exact absurd h hb
      · intro s' h
        obtain ⟨p1, p2⟩ := hcd_bus_reset_phy _ _ _ h
        refine ⟨?_, fun _ => ⟨?_, ?_⟩, fun h8 => absurd hlt (by omega)⟩
        · unfold hcd_phy_read
          rw [if_pos hlt, if_neg hr0, if_pos h15, p1, set_phy_phy, if_pos rfl, and_bf_lt d hd]
        · intro i hi
          rw [p1, set_phy_phy, if_neg hi]
        · rw [p2]; rfl
    · rw [if_neg hb]
      refine ⟨fun _ => rfl, ?_⟩
      intro s' h
      simp only [Option.some.injEq] at h
      subst h
      refine ⟨?_, fun _ => ⟨?_, rfl⟩, fun h8 => absurd hlt (by omega)⟩
      · unfold hcd_phy_read
        rw [if_pos hlt, if_neg hr0, if_pos h15, set_phy_phy, if_pos rfl, and_bf_lt d hd]
      · intro i hi
        rw [set_phy_phy, if_neg hi]
  · have h1 : r ≠ 1 := fun h => h15 (Or.inl h)
    have h5 : r ≠ 5 := fun h => h15 (Or.inr h)
    rw [hcd_phy_write_plain_reg _ _ _ _ h1 h5]
    refine ⟨fun _ => rfl, ?_⟩
    intro s' h
    simp only [Option.some.injEq] at h
    subst h
    by_cases hlt : r < 8
    · rw [if_pos hlt]
      by_cases hr0 : r = 0
      · subst hr0
        refine ⟨?_, fun _ => ⟨fun _ _ => rfl, rfl⟩, fun h8 => absurd h8 (by decide)⟩
        simp
      · rw [if_neg hr0]
        refine ⟨?_, fun _ => ⟨?_, rfl⟩, fun h8 => absurd hlt (by omega)⟩
        · unfold hcd_phy_read
          rw [if_pos hlt, if_neg hr0, if_neg h15, set_phy_phy, if_pos rfl, Nat.mod_eq_of_lt hd]
        · intro i hi
          rw [set_phy_phy, if_neg hi]
    · rw [if_neg hlt]
      have hr0 : r ≠ 0 := by omega
      refine ⟨?_, fun h => absurd h hlt, fun _ => ⟨rfl, ?_⟩⟩
      · unfold hcd_phy_read
        rw [if_neg hlt, if_neg hr0, if_neg h15, set_phy_page_phy, set_phy_page_phy_pages,
          if_pos ⟨rfl, rfl⟩, Nat.mod_eq_of_lt hd]
      · intro p i hpi
        rw [set_phy_page_phy_pages, if_neg hpi]

/-- Witness for C27: on the fresh device a write of 0x7F to PHY register 1
returns and register 1 then reads 0x3F. -/
theorem hcd_phy_read_after_write_witness :
    ∃ s', hcd_phy_write 0 init_state 1 0x7F = some s' ∧ hcd_phy_read s' 1 = 0x3F :=
  (Option.isSome_iff_exists.mp
    ((hcd_phy_read_after_write 0 init_state 1 0x7F (by decide)).1 (Or.inl (by decide)))).imp
    fun s' h => ⟨h, ((hcd_phy_read_after_write 0 init_state 1 0x7F (by decide)).2 s' h).1⟩

/-! ## The receive loop: greeting and link-up -/

theorem hcd_fill_buffer_word (s : OHCI1394State) (b0 b1 b2 b3 : Nat) (rest : List Nat)
    (hp : s.bufpos = 0) :
    hcd_fill_buffer s (b0 :: b1 :: b2 :: b3 :: rest) 4 =
      ({ s with buf := dma_memory_write s.buf 0 [b0 % 256, b1 % 256, b2 % 256, b3 % 256], bufpos := 4 }, rest) := by
  unfold hcd_fill_buffer
  simp [hp, show ¬ (rest.length + 1 + 1 + 1 + 1 < 4) by omega]

theorem hcd_fill_buffer_full (s : OHCI1394State) (inp : List Nat) (n : Nat) (h : n ≤ s.bufpos) :
    hcd_fill_buffer s inp n = (s, inp) := by
  unfold hcd_fill_buffer
  rw [if_pos h]

theorem buf_word_read (m : Nat → Nat) (b0 b1 b2 b3 : Nat) :
    dma_memory_read (dma_memory_write m 0 [b0 % 256, b1 % 256, b2 % 256, b3 % 256]) 0 4 =
      [b0 % 256, b1 % 256, b2 % 256, b3 % 256] :=
  dma_read_write_same m 0 [b0 % 256, b1 % 256, b2 % 256, b3 % 256]

theorem list_length_four (b : List Nat) (hb : b.length = 4) :
    ∃ b0 b1 b2 b3, b = [b0, b1, b2, b3] := by
  rcases b with _ | ⟨b0, _ | ⟨b1, _ | ⟨b2, _ | ⟨b3, _ | ⟨b4, t⟩⟩⟩⟩⟩ <;> simp at hb
  exact ⟨b0, b1, b2, b3, rfl⟩

/-- In state MAGIC with four bytes in the buffer that are not the greeting, a
pass through the loop changes nothing and consumes nothing. -/
theorem chr_receive_step_magic_stuck (fuel : Nat) (s : OHCI1394State) (inp : List Nat)
    (hst : s.state = HCD_STATE_MAGIC) (hp : s.bufpos = 4)
    (hm : (dma_memory_read s.buf 0 4).map (· % 256) ≠ [0x31, 0x33, 0x39, 0x34]) :
    chr_receive_step fuel s inp = some (s, some inp) := by
  unfold chr_receive_step
  rw [if_neg (by rw [hst]; decide), if_pos hst]
  unfold chr_receive_magic
  simp only [hcd_fill_buffer_full s inp 4 (by omega)]
  rw [if_neg (by omega), if_neg (by omega), if_pos hm]

/-- In state MAGIC with four bytes in the buffer that are not the greeting,
`hcd_chr_receive` does not return on any further input: the loop runs for ever. -/
theorem hcd_chr_receive_magic_stuck (s : OHCI1394State)
    (hst : s.state = HCD_STATE_MAGIC) (hp : s.bufpos = 4)
    (hm : (dma_memory_read s.buf 0 4).map (· % 256) ≠ [0x31, 0x33, 0x39, 0x34]) :
    ∀ (fuel : Nat) (inp : List Nat), inp ≠ [] → hcd_chr_receive fuel s inp = none := by
  intro fuel
  induction fuel with
  | zero =>
    intro inp hne
    unfold hcd_chr_receive
    rw [if_neg (by simpa using hne)]
  | succ n ih =>
    intro inp hne
    rw [hcd_chr_receive, if_neg (by simpa using hne),
      chr_receive_step_magic_stuck n s inp hst hp hm]
    exact ih inp hne

/-- One call of `hcd_chr_receive` in state MAGIC with an empty buffer and four bytes. -/
theorem hcd_chr_receive_magic_eq (fuel : Nat) (s : OHCI1394State) (b0 b1 b2 b3 : Nat)
    (hst : s.state = HCD_STATE_MAGIC) (hp : s.bufpos = 0) :
    hcd_chr_receive (fuel + 1) s [b0, b1, b2, b3] =
      some (if [b0 % 256, b1 % 256, b2 % 256, b3 % 256] ≠ [0x31, 0x33, 0x39, 0x34] then
        { s with buf := dma_memory_write s.buf 0 [b0 % 256, b1 % 256, b2 % 256, b3 % 256], bufpos := 4 }
      else
        set_bufpos (set_state { s with buf := dma_memory_write s.buf 0 [b0 % 256, b1 % 256, b2 % 256, b3 % 256], bufpos := 4 } HCD_STATE_DISCONNECTED) 0) := by
  have hstep : chr_receive_step fuel s [b0, b1, b2, b3] =
      some (chr_receive_magic s [b0, b1, b2, b3]) := by
    unfold chr_receive_step
    rw [if_neg (by rw [hst]; decide), if_pos hst]
  have hmag : chr_receive_magic s [b0, b1, b2, b3] =
      (if [b0 % 256, b1 % 256, b2 % 256, b3 % 256] ≠ [0x31, 0x33, 0x39, 0x34] then
        { s with buf := dma_memory_write s.buf 0 [b0 % 256, b1 % 256, b2 % 256, b3 % 256], bufpos := 4 }
      else
        set_bufpos (set_state { s with buf := dma_memory_write s.buf 0 [b0 % 256, b1 % 256, b2 % 256, b3 % 256], bufpos := 4 } HCD_STATE_DISCONNECTED) 0,
        some []) := by
    unfold chr_receive_magic
    simp only [hcd_fill_buffer_word s b0 b1 b2 b3 [] hp]
    rw [if_neg (by decide), if_neg (by decide), buf_word_read]
    simp only [List.map_cons, List.map_nil, Nat.mod_mod]
    split_ifs <;> rfl
  rw [hcd_chr_receive, if_neg (by simp), hstep, hmag]
  simp only [hcd_chr_receive_nil]

/-- C28, the code: in state MAGIC with an empty buffer and four received bytes
`b`, the call returns.  When `b` is the greeting "1394" the state is
DISCONNECTED and `bufpos` is 0, nothing has been sent and no register has
changed.  When `b` is anything else the state is still MAGIC, nothing has been
sent and no register has changed, but `bufpos` is 4, not 0: the word is kept,
not discarded, and on every later non-empty input `hcd_chr_receive` does not
return, so the next four bytes are never examined. -/
theorem hcd_chr_receive_magic (fuel : Nat) (s : OHCI1394State) (b : List Nat)
    (hst : s.state = HCD_STATE_MAGIC) (hp : s.bufpos = 0) (hb : b.length = 4) :
    (b.map (· % 256) = [0x31, 0x33, 0x39, 0x34] →
      ∃ s', hcd_chr_receive (fuel + 1) s b = some s' ∧ s'.state = HCD_STATE_DISCONNECTED ∧
        s'.bufpos = 0 ∧ s'.chr = s.chr ∧ s'.regs = s.regs) ∧
    (b.map (· % 256) ≠ [0x31, 0x33, 0x39, 0x34] →
      ∃ s', hcd_chr_receive (fuel + 1) s b = some s' ∧ s'.state = HCD_STATE_MAGIC ∧
        s'.bufpos = 4 ∧ s'.chr = s.chr ∧ s'.regs = s.regs ∧
        ∀ (fuel' : Nat) (inp : List Nat), inp ≠ [] → hcd_chr_receive fuel' s' inp = none) := by
  obtain ⟨b0, b1, b2, b3, rfl⟩ := list_length_four b hb
  simp only [List.map_cons, List.map_nil]
  rw [hcd_chr_receive_magic_eq fuel s b0 b1 b2 b3 hst hp]
  constructor
  · intro h
    rw [if_neg (not_not.mpr h)]
    exact ⟨_, rfl, rfl, rfl, rfl, rfl⟩
  · intro h
    rw [if_pos h]
    refine ⟨_, rfl, hst, rfl, rfl, rfl, ?_⟩
    refine hcd_chr_receive_magic_stuck
      { s with buf := dma_memory_write s.buf 0 [b0 % 256, b1 % 256, b2 % 256, b3 % 256], bufpos := 4 }
      hst rfl ?_
    show (dma_memory_read (dma_memory_write s.buf 0 [b0 % 256, b1 % 256, b2 % 256, b3 % 256]) 0
      4).map (· % 256) ≠ _
    rw [buf_word_read]
    simpa using h

/-- Witness for C28: the device whose transport has just opened receives "1395":
it keeps `bufpos = 4`, and on the greeting "1394" sent afterwards the loop has not
ended after 1000 passes. -/
theorem hcd_chr_receive_magic_witness :
    ∃ s', hcd_chr_receive 1 opened_dev [0x31, 0x33, 0x39, 0x35] = some s' ∧
      s'.state = HCD_STATE_MAGIC ∧ s'.bufpos = 4 ∧
      hcd_chr_receive 1000 s' [0x31, 0x33, 0x39, 0x34] = none :=
  ((hcd_chr_receive_magic 0 opened_dev [0x31, 0x33, 0x39, 0x35] (by decide) (by decide)
    (by decide)).2 (by decide)).imp
    fun _ h => ⟨h.1, h.2.1, h.2.2.1, h.2.2.2.2.2 1000 _ (by decide)⟩

theorem word_ff (b0 b1 b2 b3 : Nat) :
    le_val [b0 % 256, b1 % 256, b2 % 256, b3 % 256] = 0xFFFFFFFF ↔
      [b0 % 256, b1 % 256, b2 % 256, b3 % 256] = [0xFF, 0xFF, 0xFF, 0xFF] := by
  simp only [le_val, List.cons.injEq, and_true]
  omega

/-- One call of `hcd_chr_receive` in state DISCONNECTED with an empty buffer,
linkEnable clear, and four bytes. -/
theorem hcd_chr_receive_disconnected_eq (fuel : Nat) (s : OHCI1394State) (b0 b1 b2 b3 : Nat)
    (hst : s.state = HCD_STATE_DISCONNECTED) (hp : s.bufpos = 0)
    (hle : s.reg OFF_hc_control &&& HCCONTROL_LINK_ENABLE_MASK = 0) :
    hcd_chr_receive (fuel + 1) s [b0, b1, b2, b3] =
      some (if [b0 % 256, b1 % 256, b2 % 256, b3 % 256] ≠ [0xFF, 0xFF, 0xFF, 0xFF] then
        set_bufpos { s with buf := dma_memory_write s.buf 0 [b0 % 256, b1 % 256, b2 % 256, b3 % 256], bufpos := 4 } 0
      else
        set_state (set_other_link (set_bufpos { s with buf := dma_memory_write s.buf 0 [b0 % 256, b1 % 256, b2 % 256, b3 % 256], bufpos := 4 } 0) 1) HCD_STATE_ARBITRATION1) := by
  have hstep : chr_receive_step fuel s [b0, b1, b2, b3] =
      some (chr_receive_disconnected s [b0, b1, b2, b3]) := by
    unfold chr_receive_step
    rw [if_neg (by rw [hst]; decide), if_neg (by rw [hst]; decide), if_pos hst]
  have hv : buf_val (set_bufpos { s with buf := dma_memory_write s.buf 0 [b0 % 256, b1 % 256, b2 % 256, b3 % 256], bufpos := 4 } 0) 0 4 =
      le_val [b0 % 256, b1 % 256, b2 % 256, b3 % 256] := by
    show le_val (dma_memory_read (dma_memory_write s.buf 0 _) 0 4) = _
    rw [buf_word_read]
  have hdis : chr_receive_disconnected s [b0, b1, b2, b3] =
      (if [b0 % 256, b1 % 256, b2 % 256, b3 % 256] ≠ [0xFF, 0xFF, 0xFF, 0xFF] then
        set_bufpos { s with buf := dma_memory_write s.buf 0 [b0 % 256, b1 % 256, b2 % 256, b3 % 256], bufpos := 4 } 0
      else
        set_state (set_other_link (set_bufpos { s with buf := dma_memory_write s.buf 0 [b0 % 256, b1 % 256, b2 % 256, b3 % 256], bufpos := 4 } 0) 1) HCD_STATE_ARBITRATION1,
        some []) := by
    unfold chr_receive_disconnected
    simp only [hcd_fill_buffer_word s b0 b1 b2 b3 [] hp]
    rw [if_neg (by decide), hv]
    by_cases hw : [b0 % 256, b1 % 256, b2 % 256, b3 % 256] = [0xFF, 0xFF, 0xFF, 0xFF]
    · rw [if_neg (not_not.mpr ((word_ff b0 b1 b2 b3).mpr hw)), if_neg (not_not.mpr hw),
        if_pos (by exact hle)]
    · rw [if_pos (fun h => hw ((word_ff b0 b1 b2 b3).mp h)), if_pos hw]
  rw [hcd_chr_receive, if_neg (by simp), hstep, hdis]
  simp only [hcd_chr_receive_nil]

/-- One call of `hcd_chr_receive` in state ARBITRATION1 with one received byte:
whatever linkEnable is, the device draws a bid from its clock, sends it and
goes to ARBITRATION2. -/
theorem hcd_chr_receive_arbitration1_byte (fuel : Nat) (s : OHCI1394State) (x : Nat)
    (hst : s.state = HCD_STATE_ARBITRATION1) (hp : s.bufpos = 0) :
    ∃ s', hcd_chr_receive (fuel + 2) s [x] = some s' ∧ s'.state = HCD_STATE_ARBITRATION2 ∧
      s'.chr = s.chr ++ le_bytes 2 (draw_bid (s.tv s.tv_calls).1 (s.tv s.tv_calls).2) ∧
      s'.regs = s.regs := by
  have hstep : chr_receive_step (fuel + 1) s [x] = some (arbitration1 s, some [x]) := by
    unfold chr_receive_step
    rw [if_neg (by rw [hst]; decide), if_neg (by rw [hst]; decide),
      if_neg (by rw [hst]; decide), if_pos hst]
  have hst2 : (arbitration1 s).state = HCD_STATE_ARBITRATION2 := rfl
  have hp2 : (arbitration1 s).bufpos = 0 := hp
  have hfill : hcd_fill_buffer (arbitration1 s) [x] 2 =
      ({ arbitration1 s with buf := dma_memory_write (arbitration1 s).buf 0 [x % 256], bufpos := 1 }, []) := by
    unfold hcd_fill_buffer
    simp [hp2]
  have hstep2 : chr_receive_step fuel (arbitration1 s) [x] =
      some ({ arbitration1 s with buf := dma_memory_write (arbitration1 s).buf 0 [x % 256], bufpos := 1 }, some []) := by
    unfold chr_receive_step
    rw [if_neg (by rw [hst2]; decide), if_neg (by rw [hst2]; decide),
      if_neg (by rw [hst2]; decide), if_neg (by rw [hst2]; decide), if_pos hst2]
    unfold chr_receive_arbitration2
    simp only [hfill]
    rw [if_pos (by decide)]
  have hrun : hcd_chr_receive (fuel + 2) s [x] =
      some { arbitration1 s with buf := dma_memory_write (arbitration1 s).buf 0 [x % 256], bufpos := 1 } := by
    rw [hcd_chr_receive, if_neg (by simp), hstep]
    simp only []
    rw [hcd_chr_receive, if_neg (by simp), hstep2]
    simp only [hcd_chr_receive_nil]
  exact ⟨_, hrun, rfl, rfl, rfl⟩

/-- C29, the code: in state DISCONNECTED with an empty buffer and linkEnable
clear, four received bytes FF FF FF FF set `other_link = 1` and leave the device
in ARBITRATION1 with nothing sent, and any other four bytes are dropped with the
state unchanged.  But the device does not stay in ARBITRATION1: with linkEnable
still clear, one further received byte makes it draw a bid, send its two bytes
and go to ARBITRATION2. -/
theorem hcd_chr_receive_disconnected (fuel : Nat) (s : OHCI1394State) (b : List Nat)
    (hst : s.state = HCD_STATE_DISCONNECTED) (hp : s.bufpos = 0) (hb : b.length = 4)
    (hle : s.reg OFF_hc_control &&& HCCONTROL_LINK_ENABLE_MASK = 0) :
    (b.map (· % 256) = [0xFF, 0xFF, 0xFF, 0xFF] →
      ∃ s', hcd_chr_receive (fuel + 1) s b = some s' ∧ s'.state = HCD_STATE_ARBITRATION1 ∧
        s'.other_link = 1 ∧ s'.bufpos = 0 ∧ s'.chr = s.chr ∧ s'.regs = s.regs ∧
        ∀ x, ∃ s'', hcd_chr_receive (fuel + 2) s' [x] = some s'' ∧
          s''.reg OFF_hc_control &&& HCCONTROL_LINK_ENABLE_MASK = 0 ∧
          s''.state = HCD_STATE_ARBITRATION2 ∧
          s''.chr = s.chr ++ le_bytes 2 (draw_bid (s.tv s.tv_calls).1 (s.tv s.tv_calls).2)) ∧
    (b.map (· % 256) ≠ [0xFF, 0xFF, 0xFF, 0xFF] →
      ∃ s', hcd_chr_receive (fuel + 1) s b = some s' ∧ s'.state = HCD_STATE_DISCONNECTED ∧
        s'.other_link = s.other_link ∧ s'.bufpos = 0 ∧ s'.chr = s.chr ∧ s'.regs = s.regs) := by
  obtain ⟨b0, b1, b2, b3, rfl⟩ := list_length_four b hb
  simp only [List.map_cons, List.map_nil]
  rw [hcd_chr_receive_disconnected_eq fuel s b0 b1 b2 b3 hst hp hle]
  constructor
  · intro h
    rw [if_neg (not_not.mpr h)]
    refine ⟨_, rfl, rfl, rfl, rfl, rfl, rfl, ?_⟩
    intro x
    obtain ⟨s'', h1, h2, h3, h4⟩ := hcd_chr_receive_arbitration1_byte fuel
      (set_state (set_other_link (set_bufpos { s with buf := dma_memory_write s.buf 0 [b0 % 256, b1 % 256, b2 % 256, b3 % 256], bufpos := 4 } 0) 1) HCD_STATE_ARBITRATION1)
      x rfl rfl
    refine ⟨s'', h1, ?_, h2, h3⟩
    show s''.regs _ &&& _ = 0
    rw [h4]
    exact hle
  · intro h
    rw [if_pos h]
    exact ⟨_, rfl, hst, rfl, rfl, rfl, rfl⟩

/-- Witness for C29: the greeted device, linkEnable clear, receives FF FF FF FF
and then the single byte 7: it has sent the bid 1 after its greeting and is in
ARBITRATION2. -/
theorem hcd_chr_receive_disconnected_witness :
    ∃ s', hcd_chr_receive 1 greeted_dev [0xFF, 0xFF, 0xFF, 0xFF] = some s' ∧
      s'.state = HCD_STATE_ARBITRATION1 ∧
      ∃ s'', hcd_chr_receive 2 s' [7] = some s'' ∧
        s''.reg OFF_hc_control &&& HCCONTROL_LINK_ENABLE_MASK = 0 ∧
        s''.state = HCD_STATE_ARBITRATION2 ∧ s''.chr = [0x31, 0x33, 0x39, 0x34, 1, 0] :=
  ((hcd_chr_receive_disconnected 0 greeted_dev [0xFF, 0xFF, 0xFF, 0xFF] (by decide) (by decide)
    (by decide) (by decide)).1 (by decide)).imp
    fun _ h => ⟨h.1, h.2.1, (h.2.2.2.2.2.2 7).imp
      fun _ g => ⟨g.1, g.2.1, g.2.2.1, g.2.2.2.trans (by rfl)⟩⟩

/-! ## The receive loop: a packet with an unknown tcode -/

theorem tcode_low_byte (a x : Nat) (ha : a < 256) : (a + 256 * x) &&& 0xF0 = a &&& 0xF0 := by
  have h1 : (a + 256 * x) &&& 0xF0 = ((a + 256 * x) &&& 0xFF) &&& 0xF0 := by
    rw [Nat.and_assoc, show (0xFF &&& 0xF0 : Nat) = 0xF0 from rfl]
  have h2 := Nat.and_pow_two_sub_one_eq_mod (a + 256 * x) 8
  simp only [Nat.reducePow, Nat.add_one_sub_one, Nat.reduceSub] at h2
  rw [h1, h2]
  congr 1
  omega

theorem word_fe (b0 b1 b2 b3 : Nat) :
    le_val [b0 % 256, b1 % 256, b2 % 256, b3 % 256] = 0xFFFFFFFE ↔
      [b0 % 256, b1 % 256, b2 % 256, b3 % 256] = [0xFE, 0xFF, 0xFF, 0xFF] := by
  simp only [le_val, List.cons.injEq, and_true]
  omega

/-- The CONNECTED block, linkEnable set, once four bytes are in the buffer that
are neither the link-down word nor a header with a known tcode: the block
returns at once and leaves the device as `hcd_fill_buffer` left it. -/
theorem chr_receive_connected_unknown (fuel : Nat) (s s4 : OHCI1394State) (inp rest : List Nat)
    (hle : s.reg OFF_hc_control &&& HCCONTROL_LINK_ENABLE_MASK ≠ 0)
    (hfill : hcd_fill_buffer s inp 4 = (s4, rest)) (hp4 : s4.bufpos = 4)
    (hw : buf_val s4 0 4 ≠ 0xFFFFFFFE)
    (htc : ∀ k ∈ [0x00, 0x10, 0x20, 0x40, 0x50, 0x60, 0x70], buf_val s4 0 4 &&& 0x000000F0 ≠ k) :
    chr_receive_connected fuel s inp = some (s4, none) := by
  have hpk : chr_receive_packet fuel s4 rest = some s4 := by
    unfold chr_receive_packet
    simp only []
    rw [if_neg (htc _ (by simp)), if_neg (htc _ (by simp)), if_neg (htc _ (by simp)),
      if_neg (htc _ (by simp)), if_neg (htc _ (by simp)), if_neg (htc _ (by simp)),
      if_neg (htc _ (by simp))]
  unfold chr_receive_connected
  rw [if_neg hle]
  simp only [hfill]
  rw [if_neg (by omega), if_neg hw, hpk]
  rfl

theorem chr_receive_step_connected (fuel : Nat) (s : OHCI1394State) (inp : List Nat)
    (hst : s.state = HCD_STATE_CONNECTED) :
    chr_receive_step fuel s inp = chr_receive_connected fuel s inp := by
  unfold chr_receive_step
  rw [if_neg (by rw [hst]; decide), if_neg (by rw [hst]; decide), if_neg (by rw [hst]; decide),
    if_neg (by rw [hst]; decide), if_neg (by rw [hst]; decide), if_pos hst]

/-- C30, the code: in state CONNECTED with linkEnable set and an empty buffer, a
received packet whose first four bytes are not the link-down word and whose
tcode (the high nibble of its first byte) is none of 0x00, 0x10, 0x20, 0x40,
0x50, 0x60, 0x70 makes `hcd_chr_receive` return with nothing sent, no register
changed and the state still CONNECTED; but the four header bytes stay in the
buffer, `bufpos` is 4, not 0, and the bytes after them are dropped with the
call.  Every later call then returns with the device unchanged, whatever is
received: no following packet is handled. -/
theorem hcd_chr_receive_unknown_tcode (fuel : Nat) (s : OHCI1394State) (b0 b1 b2 b3 : Nat)
    (rest : List Nat)
    (hst : s.state = HCD_STATE_CONNECTED)
    (hle : s.reg OFF_hc_control &&& HCCONTROL_LINK_ENABLE_MASK ≠ 0) (hp : s.bufpos = 0)
    (hw : [b0 % 256, b1 % 256, b2 % 256, b3 % 256] ≠ [0xFE, 0xFF, 0xFF, 0xFF])
    (htc : ∀ k ∈ [0x00, 0x10, 0x20, 0x40, 0x50, 0x60, 0x70], (b0 % 256) &&& 0xF0 ≠ k) :
    ∃ s', hcd_chr_receive (fuel + 1) s (b0 :: b1 :: b2 :: b3 :: rest) = some s' ∧
      s'.state = HCD_STATE_CONNECTED ∧ s'.bufpos = 4 ∧ s'.chr = s.chr ∧ s'.regs = s.regs ∧
      s'.mem = s.mem ∧
      ∀ (fuel' : Nat) (inp : List Nat), hcd_chr_receive (fuel' + 1) s' inp = some s' := by
  obtain ⟨s4, e4⟩ : ∃ s4 : OHCI1394State, s4 =
      { s with buf := dma_memory_write s.buf 0 [b0 % 256, b1 % 256, b2 % 256, b3 % 256], bufpos := 4 } :=
    ⟨_, rfl⟩
  have hfill := hcd_fill_buffer_word s b0 b1 b2 b3 rest hp
  rw [← e4] at hfill
  have hst4 : s4.state = HCD_STATE_CONNECTED := by rw [e4]; exact hst
  have hp4 : s4.bufpos = 4 := by rw [e4]
  have hr4 : s4.regs = s.regs := by rw [e4]
  have hle4 : s4.reg OFF_hc_control &&& HCCONTROL_LINK_ENABLE_MASK ≠ 0 := by
    unfold OHCI1394State.reg; rw [hr4]; exact hle
  have hv : buf_val s4 0 4 = le_val [b0 % 256, b1 % 256, b2 % 256, b3 % 256] := by
    rw [e4]
    show le_val (dma_memory_read (dma_memory_write s.buf 0 _) 0 4) = _
    rw [buf_word_read]
  have hw4 : buf_val s4 0 4 ≠ 0xFFFFFFFE := by
    rw [hv]
    exact fun h => hw ((word_fe b0 b1 b2 b3).mp h)
  have htc4 : ∀ k ∈ [0x00, 0x10, 0x20, 0x40, 0x50, 0x60, 0x70],
      buf_val s4 0 4 &&& 0x000000F0 ≠ k := by
    intro k hk
    rw [hv]
    have : le_val [b0 % 256, b1 % 256, b2 % 256, b3 % 256] &&& 0xF0 = (b0 % 256) &&& 0xF0 := by
      simp only [le_val, Nat.mod_mod]
      exact tcode_low_byte _ _ (Nat.mod_lt _ (by decide))
    rw [this]
    exact htc k hk
  have h1 : hcd_chr_receive (fuel + 1) s (b0 :: b1 :: b2 :: b3 :: rest) = some s4 := by
    rw [hcd_chr_receive, if_neg (by simp), chr_receive_step_connected _ _ _ hst,
      chr_receive_connected_unknown fuel s s4 _ rest hle hfill hp4 hw4 htc4]
  refine ⟨s4, h1, hst4, hp4, by rw [e4], hr4, by rw [e4], ?_⟩
  intro fuel' inp
  by_cases hi : inp.length = 0
  · rw [hcd_chr_receive, if_pos hi]
  · rw [hcd_chr_receive, if_neg hi, chr_receive_step_connected _ _ _ hst4,
      chr_receive_connected_unknown fuel' s4 s4 inp inp hle4
        (hcd_fill_buffer_full _ inp 4 (by omega)) hp4 hw4 htc4]

/-- Witness for C30: the Connected device receives a 12-byte packet with tcode
0x30: `bufpos` is 4 afterwards, and the link-down word FE FF FF FF received next
changes nothing, while on the device before the packet it ends the connection. -/
theorem hcd_chr_receive_unknown_tcode_witness :
    (∃ s', hcd_chr_receive 1 connected_dev [0x30, 0, 0, 0, 0, 0, 0, 0, 0, 0, 0, 0] = some s' ∧
      s'.state = HCD_STATE_CONNECTED ∧ s'.bufpos = 4 ∧
      hcd_chr_receive 1 s' [0xFE, 0xFF, 0xFF, 0xFF] = some s') ∧
    (hcd_chr_receive 1 connected_dev [0xFE, 0xFF, 0xFF, 0xFF]).map (·.state) =
      some HCD_STATE_DISCONNECTED :=
  ⟨(hcd_chr_receive_unknown_tcode 0 connected_dev 0x30 0 0 0 [0, 0, 0, 0, 0, 0, 0, 0] (by decide)
    (by decide) (by decide) (by decide) (by decide)).imp
    fun _ h => ⟨h.1, h.2.1, h.2.2.1, h.2.2.2.2.2.2 0 _⟩, by decide⟩

/-! ## Hard reset -/

/-- The register file after `hcd_hard_reset`. -/
theorem hcd_hard_reset_regs (s : OHCI1394State) (i : Nat) :
    (hcd_hard_reset s).regs i =
      if i = 0 then 0x00010010 else if i = 7 then 0x31333934 else if i = 8 then 0x00008002
      else if i = 9 then 0x89abcdef else if i = 10 then 0x01234567 else 0 := by
  unfold hcd_hard_reset hcd_soft_reset
  simp only [OHCI1394State.set_reg, OHCI1394State.and_reg, OHCI1394State.and_regs,
    OHCI1394State.reg, set_regs_regs, set_phy_regs, set_phy_page_regs]
  by_cases h0 : i = 0
  · subst h0; simp
  by_cases h7 : i = 7
  · subst h7; simp
  by_cases h8 : i = 8
  · subst h8; simp
  by_cases h9 : i = 9
  · subst h9; simp
  by_cases h10 : i = 10
  · subst h10; simp
  by_cases h20 : i = 20
  · subst h20; simp
  simp [h0, h7, h8, h9, h10, h20]

/-- The PHY after `hcd_hard_reset`. -/
theorem hcd_hard_reset_phy (s : OHCI1394State) (i : Nat) :
    (hcd_hard_reset s).phy i = (if i = 2 then 0x01 else if i = 4 then 0xC0 else 0) ∧
    (hcd_hard_reset s).phy_pages 0 0 = 0x08 := by
  constructor
  · unfold hcd_hard_reset hcd_soft_reset
    by_cases h2 : i = 2
    · subst h2
      simp [set_phy, set_phy_page, upd, OHCI1394State.set_reg, OHCI1394State.and_reg,
        OHCI1394State.and_regs, OHCI1394State.set_regs]
    by_cases h4 : i = 4
    · subst h4
      simp [set_phy, set_phy_page, upd, OHCI1394State.set_reg, OHCI1394State.and_reg,
        OHCI1394State.and_regs, OHCI1394State.set_regs]
    simp [set_phy, set_phy_page, upd, OHCI1394State.set_reg, OHCI1394State.and_reg,
      OHCI1394State.and_regs, OHCI1394State.set_regs, h2, h4]
  · unfold hcd_hard_reset hcd_soft_reset
    simp [set_phy, set_phy_page, upd, OHCI1394State.set_reg, OHCI1394State.and_reg,
      OHCI1394State.and_regs, OHCI1394State.set_regs]

/-- C36: after `hcd_hard_reset`, whatever the device held before, `version` is
0x00010010, `bus_id` 0x31333934, `bus_options` 0x00008002, `guid_hi` 0x89ABCDEF,
`guid_lo` 0x01234567 and every other word of the register file is 0; PHY
register 2 is 0x01, PHY register 4 is 0xC0, every other base PHY register is 0,
and register 0 of PHY page 0 is 0x08. -/
theorem hcd_hard_reset_values (s : OHCI1394State) :
    (hcd_hard_reset s).reg OFF_version = 0x00010010 ∧
    (hcd_hard_reset s).reg OFF_bus_id = 0x31333934 ∧
    (hcd_hard_reset s).reg OFF_bus_options = 0x00008002 ∧
    (hcd_hard_reset s).reg OFF_guid_hi = 0x89ABCDEF ∧
    (hcd_hard_reset s).reg OFF_guid_lo = 0x01234567 ∧
    (∀ i, i ≠ OFF_version >>> 2 → i ≠ OFF_bus_id >>> 2 → i ≠ OFF_bus_options >>> 2 →
      i ≠ OFF_guid_hi >>> 2 → i ≠ OFF_guid_lo >>> 2 → (hcd_hard_reset s).regs i = 0) ∧
    (hcd_hard_reset s).phy 2 = 0x01 ∧ (hcd_hard_reset s).phy 4 = 0xC0 ∧
    (∀ i, i ≠ 2 → i ≠ 4 → (hcd_hard_reset s).phy i = 0) ∧
    (hcd_hard_reset s).phy_pages 0 0 = 0x08 := by
  refine ⟨?_, ?_, ?_, ?_, ?_, ?_, ?_, ?_, ?_, (hcd_hard_reset_phy s 0).2⟩
  · show (hcd_hard_reset s).regs 0 = _
    rw [hcd_hard_reset_regs]; rfl
  · show (hcd_hard_reset s).regs 7 = _
    rw [hcd_hard_reset_regs]; rfl
  · show (hcd_hard_reset s).regs 8 = _
    rw [hcd_hard_reset_regs]; rfl
  · show (hcd_hard_reset s).regs 9 = _
    rw [hcd_hard_reset_regs]; rfl
  · show (hcd_hard_reset s).regs 10 = _
    rw [hcd_hard_reset_regs]; rfl
  · intro i h0 h7 h8 h9 h10
    rw [hcd_hard_reset_regs]
    simp only [OFF_version, OFF_bus_id, OFF_bus_options, OFF_guid_hi, OFF_guid_lo,
      Nat.reduceShiftRight] at h0 h7 h8 h9 h10
    rw [if_neg h0, if_neg h7, if_neg h8, if_neg h9, if_neg h10]
  · rw [(hcd_hard_reset_phy s 2).1]; rfl
  · rw [(hcd_hard_reset_phy s 4).1]; rfl
  · intro i h2 h4
    rw [(hcd_hard_reset_phy s i).1, if_neg h2, if_neg h4]

/-- Counterexample for C37: after the hard reset of device construction, the
MMIO read at offset 0x020 returns 0x00008002 (`bus_options`), not 0x31333934;
the reads at 0x024 and 0x028 return the two GUID words, and the read at 0x02C
returns 0. -/
theorem hcd_mmio_read_layout_counterexample :
    hcd_mmio_read init_state 0x020 = 0x00008002 ∧ hcd_mmio_read init_state 0x024 = 0x89ABCDEF ∧
    hcd_mmio_read init_state 0x028 = 0x01234567 ∧ hcd_mmio_read init_state 0x02C = 0 := by
  decide

/-- C37 (amended): after `hcd_hard_reset`, the MMIO read at offset 0x000 returns
0x00010010 (`version`), at 0x01C 0x31333934 (`bus_id`), at 0x020 0x00008002
(`bus_options`), at 0x024 0x89ABCDEF (`guid_hi`) and at 0x028 0x01234567
(`guid_lo`): these are the offsets of the fields in `OHCIDeviceRegs`. -/
theorem hcd_mmio_read_reset_values (s : OHCI1394State) :
    OFF_version = 0x000 ∧ OFF_bus_id = 0x01C ∧ OFF_bus_options = 0x020 ∧ OFF_guid_hi = 0x024 ∧
    OFF_guid_lo = 0x028 ∧
    hcd_mmio_read (hcd_hard_reset s) 0x000 = 0x00010010 ∧
    hcd_mmio_read (hcd_hard_reset s) 0x01C = 0x31333934 ∧
    hcd_mmio_read (hcd_hard_reset s) 0x020 = 0x00008002 ∧
    hcd_mmio_read (hcd_hard_reset s) 0x024 = 0x89ABCDEF ∧
    hcd_mmio_read (hcd_hard_reset s) 0x028 = 0x01234567 := by
  refine ⟨rfl, rfl, rfl, rfl, rfl, ?_, ?_, ?_, ?_, ?_⟩ <;>
  · unfold hcd_mmio_read
    rw [if_neg (by decide)]
    simp only [Nat.reduceShiftRight]
    rw [hcd_hard_reset_regs]
    rfl

/-! ## The AR loop at the end of a descriptor chain -/

theorem aligned_zero_or_ge (x : Nat) : x &&& 0xFFFFFFF0 = 0 ∨ 16 ≤ x &&& 0xFFFFFFF0 := by
  have h := aligned_mask x
  rw [and_15_eq_mod] at h
  omega

/-- A pass of the AR loop in state 0 with bytes left to deliver, over a
descriptor with `res_count = 0` and `branch_address = 0`, when the descriptor at
guest address 0 is of the same kind (or is the current one): the descriptor is
written back, `command_ptr` becomes 0, the descriptor at 0 is read, nothing is
copied, and the loop is in the same situation again. -/
theorem rx_rsp_step_ended (s : OHCI1394State) (l : RxLocals)
    (h0 : l.state = 0) (hsz : l.size ≠ 0) (hres : l.db.res_count = 0)
    (hbr : l.db.branch_address = 0)
    (hb1 : l.db.req_count < 0x10000) (hb2 : l.db.flags < 0x10000)
    (hb3 : l.db.data_address < 0x100000000)
    (hcp : s.regs 123 &&& 0xFFFFFFF0 = 0 ∨
      (16 ≤ s.regs 123 &&& 0xFFFFFFF0 ∧ (read_db s 0).res_count = 0 ∧
        (read_db s 0).branch_address = 0)) :
    (rx_rsp_step s l).2.state = 0 ∧ (rx_rsp_step s l).2.size ≠ 0 ∧
    (rx_rsp_step s l).2.db.res_count = 0 ∧ (rx_rsp_step s l).2.db.branch_address = 0 ∧
    (rx_rsp_step s l).2.db.req_count < 0x10000 ∧ (rx_rsp_step s l).2.db.flags < 0x10000 ∧
    (rx_rsp_step s l).2.db.data_address < 0x100000000 ∧
    (rx_rsp_step s l).1.regs 123 = 0 ∧ (rx_rsp_step s l).1.regs 120 &&& 0x400 = 0 := by
  -- the descriptor read after the branch
  have hnext : (rx_next_db s (rx_set_status s l)).2.db =
      read_db (rx_next_db s (rx_set_status s l)).1 0 := by
    have : Ax_COMMAND_PTR (rx_next_db s (rx_set_status s l)).1 3 &&& 0xFFFFFFF0 = 0 := by
      show (rx_next_db s (rx_set_status s l)).1.regs 123 &&& 0xFFFFFFF0 = 0
      rw [rx_next_db_regs, if_pos rfl]
      show l.db.branch_address % 0x100000000 &&& 0xFFFFFFF0 = 0
      rw [hbr]; rfl
    rw [← this]
    unfold rx_next_db
    rfl
  have hrd : (read_db (rx_next_db s (rx_set_status s l)).1 0).res_count = 0 ∧
      (read_db (rx_next_db s (rx_set_status s l)).1 0).branch_address = 0 := by
    unfold read_db
    rw [rx_next_db_mem]
    rcases hcp with hz | ⟨hge, r1, r2⟩
    · have ha : Ax_COMMAND_PTR s 3 &&& 0xFFFFFFF0 = 0 := hz
      rw [ha]
      have := dma_read_write_same s.mem 0 (rx_set_status s l).db.toBytes
      rw [ar_db_toBytes_length] at this
      rw [this, ar_db_roundtrip (rx_set_status s l).db hb1 hb2 hb3
        (by show l.db.branch_address < _; rw [hbr]; decide)
        (by show l.db.res_count < _; rw [hres]; decide)
        (by show (s.reg OFF_async_response_receive &&& 0xFFFF) % 0x10000 < 0x10000; omega)]
      exact ⟨hres, hbr⟩
    · have ha : 16 ≤ Ax_COMMAND_PTR s 3 &&& 0xFFFFFFF0 := hge
      rw [dma_read_write_disjoint _ _ _ _ _ (Or.inl (by omega))]
      exact ⟨r1, r2⟩
  obtain ⟨c1, c2, c3, -, -, -⟩ := read_db_bounds (rx_next_db s (rx_set_status s l)).1 0
  have hst : (rx_next_db s (rx_set_status s l)).2.state = 0 := h0
  have hsize : (rx_next_db s (rx_set_status s l)).2.size = l.size := rfl
  have hstep : rx_rsp_step s l =
      rx_case0 (rx_next_db s (rx_set_status s l)).1 (rx_next_db s (rx_set_status s l)).2 := by
    unfold rx_rsp_step
    simp only []
    rw [if_pos (show (rx_set_status s l).db.res_count = 0 from hres), if_pos hst]
  have hws : ¬ ((rx_next_db s (rx_set_status s l)).2.db.res_count >
      (rx_next_db s (rx_set_status s l)).2.size) := by
    rw [hnext, hrd.1]; omega
  rw [hstep]
  unfold rx_case0
  simp only [if_neg hws]
  rw [hnext] at *
  refine ⟨?_, ?_, ?_, hrd.2, c1, c2, c3, ?_, ?_⟩
  · rw [hrd.1, hsize]
    simp [hsz]
  · rw [hrd.1, hsize]; simpa using hsz
  · rw [hrd.1]
  · show (dma_write _ _ _).regs 123 = 0
    rw [regs_dma_write, rx_next_db_regs, if_pos rfl]
    show l.db.branch_address % 0x100000000 = 0
    rw [hbr]
  · show (dma_write _ _ _).regs 120 &&& 0x400 = 0
    rw [regs_dma_write, rx_next_db_regs, if_neg (by decide), if_pos rfl,
      if_pos (show (rx_set_status s l).db.branch_address = 0 from hbr), clear_bit10_mod]
    exact clear_bit10 _

/-- In that situation the AR loop does not end, whatever the fuel. -/
theorem rx_rsp_loop_ended (fuel : Nat) :
    ∀ (s : OHCI1394State) (l : RxLocals), l.state = 0 → l.size ≠ 0 → l.db.res_count = 0 →
      l.db.branch_address = 0 → l.db.req_count < 0x10000 → l.db.flags < 0x10000 →
      l.db.data_address < 0x100000000 →
      (s.regs 123 &&& 0xFFFFFFF0 = 0 ∨
        (16 ≤ s.regs 123 &&& 0xFFFFFFF0 ∧ (read_db s 0).res_count = 0 ∧
          (read_db s 0).branch_address = 0)) →
      rx_rsp_loop fuel s l = none := by
  induction fuel with
  | zero =>
    intro s l h0 _ _ _ _ _ _ _
    unfold rx_rsp_loop
    rw [if_neg (by rw [h0]; decide)]
  | succ n ih =>
    intro s l h0 hsz hres hbr hb1 hb2 hb3 hcp
    rw [rx_rsp_loop_step _ _ _ (by rw [h0]; decide)]
    obtain ⟨a1, a2, a3, a4, a5, a6, a7, a8, -⟩ :=
      rx_rsp_step_ended s l h0 hsz hres hbr hb1 hb2 hb3 hcp
    exact ih _ _ a1 a2 a3 a4 a5 a6 a7 (Or.inl (by rw [a8]; rfl))

/-- C38, the code: when the current AR-response descriptor has `res_count = 0`
and `branch_address = 0`, `hcd_async_rx_rsp_packet` clears the active bit but
does not end delivery: it sets `command_ptr` to 0 and goes on with the
descriptor it reads at guest address 0.  When that one has `res_count = 0` and
`branch_address = 0` too (guest memory that is zero there, for instance), the
call does not return for any packet of at least one byte. -/
theorem hcd_async_rx_rsp_packet_chain_end (fuel : Nat) (s : OHCI1394State) (buf : List Nat)
    (size response : Nat) (hsize : size ≠ 0)
    (hres : (read_db s (Ax_COMMAND_PTR s 3 &&& 0xFFFFFFF0)).res_count = 0)
    (hbr : (read_db s (Ax_COMMAND_PTR s 3 &&& 0xFFFFFFF0)).branch_address = 0)
    (hres0 : (read_db s 0).res_count = 0) (hbr0 : (read_db s 0).branch_address = 0) :
    hcd_async_rx_rsp_packet fuel s buf size response = none ∧
    (rx_rsp_step (SET_Ax_EVENT_CODE s 3 response)
      (rx_rsp_start (SET_Ax_EVENT_CODE s 3 response) buf size)).1.reg
        OFF_async_response_receive &&& 0x400 = 0 ∧
    Ax_COMMAND_PTR (rx_rsp_step (SET_Ax_EVENT_CODE s 3 response)
      (rx_rsp_start (SET_Ax_EVENT_CODE s 3 response) buf size)).1 3 = 0 ∧
    (rx_rsp_step (SET_Ax_EVENT_CODE s 3 response)
      (rx_rsp_start (SET_Ax_EVENT_CODE s 3 response) buf size)).2.state = 0 := by
  have hcp : Ax_COMMAND_PTR (SET_Ax_EVENT_CODE s 3 response) 3 = Ax_COMMAND_PTR s 3 := by
    simp [Ax_COMMAND_PTR, SET_Ax_EVENT_CODE, Ax_CC, Ax_CP]
  have hrd : ∀ a, read_db (SET_Ax_EVENT_CODE s 3 response) a = read_db s a := fun a => rfl
  have hdb : (rx_rsp_start (SET_Ax_EVENT_CODE s 3 response) buf size).db =
      read_db s (Ax_COMMAND_PTR s 3 &&& 0xFFFFFFF0) := by
    unfold rx_rsp_start
    simp only []
    rw [hcp, hrd]
  obtain ⟨c1, c2, c3, -, -, -⟩ := read_db_bounds s (Ax_COMMAND_PTR s 3 &&& 0xFFFFFFF0)
  have hq : (SET_Ax_EVENT_CODE s 3 response).regs 123 &&& 0xFFFFFFF0 = 0 ∨
      (16 ≤ (SET_Ax_EVENT_CODE s 3 response).regs 123 &&& 0xFFFFFFF0 ∧
        (read_db (SET_Ax_EVENT_CODE s 3 response) 0).res_count = 0 ∧
        (read_db (SET_Ax_EVENT_CODE s 3 response) 0).branch_address = 0) := by
    rw [hrd]
    rcases aligned_zero_or_ge ((SET_Ax_EVENT_CODE s 3 response).regs 123) with h | h
    · exact Or.inl h
    · exact Or.inr ⟨h, hres0, hbr0⟩
  obtain ⟨a1, -, -, -, -, -, -, a8, a9⟩ := rx_rsp_step_ended _ _ rfl hsize
    (by rw [hdb]; exact hres) (by rw [hdb]; exact hbr) (by rw [hdb]; exact c1)
    (by rw [hdb]; exact c2) (by rw [hdb]; exact c3) hq
  refine ⟨?_, a9, a8, a1⟩
  unfold hcd_async_rx_rsp_packet
  rw [if_neg hsize, rx_rsp_loop_ended fuel _ _ rfl hsize (by rw [hdb]; exact hres)
    (by rw [hdb]; exact hbr) (by rw [hdb]; exact c1) (by rw [hdb]; exact c2)
    (by rw [hdb]; exact c3) hq]
  rfl

/-- Witness for C38: on the freshly constructed device over zeroed guest memory
(`command_ptr` 0), the delivery of a 4-byte packet has not returned after 1000
passes of the loop. -/
theorem hcd_async_rx_rsp_packet_chain_end_witness :
    hcd_async_rx_rsp_packet 1000 (fresh (fun _ => 0)) [1, 2, 3, 4] 4 ACK_COMPLETE = none :=
  (hcd_async_rx_rsp_packet_chain_end 1000 (fresh (fun _ => 0)) [1, 2, 3, 4] 4 ACK_COMPLETE
    (by decide) (by decide) (by decide) (by decide) (by decide)).1

/-! ## Termination of the receive loop -/

/-- In state MAGIC with more than four bytes in the buffer, or with four bytes
that are not the greeting, a pass through the loop changes nothing and consumes
nothing. -/
theorem chr_receive_step_magic_full (fuel : Nat) (s : OHCI1394State) (inp : List Nat)
    (hst : s.state = HCD_STATE_MAGIC) (hp : 4 ≤ s.bufpos)
    (hm : 4 < s.bufpos ∨
      (dma_memory_read s.buf 0 4).map (· % 256) ≠ [0x31, 0x33, 0x39, 0x34]) :
    chr_receive_step fuel s inp = some (s, some inp) := by
  unfold chr_receive_step
  rw [if_neg (by rw [hst]; decide), if_pos hst]
  unfold chr_receive_magic
  simp only [hcd_fill_buffer_full s inp 4 hp]
  rw [if_neg (by omega)]
  by_cases h4 : s.bufpos > 4
  · rw [if_pos h4]
  · rw [if_neg h4, if_pos (hm.elim (fun h => absurd h h4) id)]

/-- C39, the code: in state MAGIC with a buffer that holds more than four bytes,
or four bytes that are not the greeting "1394", `hcd_chr_receive` does not
return on any non-empty input: a pass through its loop consumes no byte, does
not return and leaves the device where it is, so the loop never ends. -/
theorem hcd_chr_receive_diverges (s : OHCI1394State)
    (hst : s.state = HCD_STATE_MAGIC) (hp : 4 ≤ s.bufpos)
    (hm : 4 < s.bufpos ∨
      (dma_memory_read s.buf 0 4).map (· % 256) ≠ [0x31, 0x33, 0x39, 0x34]) :
    ∀ (fuel : Nat) (inp : List Nat), inp ≠ [] →
      chr_receive_step fuel s inp = some (s, some inp) ∧ hcd_chr_receive fuel s inp = none := by
  intro fuel
  induction fuel with
  | zero =>
    intro inp hne
    refine ⟨chr_receive_step_magic_full 0 s inp hst hp hm, ?_⟩
    unfold hcd_chr_receive
    rw [if_neg (by simpa using hne)]
  | succ n ih =>
    intro inp hne
    refine ⟨chr_receive_step_magic_full _ s inp hst hp hm, ?_⟩
    rw [hcd_chr_receive, if_neg (by simpa using hne),
      chr_receive_step_magic_full n s inp hst hp hm]
    exact (ih inp hne).2

/-- Witness for C39: the device whose transport closed and opened again with 8
bytes of a request in the buffer is in state MAGIC with `bufpos = 8`; on the
greeting of the peer the loop has not ended after 1000 passes. -/
theorem hcd_chr_receive_diverges_witness :
    reopened_dev.state = HCD_STATE_MAGIC ∧ reopened_dev.bufpos = 8 ∧
    hcd_chr_receive 1000 reopened_dev [0x31, 0x33, 0x39, 0x34] = none :=
  ⟨by decide, by decide,
    (hcd_chr_receive_diverges reopened_dev (by decide) (by decide) (Or.inl (by decide)) 1000
      [0x31, 0x33, 0x39, 0x34] (by decide)).2⟩

/-! ## Reassembly of packets -/

/-- `hcd_fill_buffer` touches the reassembly buffer and `bufpos` only. -/
theorem hcd_fill_buffer_frame (s : OHCI1394State) (inp : List Nat) (n : Nat) :
    (hcd_fill_buffer s inp n).1.regs = s.regs ∧ (hcd_fill_buffer s inp n).1.chr = s.chr ∧
    (hcd_fill_buffer s inp n).1.mem = s.mem ∧ (hcd_fill_buffer s inp n).1.state = s.state ∧
    (hcd_fill_buffer s inp n).1.junk = s.junk ∧ (hcd_fill_buffer s inp n).1.dma_err = s.dma_err ∧
    (hcd_fill_buffer s inp n).1.root = s.root ∧
    (hcd_fill_buffer s inp n).1.other_link = s.other_link := by
  unfold hcd_fill_buffer
  split_ifs <;> exact ⟨rfl, rfl, rfl, rfl, rfl, rfl, rfl, rfl⟩

/-- `hcd_fill_buffer` with enough input: the buffer is filled up to `n`. -/
theorem hcd_fill_buffer_enough (s : OHCI1394State) (inp : List Nat) (n : Nat)
    (h : n - s.bufpos ≤ inp.length) :
    (hcd_fill_buffer s inp n).1.bufpos = max s.bufpos n ∧
    (hcd_fill_buffer s inp n).2 = inp.drop (n - s.bufpos) ∧
    (∀ i, i < s.bufpos ∨ n ≤ i → (hcd_fill_buffer s inp n).1.buf i = s.buf i) ∧
    (∀ i, s.bufpos ≤ i → i < n → (hcd_fill_buffer s inp n).1.buf i = inp.getD (i - s.bufpos) 0 % 256) := by
  unfold hcd_fill_buffer
  by_cases hge : s.bufpos ≥ n
  · rw [if_pos hge]
    refine ⟨by simp; omega, ?_, fun _ _ => rfl, fun i h1 h2 => absurd h2 (by omega)⟩
    rw [show n - s.bufpos = 0 by omega]; rfl
  · rw [if_neg hge, if_neg (by omega)]
    refine ⟨by simp; omega, rfl, ?_, ?_⟩
    · intro i hi
      show dma_memory_write _ _ _ i = _
      unfold dma_memory_write
      rw [if_neg]
      simp only [List.length_map, List.length_take]
      omega
    · intro i h1 h2
      show dma_memory_write _ _ _ i = _
      unfold dma_memory_write
      rw [if_pos]
      · simp only [List.getD_eq_getElem?_getD, List.getElem?_map, List.getElem?_take]
        have hlt : i - s.bufpos < n - s.bufpos := by omega
        rw [if_pos hlt]
        have hl : i - s.bufpos < inp.length := by omega
        rw [List.getElem?_eq_getElem hl]
        simp
      · simp only [List.length_map, List.length_take]
        omega

/-- What `hcd_fill_buffer` does to `bufpos` and to the buffer in general: `bufpos`
does not decrease and stays below `n` when it was, and no byte at or above `n`
is written. -/
theorem hcd_fill_buffer_bound (s : OHCI1394State) (inp : List Nat) (n : Nat) :
    s.bufpos ≤ (hcd_fill_buffer s inp n).1.bufpos ∧
    (hcd_fill_buffer s inp n).1.bufpos ≤ max s.bufpos n ∧
    (∀ i, n ≤ i → (hcd_fill_buffer s inp n).1.buf i = s.buf i) ∧
    ((hcd_fill_buffer s inp n).1.bufpos < n → (hcd_fill_buffer s inp n).2 = []) := by
  unfold hcd_fill_buffer
  by_cases hge : s.bufpos ≥ n
  · rw [if_pos hge]
    exact ⟨le_refl _, le_max_left _ _, fun _ _ => rfl, fun h => absurd h (by simp; omega)⟩
  · rw [if_neg hge]
    simp only []
    refine ⟨by omega, ?_, ?_, ?_⟩
    · split_ifs <;> simp <;> omega
    · intro i hi
      unfold dma_memory_write
      rw [if_neg]
      simp only [List.length_map, List.length_take]
      split_ifs <;> omega
    · intro h
      split_ifs at h ⊢ with h1
      · simp
      · omega

/-- Bytes after those a fill needs do not change what it leaves in the device. -/
theorem hcd_fill_buffer_append (s : OHCI1394State) (inp q : List Nat) (n : Nat)
    (h : n - s.bufpos ≤ inp.length) :
    (hcd_fill_buffer s (inp ++ q) n).1 = (hcd_fill_buffer s inp n).1 ∧
    (hcd_fill_buffer s (inp ++ q) n).2 = (hcd_fill_buffer s inp n).2 ++ q := by
  unfold hcd_fill_buffer
  by_cases hge : s.bufpos ≥ n
  · rw [if_pos hge, if_pos hge]; exact ⟨rfl, rfl⟩
  · rw [if_neg hge, if_neg hge, if_neg (by rw [List.length_append]; omega),
      if_neg (by omega)]
    simp only []
    rw [List.take_append_of_le_length h, List.drop_append_of_le_length h]
    exact ⟨rfl, rfl⟩

theorem le_val_map_mod (l : List Nat) : le_val (l.map (· % 256)) = le_val l := by
  induction l with
  | nil => rfl
  | cons b bs ih => simp only [List.map_cons, le_val, Nat.mod_mod, ih]

/-- Reading a range of a buffer that holds the first `N` bytes of `p`. -/
theorem buf_read (B : Nat → Nat) (p : List Nat) (N off n : Nat)
    (h : ∀ i, i < N → B i = p.getD i 0 % 256) (hN : N ≤ p.length) (hoff : off + n ≤ N) :
    dma_memory_read B off n = ((p.drop off).take n).map (· % 256) := by
  apply List.ext_getElem
  · simp [dma_memory_read]; omega
  · intro i h1 h2
    simp only [dma_memory_read, List.length_map, List.length_range] at h1
    simp only [dma_memory_read, List.getElem_map, List.getElem_range, List.getElem_take,
      List.getElem_drop]
    rw [h _ (by omega), List.getD_eq_getElem?_getD, List.getElem?_eq_getElem (by omega)]
    rfl

/-- The reassembly buffer, read as a little-endian field, when it holds the first
`N` bytes of `p`. -/
theorem buf_val_read (s : OHCI1394State) (p : List Nat) (N off n : Nat)
    (h : ∀ i, i < N → s.buf i = p.getD i 0 % 256) (hN : N ≤ p.length) (hoff : off + n ≤ N) :
    buf_val s off n = le_val ((p.drop off).take n) := by
  unfold buf_val
  rw [buf_read s.buf p N off n h hN hoff, le_val_map_mod]

/-- The header fill of the CONNECTED block followed by the fill of a handler
that waits for `N` bytes, on an empty buffer and an input of at least `N`
bytes: the buffer holds the first `N` bytes of the input. -/
theorem two_fills (s : OHCI1394State) (p : List Nat) (N : Nat) (hp0 : s.bufpos = 0)
    (h4 : 4 ≤ N) (hN : N ≤ p.length) :
    (hcd_fill_buffer s p 4).1.bufpos = 4 ∧ (hcd_fill_buffer s p 4).2 = p.drop 4 ∧
    (∀ i, i < 4 → (hcd_fill_buffer s p 4).1.buf i = p.getD i 0 % 256) ∧
    (hcd_fill_buffer (hcd_fill_buffer s p 4).1 (hcd_fill_buffer s p 4).2 N).1.bufpos = N ∧
    (hcd_fill_buffer (hcd_fill_buffer s p 4).1 (hcd_fill_buffer s p 4).2 N).2 = p.drop N ∧
    (∀ i, i < N →
      (hcd_fill_buffer (hcd_fill_buffer s p 4).1 (hcd_fill_buffer s p 4).2 N).1.buf i =
        p.getD i 0 % 256) ∧
    (∀ i, N ≤ i →
      (hcd_fill_buffer (hcd_fill_buffer s p 4).1 (hcd_fill_buffer s p 4).2 N).1.buf i =
        s.buf i) := by
  obtain ⟨a1, a2, a3, a4⟩ := hcd_fill_buffer_enough s p 4 (by omega)
  rw [hp0] at a1 a2 a3 a4
  simp only [Nat.sub_zero, Nat.zero_le, true_implies, Nat.zero_max] at a1 a2 a4
  have a1' : (hcd_fill_buffer s p 4).1.bufpos = 4 := by rw [a1]
  obtain ⟨b1, b2, b3, b4⟩ := hcd_fill_buffer_enough (hcd_fill_buffer s p 4).1
    (hcd_fill_buffer s p 4).2 N (by rw [a1', a2, List.length_drop]; omega)
  rw [a1'] at b1 b2 b3 b4
  refine ⟨a1', a2, fun i hi => a4 i hi, ?_, ?_, ?_, ?_⟩
  · rw [b1]; omega
  · rw [b2, a2, List.drop_drop]; congr 1; omega
  · intro i hi
    by_cases h : i < 4
    · rw [b3 i (Or.inl h)]; exact a4 i h
    · rw [b4 i (by omega) hi, a2]
      simp only [List.getD_eq_getElem?_getD, List.getElem?_drop]
      congr 3
      omega
  · intro i hi
    rw [b3 i (Or.inr hi)]
    exact a3 i (Or.inr (by omega))

/-- One call of `hcd_chr_receive` in state CONNECTED with linkEnable set, an
empty buffer and at least four bytes that are not the link-down word: the
header is collected, the handler of the t_code runs, and the call returns. -/
theorem hcd_chr_receive_packet (fuel : Nat) (s : OHCI1394State) (p : List Nat)
    (hst : s.state = HCD_STATE_CONNECTED)
    (hle : s.reg OFF_hc_control &&& HCCONTROL_LINK_ENABLE_MASK ≠ 0) (hp0 : s.bufpos = 0)
    (h4 : 4 ≤ p.length) (hw : le_val (p.take 4) ≠ 0xFFFFFFFE) :
    hcd_chr_receive (fuel + 1) s p =
      chr_receive_packet fuel (hcd_fill_buffer s p 4).1 (hcd_fill_buffer s p 4).2 ∧
    buf_val (hcd_fill_buffer s p 4).1 0 4 = le_val (p.take 4) := by
  obtain ⟨a1, a2, a3, -⟩ := two_fills s p 4 hp0 (le_refl 4) h4
  have hv : buf_val (hcd_fill_buffer s p 4).1 0 4 = le_val (p.take 4) := by
    rw [buf_val_read _ p 4 0 4 a3 h4 (by omega)]; rfl
  refine ⟨?_, hv⟩
  have hne : p.length ≠ 0 := by omega
  rw [hcd_chr_receive, if_neg hne, chr_receive_step_connected _ _ _ hst]
  unfold chr_receive_connected
  rw [if_neg hle]
  simp only []
  rw [if_neg (by rw [a1]; decide), if_neg (by rw [hv]; exact hw)]
  cases chr_receive_packet fuel (hcd_fill_buffer s p 4).1 (hcd_fill_buffer s p 4).2 <;> rfl

/-! ## Request handlers: the response without data -/

theorem and_mod_16 (y M : Nat) (h : 0xFFFF &&& M = M) : (y % 0x10000) &&& M = y &&& M := by
  have h2 := Nat.and_pow_two_sub_one_eq_mod y 16
  simp only [Nat.reducePow, Nat.add_one_sub_one, Nat.reduceSub] at h2
  rw [← h2, Nat.and_assoc, h]

/-- The fields of the response `flags`: the t_code, and the retry and tLabel
bits of the request. -/
theorem rsp_flags_fields (t f : Nat) (ht : t &&& 0xF0 = t) (ht3 : t &&& 0x300 = 0)
    (htl : t &&& 0xFC00 = 0) :
    rsp_flags t f < 0x10000 ∧ rsp_flags t f &&& 0xF0 = t ∧
    rsp_flags t f &&& 0x300 = f &&& 0x300 ∧ rsp_flags t f &&& 0xFC00 = f &&& 0xFC00 := by
  unfold rsp_flags
  refine ⟨Nat.mod_lt _ (by decide), ?_, ?_, ?_⟩
  · rw [and_mod_16 _ _ (by decide), Nat.and_distrib_right, Nat.and_distrib_right, ht,
      Nat.and_assoc, Nat.and_assoc, show (0x300 &&& 0xF0 : Nat) = 0 from rfl,
      show (0xFC00 &&& 0xF0 : Nat) = 0 from rfl]
    simp
  · rw [and_mod_16 _ _ (by decide), Nat.and_distrib_right, Nat.and_distrib_right, ht3,
      Nat.and_assoc, Nat.and_assoc, show (0x300 &&& 0x300 : Nat) = 0x300 from rfl,
      show (0xFC00 &&& 0x300 : Nat) = 0 from rfl]
    simp
  · rw [and_mod_16 _ _ (by decide), Nat.and_distrib_right, Nat.and_distrib_right, htl,
      Nat.and_assoc, Nat.and_assoc, show (0x300 &&& 0xFC00 : Nat) = 0 from rfl,
      show (0xFC00 &&& 0xFC00 : Nat) = 0xFC00 from rfl]
    simp

theorem le_val_le_bytes_2_mod (x : Nat) : le_val (le_bytes 2 x) = x % 0x10000 := by
  simp only [le_bytes, le_val]; omega

/-- The fields of the 12 bytes of a local `OHCIRspNoDataPacket`. -/
theorem rsp_nodata_fields (s : OHCI1394State) (f d rc src : Nat) :
    (rsp_nodata_bytes s f d rc src).length = 12 ∧
    rsp_flags_field (rsp_nodata_bytes s f d rc src) = f % 0x10000 ∧
    rsp_destination_id (rsp_nodata_bytes s f d rc src) = d % 0x10000 ∧
    rsp_r_code (rsp_nodata_bytes s f d rc src) = rc % 256 ∧
    rsp_source_id (rsp_nodata_bytes s f d rc src) = src % 0x10000 ∧
    packet_word (rsp_nodata_bytes s f d rc src) 1 =
      s.junk 4 % 256 + 256 * (rc % 256) + 0x10000 * (src % 0x10000) := by
  unfold rsp_nodata_bytes rsp_flags_field rsp_destination_id rsp_r_code rsp_source_id packet_word
  refine ⟨?_, ?_, ?_, ?_, ?_, ?_⟩ <;>
    simp only [le_bytes, dma_memory_read, List.range_succ, List.range_zero, List.map_cons,
      List.map_nil, List.cons_append, List.nil_append, List.length_cons, List.length_nil,
      List.take, List.drop, le_val, List.getD_cons_succ, List.getD_cons_zero, List.map_append,
      List.append_nil, Nat.mod_mod, Nat.reduceMul] <;>
    first
    | rfl
    | omega

theorem xor_one_lt (d : Nat) (hd : d < 0x10000) : d ^^^ 1 < 0x10000 :=
  Nat.xor_lt_two_pow (n := 16) hd (by decide)

theorem buf_val_lt_2 (s : OHCI1394State) (off : Nat) : buf_val s off 2 < 0x10000 := by
  unfold buf_val
  refine lt_of_lt_of_le (le_val_lt _) ?_
  simp [dma_memory_read]

/-- The function `hcd_chr_request_quadlet_write` once 16 bytes are in the buffer. -/
theorem quadlet_write_done (s : OHCI1394State) (inp : List Nat) (sN : OHCI1394State)
    (hN : sN = (hcd_fill_buffer s inp 16).1) (h : sN.bufpos = 16) :
    hcd_chr_request_quadlet_write s inp =
      (true, set_bufpos (qemu_chr_fe_write
        (dma_write sN (buf_val sN 8 4) (dma_memory_read sN.buf 12 4))
        (rsp_nodata_bytes sN (rsp_flags 0x20 (buf_val sN 0 4)) (buf_val sN 6 2 ^^^ 1)
          RESP_COMPLETE (buf_val sN 6 2))) 0) := by
  unfold hcd_chr_request_quadlet_write
  simp only []
  rw [← hN, if_neg (by omega), if_neg (by omega)]
  rfl

/-- The function `hcd_chr_request_quadlet_write` before 16 bytes are in the
buffer, or with more: it returns false and writes nothing. -/
theorem quadlet_write_wait (s : OHCI1394State) (inp : List Nat)
    (h : (hcd_fill_buffer s inp 16).1.bufpos ≠ 16) :
    hcd_chr_request_quadlet_write s inp = (false, (hcd_fill_buffer s inp 16).1) := by
  unfold hcd_chr_request_quadlet_write
  simp only []
  split_ifs with h1 h2
  · rfl
  · rfl
  · omega

/-- C32: in state CONNECTED with linkEnable set and an empty buffer, a received
16-byte request with t_code 0x00 makes `hcd_chr_receive` return; the four data
bytes of the request are then in guest memory at `destination_offset_low`; 12
bytes have been sent whose `flags` have t_code 0x20 and the retry and tLabel
bits of the request, whose `r_code` is RESP_COMPLETE (0), whose `source_id` is
the `destination_id` of the request and whose `destination_id` is that value
XOR 1; `bufpos` is 0 and no word of the register file has changed. -/
theorem hcd_chr_receive_quadlet_write (fuel : Nat) (s : OHCI1394State) (p : List Nat)
    (hst : s.state = HCD_STATE_CONNECTED)
    (hle : s.reg OFF_hc_control &&& HCCONTROL_LINK_ENABLE_MASK ≠ 0) (hp0 : s.bufpos = 0)
    (hlen : p.length = 16) (htc : packet_tcode p = 0x00) :
    ∃ s' r, hcd_chr_receive (fuel + 1) s p = some s' ∧
      s'.mem = dma_memory_write s.mem (req_destination_offset_low p)
        (((p.drop 12).take 4).map (· % 256)) ∧
      s'.chr = s.chr ++ r ∧ r.length = 12 ∧
      rsp_flags_field r &&& 0xF0 = 0x20 ∧
      rsp_flags_field r &&& 0x300 = req_flags p &&& 0x300 ∧
      rsp_flags_field r &&& 0xFC00 = req_flags p &&& 0xFC00 ∧
      rsp_r_code r = RESP_COMPLETE ∧
      rsp_source_id r = req_destination_id p ∧
      rsp_destination_id r = req_destination_id p ^^^ 1 ∧
      s'.bufpos = 0 ∧ s'.regs = s.regs ∧ s'.state = HCD_STATE_CONNECTED := by
  have hw : le_val (p.take 4) ≠ 0xFFFFFFFE := by
    intro h
    unfold packet_tcode at htc
    rw [h] at htc
    exact absurd htc (by decide)
  obtain ⟨hrun, hv⟩ := hcd_chr_receive_packet fuel s p hst hle hp0 (by omega) hw
  obtain ⟨-, -, -, b1, -, b3, -⟩ := two_fills s p 16 hp0 (by decide) (by omega)
  obtain ⟨f1, f2, f3, f4, f5, -⟩ := hcd_fill_buffer_frame (hcd_fill_buffer s p 4).1
    (hcd_fill_buffer s p 4).2 16
  obtain ⟨g1, g2, g3, g4, g5, -⟩ := hcd_fill_buffer_frame s p 4
  obtain ⟨sN, hN⟩ : ∃ sN, sN = (hcd_fill_buffer (hcd_fill_buffer s p 4).1
    (hcd_fill_buffer s p 4).2 16).1 := ⟨_, rfl⟩
  rw [← hN] at b1 b3 f1 f2 f3 f4 f5
  have hpk : chr_receive_packet fuel (hcd_fill_buffer s p 4).1 (hcd_fill_buffer s p 4).2 =
      some (hcd_chr_request_quadlet_write (hcd_fill_buffer s p 4).1
        (hcd_fill_buffer s p 4).2).2 := by
    unfold chr_receive_packet
    simp only []
    rw [hv, if_pos (show le_val (p.take 4) &&& 0x000000F0 = 0x00 from htc)]
  rw [quadlet_write_done _ _ sN hN b1] at hpk
  have v0 : buf_val sN 0 4 = req_flags p := buf_val_read sN p 16 0 4 b3 (by omega) (by omega)
  have v6 : buf_val sN 6 2 = req_destination_id p :=
    buf_val_read sN p 16 6 2 b3 (by omega) (by omega)
  have v8 : buf_val sN 8 4 = req_destination_offset_low p :=
    buf_val_read sN p 16 8 4 b3 (by omega) (by omega)
  have v12 : dma_memory_read sN.buf 12 4 = ((p.drop 12).take 4).map (· % 256) :=
    buf_read sN.buf p 16 12 4 b3 (by omega) (by omega)
  have hd : req_destination_id p < 0x10000 := by rw [← v6]; exact buf_val_lt_2 _ _
  obtain ⟨r1, r2, r3, r4, r5, -⟩ := rsp_nodata_fields sN (rsp_flags 0x20 (req_flags p))
    (req_destination_id p ^^^ 1) RESP_COMPLETE (req_destination_id p)
  obtain ⟨q1, q2, q3, q4⟩ := rsp_flags_fields 0x20 (req_flags p) (by decide) (by decide)
    (by decide)
  rw [v0, v6, v8, v12] at hpk
  refine ⟨_, _, hrun.trans hpk, ?_, ?_, r1, ?_, ?_, ?_, r4, ?_, ?_, rfl, ?_, ?_⟩
  · show dma_memory_write sN.mem _ _ = _
    rw [f3, g3]
  · show sN.chr ++ _ = _
    rw [f2, g2]
  · rw [r2, Nat.mod_eq_of_lt q1, q2]
  · rw [r2, Nat.mod_eq_of_lt q1, q3]
  · rw [r2, Nat.mod_eq_of_lt q1, q4]
  · rw [r5, Nat.mod_eq_of_lt hd]
  · rw [r3, Nat.mod_eq_of_lt (xor_one_lt _ hd)]
  · show sN.regs = _
    rw [f1, g1]
  · show sN.state = _
    rw [f4, g4, hst]

/-- Witness for C32: the Connected device receives the quadlet write request of
node 0x1234 for the word 0xDEADBEEF at 0x1000: the word is in guest memory and
the response 20 A7 35 12 00 00 34 12 .. has been sent. -/
theorem hcd_chr_receive_quadlet_write_witness :
    ∃ s' r, hcd_chr_receive 1 connected_dev quadlet_write_req = some s' ∧
      dma_memory_read s'.mem 0x1000 4 = [0xEF, 0xBE, 0xAD, 0xDE] ∧
      s'.chr = connected_dev.chr ++ r ∧ r.length = 12 ∧ rsp_flags_field r &&& 0xF0 = 0x20 ∧
      rsp_r_code r = RESP_COMPLETE ∧ rsp_source_id r = 0x1234 ∧ rsp_destination_id r = 0x1235 ∧
      s'.bufpos = 0 :=
  (hcd_chr_receive_quadlet_write 0 connected_dev quadlet_write_req (by decide) (by decide)
    (by decide) (by decide) (by decide)).imp
    fun _ h => h.imp fun _ g => ⟨g.1, by rw [g.2.1]; decide, g.2.2.1, g.2.2.2.1, g.2.2.2.2.1,
      g.2.2.2.2.2.2.2.1, g.2.2.2.2.2.2.2.2.1.trans (by decide),
      g.2.2.2.2.2.2.2.2.2.1.trans (by decide), g.2.2.2.2.2.2.2.2.2.2.1⟩

/-- Where the fields of a local `OHCIRspNoDataPacket` lie in its second word:
`r_code` in bits 15:8 and `source_id` in bits 31:16. -/
theorem rsp_nodata_word1 (s : OHCI1394State) (f d rc src : Nat) :
    (packet_word (rsp_nodata_bytes s f d rc src) 1 >>> 8) &&& 0xFF =
      rsp_r_code (rsp_nodata_bytes s f d rc src) ∧
    packet_word (rsp_nodata_bytes s f d rc src) 1 >>> 16 =
      rsp_source_id (rsp_nodata_bytes s f d rc src) := by
  obtain ⟨-, -, -, r4, r5, r6⟩ := rsp_nodata_fields s f d rc src
  rw [r4, r5, r6]
  have h2 := Nat.and_pow_two_sub_one_eq_mod
    ((s.junk 4 % 256 + 256 * (rc % 256) + 0x10000 * (src % 0x10000)) >>> 8) 8
  simp only [Nat.reducePow, Nat.add_one_sub_one, Nat.reduceSub] at h2
  rw [h2, Nat.shiftRight_eq_div_pow, Nat.shiftRight_eq_div_pow]
  constructor <;> omega

theorem rsp_nodata_bytes_congr (s t : OHCI1394State) (h : t.junk = s.junk) (f d rc src : Nat) :
    rsp_nodata_bytes t f d rc src = rsp_nodata_bytes s f d rc src := by
  unfold rsp_nodata_bytes; rw [h]

/-- The function `hcd_chr_request_block_write` once the header and the
`data_length` bytes it announces are in the buffer. -/
theorem block_write_done (s : OHCI1394State) (inp : List Nat) (sN : OHCI1394State)
    (hN : sN = (hcd_fill_buffer (hcd_fill_buffer s inp 16).1 (hcd_fill_buffer s inp 16).2
      (16 + buf_val (hcd_fill_buffer s inp 16).1 14 2)).1)
    (h16 : ¬ (hcd_fill_buffer s inp 16).1.bufpos < 16)
    (h : sN.bufpos = 16 + buf_val sN 14 2) :
    hcd_chr_request_block_write s inp =
      (true, set_bufpos (qemu_chr_fe_write
        (dma_write sN (buf_val sN 8 4) (dma_memory_read sN.buf 16 (buf_val sN 14 2)))
        (rsp_nodata_bytes sN (rsp_flags 0x20 (buf_val sN 0 4)) (buf_val sN 6 2 ^^^ 1)
          RESP_COMPLETE (buf_val sN 6 2))) 0) := by
  unfold hcd_chr_request_block_write
  simp only []
  rw [← hN, if_neg h16, if_neg (by omega), if_neg (by omega)]
  rfl

/-- The function `hcd_chr_request_block_write` while bytes are missing, or with
too many: it returns false and writes nothing. -/
theorem block_write_wait (s : OHCI1394State) (inp : List Nat) (sN : OHCI1394State)
    (hN : sN = (hcd_fill_buffer (hcd_fill_buffer s inp 16).1 (hcd_fill_buffer s inp 16).2
      (16 + buf_val (hcd_fill_buffer s inp 16).1 14 2)).1)
    (h : (hcd_fill_buffer s inp 16).1.bufpos < 16 ∨ sN.bufpos ≠ 16 + buf_val sN 14 2) :
    (hcd_chr_request_block_write s inp).1 = false ∧
    ((hcd_chr_request_block_write s inp).2 = (hcd_fill_buffer s inp 16).1 ∨
      (hcd_chr_request_block_write s inp).2 = sN) := by
  unfold hcd_chr_request_block_write
  simp only []
  rw [← hN]
  split_ifs with h1 h2 h3
  · exact ⟨rfl, Or.inl rfl⟩
  · exact ⟨rfl, Or.inr rfl⟩
  · exact ⟨rfl, Or.inr rfl⟩
  · exact absurd h (by omega)

/-- The function `hcd_chr_request_block_write`: either it returns false and has
sent nothing, or it returns true and has sent the 12 bytes of its response. -/
theorem block_write_result (s : OHCI1394State) (inp : List Nat) :
    ((hcd_chr_request_block_write s inp).1 = false ∧
      (hcd_chr_request_block_write s inp).2.chr = s.chr) ∨
    ((hcd_chr_request_block_write s inp).1 = true ∧
      ∃ f d, (hcd_chr_request_block_write s inp).2.chr =
        s.chr ++ rsp_nodata_bytes s f (d ^^^ 1) RESP_COMPLETE d) := by
  have c1 := hcd_fill_buffer_frame s inp 16
  have c2 := hcd_fill_buffer_frame (hcd_fill_buffer s inp 16).1 (hcd_fill_buffer s inp 16).2
    (16 + buf_val (hcd_fill_buffer s inp 16).1 14 2)
  obtain ⟨sN, hN⟩ : ∃ sN, sN = (hcd_fill_buffer (hcd_fill_buffer s inp 16).1
    (hcd_fill_buffer s inp 16).2 (16 + buf_val (hcd_fill_buffer s inp 16).1 14 2)).1 := ⟨_, rfl⟩
  rw [← hN] at c2
  by_cases h : (hcd_fill_buffer s inp 16).1.bufpos < 16 ∨ sN.bufpos ≠ 16 + buf_val sN 14 2
  · obtain ⟨w1, w2⟩ := block_write_wait s inp sN hN h
    refine Or.inl ⟨w1, ?_⟩
    rcases w2 with e | e
    · rw [e, c1.2.1]
    · rw [e, c2.2.1, c1.2.1]
  · have h16 : ¬ (hcd_fill_buffer s inp 16).1.bufpos < 16 := fun h' => h (Or.inl h')
    have hb : sN.bufpos = 16 + buf_val sN 14 2 := by
      by_contra h'; exact h (Or.inr h')
    rw [block_write_done s inp sN hN h16 hb]
    refine Or.inr ⟨rfl, rsp_flags 0x20 (buf_val sN 0 4), buf_val sN 6 2, ?_⟩
    show sN.chr ++ rsp_nodata_bytes sN _ _ _ _ = _
    rw [c2.2.1, c1.2.1, rsp_nodata_bytes_congr s sN (c2.2.2.2.2.1.trans c1.2.2.2.2.1)]

/-- The function `hcd_chr_request_quadlet_write`, likewise. -/
theorem quadlet_write_result (s : OHCI1394State) (inp : List Nat) :
    ((hcd_chr_request_quadlet_write s inp).1 = false ∧
      (hcd_chr_request_quadlet_write s inp).2.chr = s.chr) ∨
    ((hcd_chr_request_quadlet_write s inp).1 = true ∧
      ∃ f d, (hcd_chr_request_quadlet_write s inp).2.chr =
        s.chr ++ rsp_nodata_bytes s f (d ^^^ 1) RESP_COMPLETE d) := by
  have c1 := hcd_fill_buffer_frame s inp 16
  obtain ⟨sN, hN⟩ : ∃ sN, sN = (hcd_fill_buffer s inp 16).1 := ⟨_, rfl⟩
  rw [← hN] at c1
  by_cases h : sN.bufpos = 16
  · rw [quadlet_write_done s inp sN hN h]
    refine Or.inr ⟨rfl, rsp_flags 0x20 (buf_val sN 0 4), buf_val sN 6 2, ?_⟩
    show sN.chr ++ rsp_nodata_bytes sN _ _ _ _ = _
    rw [c1.2.1, rsp_nodata_bytes_congr s sN c1.2.2.2.2.1]
  · rw [quadlet_write_wait s inp (by rw [← hN]; exact h), ← hN]
    exact Or.inl ⟨rfl, c1.2.1⟩

/-- Counterexample for C33: in the response to the quadlet write request of node
0x1234, word 1 is 0x12340000: its bits 31:24 hold 0x12, the high byte of
`source_id`, while the `r_code` is 0 and sits in bits 15:8. -/
theorem rsp_nodata_r_code_counterexample :
    (hcd_chr_receive 1 connected_dev quadlet_write_req).map (fun s =>
      (packet_word (s.chr.drop connected_dev.chr.length) 1,
        packet_word (s.chr.drop connected_dev.chr.length) 1 >>> 24,
        rsp_r_code (s.chr.drop connected_dev.chr.length))) = some (0x12340000, 0x12, 0) := by
  decide

/-- C33 (amended): each of `hcd_chr_request_quadlet_write` and
`hcd_chr_request_block_write` either returns false and sends nothing, or returns
true and sends one 12-byte response; in that response the `r_code`
(RESP_COMPLETE) occupies bits 15:8 of word 1, the second little-endian 32-bit
word of the packet, and bits 31:16 of that word hold `source_id`. -/
theorem rsp_nodata_r_code_position (s : OHCI1394State) (inp : List Nat)
    (res : Bool × OHCI1394State)
    (hres : res = hcd_chr_request_quadlet_write s inp ∨
      res = hcd_chr_request_block_write s inp) :
    (res.1 = false → res.2.chr = s.chr) ∧
    (res.1 = true → ∃ r, res.2.chr = s.chr ++ r ∧ r.length = 12 ∧
      (packet_word r 1 >>> 8) &&& 0xFF = rsp_r_code r ∧ rsp_r_code r = RESP_COMPLETE ∧
      packet_word r 1 >>> 16 = rsp_source_id r) := by
  have key : (res.1 = false ∧ res.2.chr = s.chr) ∨
      (res.1 = true ∧ ∃ f d, res.2.chr = s.chr ++ rsp_nodata_bytes s f (d ^^^ 1)
        RESP_COMPLETE d) := by
    rcases hres with rfl | rfl
    · exact quadlet_write_result s inp
    · exact block_write_result s inp
  rcases key with ⟨h1, h2⟩ | ⟨h1, f, d, h2⟩
  · exact ⟨fun _ => h2, fun h => by rw [h1] at h; exact absurd h (by decide)⟩
  · refine ⟨fun h => by rw [h1] at h; exact absurd h (by decide), fun _ => ?_⟩
    obtain ⟨r1, -, -, r4, -, -⟩ := rsp_nodata_fields s f (d ^^^ 1) RESP_COMPLETE d
    exact ⟨_, h2, r1, (rsp_nodata_word1 s f (d ^^^ 1) RESP_COMPLETE d).1, r4,
      (rsp_nodata_word1 s f (d ^^^ 1) RESP_COMPLETE d).2⟩

/-- Witness for C33 (amended): the handler of the quadlet write request on the
Connected device with the 16 bytes of the request. -/
theorem rsp_nodata_r_code_position_witness :
    ∃ r, (hcd_chr_request_quadlet_write connected_dev quadlet_write_req).2.chr =
        connected_dev.chr ++ r ∧ r.length = 12 ∧
      (packet_word r 1 >>> 8) &&& 0xFF = rsp_r_code r ∧ rsp_r_code r = RESP_COMPLETE ∧
      packet_word r 1 >>> 16 = rsp_source_id r :=
  (rsp_nodata_r_code_position connected_dev quadlet_write_req _ (Or.inl rfl)).2 (by decide)

/-! ## Read requests -/

/-- The fields of a 16-byte response built like the local `OHCIRspQuadletPacket`
and `OHCIRspBlockPacket` of the read handlers: eight bytes as in the response
without data, four bytes never assigned, and four more bytes `tail`. -/
theorem rsp_read_fields (f d j4 rc src : Nat) (j8 tail : List Nat) (hj : j8.length = 4)
    (ht : tail.length = 4) :
    (le_bytes 2 f ++ le_bytes 2 d ++ [j4, rc % 256] ++ le_bytes 2 src ++ j8 ++ tail).length = 16 ∧
    rsp_flags_field (le_bytes 2 f ++ le_bytes 2 d ++ [j4, rc % 256] ++ le_bytes 2 src ++ j8 ++
      tail) = f % 0x10000 ∧
    rsp_r_code (le_bytes 2 f ++ le_bytes 2 d ++ [j4, rc % 256] ++ le_bytes 2 src ++ j8 ++ tail) =
      rc % 256 ∧
    (le_bytes 2 f ++ le_bytes 2 d ++ [j4, rc % 256] ++ le_bytes 2 src ++ j8 ++ tail).drop 12 =
      tail ∧
    (le_bytes 2 f ++ le_bytes 2 d ++ [j4, rc % 256] ++ le_bytes 2 src ++ j8 ++ tail).take 16 =
      le_bytes 2 f ++ le_bytes 2 d ++ [j4, rc % 256] ++ le_bytes 2 src ++ j8 ++ tail := by
  obtain ⟨a0, a1, a2, a3, rfl⟩ := list_length_four j8 hj
  obtain ⟨t0, t1, t2, t3, rfl⟩ := list_length_four tail ht
  unfold rsp_flags_field rsp_r_code
  refine ⟨?_, ?_, ?_, ?_, ?_⟩ <;>
    simp only [le_bytes, List.cons_append, List.nil_append, List.length_cons, List.length_nil,
      List.take, List.drop, le_val, List.getD_cons_succ, List.getD_cons_zero, List.append_nil,
      Nat.mod_mod, Nat.reduceMul] <;>
    first
    | rfl
    | omega

/-- The function `hcd_chr_request_quadlet_read` once 12 bytes are in the buffer;
`r` is the data and the `r_code` its address test produces. -/
theorem quadlet_read_done (s : OHCI1394State) (inp : List Nat) (sN : OHCI1394State)
    (r : List Nat × Nat)
    (hN : sN = (hcd_fill_buffer s inp 12).1) (h : sN.bufpos = 12)
    (hr : r =
      if buf_val sN 4 2 = 0xFFFF then
        if 0xF0000400 = buf_val sN 8 4 &&& 0xFFFFFC00 then
          (dma_memory_read sN.mem
            ((sN.reg OFF_config_rom_map + (buf_val sN 8 4 &&& 0x3ff)) % 0x100000000) 4,
            RESP_COMPLETE)
        else ((dma_memory_read sN.junk 12 4).map (fun b => b % 256), RESP_ADDRESS_ERROR)
      else if buf_val sN 4 2 = 0x0000 then
        if dma_read_fails sN (buf_val sN 8 4) 4 then
          ((dma_memory_read sN.junk 12 4).map (fun b => b % 256), RESP_ADDRESS_ERROR)
        else (dma_memory_read sN.mem (buf_val sN 8 4) 4, RESP_COMPLETE)
      else ((dma_memory_read sN.junk 12 4).map (fun b => b % 256), RESP_ADDRESS_ERROR)) :
    hcd_chr_request_quadlet_read s inp =
      (true, set_bufpos (qemu_chr_fe_write sN
        (le_bytes 2 (rsp_flags 0x60 (buf_val sN 0 4)) ++ le_bytes 2 (buf_val sN 6 2 ^^^ 1) ++
          [sN.junk 4 % 256, r.2 % 256] ++ le_bytes 2 (buf_val sN 6 2) ++
          (dma_memory_read sN.junk 8 4).map (fun b => b % 256) ++
          r.1.map (fun b => b % 256))) 0) := by
  unfold hcd_chr_request_quadlet_read
  simp only []
  rw [← hN, if_neg (by omega), if_neg (by omega), ← hr]

/-- What the address test of the read handlers produces. -/
theorem read_address_test (sN : OHCI1394State) (hi lo n : Nat) (junk : List Nat) (r : List Nat × Nat)
    (hr : r =
      if hi = 0xFFFF then
        if 0xF0000400 = lo &&& 0xFFFFFC00 then
          (dma_memory_read sN.mem ((sN.reg OFF_config_rom_map + (lo &&& 0x3ff)) % 0x100000000) n,
            RESP_COMPLETE)
        else (junk, RESP_ADDRESS_ERROR)
      else if hi = 0x0000 then
        if dma_read_fails sN lo n then (junk, RESP_ADDRESS_ERROR)
        else (dma_memory_read sN.mem lo n, RESP_COMPLETE)
      else (junk, RESP_ADDRESS_ERROR)) :
    (hi = 0xFFFF → lo &&& 0xFFFFFC00 = 0xF0000400 →
      r = (dma_memory_read sN.mem ((sN.reg OFF_config_rom_map + (lo &&& 0x3ff)) % 0x100000000) n,
        RESP_COMPLETE)) ∧
    (hi = 0 → dma_read_fails sN lo n = false →
      r = (dma_memory_read sN.mem lo n, RESP_COMPLETE)) ∧
    (¬ (hi = 0xFFFF ∧ lo &&& 0xFFFFFC00 = 0xF0000400) →
      ¬ (hi = 0 ∧ dma_read_fails sN lo n = false) → r = (junk, RESP_ADDRESS_ERROR)) := by
  subst hr
  refine ⟨?_, ?_, ?_⟩
  · intro h1 h2
    rw [if_pos h1, if_pos h2.symm]
  · intro h1 h2
    rw [if_neg (by rw [h1]; decide), if_pos h1, h2]
    rfl
  · intro h1 h2
    by_cases a : hi = 0xFFFF
    · rw [if_pos a, if_neg (fun h => h1 ⟨a, h.symm⟩)]
    · rw [if_neg a]
      by_cases b : hi = 0
      · rw [if_pos b]
        by_cases c : dma_read_fails sN lo n = true
        · rw [if_pos c]
        · exact absurd ⟨b, by simpa using c⟩ h2
      · rw [if_neg b]

/-- C34: in state CONNECTED with linkEnable set and an empty buffer, a received
12-byte request with t_code 0x40 makes `hcd_chr_receive` return with a 16-byte
response sent whose t_code is 0x60.  When `destination_offset_high` is 0xFFFF
and `destination_offset_low AND 0xFFFFFC00` is 0xF0000400, the `r_code` is
RESP_COMPLETE and the data are the four bytes of guest memory at
`config_rom_map + (destination_offset_low AND 0x3FF)` (a `uint32_t` sum); when
`destination_offset_high` is 0 and the DMA read does not fail, the `r_code` is
RESP_COMPLETE and the data are the four bytes at `destination_offset_low`; in
every other case the `r_code` is RESP_ADDRESS_ERROR (0x70).  In every case no
word of the register file, `int_event` included, and no byte of guest memory
has changed, and `bufpos` is 0. -/
theorem hcd_chr_receive_quadlet_read (fuel : Nat) (s : OHCI1394State) (p : List Nat)
    (hst : s.state = HCD_STATE_CONNECTED)
    (hle : s.reg OFF_hc_control &&& HCCONTROL_LINK_ENABLE_MASK ≠ 0) (hp0 : s.bufpos = 0)
    (hlen : p.length = 12) (htc : packet_tcode p = 0x40) :
    ∃ s' r, hcd_chr_receive (fuel + 1) s p = some s' ∧
      s'.chr = s.chr ++ r ∧ r.length = 16 ∧ rsp_flags_field r &&& 0xF0 = 0x60 ∧
      (req_destination_offset_high p = 0xFFFF →
        req_destination_offset_low p &&& 0xFFFFFC00 = 0xF0000400 →
        rsp_r_code r = RESP_COMPLETE ∧
        r.drop 12 = (dma_memory_read s.mem
          ((s.reg OFF_config_rom_map + (req_destination_offset_low p &&& 0x3FF)) % 0x100000000)
          4).map (· % 256)) ∧
      (req_destination_offset_high p = 0 →
        dma_read_fails s (req_destination_offset_low p) 4 = false →
        rsp_r_code r = RESP_COMPLETE ∧
        r.drop 12 = (dma_memory_read s.mem (req_destination_offset_low p) 4).map (· % 256)) ∧
      (¬ (req_destination_offset_high p = 0xFFFF ∧
          req_destination_offset_low p &&& 0xFFFFFC00 = 0xF0000400) →
        ¬ (req_destination_offset_high p = 0 ∧
          dma_read_fails s (req_destination_offset_low p) 4 = false) →
        rsp_r_code r = RESP_ADDRESS_ERROR) ∧
      s'.regs = s.regs ∧ s'.mem = s.mem ∧ s'.bufpos = 0 ∧ s'.state = HCD_STATE_CONNECTED := by
  have hw : le_val (p.take 4) ≠ 0xFFFFFFFE := by
    intro h
    unfold packet_tcode at htc
    rw [h] at htc
    exact absurd htc (by decide)
  obtain ⟨hrun, hv⟩ := hcd_chr_receive_packet fuel s p hst hle hp0 (by omega) hw
  obtain ⟨-, -, -, b1, -, b3, -⟩ := two_fills s p 12 hp0 (by decide) (by omega)
  obtain ⟨f1, f2, f3, f4, f5, f6, -⟩ := hcd_fill_buffer_frame (hcd_fill_buffer s p 4).1
    (hcd_fill_buffer s p 4).2 12
  obtain ⟨g1, g2, g3, g4, g5, g6, -⟩ := hcd_fill_buffer_frame s p 4
  obtain ⟨sN, hN⟩ : ∃ sN, sN = (hcd_fill_buffer (hcd_fill_buffer s p 4).1
    (hcd_fill_buffer s p 4).2 12).1 := ⟨_, rfl⟩
  rw [← hN] at b1 b3 f1 f2 f3 f4 f5 f6
  have e1 : sN.regs = s.regs := f1.trans g1
  have e2 : sN.chr = s.chr := f2.trans g2
  have e3 : sN.mem = s.mem := f3.trans g3
  have e6 : sN.dma_err = s.dma_err := f6.trans g6
  have hpk : chr_receive_packet fuel (hcd_fill_buffer s p 4).1 (hcd_fill_buffer s p 4).2 =
      some (hcd_chr_request_quadlet_read (hcd_fill_buffer s p 4).1
        (hcd_fill_buffer s p 4).2).2 := by
    unfold chr_receive_packet
    simp only []
    rw [hv, if_neg (by rw [show le_val (p.take 4) &&& 0x000000F0 = 0x40 from htc]; decide),
      if_neg (by rw [show le_val (p.take 4) &&& 0x000000F0 = 0x40 from htc]; decide),
      if_neg (by rw [show le_val (p.take 4) &&& 0x000000F0 = 0x40 from htc]; decide),
      if_pos (show le_val (p.take 4) &&& 0x000000F0 = 0x40 from htc)]
  have v0 : buf_val sN 0 4 = req_flags p := buf_val_read sN p 12 0 4 b3 (by omega) (by omega)
  have v4 : buf_val sN 4 2 = req_destination_offset_high p :=
    buf_val_read sN p 12 4 2 b3 (by omega) (by omega)
  have v6 : buf_val sN 6 2 = req_destination_id p :=
    buf_val_read sN p 12 6 2 b3 (by omega) (by omega)
  have v8 : buf_val sN 8 4 = req_destination_offset_low p :=
    buf_val_read sN p 12 8 4 b3 (by omega) (by omega)
  have hfail : dma_read_fails sN (req_destination_offset_low p) 4 =
      dma_read_fails s (req_destination_offset_low p) 4 := by
    unfold dma_read_fails; rw [e6]
  have hreg : sN.reg OFF_config_rom_map = s.reg OFF_config_rom_map := by
    unfold OHCI1394State.reg; rw [e1]
  obtain ⟨r, hr⟩ : ∃ r : List Nat × Nat, r =
      if buf_val sN 4 2 = 0xFFFF then
        if 0xF0000400 = buf_val sN 8 4 &&& 0xFFFFFC00 then
          (dma_memory_read sN.mem
            ((sN.reg OFF_config_rom_map + (buf_val sN 8 4 &&& 0x3ff)) % 0x100000000) 4,
            RESP_COMPLETE)
        else ((dma_memory_read sN.junk 12 4).map (fun b => b % 256), RESP_ADDRESS_ERROR)
      else if buf_val sN 4 2 = 0x0000 then
        if dma_read_fails sN (buf_val sN 8 4) 4 then
          ((dma_memory_read sN.junk 12 4).map (fun b => b % 256), RESP_ADDRESS_ERROR)
        else (dma_memory_read sN.mem (buf_val sN 8 4) 4, RESP_COMPLETE)
      else ((dma_memory_read sN.junk 12 4).map (fun b => b % 256), RESP_ADDRESS_ERROR) :=
    ⟨_, rfl⟩
  rw [quadlet_read_done _ _ sN r hN b1 hr] at hpk
  obtain ⟨t1, t2, t3⟩ := read_address_test sN (buf_val sN 4 2) (buf_val sN 8 4) 4 _ r hr
  rw [v4, v8, hreg, e3] at t1
  rw [v4, v8, hfail, e3] at t2
  rw [v4, v8, hfail] at t3
  have hr1 : r.1.length = 4 := by
    rw [hr]
    split_ifs <;> simp [dma_memory_read]
  obtain ⟨q1, q2, -, -⟩ := rsp_flags_fields 0x60 (req_flags p) (by decide) (by decide)
    (by decide)
  obtain ⟨k1, k2, k3, k4, -⟩ := rsp_read_fields (rsp_flags 0x60 (buf_val sN 0 4))
    (buf_val sN 6 2 ^^^ 1) (sN.junk 4 % 256) r.2 (buf_val sN 6 2)
    ((dma_memory_read sN.junk 8 4).map (fun b => b % 256)) (r.1.map (fun b => b % 256))
    (by simp [dma_memory_read]) (by rw [List.length_map, hr1])
  refine ⟨_, _, hrun.trans hpk, ?_, k1, ?_, ?_, ?_, ?_, e1, e3, rfl, ?_⟩
  · show sN.chr ++ _ = _
    rw [e2]
  · rw [k2, v0, Nat.mod_eq_of_lt q1, q2]
  · intro h1 h2
    rw [k3, k4, t1 h1 h2]
    exact ⟨rfl, rfl⟩
  · intro h1 h2
    rw [k3, k4, t2 h1 h2]
    exact ⟨rfl, rfl⟩
  · intro h1 h2
    rw [k3, t3 h1 h2]
    rfl
  · show sN.state = _
    rw [f4, g4, hst]

/-- Witness for C34: the Connected device receives a quadlet read request for
the bus address 0x1234 : 0x4004, outside both windows: the response carries the
`r_code` 0x70. -/
theorem hcd_chr_receive_quadlet_read_witness :
    ∃ s' r, hcd_chr_receive 1 connected_dev (quadlet_read_req 0x1234 0x4004) = some s' ∧
      s'.chr = connected_dev.chr ++ r ∧ r.length = 16 ∧ rsp_flags_field r &&& 0xF0 = 0x60 ∧
      rsp_r_code r = RESP_ADDRESS_ERROR ∧ s'.regs = connected_dev.regs :=
  (hcd_chr_receive_quadlet_read 0 connected_dev (quadlet_read_req 0x1234 0x4004) (by decide)
    (by decide) (by decide) (by decide) (by decide)).imp
    fun _ h => h.imp fun _ g => ⟨g.1, g.2.1, g.2.2.1, g.2.2.2.1,
      g.2.2.2.2.2.2.1 (by decide) (by decide), g.2.2.2.2.2.2.2.1⟩

/-- The fields of the 16-byte header of a block response built like the local
`OHCIRspBlockPacket`: six bytes are never assigned, `data_length` is at byte 14. -/
theorem rsp_block_fields (f d j4 rc src len : Nat) (j : List Nat) (hj : j.length = 6) :
    (le_bytes 2 f ++ le_bytes 2 d ++ [j4, rc % 256] ++ le_bytes 2 src ++ j ++
      le_bytes 2 len).length = 16 ∧
    rsp_flags_field (le_bytes 2 f ++ le_bytes 2 d ++ [j4, rc % 256] ++ le_bytes 2 src ++ j ++
      le_bytes 2 len) = f % 0x10000 ∧
    rsp_r_code (le_bytes 2 f ++ le_bytes 2 d ++ [j4, rc % 256] ++ le_bytes 2 src ++ j ++
      le_bytes 2 len) = rc % 256 ∧
    rsp_data_length (le_bytes 2 f ++ le_bytes 2 d ++ [j4, rc % 256] ++ le_bytes 2 src ++ j ++
      le_bytes 2 len) = len % 0x10000 := by
  rcases j with _ | ⟨a0, _ | ⟨a1, _ | ⟨a2, _ | ⟨a3, _ | ⟨a4, _ | ⟨a5, _ | ⟨a6, t⟩⟩⟩⟩⟩⟩⟩ <;>
    simp at hj
  unfold rsp_flags_field rsp_r_code rsp_data_length
  refine ⟨?_, ?_, ?_, ?_⟩ <;>
    simp only [le_bytes, List.cons_append, List.nil_append, List.length_cons, List.length_nil,
      List.take, List.drop, le_val, List.getD_cons_succ, List.getD_cons_zero, List.append_nil,
      Nat.mod_mod, Nat.reduceMul] <;>
    first
    | rfl
    | omega

/-- The function `hcd_chr_request_block_read` once 16 bytes are in the buffer;
`r` is the data and the `r_code` its address test produces. -/
theorem block_read_done (s : OHCI1394State) (inp : List Nat) (sN : OHCI1394State)
    (r : List Nat × Nat)
    (hN : sN = (hcd_fill_buffer s inp 16).1) (h : sN.bufpos = 16)
    (hr : r =
      if buf_val sN 4 2 = 0xFFFF then
        if buf_val sN 8 4 &&& 0xFFFFFC00 = 0xF0000400 then
          (dma_memory_read sN.mem
            ((sN.reg OFF_config_rom_map + (buf_val sN 8 4 &&& 0x3ff)) % 0x100000000)
            (buf_val sN 14 2), RESP_COMPLETE)
        else ([], RESP_ADDRESS_ERROR)
      else if buf_val sN 4 2 = 0x0000 then
        if dma_read_fails sN (buf_val sN 8 4) (buf_val sN 14 2) then ([], RESP_ADDRESS_ERROR)
        else (dma_memory_read sN.mem (buf_val sN 8 4) (buf_val sN 14 2), RESP_COMPLETE)
      else ([], RESP_ADDRESS_ERROR)) :
    hcd_chr_request_block_read s inp =
      (true, set_bufpos
        (if r.2 = RESP_COMPLETE then
          qemu_chr_fe_write (qemu_chr_fe_write sN
            (le_bytes 2 (rsp_flags 0x70 (buf_val sN 0 4)) ++ le_bytes 2 (buf_val sN 6 2 ^^^ 1) ++
              [sN.junk 4 % 256, r.2 % 256] ++ le_bytes 2 (buf_val sN 6 2) ++
              (dma_memory_read sN.junk 8 6).map (fun b => b % 256) ++
              le_bytes 2 (buf_val sN 14 2))) (r.1.map (fun b => b % 256))
        else
          qemu_chr_fe_write sN
            (le_bytes 2 (rsp_flags 0x70 (buf_val sN 0 4)) ++ le_bytes 2 (buf_val sN 6 2 ^^^ 1) ++
              [sN.junk 4 % 256, r.2 % 256] ++ le_bytes 2 (buf_val sN 6 2) ++
              (dma_memory_read sN.junk 8 6).map (fun b => b % 256) ++
              le_bytes 2 (buf_val sN 14 2))) 0) := by
  unfold hcd_chr_request_block_read
  simp only []
  rw [← hN, if_neg (by omega), if_neg (by omega), ← hr]

/-- The result of the address test of the block read handler: either
RESP_COMPLETE with as many bytes as asked for, or RESP_ADDRESS_ERROR with none. -/
theorem block_read_test (sN : OHCI1394State) (hi lo n : Nat) (r : List Nat × Nat)
    (hr : r =
      if hi = 0xFFFF then
        if lo &&& 0xFFFFFC00 = 0xF0000400 then
          (dma_memory_read sN.mem ((sN.reg OFF_config_rom_map + (lo &&& 0x3ff)) % 0x100000000) n,
            RESP_COMPLETE)
        else ([], RESP_ADDRESS_ERROR)
      else if hi = 0x0000 then
        if dma_read_fails sN lo n then ([], RESP_ADDRESS_ERROR)
        else (dma_memory_read sN.mem lo n, RESP_COMPLETE)
      else ([], RESP_ADDRESS_ERROR)) :
    ((r.2 = RESP_COMPLETE ∧ r.1.length = n) ∨ (r.2 = RESP_ADDRESS_ERROR ∧ r.1 = [])) ∧
    (¬ (hi = 0xFFFF ∧ lo &&& 0xFFFFFC00 = 0xF0000400) →
      ¬ (hi = 0 ∧ dma_read_fails sN lo n = false) → r.2 = RESP_ADDRESS_ERROR) := by
  subst hr
  constructor
  · split_ifs
    · exact Or.inl ⟨rfl, dma_memory_read_length _ _ _⟩
    · exact Or.inr ⟨rfl, rfl⟩
    · exact Or.inr ⟨rfl, rfl⟩
    · exact Or.inl ⟨rfl, dma_memory_read_length _ _ _⟩
    · exact Or.inr ⟨rfl, rfl⟩
  · intro h1 h2
    by_cases a : hi = 0xFFFF
    · rw [if_pos a, if_neg (fun h => h1 ⟨a, h⟩)]
    · rw [if_neg a]
      by_cases b : hi = 0
      · rw [if_pos b]
        by_cases c : dma_read_fails sN lo n = true
        · rw [if_pos c]
        · exact absurd ⟨b, by simpa using c⟩ h2
      · rw [if_neg b]

/-- C35, the code: in state CONNECTED with linkEnable set and an empty buffer, a
received 16-byte block read request (t_code 0x50) makes `hcd_chr_receive`
return with a 16-byte response header sent whose t_code is 0x70 and whose
`data_length` is the `data_length` of the request, followed by a payload.  When
the `r_code` is RESP_COMPLETE the payload has `data_length` bytes.  Otherwise
the `r_code` is RESP_ADDRESS_ERROR and the payload is empty, while the header
still announces the `data_length` of the request: for a request with a non-zero
`data_length` outside both address windows the bytes after the header are fewer
than the header announces. -/
theorem hcd_chr_receive_block_read (fuel : Nat) (s : OHCI1394State) (p : List Nat)
    (hst : s.state = HCD_STATE_CONNECTED)
    (hle : s.reg OFF_hc_control &&& HCCONTROL_LINK_ENABLE_MASK ≠ 0) (hp0 : s.bufpos = 0)
    (hlen : p.length = 16) (htc : packet_tcode p = 0x50) :
    ∃ s' h payload, hcd_chr_receive (fuel + 1) s p = some s' ∧
      s'.chr = s.chr ++ h ++ payload ∧ h.length = 16 ∧ rsp_flags_field h &&& 0xF0 = 0x70 ∧
      rsp_data_length h = req_data_length p ∧
      ((rsp_r_code h = RESP_COMPLETE ∧ payload.length = req_data_length p) ∨
        (rsp_r_code h = RESP_ADDRESS_ERROR ∧ payload = [])) ∧
      (¬ (req_destination_offset_high p = 0xFFFF ∧
          req_destination_offset_low p &&& 0xFFFFFC00 = 0xF0000400) →
        ¬ (req_destination_offset_high p = 0 ∧
          dma_read_fails s (req_destination_offset_low p) (req_data_length p) = false) →
        rsp_r_code h = RESP_ADDRESS_ERROR ∧ payload = []) ∧
      s'.bufpos = 0 ∧ s'.regs = s.regs := by
  have hw : le_val (p.take 4) ≠ 0xFFFFFFFE := by
    intro h
    unfold packet_tcode at htc
    rw [h] at htc
    exact absurd htc (by decide)
  obtain ⟨hrun, hv⟩ := hcd_chr_receive_packet fuel s p hst hle hp0 (by omega) hw
  obtain ⟨-, -, -, b1, -, b3, -⟩ := two_fills s p 16 hp0 (by decide) (by omega)
  obtain ⟨f1, f2, f3, f4, f5, f6, -⟩ := hcd_fill_buffer_frame (hcd_fill_buffer s p 4).1
    (hcd_fill_buffer s p 4).2 16
  obtain ⟨g1, g2, g3, g4, g5, g6, -⟩ := hcd_fill_buffer_frame s p 4
  obtain ⟨sN, hN⟩ : ∃ sN, sN = (hcd_fill_buffer (hcd_fill_buffer s p 4).1
    (hcd_fill_buffer s p 4).2 16).1 := ⟨_, rfl⟩
  rw [← hN] at b1 b3 f1 f2 f3 f4 f5 f6
  have e1 : sN.regs = s.regs := f1.trans g1
  have e2 : sN.chr = s.chr := f2.trans g2
  have e6 : sN.dma_err = s.dma_err := f6.trans g6
  have ht : le_val (p.take 4) &&& 0x000000F0 = 0x50 := htc
  have hpk : chr_receive_packet fuel (hcd_fill_buffer s p 4).1 (hcd_fill_buffer s p 4).2 =
      some (hcd_chr_request_block_read (hcd_fill_buffer s p 4).1
        (hcd_fill_buffer s p 4).2).2 := by
    unfold chr_receive_packet
    simp only []
    rw [hv, if_neg (by rw [ht]; decide), if_neg (by rw [ht]; decide),
      if_neg (by rw [ht]; decide), if_neg (by rw [ht]; decide), if_pos ht]
  have v0 : buf_val sN 0 4 = req_flags p := buf_val_read sN p 16 0 4 b3 (by omega) (by omega)
  have v4 : buf_val sN 4 2 = req_destination_offset_high p :=
    buf_val_read sN p 16 4 2 b3 (by omega) (by omega)
  have v8 : buf_val sN 8 4 = req_destination_offset_low p :=
    buf_val_read sN p 16 8 4 b3 (by omega) (by omega)
  have v14 : buf_val sN 14 2 = req_data_length p :=
    buf_val_read sN p 16 14 2 b3 (by omega) (by omega)
  have hfail : dma_read_fails sN (req_destination_offset_low p) (req_data_length p) =
      dma_read_fails s (req_destination_offset_low p) (req_data_length p) := by
    unfold dma_read_fails; rw [e6]
  obtain ⟨r, hr⟩ : ∃ r : List Nat × Nat, r =
      if buf_val sN 4 2 = 0xFFFF then
        if buf_val sN 8 4 &&& 0xFFFFFC00 = 0xF0000400 then
          (dma_memory_read sN.mem
            ((sN.reg OFF_config_rom_map + (buf_val sN 8 4 &&& 0x3ff)) % 0x100000000)
            (buf_val sN 14 2), RESP_COMPLETE)
        else ([], RESP_ADDRESS_ERROR)
      else if buf_val sN 4 2 = 0x0000 then
        if dma_read_fails sN (buf_val sN 8 4) (buf_val sN 14 2) then ([], RESP_ADDRESS_ERROR)
        else (dma_memory_read sN.mem (buf_val sN 8 4) (buf_val sN 14 2), RESP_COMPLETE)
      else ([], RESP_ADDRESS_ERROR) := ⟨_, rfl⟩
  rw [block_read_done _ _ sN r hN b1 hr] at hpk
  obtain ⟨t1, t2⟩ := block_read_test sN (buf_val sN 4 2) (buf_val sN 8 4) (buf_val sN 14 2) r hr
  rw [v14] at t1
  rw [v4, v8, v14, hfail] at t2
  have hlen14 : req_data_length p < 0x10000 := by rw [← v14]; exact buf_val_lt_2 _ _
  obtain ⟨q1, q2, -, -⟩ := rsp_flags_fields 0x70 (req_flags p) (by decide) (by decide)
    (by decide)
  obtain ⟨k1, k2, k3, k4⟩ := rsp_block_fields (rsp_flags 0x70 (buf_val sN 0 4))
    (buf_val sN 6 2 ^^^ 1) (sN.junk 4 % 256) r.2 (buf_val sN 6 2) (buf_val sN 14 2)
    ((dma_memory_read sN.junk 8 6).map (fun b => b % 256)) (by simp [dma_memory_read])
  have hrc : r.2 % 256 = r.2 := by
    rcases t1 with ⟨h, -⟩ | ⟨h, -⟩ <;> rw [h] <;> rfl
  refine ⟨_, _, (if r.2 = RESP_COMPLETE then r.1.map (fun b => b % 256) else []),
    hrun.trans hpk, ?_, k1, ?_, ?_, ?_, ?_, ?_, ?_⟩
  · by_cases hc : r.2 = RESP_COMPLETE
    · rw [if_pos hc, if_pos hc]
      show (sN.chr ++ _) ++ _ = _
      rw [e2]
    · rw [if_neg hc, if_neg hc]
      show sN.chr ++ _ = _
      rw [e2, List.append_nil]
  · rw [k2, v0, Nat.mod_eq_of_lt q1, q2]
  · rw [k4, v14, Nat.mod_eq_of_lt hlen14]
  · rw [k3, hrc]
    rcases t1 with ⟨h, hl⟩ | ⟨h, hl⟩
    · refine Or.inl ⟨h, ?_⟩
      rw [if_pos h, List.length_map, hl]
    · refine Or.inr ⟨h, ?_⟩
      rw [if_neg (by rw [h]; decide)]
  · intro h1 h2
    rw [k3, hrc, t2 h1 h2]
    exact ⟨rfl, by rw [if_neg (by decide)]⟩
  · by_cases hc : r.2 = RESP_COMPLETE
    · rw [if_pos hc]; rfl
    · rw [if_neg hc]; rfl
  · by_cases hc : r.2 = RESP_COMPLETE
    · rw [if_pos hc]; exact e1
    · rw [if_neg hc]; exact e1

/-- Witness for C35: the Connected device receives a block read request for 8
bytes at the bus address 0x1234 : 0x4004, outside both windows: the response
header announces `data_length` 8 with the `r_code` 0x70, and no payload follows. -/
theorem hcd_chr_receive_block_read_witness :
    ∃ s' h payload, hcd_chr_receive 1 connected_dev (block_read_req 0x1234 0x4004 8) = some s' ∧
      s'.chr = connected_dev.chr ++ h ++ payload ∧ h.length = 16 ∧
      rsp_data_length h = 8 ∧ rsp_r_code h = RESP_ADDRESS_ERROR ∧ payload = [] :=
  (hcd_chr_receive_block_read 0 connected_dev (block_read_req 0x1234 0x4004 8) (by decide)
    (by decide) (by decide) (by decide) (by decide)).imp
    fun _ a => a.imp fun _ b => b.imp fun _ g => ⟨g.1, g.2.1, g.2.2.1,
      g.2.2.2.2.1.trans (by decide), (g.2.2.2.2.2.2.1 (by decide) (by decide)).1,
      (g.2.2.2.2.2.2.1 (by decide) (by decide)).2⟩

/-- A handler that fills the buffer once ignores the input after the bytes it
waits for. -/
theorem single_fill_append (s : OHCI1394State) (inp q : List Nat) (fuel : Nat) :
    (16 - s.bufpos ≤ inp.length →
      hcd_chr_request_quadlet_write s (inp ++ q) = hcd_chr_request_quadlet_write s inp ∧
      hcd_chr_request_block_read s (inp ++ q) = hcd_chr_request_block_read s inp ∧
      hcd_chr_response_quadlet_read fuel s (inp ++ q) =
        hcd_chr_response_quadlet_read fuel s inp) ∧
    (12 - s.bufpos ≤ inp.length →
      hcd_chr_request_quadlet_read s (inp ++ q) = hcd_chr_request_quadlet_read s inp ∧
      hcd_chr_response_quadlet_write fuel s (inp ++ q) =
        hcd_chr_response_quadlet_write fuel s inp) := by
  constructor
  · intro h
    refine ⟨?_, ?_, ?_⟩
    · unfold hcd_chr_request_quadlet_write
      rw [(hcd_fill_buffer_append s inp q 16 h).1]
    · unfold hcd_chr_request_block_read
      rw [(hcd_fill_buffer_append s inp q 16 h).1]
    · unfold hcd_chr_response_quadlet_read
      rw [(hcd_fill_buffer_append s inp q 16 h).1]
  · intro h
    refine ⟨?_, ?_⟩
    · unfold hcd_chr_request_quadlet_read
      rw [(hcd_fill_buffer_append s inp q 12 h).1]
    · unfold hcd_chr_response_quadlet_write
      rw [(hcd_fill_buffer_append s inp q 12 h).1]

/-- A handler of a block packet that carries data ignores the input after the
header and the `data_length` bytes it waits for. -/
theorem block_fill_append (s : OHCI1394State) (inp q : List Nat) (fuel : Nat)
    (h : 16 - s.bufpos ≤ inp.length)
    (h2 : 16 + buf_val (hcd_fill_buffer s inp 16).1 14 2 - (hcd_fill_buffer s inp 16).1.bufpos ≤
      (hcd_fill_buffer s inp 16).2.length) :
    hcd_chr_request_block_write s (inp ++ q) = hcd_chr_request_block_write s inp ∧
    hcd_chr_response_block_read fuel s (inp ++ q) = hcd_chr_response_block_read fuel s inp := by
  constructor
  · unfold hcd_chr_request_block_write
    simp only []
    rw [(hcd_fill_buffer_append s inp q 16 h).1, (hcd_fill_buffer_append s inp q 16 h).2,
      (hcd_fill_buffer_append _ _ q _ h2).1]
  · unfold hcd_chr_response_block_read
    simp only []
    rw [(hcd_fill_buffer_append s inp q 16 h).1, (hcd_fill_buffer_append s inp q 16 h).2,
      (hcd_fill_buffer_append _ _ q _ h2).1]

/-- C31, the code: in state CONNECTED with linkEnable set and an empty buffer,
one `hcd_chr_receive` call that carries a complete well-formed packet `p`
followed by any bytes `q` gives the result of the call that carries `p` alone:
the CONNECTED block returns after the handler of `p`, and the bytes of `q` are
neither handled nor kept. -/
theorem hcd_chr_receive_drops_rest (fuel : Nat) (s : OHCI1394State) (p q : List Nat)
    (hst : s.state = HCD_STATE_CONNECTED)
    (hle : s.reg OFF_hc_control &&& HCCONTROL_LINK_ENABLE_MASK ≠ 0) (hp0 : s.bufpos = 0)
    (hwf : well_formed p) :
    hcd_chr_receive (fuel + 1) s (p ++ q) = hcd_chr_receive (fuel + 1) s p := by
  obtain ⟨-, htc, hlen⟩ := hwf
  have h4 : 4 ≤ p.length := by
    rw [hlen]; unfold packet_size; split_ifs <;> omega
  have htake : (p ++ q).take 4 = p.take 4 := List.take_append_of_le_length h4
  have hw : le_val (p.take 4) ≠ 0xFFFFFFFE := by
    intro h
    unfold packet_tcode at htc
    rw [h] at htc
    exact absurd htc (by decide)
  obtain ⟨hrun, hv⟩ := hcd_chr_receive_packet fuel s p hst hle hp0 h4 hw
  obtain ⟨hrun2, -⟩ := hcd_chr_receive_packet fuel s (p ++ q) hst hle hp0
    (by rw [List.length_append]; omega) (by rw [htake]; exact hw)
  obtain ⟨a1, a2⟩ := hcd_fill_buffer_append s p q 4 (by omega)
  rw [hrun, hrun2, a1, a2]
  obtain ⟨b1, b2, -⟩ := two_fills s p 4 hp0 (le_refl 4) h4
  obtain ⟨s4, e4⟩ : ∃ s4, s4 = (hcd_fill_buffer s p 4).1 := ⟨_, rfl⟩
  obtain ⟨rest, er⟩ : ∃ rest, rest = (hcd_fill_buffer s p 4).2 := ⟨_, rfl⟩
  rw [← e4] at hv b1 ⊢
  rw [← er] at b2 ⊢
  have hrl : rest.length = p.length - 4 := by rw [b2, List.length_drop]
  have ht : buf_val s4 0 4 &&& 0x000000F0 = packet_tcode p := by rw [hv]; rfl
  obtain ⟨c16, c12⟩ := single_fill_append s4 rest q fuel
  have hblock : p.length = 16 + le_val ((p.drop 14).take 2) →
      hcd_chr_request_block_write s4 (rest ++ q) = hcd_chr_request_block_write s4 rest ∧
      hcd_chr_response_block_read fuel s4 (rest ++ q) =
        hcd_chr_response_block_read fuel s4 rest := by
    intro hl
    obtain ⟨-, -, -, d1, d2, d3, -⟩ := two_fills s p 16 hp0 (by decide) (by omega)
    rw [← e4, ← er] at d1 d2 d3
    apply block_fill_append s4 rest q fuel (by omega)
    rw [d1, d2, List.length_drop, buf_val_read _ p 16 14 2 d3 (by omega) (by omega)]
    omega
  unfold packet_size at hlen
  unfold chr_receive_packet
  simp only []
  rw [ht]
  by_cases t0 : packet_tcode p = 0x00
  · rw [if_pos t0] at hlen
    rw [if_pos t0, if_pos t0, (c16 (by omega)).1]
  rw [if_neg t0] at hlen
  rw [if_neg t0, if_neg t0]
  by_cases t1 : packet_tcode p = 0x10
  · rw [if_pos t1] at hlen
    rw [if_pos t1, if_pos t1, (hblock hlen).1]
  rw [if_neg t1] at hlen
  rw [if_neg t1, if_neg t1]
  by_cases t2 : packet_tcode p = 0x20
  · rw [if_pos t2] at hlen
    rw [if_pos t2, if_pos t2, (c12 (by omega)).2]
  rw [if_neg t2] at hlen
  rw [if_neg t2, if_neg t2]
  by_cases t3 : packet_tcode p = 0x40
  · rw [if_pos t3] at hlen
    rw [if_pos t3, if_pos t3, (c12 (by omega)).1]
  rw [if_neg t3] at hlen
  rw [if_neg t3, if_neg t3]
  by_cases t5 : packet_tcode p = 0x50
  · rw [if_pos t5] at hlen
    rw [if_pos t5, if_pos t5, (c16 (by omega)).2.1]
  rw [if_neg t5] at hlen
  rw [if_neg t5, if_neg t5]
  by_cases t6 : packet_tcode p = 0x60
  · rw [if_pos t6] at hlen
    rw [if_pos t6, if_pos t6, (c16 (by omega)).2.2]
  rw [if_neg t6] at hlen
  rw [if_neg t6, if_neg t6]
  by_cases t7 : packet_tcode p = 0x70
  · rw [if_pos t7] at hlen
    rw [if_pos t7, if_pos t7, (hblock hlen).2]
  rw [if_neg t7, if_neg t7]

/-- Witness for C31: the Connected device receives two quadlet write requests.
In one call only the first is answered (12 bytes of response after the 10 bytes
sent before); in two calls both are (24 bytes of response). -/
theorem hcd_chr_receive_drops_rest_witness :
    well_formed quadlet_write_req ∧
    hcd_chr_receive 1 connected_dev (quadlet_write_req ++ quadlet_write_req) =
      hcd_chr_receive 1 connected_dev quadlet_write_req ∧
    (hcd_chr_receive 1 connected_dev (quadlet_write_req ++ quadlet_write_req)).map
      (fun s => (s.chr.length, s.bufpos)) = some (22, 0) ∧
    ((hcd_chr_receive 1 connected_dev quadlet_write_req).bind
      (fun s => hcd_chr_receive 1 s quadlet_write_req)).map
      (fun s => (s.chr.length, s.bufpos)) = some (34, 0) :=
  ⟨⟨by decide, by decide, by decide⟩,
    hcd_chr_receive_drops_rest 0 connected_dev quadlet_write_req quadlet_write_req (by decide)
      (by decide) (by decide) ⟨by decide, by decide, by decide⟩,
    by decide, by decide⟩

/-- The function `hcd_check_irq` leaves the reassembly buffer alone. -/
theorem hcd_check_irq_buf (s : OHCI1394State) :
    (hcd_check_irq s).bufpos = s.bufpos ∧ (hcd_check_irq s).buf = s.buf := by
  unfold hcd_check_irq; split_ifs <;> exact ⟨rfl, rfl⟩

theorem rx_rsp_step_buf (s : OHCI1394State) (l : RxLocals) :
    ((rx_rsp_step s l).1.bufpos, (rx_rsp_step s l).1.buf) = (s.bufpos, s.buf) := by
  unfold rx_rsp_step rx_case0 rx_case1 rx_next_db; simp only []; split_ifs <;> rfl

/-- AR-response delivery leaves the reassembly buffer alone. -/
theorem rx_rsp_packet_buf (fuel : Nat) (s s' : OHCI1394State) (buf : List Nat)
    (size response : Nat) (h : hcd_async_rx_rsp_packet fuel s buf size response = some s') :
    s'.bufpos = s.bufpos ∧ s'.buf = s.buf := by
  unfold hcd_async_rx_rsp_packet at h
  split_ifs at h with h0
  · simp at h; rw [← h]; exact ⟨rfl, rfl⟩
  · simp only [Option.map_eq_some'] at h
    obtain ⟨s1, hl, rfl⟩ := h
    have e1 := rx_rsp_loop_preserves (fun s => (s.bufpos, s.buf)) rx_rsp_step_buf _ _ _ _ hl
    simp only [Prod.mk.injEq] at e1
    unfold rx_rsp_finish
    rw [(hcd_check_irq_buf _).1, (hcd_check_irq_buf _).2]
    exact e1

theorem bus_reset_begin_buf (s : OHCI1394State) :
    (bus_reset_begin s).bufpos = s.bufpos ∧ (bus_reset_begin s).buf = s.buf := by
  unfold bus_reset_begin; simp only []; split_ifs <;> exact ⟨rfl, rfl⟩

theorem hcd_complete_self_id_buf (s : OHCI1394State) :
    (hcd_complete_self_id s).bufpos = s.bufpos ∧ (hcd_complete_self_id s).buf = s.buf := by
  unfold hcd_complete_self_id
  simp only []
  rw [(hcd_check_irq_buf _).1, (hcd_check_irq_buf _).2]
  unfold self_id_stream complete_node_id
  simp only []
  split_ifs <;> exact ⟨rfl, rfl⟩

/-- The function `hcd_bus_reset` leaves the reassembly buffer alone. -/
theorem hcd_bus_reset_buf (fuel : Nat) (s s' : OHCI1394State)
    (h : hcd_bus_reset fuel s = some s') : s'.bufpos = s.bufpos ∧ s'.buf = s.buf := by
  unfold hcd_bus_reset at h
  simp only [Option.map_eq_some'] at h
  obtain ⟨s1, hr, rfl⟩ := h
  rw [(hcd_complete_self_id_buf _).1, (hcd_complete_self_id_buf _).2]
  unfold bus_reset_deliver at hr
  split_ifs at hr with h1
  · obtain ⟨a, b⟩ := rx_rsp_packet_buf _ _ _ _ _ _ hr
    rw [a, b]; exact bus_reset_begin_buf s
  · simp at hr; rw [← hr]; exact bus_reset_begin_buf s

theorem hcd_phy_write_buf (fuel : Nat) (s s' : OHCI1394State) (reg data : Nat)
    (h : hcd_phy_write fuel s reg data = some s') : s'.bufpos = s.bufpos ∧ s'.buf = s.buf := by
  unfold hcd_phy_write at h
  split_ifs at h
  · simp at h; rw [← h]; exact ⟨rfl, rfl⟩
  · exact hcd_bus_reset_buf _ (set_phy s reg (data &&& 0xBF)) _ h
  · simp at h; rw [← h]; exact ⟨rfl, rfl⟩
  · simp at h; rw [← h]; exact ⟨rfl, rfl⟩
  · simp at h; rw [← h]; exact ⟨rfl, rfl⟩

theorem mmio_write_phy_control_buf (fuel : Nat) (s s' : OHCI1394State) (data : Nat)
    (h : mmio_write_phy_control fuel s data = some s') :
    s'.bufpos = s.bufpos ∧ s'.buf = s.buf := by
  unfold mmio_write_phy_control at h
  simp only [] at h
  split_ifs at h with h1 h2 h2
  all_goals first
    | (simp only [Option.map_eq_some'] at h
       obtain ⟨s1, hw, rfl⟩ := h
       obtain ⟨a, b⟩ := hcd_phy_write_buf _ _ _ _ _ hw
       exact ⟨a, b⟩)
    | (simp only [Option.some.injEq] at h; rw [← h]; exact ⟨rfl, rfl⟩)

theorem mmio_write_arms_buf (s : OHCI1394State) (a d : Nat) :
    ((mmio_write_csr_control s d).bufpos = s.bufpos ∧ (mmio_write_csr_control s d).buf = s.buf) ∧
    ((mmio_write_hc_control_set s d).bufpos = s.bufpos ∧
      (mmio_write_hc_control_set s d).buf = s.buf) ∧
    ((mmio_write_at_context_set s a d).bufpos = s.bufpos ∧
      (mmio_write_at_context_set s a d).buf = s.buf) ∧
    ((mmio_write_ar_context_set s a d).bufpos = s.bufpos ∧
      (mmio_write_ar_context_set s a d).buf = s.buf) ∧
    ((mmio_write_ar_context_clear s a d).bufpos = s.bufpos ∧
      (mmio_write_ar_context_clear s a d).buf = s.buf) := by
  refine ⟨?_, ?_, ?_, ?_, ?_⟩
  · unfold mmio_write_csr_control; split_ifs <;> exact ⟨rfl, rfl⟩
  · unfold mmio_write_hc_control_set hc_control_link_up; simp only []
    split_ifs <;> exact ⟨rfl, rfl⟩
  · unfold mmio_write_at_context_set at_context_kick; simp only []
    split_ifs <;> exact ⟨rfl, rfl⟩
  · unfold mmio_write_ar_context_set hcd_async_rx_run hcd_async_rx_wake; simp only []
    split_ifs <;> exact ⟨rfl, rfl⟩
  · unfold mmio_write_ar_context_clear; simp only []
    split_ifs <;> exact ⟨rfl, rfl⟩

theorem mmio_write_switch_buf (fuel : Nat) (s s' : OHCI1394State) (addr data : Nat)
    (h : mmio_write_switch fuel s addr data = some s') :
    s'.bufpos = s.bufpos ∧ s'.buf = s.buf := by
  obtain ⟨a1, a2, a3, a4, a5⟩ := mmio_write_arms_buf s addr data
  unfold mmio_write_switch at h
  repeat' (with_reducible refine ite_some_elim h (fun h => ?_) (fun h => ?_))
  all_goals first
    | exact mmio_write_phy_control_buf _ _ _ _ h
    | (simp only [Option.some.injEq] at h; rw [← h]; first
        | exact ⟨rfl, rfl⟩
        | exact a1
        | exact a2
        | exact a3
        | exact a4
        | exact a5)

/-- The function `hcd_mmio_write` leaves the reassembly buffer alone. -/
theorem hcd_mmio_write_buf (fuel : Nat) (s s' : OHCI1394State) (addr data : Nat)
    (h : hcd_mmio_write fuel s addr data = some s') :
    s'.bufpos = s.bufpos ∧ s'.buf = s.buf := by
  unfold hcd_mmio_write at h
  simp only [Option.map_eq_some'] at h
  obtain ⟨s1, hw, rfl⟩ := h
  rw [(hcd_check_irq_buf _).1, (hcd_check_irq_buf _).2]
  exact mmio_write_switch_buf _ _ _ _ _ hw

/-- The function `hcd_chr_event` leaves the reassembly buffer alone: neither
the open nor the close of the transport resets `bufpos`. -/
theorem hcd_chr_event_buf (fuel : Nat) (s s' : OHCI1394State) (ev : ChrEvent)
    (h : hcd_chr_event fuel s ev = some s') : s'.bufpos = s.bufpos ∧ s'.buf = s.buf := by
  unfold hcd_chr_event at h
  split_ifs at h with hm
  · simp at h; rw [← h]; exact ⟨rfl, rfl⟩
  · cases ev with
    | opened =>
      simp only [] at h
      split_ifs at h
      · exact hcd_bus_reset_buf _
          (qemu_chr_fe_write (qemu_chr_fe_write (set_state s HCD_STATE_MAGIC)
            [0x31, 0x33, 0x39, 0x34]) (le_bytes 4 0xFFFFFFFF)) _ h
      · simp at h; rw [← h]; exact ⟨rfl, rfl⟩
      · simp at h; rw [← h]; exact ⟨rfl, rfl⟩
    | closed =>
      simp only [] at h
      exact hcd_bus_reset_buf _ ((set_phy (set_phy_page (set_state s HCD_STATE_UNPLUGGED) 0 0 0x08)
        5 ((set_phy_page (set_state s HCD_STATE_UNPLUGGED) 0 0 0x08).phy 5 ||| 0x04)).or_reg
          OFF_int_event (1 <<< 19)) _ h
    | other => simp at h; rw [← h]; exact ⟨rfl, rfl⟩

/-- The bounds of the reassembly buffer carry over to a device with the same
buffer and the same or a zero `bufpos`. -/
theorem buf_bounds_frame (s s' : OHCI1394State)
    (h : (s'.bufpos = s.bufpos ∨ s'.bufpos = 0) ∧ s'.buf = s.buf)
    (hP : s.bufpos ≤ 16 + 65535 ∧ ∀ i, 16 + 65535 ≤ i → s.buf i = 0) :
    s'.bufpos ≤ 16 + 65535 ∧ ∀ i, 16 + 65535 ≤ i → s'.buf i = 0 := by
  obtain ⟨h1, h2⟩ := h
  rw [h2]
  refine ⟨?_, hP.2⟩
  rcases h1 with h1 | h1 <;> rw [h1]
  · exact hP.1
  · omega

/-- The function `hcd_fill_buffer` keeps the bounds of the reassembly buffer when
it is asked for at most 16 + 65535 bytes. -/
theorem buf_bounds_fill (s : OHCI1394State) (inp : List Nat) (n : Nat) (hn : n ≤ 16 + 65535)
    (hP : s.bufpos ≤ 16 + 65535 ∧ ∀ i, 16 + 65535 ≤ i → s.buf i = 0) :
    (hcd_fill_buffer s inp n).1.bufpos ≤ 16 + 65535 ∧
    ∀ i, 16 + 65535 ≤ i → (hcd_fill_buffer s inp n).1.buf i = 0 := by
  obtain ⟨-, b2, b3, -⟩ := hcd_fill_buffer_bound s inp n
  refine ⟨?_, ?_⟩
  · have := hP.1
    omega
  · intro i hi
    rw [b3 i (by omega)]
    exact hP.2 i hi

/-- The second fill of a block handler asks for at most 16 + 65535 bytes. -/
theorem buf_bounds_fill_block (s : OHCI1394State) (inp : List Nat)
    (hP : s.bufpos ≤ 16 + 65535 ∧ ∀ i, 16 + 65535 ≤ i → s.buf i = 0) :
    (hcd_fill_buffer s inp (16 + buf_val s 14 2)).1.bufpos ≤ 16 + 65535 ∧
    ∀ i, 16 + 65535 ≤ i → (hcd_fill_buffer s inp (16 + buf_val s 14 2)).1.buf i = 0 := by
  have := buf_val_lt_2 s 14
  exact buf_bounds_fill s inp _ (by omega) hP

/-- A handler that ends with `s->bufpos = 0` and has not written the buffer. -/
theorem buf_bounds_done (sN X : OHCI1394State) (b : Bool) (hX : X.buf = sN.buf)
    (hP : sN.bufpos ≤ 16 + 65535 ∧ ∀ i, 16 + 65535 ≤ i → sN.buf i = 0) :
    (b, set_bufpos X 0).2.bufpos ≤ 16 + 65535 ∧
    ∀ i, 16 + 65535 ≤ i → (b, set_bufpos X 0).2.buf i = 0 := by
  refine ⟨Nat.zero_le _, ?_⟩
  show ∀ i, 16 + 65535 ≤ i → X.buf i = 0
  rw [hX]
  exact hP.2

theorem ite_buf (c : Prop) [Decidable c] (A B sN : OHCI1394State) (hA : A.buf = sN.buf)
    (hB : B.buf = sN.buf) : (if c then A else B).buf = sN.buf := by
  split_ifs
  · exact hA
  · exact hB

theorem buf_bounds_request_quadlet_write (s : OHCI1394State) (inp : List Nat)
    (hP : s.bufpos ≤ 16 + 65535 ∧ ∀ i, 16 + 65535 ≤ i → s.buf i = 0) :
    (hcd_chr_request_quadlet_write s inp).2.bufpos ≤ 16 + 65535 ∧
    ∀ i, 16 + 65535 ≤ i → (hcd_chr_request_quadlet_write s inp).2.buf i = 0 := by
  have h1 := buf_bounds_fill s inp 16 (by omega) hP
  unfold hcd_chr_request_quadlet_write
  simp only []
  split_ifs
  · exact h1
  · exact h1
  · refine buf_bounds_done (hcd_fill_buffer s inp 16).1 _ _ ?_ h1
    rfl

/-- The block read handler either waits with the buffer as `hcd_fill_buffer`
left it, or ends with `s->bufpos = 0` without writing the buffer. -/
theorem block_read_shape (s : OHCI1394State) (inp : List Nat) :
    hcd_chr_request_block_read s inp = (false, (hcd_fill_buffer s inp 16).1) ∨
    ∃ X, hcd_chr_request_block_read s inp = (true, set_bufpos X 0) ∧
      X.buf = (hcd_fill_buffer s inp 16).1.buf := by
  by_cases c : (hcd_fill_buffer s inp 16).1.bufpos = 16
  · exact Or.inr ⟨_, block_read_done s inp (hcd_fill_buffer s inp 16).1 _ rfl c rfl,
      ite_buf _ _ _ _ rfl rfl⟩
  · left
    unfold hcd_chr_request_block_read
    simp only []
    by_cases c1 : (hcd_fill_buffer s inp 16).1.bufpos < 16
    · rw [if_pos c1]
    · rw [if_neg c1, if_pos (by omega)]

theorem quadlet_read_shape (s : OHCI1394State) (inp : List Nat) :
    hcd_chr_request_quadlet_read s inp = (false, (hcd_fill_buffer s inp 12).1) ∨
    ∃ X, hcd_chr_request_quadlet_read s inp = (true, set_bufpos X 0) ∧
      X.buf = (hcd_fill_buffer s inp 12).1.buf := by
  by_cases c : (hcd_fill_buffer s inp 12).1.bufpos = 12
  · exact Or.inr ⟨_, quadlet_read_done s inp (hcd_fill_buffer s inp 12).1 _ rfl c rfl, rfl⟩
  · left
    unfold hcd_chr_request_quadlet_read
    simp only []
    by_cases c1 : (hcd_fill_buffer s inp 12).1.bufpos < 12
    · rw [if_pos c1]
    · rw [if_neg c1, if_pos (by omega)]

theorem buf_bounds_request_quadlet_read (s : OHCI1394State) (inp : List Nat)
    (hP : s.bufpos ≤ 16 + 65535 ∧ ∀ i, 16 + 65535 ≤ i → s.buf i = 0) :
    (hcd_chr_request_quadlet_read s inp).2.bufpos ≤ 16 + 65535 ∧
    ∀ i, 16 + 65535 ≤ i → (hcd_chr_request_quadlet_read s inp).2.buf i = 0 := by
  have h1 := buf_bounds_fill s inp 12 (by omega) hP
  rcases quadlet_read_shape s inp with h | ⟨X, h, hX⟩ <;> rw [h]
  · exact h1
  · exact buf_bounds_done _ X _ hX h1

theorem buf_bounds_request_block_read (s : OHCI1394State) (inp : List Nat)
    (hP : s.bufpos ≤ 16 + 65535 ∧ ∀ i, 16 + 65535 ≤ i → s.buf i = 0) :
    (hcd_chr_request_block_read s inp).2.bufpos ≤ 16 + 65535 ∧
    ∀ i, 16 + 65535 ≤ i → (hcd_chr_request_block_read s inp).2.buf i = 0 := by
  have h1 := buf_bounds_fill s inp 16 (by omega) hP
  rcases block_read_shape s inp with h | ⟨X, h, hX⟩ <;> rw [h]
  · exact h1
  · exact buf_bounds_done _ X _ hX h1

theorem buf_bounds_request_block_write (s : OHCI1394State) (inp : List Nat)
    (hP : s.bufpos ≤ 16 + 65535 ∧ ∀ i, 16 + 65535 ≤ i → s.buf i = 0) :
    (hcd_chr_request_block_write s inp).2.bufpos ≤ 16 + 65535 ∧
    ∀ i, 16 + 65535 ≤ i → (hcd_chr_request_block_write s inp).2.buf i = 0 := by
  have h1 := buf_bounds_fill s inp 16 (by omega) hP
  have h2 := buf_bounds_fill_block (hcd_fill_buffer s inp 16).1 (hcd_fill_buffer s inp 16).2 h1
  obtain ⟨sN, hN⟩ : ∃ sN, sN = (hcd_fill_buffer (hcd_fill_buffer s inp 16).1
    (hcd_fill_buffer s inp 16).2 (16 + buf_val (hcd_fill_buffer s inp 16).1 14 2)).1 := ⟨_, rfl⟩
  rw [← hN] at h2
  by_cases c : ¬ (hcd_fill_buffer s inp 16).1.bufpos < 16 ∧ sN.bufpos = 16 + buf_val sN 14 2
  · rw [block_write_done s inp sN hN c.1 c.2]
    refine buf_bounds_done sN _ _ ?_ h2
    rfl
  · have c2 : (hcd_fill_buffer s inp 16).1.bufpos < 16 ∨ sN.bufpos ≠ 16 + buf_val sN 14 2 := by
      rcases not_and_or.mp c with h | h
      · exact Or.inl (not_not.mp h)
      · exact Or.inr h
    obtain ⟨-, h | h⟩ := block_write_wait s inp sN hN c2 <;> rw [h]
    · exact h1
    · exact h2

theorem buf_bounds_response_quadlet_write (fuel : Nat) (s : OHCI1394State) (inp : List Nat)
    (r : Bool × OHCI1394State) (h : hcd_chr_response_quadlet_write fuel s inp = some r)
    (hP : s.bufpos ≤ 16 + 65535 ∧ ∀ i, 16 + 65535 ≤ i → s.buf i = 0) :
    r.2.bufpos ≤ 16 + 65535 ∧ ∀ i, 16 + 65535 ≤ i → r.2.buf i = 0 := by
  have h1 := buf_bounds_fill s inp 12 (by omega) hP
  unfold hcd_chr_response_quadlet_write at h
  simp only [] at h
  split_ifs at h
  · simp only [Option.some.injEq] at h; rw [← h]; exact h1
  · simp only [Option.some.injEq] at h; rw [← h]; exact h1
  · split at h
    · exact absurd h (by simp)
    · rename_i s1 hs1
      simp only [Option.some.injEq] at h; rw [← h]
      obtain ⟨a, b⟩ := rx_rsp_packet_buf _ _ _ _ _ _ hs1
      exact buf_bounds_frame _ (set_bufpos s1 0) ⟨Or.inr rfl, b⟩ h1

theorem buf_bounds_response_quadlet_read (fuel : Nat) (s : OHCI1394State) (inp : List Nat)
    (r : Bool × OHCI1394State) (h : hcd_chr_response_quadlet_read fuel s inp = some r)
    (hP : s.bufpos ≤ 16 + 65535 ∧ ∀ i, 16 + 65535 ≤ i → s.buf i = 0) :
    r.2.bufpos ≤ 16 + 65535 ∧ ∀ i, 16 + 65535 ≤ i → r.2.buf i = 0 := by
  have h1 := buf_bounds_fill s inp 16 (by omega) hP
  unfold hcd_chr_response_quadlet_read at h
  simp only [] at h
  split_ifs at h
  · simp only [Option.some.injEq] at h; rw [← h]; exact h1
  · simp only [Option.some.injEq] at h; rw [← h]; exact h1
  · split at h
    · exact absurd h (by simp)
    · rename_i s1 hs1
      simp only [Option.some.injEq] at h; rw [← h]
      obtain ⟨a, b⟩ := rx_rsp_packet_buf _ _ _ _ _ _ hs1
      exact buf_bounds_frame _ (set_bufpos s1 0) ⟨Or.inr rfl, b⟩ h1

theorem buf_bounds_response_block_read (fuel : Nat) (s : OHCI1394State) (inp : List Nat)
    (r : Bool × OHCI1394State) (h : hcd_chr_response_block_read fuel s inp = some r)
    (hP : s.bufpos ≤ 16 + 65535 ∧ ∀ i, 16 + 65535 ≤ i → s.buf i = 0) :
    r.2.bufpos ≤ 16 + 65535 ∧ ∀ i, 16 + 65535 ≤ i → r.2.buf i = 0 := by
  have h1 := buf_bounds_fill s inp 16 (by omega) hP
  have h2 := buf_bounds_fill_block (hcd_fill_buffer s inp 16).1 (hcd_fill_buffer s inp 16).2 h1
  unfold hcd_chr_response_block_read at h
  simp only [] at h
  split_ifs at h
  · simp only [Option.some.injEq] at h; rw [← h]; exact h1
  · simp only [Option.some.injEq] at h; rw [← h]; exact h2
  · simp only [Option.some.injEq] at h; rw [← h]; exact h2
  · split at h
    · exact absurd h (by simp)
    · rename_i s1 hs1
      simp only [Option.some.injEq] at h; rw [← h]
      obtain ⟨a, b⟩ := rx_rsp_packet_buf _ _ _ _ _ _ hs1
      exact buf_bounds_frame _ (set_bufpos s1 0) ⟨Or.inr rfl, b⟩ h2

/-- The packet dispatch of the CONNECTED block keeps the bounds of the buffer. -/
theorem buf_bounds_packet (fuel : Nat) (s s' : OHCI1394State) (inp : List Nat)
    (h : chr_receive_packet fuel s inp = some s')
    (hP : s.bufpos ≤ 16 + 65535 ∧ ∀ i, 16 + 65535 ≤ i → s.buf i = 0) :
    s'.bufpos ≤ 16 + 65535 ∧ ∀ i, 16 + 65535 ≤ i → s'.buf i = 0 := by
  unfold chr_receive_packet at h
  simp only [] at h
  split_ifs at h
  · simp only [Option.some.injEq] at h; rw [← h]
    exact buf_bounds_request_quadlet_write s inp hP
  · simp only [Option.some.injEq] at h; rw [← h]
    exact buf_bounds_request_block_write s inp hP
  · simp only [Option.map_eq_some'] at h
    obtain ⟨r, hr, rfl⟩ := h
    exact buf_bounds_response_quadlet_write _ _ _ _ hr hP
  · simp only [Option.some.injEq] at h; rw [← h]
    exact buf_bounds_request_quadlet_read s inp hP
  · simp only [Option.some.injEq] at h; rw [← h]
    exact buf_bounds_request_block_read s inp hP
  · simp only [Option.map_eq_some'] at h
    obtain ⟨r, hr, rfl⟩ := h
    exact buf_bounds_response_quadlet_read _ _ _ _ hr hP
  · simp only [Option.map_eq_some'] at h
    obtain ⟨r, hr, rfl⟩ := h
    exact buf_bounds_response_block_read _ _ _ _ hr hP
  · simp only [Option.some.injEq] at h; rw [← h]; exact hP

theorem arbitration1_buf (s : OHCI1394State) :
    (arbitration1 s).bufpos = s.bufpos ∧ (arbitration1 s).buf = s.buf := ⟨rfl, rfl⟩

theorem buf_bounds_magic (s : OHCI1394State) (inp : List Nat)
    (hP : s.bufpos ≤ 16 + 65535 ∧ ∀ i, 16 + 65535 ≤ i → s.buf i = 0) :
    (chr_receive_magic s inp).1.bufpos ≤ 16 + 65535 ∧
    ∀ i, 16 + 65535 ≤ i → (chr_receive_magic s inp).1.buf i = 0 := by
  have h1 := buf_bounds_fill s inp 4 (by omega) hP
  unfold chr_receive_magic
  simp only []
  split_ifs
  · exact h1
  · exact h1
  · exact h1
  · exact buf_bounds_frame (hcd_fill_buffer s inp 4).1 _ ⟨Or.inr rfl, rfl⟩ h1

theorem buf_bounds_disconnected (s : OHCI1394State) (inp : List Nat)
    (hP : s.bufpos ≤ 16 + 65535 ∧ ∀ i, 16 + 65535 ≤ i → s.buf i = 0) :
    (chr_receive_disconnected s inp).1.bufpos ≤ 16 + 65535 ∧
    ∀ i, 16 + 65535 ≤ i → (chr_receive_disconnected s inp).1.buf i = 0 := by
  have h1 := buf_bounds_fill s inp 4 (by omega) hP
  unfold chr_receive_disconnected
  simp only []
  split_ifs
  · exact h1
  · exact buf_bounds_frame (hcd_fill_buffer s inp 4).1 _ ⟨Or.inr rfl, rfl⟩ h1
  · exact buf_bounds_frame (hcd_fill_buffer s inp 4).1 _ ⟨Or.inr rfl, rfl⟩ h1
  · have h0 : (set_state (set_other_link (set_bufpos (hcd_fill_buffer s inp 4).1 0) 1)
        HCD_STATE_ARBITRATION1).bufpos ≤ 16 + 65535 ∧
        ∀ i, 16 + 65535 ≤ i → (set_state (set_other_link (set_bufpos (hcd_fill_buffer s inp 4).1 0)
          1) HCD_STATE_ARBITRATION1).buf i = 0 :=
      buf_bounds_frame (hcd_fill_buffer s inp 4).1 _ ⟨Or.inr rfl, rfl⟩ h1
    exact buf_bounds_frame _ (arbitration1 _) ⟨Or.inl (arbitration1_buf _).1,
      (arbitration1_buf _).2⟩ h0

theorem buf_bounds_arbitration2 (fuel : Nat) (s : OHCI1394State) (inp : List Nat)
    (r : OHCI1394State × Option (List Nat)) (h : chr_receive_arbitration2 fuel s inp = some r)
    (hP : s.bufpos ≤ 16 + 65535 ∧ ∀ i, 16 + 65535 ≤ i → s.buf i = 0) :
    r.1.bufpos ≤ 16 + 65535 ∧ ∀ i, 16 + 65535 ≤ i → r.1.buf i = 0 := by
  have h1 := buf_bounds_fill s inp 2 (by omega) hP
  unfold chr_receive_arbitration2 at h
  simp only [] at h
  split_ifs at h
  · simp only [Option.some.injEq] at h; rw [← h]; exact h1
  · simp only [Option.some.injEq] at h; rw [← h]
    exact buf_bounds_frame (hcd_fill_buffer s inp 2).1 _ ⟨Or.inr rfl, rfl⟩ h1
  · simp only [Option.map_eq_some'] at h
    obtain ⟨s1, hb, rfl⟩ := h
    obtain ⟨a, b⟩ := hcd_bus_reset_buf _ _ _ hb
    exact buf_bounds_frame (hcd_fill_buffer s inp 2).1 s1 ⟨Or.inr a, b⟩ h1
  · simp only [Option.map_eq_some'] at h
    obtain ⟨s1, hb, rfl⟩ := h
    obtain ⟨a, b⟩ := hcd_bus_reset_buf _ _ _ hb
    exact buf_bounds_frame (hcd_fill_buffer s inp 2).1 s1 ⟨Or.inr a, b⟩ h1

theorem buf_bounds_connected (fuel : Nat) (s : OHCI1394State) (inp : List Nat)
    (r : OHCI1394State × Option (List Nat)) (h : chr_receive_connected fuel s inp = some r)
    (hP : s.bufpos ≤ 16 + 65535 ∧ ∀ i, 16 + 65535 ≤ i → s.buf i = 0) :
    r.1.bufpos ≤ 16 + 65535 ∧ ∀ i, 16 + 65535 ≤ i → r.1.buf i = 0 := by
  have h1 := buf_bounds_fill s inp 4 (by omega) hP
  unfold chr_receive_connected at h
  simp only [] at h
  split_ifs at h
  · simp only [Option.some.injEq] at h; rw [← h]; exact hP
  · simp only [Option.some.injEq] at h; rw [← h]; exact h1
  · simp only [Option.map_eq_some'] at h
    obtain ⟨s1, hb, rfl⟩ := h
    obtain ⟨a, b⟩ := hcd_bus_reset_buf _ _ _ hb
    exact buf_bounds_frame (hcd_fill_buffer s inp 4).1 s1 ⟨Or.inr a, b⟩ h1
  · simp only [Option.map_eq_some'] at h
    obtain ⟨s1, hb, rfl⟩ := h
    exact buf_bounds_packet _ _ _ _ hb h1

/-- One pass through the body of `while (len)` keeps the bounds of the buffer. -/
theorem buf_bounds_step (fuel : Nat) (s : OHCI1394State) (inp : List Nat)
    (r : OHCI1394State × Option (List Nat)) (h : chr_receive_step fuel s inp = some r)
    (hP : s.bufpos ≤ 16 + 65535 ∧ ∀ i, 16 + 65535 ≤ i → s.buf i = 0) :
    r.1.bufpos ≤ 16 + 65535 ∧ ∀ i, 16 + 65535 ≤ i → r.1.buf i = 0 := by
  unfold chr_receive_step at h
  split_ifs at h
  · simp only [Option.map_eq_some'] at h
    obtain ⟨s1, hb, rfl⟩ := h
    exact buf_bounds_frame s s1 ⟨Or.inl (hcd_chr_event_buf _ _ _ _ hb).1,
      (hcd_chr_event_buf _ _ _ _ hb).2⟩ hP
  · simp only [Option.some.injEq] at h; rw [← h]; exact buf_bounds_magic s inp hP
  · simp only [Option.some.injEq] at h; rw [← h]; exact buf_bounds_disconnected s inp hP
  · simp only [Option.some.injEq] at h; rw [← h]
    exact buf_bounds_frame s (arbitration1 s) ⟨Or.inl (arbitration1_buf s).1,
      (arbitration1_buf s).2⟩ hP
  · exact buf_bounds_arbitration2 _ _ _ _ h hP
  · exact buf_bounds_connected _ _ _ _ h hP
  · simp only [Option.some.injEq] at h; rw [← h]; exact hP

/-- The function `hcd_chr_receive` keeps the bounds of the reassembly buffer,
whatever bytes it is given. -/
theorem buf_bounds_receive (fuel : Nat) :
    ∀ (s s' : OHCI1394State) (inp : List Nat), hcd_chr_receive fuel s inp = some s' →
      (s.bufpos ≤ 16 + 65535 ∧ ∀ i, 16 + 65535 ≤ i → s.buf i = 0) →
      s'.bufpos ≤ 16 + 65535 ∧ ∀ i, 16 + 65535 ≤ i → s'.buf i = 0 := by
  induction fuel with
  | zero =>
    intro s s' inp h hP
    unfold hcd_chr_receive at h
    split_ifs at h
    simp only [Option.some.injEq] at h; rw [← h]; exact hP
  | succ n ih =>
    intro s s' inp h hP
    unfold hcd_chr_receive at h
    split_ifs at h
    · simp only [Option.some.injEq] at h; rw [← h]; exact hP
    · split at h
      · exact absurd h (by simp)
      · rename_i s1 hs
        simp only [Option.some.injEq] at h; rw [← h]
        exact buf_bounds_step _ _ _ _ hs hP
      · rename_i s1 rest hs
        exact ih _ _ _ h (buf_bounds_step _ _ _ _ hs hP)

/-- Every reachable device keeps the bounds of the reassembly buffer. -/
theorem buf_bounds_reachable (s : OHCI1394State) (h : chr_reachable s) :
    s.bufpos ≤ 16 + 65535 ∧ ∀ i, 16 + 65535 ≤ i → s.buf i = 0 := by
  induction h with
  | init mem tv inmigrate dma_err junk => exact ⟨Nat.zero_le _, fun _ _ => rfl⟩
  | write fuel s s' addr data _ hw ih =>
    exact buf_bounds_frame s s' ⟨Or.inl (hcd_mmio_write_buf _ _ _ _ _ hw).1,
      (hcd_mmio_write_buf _ _ _ _ _ hw).2⟩ ih
  | event fuel s s' ev _ he ih =>
    exact buf_bounds_frame s s' ⟨Or.inl (hcd_chr_event_buf _ _ _ _ he).1,
      (hcd_chr_event_buf _ _ _ _ he).2⟩ ih
  | receive fuel s s' inp _ hr ih => exact buf_bounds_receive _ _ _ _ hr ih

/-- The scenario `reopened_run` is made of steps of `chr_reachable`. -/
theorem reopened_run_reachable (s : OHCI1394State) (h : reopened_run = some s) :
    chr_reachable s := by
  unfold reopened_run connected_dev at h
  have hc : (selfid_run [2, 0]).isSome = true := by decide
  obtain ⟨c, hc⟩ := Option.isSome_iff_exists.mp hc
  rw [hc] at h
  have rc : chr_reachable c := by
    unfold selfid_run selfid_armed at hc
    simp only [Option.bind_eq_some] at hc
    obtain ⟨s2, ⟨s1, e1, e2⟩, s3, e3, s4, e4, e5⟩ := hc
    exact chr_reachable.receive _ _ _ _ (chr_reachable.event _ _ _ _
      (chr_reachable.write _ _ _ _ _ (chr_reachable.write _ _ _ _ _
        (chr_reachable.write _ _ _ _ _ (chr_reachable.init _ _ _ _ _) e1) e2) e3) e4) e5
  simp only [Option.getD_some, Option.bind_eq_some] at h
  obtain ⟨s1, e1, s2, e2, e3⟩ := h
  exact chr_reachable.event _ _ _ _ (chr_reachable.event _ _ _ _
    (chr_reachable.receive _ _ _ _ rc e1) e2) e3

theorem reopened_run_eq : reopened_run = some reopened_dev := by
  have h : reopened_run.isSome = true := by decide
  obtain ⟨s, hs⟩ := Option.isSome_iff_exists.mp h
  unfold reopened_dev
  rw [hs]
  rfl

/-- The device of the scenario `reopened_run` is reachable. -/
theorem reopened_dev_reachable : chr_reachable reopened_dev :=
  reopened_run_reachable reopened_dev reopened_run_eq

/-- C40: in every device reachable from construction by guest register writes,
transport events and `hcd_chr_receive` calls with arbitrary bytes, `bufpos` is
at most 16 + 65535, no byte of the reassembly buffer at an index from 16 + 65535
on has been written (the buffer has 16 + 65536 bytes), and the fill of a block
handler, which asks for 16 + `data_length` bytes, ends within the same bounds
whatever `data_length` the buffer announces. -/
theorem chr_reachable_buf_bounds (s : OHCI1394State) (h : chr_reachable s) :
    s.bufpos ≤ 16 + 65535 ∧ (∀ i, 16 + 65535 ≤ i → s.buf i = 0) ∧
    ∀ inp, (hcd_fill_buffer s inp (16 + buf_val s 14 2)).1.bufpos ≤ 16 + 65535 ∧
      16 + buf_val s 14 2 ≤ 16 + 0xFFFF ∧
      ∀ i, 16 + 65535 ≤ i → (hcd_fill_buffer s inp (16 + buf_val s 14 2)).1.buf i = 0 := by
  have hP := buf_bounds_reachable s h
  refine ⟨hP.1, hP.2, fun inp => ⟨(buf_bounds_fill_block s inp hP).1, ?_,
    (buf_bounds_fill_block s inp hP).2⟩⟩
  have := buf_val_lt_2 s 14
  omega

/-- Witness for C40: the device of the scenario `reopened_run` (8 bytes of a
request received, then the transport closed and opened again) is reachable,
has `bufpos` 8 and keeps the bounds. -/
theorem chr_reachable_buf_bounds_witness :
    chr_reachable reopened_dev ∧ reopened_dev.bufpos = 8 ∧
    reopened_dev.bufpos ≤ 16 + 65535 ∧ ∀ i, 16 + 65535 ≤ i → reopened_dev.buf i = 0 :=
  ⟨reopened_dev_reachable, by decide,
    (chr_reachable_buf_bounds reopened_dev reopened_dev_reachable).1,
    (chr_reachable_buf_bounds reopened_dev reopened_dev_reachable).2.1⟩

end OHCI
